import Mathlib

/-!
A Lean model of the sensor pipeline of sensors-glib

The development follows the C sources of the library:

* `sfwtypes.h`, `sfwtypes.c`: sensor ids, the wire sample records with their
  C layout, the per-kind table `typeinfo_lut` and `sfwreading_normalize`;
* `utility.c`: cancellation handles and the socket read primitive;
* `sfwservice.c`, `sfwplugin.c`, `sfwsensor.c`, `sfwreporting.c`: the four
  state machines, composed into one `System` whose signals are delivered
  synchronously, as `g_signal_emit` does.

Machine integers are `Nat`/`Int` with explicit wrapping; `float` and `double`
values are carried as IEEE-754 bit patterns.
-/

namespace Sfw

/-! ## sfwtypes.h: sensor ids -/

/-- A value of `enum SfwSensorId`; any C `int` can be stored in it. -/
abbrev SfwSensorId := Int

abbrev SFW_SENSOR_ID_INVALID       : SfwSensorId := 0
abbrev SFW_SENSOR_ID_PROXIMITY     : SfwSensorId := 1
abbrev SFW_SENSOR_ID_ALS           : SfwSensorId := 2
abbrev SFW_SENSOR_ID_ORIENTATION   : SfwSensorId := 3
abbrev SFW_SENSOR_ID_ACCELEROMETER : SfwSensorId := 4
abbrev SFW_SENSOR_ID_COMPASS       : SfwSensorId := 5
abbrev SFW_SENSOR_ID_GYROSCOPE     : SfwSensorId := 6
abbrev SFW_SENSOR_ID_LID           : SfwSensorId := 7
abbrev SFW_SENSOR_ID_HUMIDITY      : SfwSensorId := 8
abbrev SFW_SENSOR_ID_MAGNETOMETER  : SfwSensorId := 9
abbrev SFW_SENSOR_ID_PRESSURE      : SfwSensorId := 10
abbrev SFW_SENSOR_ID_ROTATION      : SfwSensorId := 11
abbrev SFW_SENSOR_ID_STEPCOUNTER   : SfwSensorId := 12
abbrev SFW_SENSOR_ID_TAP           : SfwSensorId := 13
abbrev SFW_SENSOR_ID_TEMPERATURE   : SfwSensorId := 14
abbrev SFW_SENSOR_ID_COUNT         : SfwSensorId := 15

/-! ## C object layout

`typeinfo_lut` stores `sizeof(struct ...)` for every kind, so the sample size
is a property of the C layout of the sample structs.  The layout rules are
the usual ones: every member is placed at the next multiple of its alignment
and the struct is padded to a multiple of its largest member alignment.  The
only ABI dependent quantity is the alignment of `uint64_t` inside a struct:
8 on x86-64, ARM EABI and AArch64, 4 on i386 System V. -/

/-- The two struct layout conventions the library is built for. -/
inductive Abi where
  | natural
  | i386
  deriving DecidableEq, Repr

/-- Scalar member types occurring in the sample structs. -/
inductive CType where
  | u8
  | u32
  | i32
  | f32
  | u64
  deriving DecidableEq, Repr

/-- Size in bytes, `sizeof(T)`. -/
def CType.size : CType → Nat
  | .u8 => 1
  | .u32 => 4
  | .i32 => 4
  | .f32 => 4
  | .u64 => 8

/-- Alignment of a member of type `T` inside a struct. -/
def CType.align (abi : Abi) : CType → Nat
  | .u8 => 1
  | .u32 => 4
  | .i32 => 4
  | .f32 => 4
  | .u64 => match abi with
    | .natural => 8
    | .i386 => 4

/-- Round `n` up to a multiple of `a`. -/
def align_up (n a : Nat) : Nat := (n + a - 1) / a * a

/-- Offset just past the last member when the members are laid out in order. -/
def struct_end (abi : Abi) (fields : List CType) : Nat :=
  fields.foldl (fun off t => align_up off (t.align abi) + t.size) 0

/-- Alignment of a struct: the largest member alignment. -/
def struct_align (abi : Abi) (fields : List CType) : Nat :=
  fields.foldl (fun a t => max a (t.align abi)) 1

/-- The C `sizeof` of a struct with the given members. -/
def c_sizeof (abi : Abi) (fields : List CType) : Nat :=
  align_up (struct_end abi fields) (struct_align abi fields)

/-- The C `offsetof` of member number `i` (counted from 0). -/
def c_offsetof (abi : Abi) (fields : List CType) (i : Nat) : Nat :=
  align_up (struct_end abi (fields.take i)) ((fields.getD i CType.u8).align abi)

/-- Members of `struct SfwSampleXyz` (accelerometer, gyroscope, rotation):
`timestamp, x, y, z`. -/
def SfwSampleXyz : List CType := [.u64, .f32, .f32, .f32]

/-- Members of `struct SfwSampleAls`: `timestamp, value`. -/
def SfwSampleAls : List CType := [.u64, .u32]

/-- Members of `struct SfwSampleProximity`: `timestamp, distance, proximity`. -/
def SfwSampleProximity : List CType := [.u64, .u32, .u8]

/-- Members of `struct SfwSampleOrientation`: `timestamp, state`. -/
def SfwSampleOrientation : List CType := [.u64, .i32]

/-- Members of `struct SfwSampleCompass`:
`timestamp, degrees, raw_degrees, corrected_degrees, level`. -/
def SfwSampleCompass : List CType := [.u64, .i32, .i32, .i32, .i32]

/-- Members of `struct SfwSampleLid`: `timestamp, type, value`. -/
def SfwSampleLid : List CType := [.u64, .i32, .u32]

/-- Members of `struct SfwSampleHumidity`: `timestamp, value`. -/
def SfwSampleHumidity : List CType := [.u64, .u32]

/-- Members of `struct SfwSampleMagnetometer`:
`timestamp, x, y, z, rx, ry, rz, level`. -/
def SfwSampleMagnetometer : List CType :=
  [.u64, .i32, .i32, .i32, .i32, .i32, .i32, .i32]

/-- Members of `struct SfwSamplePressure`: `timestamp, value`. -/
def SfwSamplePressure : List CType := [.u64, .u32]

/-- Members of `struct SfwSampleStepcounter`: `timestamp, value`. -/
def SfwSampleStepcounter : List CType := [.u64, .u32]

/-- Members of `struct SfwSampleTap`: `timestamp, direction, type`. -/
def SfwSampleTap : List CType := [.u64, .u32, .i32]

/-- Members of `struct SfwSampleTemperature`:
`temperature_timestamp, temperature_value`. -/
def SfwSampleTemperature : List CType := [.u64, .u32]

/-- The members of `union SfwSample`, in declaration order. -/
def SfwSample_members : List (List CType) :=
  [[.u64], SfwSampleXyz, SfwSampleAls, SfwSampleProximity, SfwSampleOrientation,
   SfwSampleXyz, SfwSampleCompass, SfwSampleXyz, SfwSampleLid, SfwSampleHumidity,
   SfwSampleMagnetometer, SfwSamplePressure, SfwSampleXyz, SfwSampleStepcounter,
   SfwSampleTap, SfwSampleTemperature]

/-- The C `sizeof(union SfwSample)`: the largest member size, padded to the
largest member alignment. -/
def sizeof_SfwSample (abi : Abi) : Nat :=
  align_up (SfwSample_members.foldl (fun s m => max s (c_sizeof abi m)) 0)
    (SfwSample_members.foldl (fun a m => max a (struct_align abi m)) 1)

/-! ## Memory of the reading slot -/

/-- Bytes of an object, indexed by offset from its start. -/
abbrev Mem := Nat → Nat

/-- Little-endian load of `n` bytes at offset `off`. -/
def mem_rd (m : Mem) (off : Nat) : Nat → Nat
  | 0 => 0
  | n + 1 => m off % 256 + 256 * mem_rd m (off + 1) n

/-- Little-endian store of the low `n` bytes of `v` at offset `off`. -/
def mem_wr (m : Mem) (off n v : Nat) : Mem :=
  fun a => if off ≤ a ∧ a < off + n then v / 256 ^ (a - off) % 256 else m a

/-- Copy of a received block of bytes to the start of an object, as `recv`
does with its buffer argument. -/
def mem_store (m : Mem) (data : List Nat) : Mem :=
  fun a => if a < data.length then data.getD a 0 else m a

/-- The value of an `int32_t` with the given 32-bit pattern. -/
def to_i32 (w : Nat) : Int :=
  if w % 2 ^ 32 < 2 ^ 31 then (w % 2 ^ 32 : Nat) else (w % 2 ^ 32 : Nat) - 2 ^ 32

/-- The 32-bit pattern of an integer, two's complement. -/
def of_i32 (i : Int) : Nat := (i % 2 ^ 32).toNat

/-- Result of an `int32_t` computation, reduced to the 32-bit range. -/
def wrap_i32 (i : Int) : Int := to_i32 (of_i32 i)

/-- A `struct SfwReading`: the kind tag and the bytes of the sample union. -/
structure SfwReading where
  sensor_id : SfwSensorId
  sample : Mem

/-! ## Single precision arithmetic

`float` values are 32-bit IEEE-754 patterns.  `f32_round` rounds a
non-negative rational `n / d` to the nearest `float` (ties to even), which
is what the compiler does with a decimal literal and what the hardware does
with the exact product of two operands. -/

/-- Number of binary digits of `n` (for `n < 2 ^ fuel`). -/
def bit_length : Nat → Nat → Nat
  | 0, _ => 0
  | fuel + 1, n => if n = 0 then 0 else bit_length fuel (n / 2) + 1

/-- The integer `E` with `2 ^ E ≤ n / d < 2 ^ (E + 1)`, for positive `n`, `d`. -/
def floor_log2_ratio (n d : Nat) : Int :=
  let l : Int := (bit_length 1024 n : Int) - (bit_length 1024 d : Int)
  if 0 ≤ l then
    (if d * 2 ^ l.toNat ≤ n then l else l - 1)
  else
    (if d ≤ n * 2 ^ (-l).toNat then l else l - 1)

/-- Quotient `a / b` rounded to the nearest integer, ties to even. -/
def rne_div (a b : Nat) : Nat :=
  let q := a / b
  let r := a % b
  if b < 2 * r ∨ (2 * r = b ∧ q % 2 = 1) then q + 1 else q

/-- The `float` nearest to `(-1) ^ sign * n / d`. -/
def f32_round (sign n d : Nat) : Nat :=
  if n = 0 then sign * 2 ^ 31 else
  let e := floor_log2_ratio n d
  let q : Int := max (e - 23) (-149)
  let m := if 0 ≤ q then rne_div n (d * 2 ^ q.toNat) else rne_div (n * 2 ^ (-q).toNat) d
  let m1 := if 2 ^ 24 ≤ m then m / 2 else m
  let q1 := if 2 ^ 24 ≤ m then q + 1 else q
  if m1 < 2 ^ 23 then sign * 2 ^ 31 + m1
  else if 255 ≤ q1 + 150 then sign * 2 ^ 31 + 255 * 2 ^ 23
  else sign * 2 ^ 31 + (q1 + 150).toNat * 2 ^ 23 + (m1 - 2 ^ 23)

/-- Sign bit of a `float` pattern. -/
def f32_sign (a : Nat) : Nat := a / 2 ^ 31 % 2

/-- Biased exponent field of a `float` pattern. -/
def f32_exp (a : Nat) : Nat := a / 2 ^ 23 % 256

/-- Fraction field of a `float` pattern. -/
def f32_frac (a : Nat) : Nat := a % 2 ^ 23

/-- Significand of a finite `float` as an integer: the value is
`f32_mant a * 2 ^ (f32_scale a - 150)`. -/
def f32_mant (a : Nat) : Nat := if f32_exp a = 0 then f32_frac a else 2 ^ 23 + f32_frac a

/-- Exponent of the unit in the last place, biased by 150. -/
def f32_scale (a : Nat) : Nat := if f32_exp a = 0 then 1 else f32_exp a

/-- The IEEE-754 product of two `float` patterns, rounding to nearest even.
A NaN operand is returned quieted; infinity times zero gives the default NaN. -/
def f32_mul (a b : Nat) : Nat :=
  let s := (f32_sign a + f32_sign b) % 2
  if f32_exp a = 255 ∧ f32_frac a ≠ 0 then (if a / 2 ^ 22 % 2 = 1 then a else a + 2 ^ 22)
  else if f32_exp b = 255 ∧ f32_frac b ≠ 0 then (if b / 2 ^ 22 % 2 = 1 then b else b + 2 ^ 22)
  else if f32_exp a = 255 then
    (if f32_exp b = 0 ∧ f32_frac b = 0 then 0x7FC00000 else s * 2 ^ 31 + 255 * 2 ^ 23)
  else if f32_exp b = 255 then
    (if f32_exp a = 0 ∧ f32_frac a = 0 then 0x7FC00000 else s * 2 ^ 31 + 255 * 2 ^ 23)
  else
    let n := f32_mant a * f32_mant b
    let x := f32_scale a + f32_scale b
    if 300 ≤ x then f32_round s (n * 2 ^ (x - 300)) 1 else f32_round s n (2 ^ (300 - x))

/-- The constant `GRAVITY_EARTH_THOUSANDTH`, the literal `0.00980665f`. -/
def GRAVITY_EARTH_THOUSANDTH : Nat := f32_round 0 980665 100000000

/-- The constant `MILLI`, the literal `1e-3f`. -/
def MILLI : Nat := f32_round 0 1 1000

/-! ## sfwdbus.h: names -/

/-- The macro `SFWDBUS_MANAGER_OBJECT`. -/
def SFWDBUS_MANAGER_OBJECT : String := "/SensorManager"

/-- The macro `SFWDBUS_SENSOR_OBJECT(name)`. -/
def SFWDBUS_SENSOR_OBJECT (name : String) : String := SFWDBUS_MANAGER_OBJECT ++ "/" ++ name

/-! ## sfwtypes.c: normalization callbacks -/

/-- The helper `sfwreading_normalize_level`, applied to the `int32_t` stored at
offset `plevel`: `*plevel = (level <= 0) ? 0 : (level >= 3) ? 100 : (level * 100 / 3)`. -/
def sfwreading_normalize_level (m : Mem) (plevel : Nat) : Mem :=
  let level : Int := to_i32 (mem_rd m plevel 4)
  mem_wr m plevel 4 (of_i32
    (if level ≤ 0 then 0 else if level ≥ 3 then 100 else Int.tdiv (wrap_i32 (level * 100)) 3))

/-- The statement `*p *= c` on the `float` stored at offset `p`. -/
def f32_scale_at (m : Mem) (p c : Nat) : Mem :=
  mem_wr m p 4 (f32_mul (mem_rd m p 4) c)

/-- The callback `sfwreading_accelerometer_cb`. -/
def sfwreading_accelerometer_cb (abi : Abi) (reading : SfwReading) : SfwReading :=
  let m1 := f32_scale_at reading.sample (c_offsetof abi SfwSampleXyz 1) GRAVITY_EARTH_THOUSANDTH
  let m2 := f32_scale_at m1 (c_offsetof abi SfwSampleXyz 2) GRAVITY_EARTH_THOUSANDTH
  let m3 := f32_scale_at m2 (c_offsetof abi SfwSampleXyz 3) GRAVITY_EARTH_THOUSANDTH
  { reading with sample := m3 }

/-- The callback `sfwreading_gyroscope_cb`. -/
def sfwreading_gyroscope_cb (abi : Abi) (reading : SfwReading) : SfwReading :=
  let m1 := f32_scale_at reading.sample (c_offsetof abi SfwSampleXyz 1) MILLI
  let m2 := f32_scale_at m1 (c_offsetof abi SfwSampleXyz 2) MILLI
  let m3 := f32_scale_at m2 (c_offsetof abi SfwSampleXyz 3) MILLI
  { reading with sample := m3 }

/-- The callback `sfwreading_magnetometer_cb`; the scaling of x, y, z is
compiled out (`#if 0`). -/
def sfwreading_magnetometer_cb (abi : Abi) (reading : SfwReading) : SfwReading :=
  { reading with
    sample := sfwreading_normalize_level reading.sample (c_offsetof abi SfwSampleMagnetometer 7) }

/-- The callback `sfwreading_compass_cb`. -/
def sfwreading_compass_cb (abi : Abi) (reading : SfwReading) : SfwReading :=
  { reading with
    sample := sfwreading_normalize_level reading.sample (c_offsetof abi SfwSampleCompass 4) }

/-! ## sfwtypes.c: the per-kind table -/

/-- A `struct SfwSensorInfo`; a `NULL` member is `none`.  The text formatter
`sti_sample_repr_cb` is not modelled. -/
structure SfwSensorInfo where
  sti_sensor_name : Option String
  sti_sensor_object : Option String
  sti_sensor_interface : Option String
  sti_value_method : Option String
  sti_sample_size : Nat
  sti_normalize_cb : Option (SfwReading → SfwReading)

/-- The table `typeinfo_lut`, indexed by sensor id. -/
def typeinfo_lut (abi : Abi) : Nat → SfwSensorInfo
  | 1 =>
         { sti_sensor_name := some "proximitysensor",
           sti_sensor_object := some (SFWDBUS_SENSOR_OBJECT "proximitysensor"),
           sti_sensor_interface := some "local.ProximitySensor",
           sti_value_method := some "proximity",
           sti_sample_size := c_sizeof abi SfwSampleProximity,
           sti_normalize_cb := none }
  | 2 =>
         { sti_sensor_name := some "alssensor",
           sti_sensor_object := some (SFWDBUS_SENSOR_OBJECT "alssensor"),
           sti_sensor_interface := some "local.ALSSensor",
           sti_value_method := some "lux",
           sti_sample_size := c_sizeof abi SfwSampleAls,
           sti_normalize_cb := none }
  | 3 =>
         { sti_sensor_name := some "orientationsensor",
           sti_sensor_object := some (SFWDBUS_SENSOR_OBJECT "orientationsensor"),
           sti_sensor_interface := some "local.OrientationSensor",
           sti_value_method := some "orientation",
           sti_sample_size := c_sizeof abi SfwSampleOrientation,
           sti_normalize_cb := none }
  | 4 =>
         { sti_sensor_name := some "accelerometersensor",
           sti_sensor_object := some (SFWDBUS_SENSOR_OBJECT "accelerometersensor"),
           sti_sensor_interface := some "local.AccelerometerSensor",
           sti_value_method := some "xyz",
           sti_sample_size := c_sizeof abi SfwSampleXyz,
           sti_normalize_cb := some (sfwreading_accelerometer_cb abi) }
  | 5 =>
         { sti_sensor_name := some "compasssensor",
           sti_sensor_object := some (SFWDBUS_SENSOR_OBJECT "compasssensor"),
           sti_sensor_interface := some "local.CompassSensor",
           sti_value_method := some "value",
           sti_sample_size := c_sizeof abi SfwSampleCompass,
           sti_normalize_cb := some (sfwreading_compass_cb abi) }
  | 6 =>
         { sti_sensor_name := some "gyroscopesensor",
           sti_sensor_object := some (SFWDBUS_SENSOR_OBJECT "gyroscopesensor"),
           sti_sensor_interface := some "local.GyroscopeSensor",
           sti_value_method := some "value",
           sti_sample_size := c_sizeof abi SfwSampleXyz,
           sti_normalize_cb := some (sfwreading_gyroscope_cb abi) }
  | 7 =>
         { sti_sensor_name := some "lidsensor",
           sti_sensor_object := some (SFWDBUS_SENSOR_OBJECT "lidsensor"),
           sti_sensor_interface := some "local.LidSensor",
           sti_value_method := some "closed",
           sti_sample_size := c_sizeof abi SfwSampleLid,
           sti_normalize_cb := none }
  | 8 =>
         { sti_sensor_name := some "humiditysensor",
           sti_sensor_object := some (SFWDBUS_SENSOR_OBJECT "humiditysensor"),
           sti_sensor_interface := some "local.HumiditySensor",
           sti_value_method := some "relativeHumidity",
           sti_sample_size := c_sizeof abi SfwSampleHumidity,
           sti_normalize_cb := none }
  | 9 =>
         { sti_sensor_name := some "magnetometersensor",
           sti_sensor_object := some (SFWDBUS_SENSOR_OBJECT "magnetometersensor"),
           sti_sensor_interface := some "local.MagnetometerSensor",
           sti_value_method := some "magneticField",
           sti_sample_size := c_sizeof abi SfwSampleMagnetometer,
           sti_normalize_cb := some (sfwreading_magnetometer_cb abi) }
  | 10 =>
         { sti_sensor_name := some "pressuresensor",
           sti_sensor_object := some (SFWDBUS_SENSOR_OBJECT "pressuresensor"),
           sti_sensor_interface := some "local.PressureSensor",
           sti_value_method := some "pressure",
           sti_sample_size := c_sizeof abi SfwSamplePressure,
           sti_normalize_cb := none }
  | 11 =>
         { sti_sensor_name := some "rotationsensor",
           sti_sensor_object := some (SFWDBUS_SENSOR_OBJECT "rotationsensor"),
           sti_sensor_interface := some "local.RotationSensor",
           sti_value_method := some "rotation",
           sti_sample_size := c_sizeof abi SfwSampleXyz,
           sti_normalize_cb := none }
  | 12 =>
         { sti_sensor_name := some "stepcountersensor",
           sti_sensor_object := some (SFWDBUS_SENSOR_OBJECT "stepcountersensor"),
           sti_sensor_interface := some "local.StepcounterSensor",
           sti_value_method := some "steps",
           sti_sample_size := c_sizeof abi SfwSampleStepcounter,
           sti_normalize_cb := none }
  | 13 =>
         { sti_sensor_name := some "tapsensor",
           sti_sensor_object := some (SFWDBUS_SENSOR_OBJECT "tapsensor"),
           sti_sensor_interface := some "local.TapSensor",
           sti_value_method := none,
           sti_sample_size := c_sizeof abi SfwSampleTap,
           sti_normalize_cb := none }
  | 14 =>
         { sti_sensor_name := some "temperaturesensor",
           sti_sensor_object := some (SFWDBUS_SENSOR_OBJECT "temperaturesensor"),
           sti_sensor_interface := some "local.TemperatureSensor",
           sti_value_method := some "temperature",
           sti_sample_size := c_sizeof abi SfwSampleTemperature,
           sti_normalize_cb := none }
  | _ =>
         { sti_sensor_name := none,
           sti_sensor_object := none,
           sti_sensor_interface := none,
           sti_value_method := none,
           sti_sample_size := 0,
           sti_normalize_cb := none }

/-- The predicate `sfwsensorid_is_valid`. -/
def sfwsensorid_is_valid (id : SfwSensorId) : Bool :=
  decide (SFW_SENSOR_ID_INVALID < id) && decide (id < SFW_SENSOR_ID_COUNT)

/-- The lookup `sfwsensorid_info`; `none` is the `NULL` result. -/
def sfwsensorid_info (abi : Abi) (id : SfwSensorId) : Option SfwSensorInfo :=
  if sfwsensorid_is_valid id then some (typeinfo_lut abi id.toNat) else none

/-- The accessor `sfwsensorid_name`. -/
def sfwsensorid_name (abi : Abi) (id : SfwSensorId) : Option String :=
  match sfwsensorid_info abi id with
  | some info => info.sti_sensor_name
  | none => none

/-- The accessor `sfwsensorid_sample_size`. -/
def sfwsensorid_sample_size (abi : Abi) (id : SfwSensorId) : Nat :=
  match sfwsensorid_info abi id with
  | some info => info.sti_sample_size
  | none => 0

/-- The accessor `sfwsensorid_interface`. -/
def sfwsensorid_interface (abi : Abi) (id : SfwSensorId) : Option String :=
  match sfwsensorid_info abi id with
  | some info => info.sti_sensor_interface
  | none => none

/-- The accessor `sfwsensorid_object`. -/
def sfwsensorid_object (abi : Abi) (id : SfwSensorId) : Option String :=
  match sfwsensorid_info abi id with
  | some info => info.sti_sensor_object
  | none => none

/-- The accessor `sfwreading_sensor_id` (for a non-`NULL` reading). -/
def sfwreading_sensor_id (self : SfwReading) : SfwSensorId := self.sensor_id

/-- The function `sfwreading_normalize`. -/
def sfwreading_normalize (abi : Abi) (self : SfwReading) : SfwReading :=
  match sfwsensorid_info abi (sfwreading_sensor_id self) with
  | some info =>
    (match info.sti_normalize_cb with
     | some cb => cb self
     | none => self)
  | none => self

/-! ## Double precision values

`double` values are 64-bit IEEE-754 patterns; only comparison is needed. -/

/-- Whether a `double` pattern is a NaN. -/
def dbl_is_nan (a : Nat) : Bool := a / 2 ^ 52 % 2048 == 2047 && a % 2 ^ 52 != 0

/-- Whether a `double` pattern is `+0.0` or `-0.0`. -/
def dbl_is_zero (a : Nat) : Bool := a % 2 ^ 63 == 0

/-- The C comparison `a != b` on `double` operands. -/
def dbl_ne (a b : Nat) : Bool :=
  dbl_is_nan a || dbl_is_nan b || (!(dbl_is_zero a && dbl_is_zero b) && a % 2 ^ 64 != b % 2 ^ 64)

/-- The `double` value of the integer constant `DEFAULT_DATARATE` (0). -/
abbrev DEFAULT_DATARATE : Nat := 0

/-- The `double` value of the integer constant `INVALID_DATARATE` (-1). -/
abbrev INVALID_DATARATE : Nat := 0xBFF0000000000000

/-- Conversion of a C `bool` to `int`. -/
def b2i (b : Bool) : Int := if b then 1 else 0

abbrev ENABLE_DEFAULT : Bool := false
abbrev ENABLE_INVALID : Int := -1
abbrev DEFAULT_OVERRIDE : Bool := false
abbrev INVALID_OVERRIDE : Int := -1
abbrev SESSION_ID_INVALID : Int := -1

/-! ## utility.c: cancellation handles -/

/-- The `GCancellable` objects created so far: the next fresh handle and the
handles on which `g_cancellable_cancel` has been called. -/
structure GObjects where
  next_cancellable : Nat
  cancelled : List Nat
  deriving DecidableEq, Repr

/-- The GLib function `g_cancellable_cancel`; a `NULL` argument is ignored. -/
def g_cancellable_cancel (h : GObjects) (c : Option Nat) : GObjects :=
  match c with
  | some c => { h with cancelled := c :: h.cancelled }
  | none => h

/-- The function `cancellable_finish` on a slot: result and new slot content. -/
def cancellable_finish (slot : Option Nat) : Bool × Option Nat :=
  (slot.isSome, none)

/-- The function `cancellable_cancel`: the slot is cleared first and
`g_cancellable_cancel` is then applied to the content of the slot. -/
def cancellable_cancel (h : GObjects) (slot : Option Nat) : Bool × GObjects × Option Nat :=
  let cancelled := slot
  let slot1 : Option Nat := none
  match cancelled with
  | some _ => (true, g_cancellable_cancel h slot1, slot1)
  | none => (false, h, slot1)

/-- The function `cancellable_start`. -/
def cancellable_start (h : GObjects) (slot : Option Nat) : GObjects × Option Nat :=
  let h1 := (cancellable_cancel h slot).2.1
  ({ h1 with next_cancellable := h1.next_cancellable + 1 }, some h1.next_cancellable)

/-! ## utility.c: the data socket -/

/-- Kernel side of the connected data socket. -/
structure Socket where
  rx : List Nat
  eof : Bool
  tx : List Nat
  blocking : Bool
  deriving DecidableEq, Repr

/-- The platform: the struct layout convention, and the results of the system
calls that can fail for reasons outside the library; the environment is free
to change the latter between events. -/
structure Os where
  abi : Abi
  socket_open_result : Int
  add_notify_tx_ok : Bool
  add_notify_rx_ok : Bool
  send_result : Int
  set_blocking_ok : Bool
  pid : Int
  deriving DecidableEq, Repr

/-- The function `socket_read`, `recv(fd, buff, size, MSG_DONTWAIT)`: the
return value, the bytes stored to the buffer and the socket afterwards. -/
def socket_read (fd : Int) (sock : Option Socket) (size : Nat) :
    Int × List Nat × Option Socket :=
  match sock with
  | none => (-1, [], sock)
  | some s =>
    if fd = -1 then (-1, [], sock)
    else if s.rx.isEmpty then ((if s.eof then 0 else -1), [], sock)
    else ((s.rx.take size).length, s.rx.take size, some { s with rx := s.rx.drop size })

/-- Little-endian value of a block of bytes. -/
def le_nat : List Nat → Nat
  | [] => 0
  | b :: bs => b % 256 + 256 * le_nat bs

/-- The 4 bytes of a 32-bit value, least significant first. -/
def le32_bytes (v : Nat) : List Nat :=
  [v % 256, v / 256 % 256, v / 65536 % 256, v / 16777216 % 256]

/-! ## State machines: states -/

inductive SfwServiceState where
  | INITIAL | DISABLED | ENUMERATING | READY | FAILED | FINAL
  deriving DecidableEq, Repr

inductive SfwPluginState where
  | INITIAL | DISABLED | LOADING | READY | FAILED | FINAL
  deriving DecidableEq, Repr

inductive SfwSensorState where
  | INITIAL | DISABLED | SESSION | PROPERTIES | CONNECT | READY | FAILED | FINAL
  deriving DecidableEq, Repr

inductive SfwReportingState where
  | INITIAL | DISABLED | RETHINK | STARTING | CONFIGURE | STARTED | STOPPING | STOPPED
  | FAILED | FINAL
  deriving DecidableEq, Repr

/-- The function a socket write watch currently dispatches to. -/
inductive TxCb where
  | tx_unexpected | tx_handshake
  deriving DecidableEq, Repr

/-- The function a socket read watch currently dispatches to. -/
inductive RxCb where
  | rx_unexpected | rx_handshake | rx_reading
  deriving DecidableEq, Repr

/-- Text form of a `GVariant` value. -/
abbrev GVariant := String

/-! ## State machines: private data

Source ids (`guint`, 0 when unset) are booleans: `true` when an id is held.
Cancellable slots hold `none` for `NULL`. -/

structure SfwServicePrivate where
  srv_valid : Bool
  srv_state : SfwServiceState
  srv_eval_state_id : Bool
  srv_retry_delay_id : Bool
  srv_connection : Bool
  srv_bus_get_cancellable : Option Nat
  srv_name_owner : Option String
  srv_name_watcher_id : Bool
  srv_available_sensors : List String
  srv_enumerate_cancellable : Option Nat
  deriving DecidableEq, Repr

structure SfwPluginPrivate where
  plg_id : SfwSensorId
  plg_valid : Bool
  plg_state : SfwPluginState
  plg_eval_state_id : Bool
  plg_load_cancellable : Option Nat
  plg_load_succeeded : Bool
  plg_retry_delay_id : Bool
  deriving DecidableEq, Repr

structure SfwSensorPrivate where
  sns_plugin : Bool
  sns_valid : Bool
  sns_active : Bool
  sns_state : SfwSensorState
  sns_session_id : Int
  sns_eval_state_id : Bool
  sns_get_properties_cancellable : Option Nat
  sns_request_session_cancellable : Option Nat
  sns_release_session_cancellable : Option Nat
  sns_retry_delay_id : Bool
  sns_properties : List (String × GVariant)
  sns_socket_fd : Int
  sns_socket_tx_id : Bool
  sns_socket_tx_cb : TxCb
  sns_socket_rx_id : Bool
  sns_socket_rx_cb : RxCb
  sns_reading : SfwReading

structure SfwReportingPrivate where
  rpt_state : SfwReportingState
  rpt_valid : Bool
  rpt_active : Bool
  rpt_eval_state_id : Bool
  rpt_retry_delay_id : Bool
  rpt_enable_wanted : Bool
  rpt_enable_requested : Int
  rpt_enable_effective : Int
  rpt_enable_cancellable : Option Nat
  rpt_datarate_wanted : Nat
  rpt_datarate_requested : Nat
  rpt_datarate_effective : Nat
  rpt_datarate_cancellable : Option Nat
  rpt_override_wanted : Bool
  rpt_override_requested : Int
  rpt_override_effective : Int
  rpt_override_cancellable : Option Nat
  deriving DecidableEq, Repr

/-- Logical kinds of asynchronous calls. -/
inductive CallKind where
  | bus_get | enumerate | load | request_session | release_session | get_properties
  | enable | datarate | override
  deriving DecidableEq, Repr

/-- The owner of a retry timer: the tier whose `retry_delay_cb` is handed to
`g_timeout_add`. -/
inductive RetryTimer where
  | service | plugin | sensor | reporting
  deriving DecidableEq, Repr

/-- What the library does that is visible from outside: signals delivered to
user handlers, in delivery order, calls issued to the daemon, and timers
added to the main loop with `g_timeout_add` (interval in milliseconds). -/
inductive Obs where
  | service_valid_changed (valid : Bool)
  | plugin_valid_changed (valid : Bool)
  | sensor_valid_changed (valid : Bool)
  | sensor_active_changed (active : Bool)
  | sensor_reading_changed (reading : SfwReading)
  | reporting_valid_changed (valid : Bool)
  | reporting_active_changed (active : Bool)
  | call_bus_get
  | call_available_plugins
  | call_load_plugin (name : Option String)
  | call_request_sensor (name : Option String) (pid : Int)
  | call_release_sensor (name : Option String)
  | call_get_all (object : Option String) (interface : Option String)
  | call_start (session_id : Int)
  | call_stop (session_id : Int)
  | call_set_datarate (session_id : Int) (hz : Nat)
  | call_set_override (session_id : Int) (value : Bool)
  | call_timeout_add (interval : Nat) (func : RetryTimer)

/-- The whole pipeline for one sensor: the shared Service, the Plugin of the
sensor kind, the Sensor with its Reporting child, and the environment. -/
structure System where
  srv : SfwServicePrivate
  plg : SfwPluginPrivate
  sns : SfwSensorPrivate
  rpt : SfwReportingPrivate
  gobj : GObjects
  os : Os
  sock : Option Socket
  inflight : List CallKind
  trace : List Obs

/-- Record an observation. -/
def observe (sys : System) (o : Obs) : System :=
  { sys with trace := sys.trace ++ [o] }

/-- Issue an asynchronous call: it is recorded and stays in flight until its
completion callback has run. -/
def issue_call (sys : System) (k : CallKind) (o : Obs) : System :=
  { sys with trace := sys.trace ++ [o], inflight := sys.inflight ++ [k] }

/-! ## sfwsensor.c: the `active` mirror

`sfwsensor_eval_active` is the handler the Sensor connects to its Reporting's
active-changed signal, so it is defined before the Reporting functions that
emit that signal. -/

/-- The function `sfwsensor_eval_active`. -/
def sfwsensor_eval_active (sys : System) : System :=
  let active := sys.rpt.rpt_active
  if sys.sns.sns_active != active then
    observe { sys with sns := { sys.sns with sns_active := active } }
      (.sensor_active_changed active)
  else sys

/-- The handler `sfwsensor_reporting_active_changed_cb`. -/
def sfwsensor_reporting_active_changed_cb (sys : System) : System :=
  sfwsensor_eval_active sys

/-! ## sfwreporting.c -/

/-- The initial field values set by `sfwreporting_init`. -/
def sfwreporting_init : SfwReportingPrivate :=
  { rpt_state := .INITIAL
    rpt_valid := false
    rpt_active := false
    rpt_eval_state_id := false
    rpt_retry_delay_id := false
    rpt_enable_wanted := ENABLE_DEFAULT
    rpt_enable_requested := ENABLE_INVALID
    rpt_enable_effective := ENABLE_INVALID
    rpt_enable_cancellable := none
    rpt_datarate_wanted := DEFAULT_DATARATE
    rpt_datarate_requested := INVALID_DATARATE
    rpt_datarate_effective := DEFAULT_DATARATE
    rpt_datarate_cancellable := none
    rpt_override_wanted := DEFAULT_OVERRIDE
    rpt_override_requested := INVALID_OVERRIDE
    rpt_override_effective := b2i DEFAULT_OVERRIDE
    rpt_override_cancellable := none }

/-- The function `sfwreporting_set_valid`; nothing inside the library listens
to the Reporting's valid-changed signal. -/
def sfwreporting_set_valid (sys : System) (valid : Bool) : System :=
  if sys.rpt.rpt_valid != valid then
    observe { sys with rpt := { sys.rpt with rpt_valid := valid } }
      (.reporting_valid_changed valid)
  else sys

/-- The function `sfwreporting_set_active`; the signal runs the Sensor's
handler synchronously. -/
def sfwreporting_set_active (sys : System) (active : Bool) : System :=
  if sys.rpt.rpt_active != active then
    observe
      (sfwsensor_reporting_active_changed_cb
        { sys with rpt := { sys.rpt with rpt_active := active } })
      (.reporting_active_changed active)
  else sys

/-- The function `sfwreporting_stm_cancel_eval_state`. -/
def sfwreporting_stm_cancel_eval_state (sys : System) : System :=
  if sys.rpt.rpt_eval_state_id then
    { sys with rpt := { sys.rpt with rpt_eval_state_id := false } }
  else sys

/-- The function `sfwreporting_stm_eval_state_later`. -/
def sfwreporting_stm_eval_state_later (sys : System) : System :=
  if sys.rpt.rpt_state = .FINAL then sfwreporting_stm_cancel_eval_state sys
  else if !sys.rpt.rpt_eval_state_id then
    { sys with rpt := { sys.rpt with rpt_eval_state_id := true } }
  else sys

/-- The function `sfwreporting_stm_start_retry_delay`: `gutil_timeout_start` with
the interval 5000 adds a timer only while the id slot is empty. -/
def sfwreporting_stm_start_retry_delay (sys : System) : System :=
  if !sys.rpt.rpt_retry_delay_id then
    observe { sys with rpt := { sys.rpt with rpt_retry_delay_id := true } }
      (.call_timeout_add 5000 .reporting)
  else sys

/-- The function `sfwreporting_stm_cancel_retry_delay`. -/
def sfwreporting_stm_cancel_retry_delay (sys : System) : System :=
  if sys.rpt.rpt_retry_delay_id then
    { sys with rpt := { sys.rpt with rpt_retry_delay_id := false } }
  else sys

/-- The function `sfwreporting_stm_pending_retry_delay`. -/
def sfwreporting_stm_pending_retry_delay (sys : System) : Bool :=
  sys.rpt.rpt_retry_delay_id

/-- The function `sfwreporting_stm_retry_delay_cb`. -/
def sfwreporting_stm_retry_delay_cb (sys : System) : System :=
  sfwreporting_stm_eval_state_later
    { sys with rpt := { sys.rpt with rpt_retry_delay_id := false } }

/-- The accessor `sfwreporting_session_id`, that is `sfwsensor_session_id`. -/
def sfwreporting_session_id (sys : System) : Int := sys.sns.sns_session_id

/-- The function `sfwreporting_stm_start_enable`. -/
def sfwreporting_stm_start_enable (sys : System) : System :=
  let session_id := sfwreporting_session_id sys
  let method : Obs :=
    if sys.rpt.rpt_enable_requested ≠ 0 then .call_start session_id else .call_stop session_id
  let c := cancellable_start sys.gobj sys.rpt.rpt_enable_cancellable
  issue_call
    { sys with
      gobj := c.1
      rpt := { sys.rpt with rpt_enable_effective := ENABLE_INVALID
                            rpt_enable_cancellable := c.2 } }
    .enable method

/-- The function `sfwreporting_stm_cancel_enable`. -/
def sfwreporting_stm_cancel_enable (sys : System) : System :=
  let c := cancellable_cancel sys.gobj sys.rpt.rpt_enable_cancellable
  { sys with gobj := c.2.1, rpt := { sys.rpt with rpt_enable_cancellable := c.2.2 } }

/-- The function `sfwreporting_stm_pending_enable`. -/
def sfwreporting_stm_pending_enable (sys : System) : Bool :=
  sys.rpt.rpt_enable_cancellable.isSome

/-- The completion callback `sfwreporting_stm_enable_cb`; `ack` tells whether
the call returned a reply. -/
def sfwreporting_stm_enable_cb (sys : System) (ack : Bool) : System :=
  let f := cancellable_finish sys.rpt.rpt_enable_cancellable
  let sys1 := { sys with rpt := { sys.rpt with rpt_enable_cancellable := f.2 } }
  if f.1 then
    sfwreporting_stm_eval_state_later
      (if ack then
        { sys1 with rpt := { sys1.rpt with rpt_enable_effective := sys1.rpt.rpt_enable_requested } }
       else sys1)
  else sys1

/-- The function `sfwreporting_stm_start_datarate`; the call carries
`priv->rpt_datarate_wanted`. -/
def sfwreporting_stm_start_datarate (sys : System) : System :=
  let session_id := sfwreporting_session_id sys
  let c := cancellable_start sys.gobj sys.rpt.rpt_datarate_cancellable
  issue_call
    { sys with
      gobj := c.1
      rpt := { sys.rpt with rpt_datarate_effective := INVALID_DATARATE
                            rpt_datarate_cancellable := c.2 } }
    .datarate (.call_set_datarate session_id sys.rpt.rpt_datarate_wanted)

/-- The function `sfwreporting_stm_cancel_datarate`. -/
def sfwreporting_stm_cancel_datarate (sys : System) : System :=
  let c := cancellable_cancel sys.gobj sys.rpt.rpt_datarate_cancellable
  { sys with gobj := c.2.1, rpt := { sys.rpt with rpt_datarate_cancellable := c.2.2 } }

/-- The function `sfwreporting_stm_pending_datarate`. -/
def sfwreporting_stm_pending_datarate (sys : System) : Bool :=
  sys.rpt.rpt_datarate_cancellable.isSome

/-- The completion callback `sfwreporting_stm_datarate_cb`. -/
def sfwreporting_stm_datarate_cb (sys : System) (ack : Bool) : System :=
  let f := cancellable_finish sys.rpt.rpt_datarate_cancellable
  let sys1 := { sys with rpt := { sys.rpt with rpt_datarate_cancellable := f.2 } }
  if f.1 then
    sfwreporting_stm_eval_state_later
      (if ack then
        { sys1 with
          rpt := { sys1.rpt with rpt_datarate_effective := sys1.rpt.rpt_datarate_requested } }
       else sys1)
  else sys1

/-- The function `sfwreporting_stm_start_override`; the call carries
`priv->rpt_override_wanted`. -/
def sfwreporting_stm_start_override (sys : System) : System :=
  let session_id := sfwreporting_session_id sys
  let c := cancellable_start sys.gobj sys.rpt.rpt_override_cancellable
  issue_call
    { sys with
      gobj := c.1
      rpt := { sys.rpt with rpt_override_effective := INVALID_OVERRIDE
                            rpt_override_cancellable := c.2 } }
    .override (.call_set_override session_id sys.rpt.rpt_override_wanted)

/-- The function `sfwreporting_stm_cancel_override`. -/
def sfwreporting_stm_cancel_override (sys : System) : System :=
  let c := cancellable_cancel sys.gobj sys.rpt.rpt_override_cancellable
  { sys with gobj := c.2.1, rpt := { sys.rpt with rpt_override_cancellable := c.2.2 } }

/-- The function `sfwreporting_stm_pending_override`. -/
def sfwreporting_stm_pending_override (sys : System) : Bool :=
  sys.rpt.rpt_override_cancellable.isSome

/-- The completion callback `sfwreporting_stm_override_cb`: a failure is only
logged, the effective value is updated in both cases. -/
def sfwreporting_stm_override_cb (sys : System) (_ack : Bool) : System :=
  let f := cancellable_finish sys.rpt.rpt_override_cancellable
  let sys1 := { sys with rpt := { sys.rpt with rpt_override_cancellable := f.2 } }
  if f.1 then
    sfwreporting_stm_eval_state_later
      { sys1 with
        rpt := { sys1.rpt with rpt_override_effective := sys1.rpt.rpt_override_requested } }
  else sys1

/-- The function `sfwreporting_stm_enter_state`. -/
def sfwreporting_stm_enter_state (sys : System) : System :=
  match sys.rpt.rpt_state with
  | .INITIAL => sys
  | .DISABLED =>
    { sys with rpt := { sys.rpt with rpt_enable_effective := b2i ENABLE_DEFAULT
                                     rpt_datarate_effective := DEFAULT_DATARATE
                                     rpt_override_effective := b2i DEFAULT_OVERRIDE } }
  | .RETHINK =>
    { sys with rpt := { sys.rpt with rpt_enable_requested := b2i sys.rpt.rpt_enable_wanted
                                     rpt_datarate_requested := sys.rpt.rpt_datarate_wanted
                                     rpt_override_requested := b2i sys.rpt.rpt_override_wanted } }
  | .STARTING =>
    if sys.rpt.rpt_enable_requested ≠ sys.rpt.rpt_enable_effective then
      sfwreporting_stm_start_enable sys
    else sys
  | .CONFIGURE =>
    let sys1 :=
      if dbl_ne sys.rpt.rpt_datarate_requested sys.rpt.rpt_datarate_effective then
        sfwreporting_stm_start_datarate sys
      else sys
    if sys1.rpt.rpt_override_requested ≠ sys1.rpt.rpt_override_effective then
      sfwreporting_stm_start_override sys1
    else sys1
  | .STARTED => sfwreporting_set_active (sfwreporting_set_valid sys true) true
  | .STOPPING =>
    let sys1 :=
      { sys with rpt := { sys.rpt with rpt_datarate_effective := DEFAULT_DATARATE
                                       rpt_override_effective := b2i DEFAULT_OVERRIDE } }
    if sys1.rpt.rpt_enable_requested ≠ sys1.rpt.rpt_enable_effective then
      sfwreporting_stm_start_enable sys1
    else sys1
  | .STOPPED => sfwreporting_set_valid sys true
  | .FAILED =>
    sfwreporting_stm_start_retry_delay
      { sys with rpt := { sys.rpt with rpt_enable_effective := ENABLE_INVALID } }
  | .FINAL => sys

/-- The function `sfwreporting_stm_leave_state`. -/
def sfwreporting_stm_leave_state (sys : System) : System :=
  match sys.rpt.rpt_state with
  | .INITIAL => sys
  | .DISABLED => sys
  | .RETHINK => sys
  | .STARTING => sfwreporting_stm_cancel_enable sys
  | .CONFIGURE => sfwreporting_stm_cancel_override (sfwreporting_stm_cancel_datarate sys)
  | .STARTED => sfwreporting_set_valid (sfwreporting_set_active sys false) false
  | .STOPPING => sfwreporting_stm_cancel_enable sys
  | .STOPPED => sfwreporting_set_valid sys false
  | .FAILED => sfwreporting_stm_cancel_retry_delay sys
  | .FINAL => sys

/-- The function `sfwreporting_stm_set_state`. -/
def sfwreporting_stm_set_state (sys : System) (state : SfwReportingState) : System :=
  if sys.rpt.rpt_state = .FINAL then sys
  else if sys.rpt.rpt_state ≠ state then
    let sys1 := sfwreporting_stm_leave_state sys
    let sys2 := { sys1 with rpt := { sys1.rpt with rpt_state := state } }
    let sys3 := sfwreporting_stm_enter_state sys2
    sfwreporting_stm_eval_state_later sys3
  else sys

/-- The idle callback `sfwreporting_stm_eval_state_cb`. -/
def sfwreporting_stm_eval_state_cb (sys0 : System) : System :=
  let sys := { sys0 with rpt := { sys0.rpt with rpt_eval_state_id := false } }
  match sys.rpt.rpt_state with
  | .INITIAL => sys
  | .DISABLED =>
    if sys.sns.sns_valid then sfwreporting_stm_set_state sys .RETHINK else sys
  | .RETHINK =>
    if sys.rpt.rpt_enable_wanted then sfwreporting_stm_set_state sys .STARTING
    else sfwreporting_stm_set_state sys .STOPPING
  | .STARTING =>
    if sfwreporting_stm_pending_enable sys then sys
    else if sys.rpt.rpt_enable_effective ≠ sys.rpt.rpt_enable_requested then
      sfwreporting_stm_set_state sys .FAILED
    else sfwreporting_stm_set_state sys .CONFIGURE
  | .CONFIGURE =>
    if sfwreporting_stm_pending_datarate sys then sys
    else if sfwreporting_stm_pending_override sys then sys
    else if dbl_ne sys.rpt.rpt_datarate_effective sys.rpt.rpt_datarate_requested ∨
        sys.rpt.rpt_override_effective ≠ sys.rpt.rpt_override_requested then
      sfwreporting_stm_set_state sys .FAILED
    else sfwreporting_stm_set_state sys .STARTED
  | .STARTED =>
    if b2i sys.rpt.rpt_enable_wanted ≠ sys.rpt.rpt_enable_effective ∨
        dbl_ne sys.rpt.rpt_datarate_wanted sys.rpt.rpt_datarate_effective ∨
        b2i sys.rpt.rpt_override_wanted ≠ sys.rpt.rpt_override_effective then
      sfwreporting_stm_set_state sys .RETHINK
    else sys
  | .STOPPING =>
    if sfwreporting_stm_pending_enable sys then sys
    else if sys.rpt.rpt_enable_effective ≠ sys.rpt.rpt_enable_requested then
      sfwreporting_stm_set_state sys .FAILED
    else sfwreporting_stm_set_state sys .STOPPED
  | .STOPPED =>
    if b2i sys.rpt.rpt_enable_wanted ≠ sys.rpt.rpt_enable_effective then
      sfwreporting_stm_set_state sys .RETHINK
    else sys
  | .FAILED =>
    if !sfwreporting_stm_pending_retry_delay sys then sfwreporting_stm_set_state sys .RETHINK
    else sys
  | .FINAL => sys

/-- The function `sfwreporting_stm_reset_state`. -/
def sfwreporting_stm_reset_state (sys : System) : System :=
  sfwreporting_stm_eval_state_later (sfwreporting_stm_set_state sys .DISABLED)

/-- The handler `sfwreporting_sensor_changed_cb`, connected to the Sensor's
valid-changed signal. -/
def sfwreporting_sensor_changed_cb (sys : System) : System :=
  sfwreporting_stm_reset_state sys

/-- The constructor `sfwreporting_new`, applied to a system whose Reporting
holds the `sfwreporting_init` values. -/
def sfwreporting_new (sys : System) : System :=
  sfwreporting_stm_set_state sys .DISABLED

/-- The function `sfwreporting_start`. -/
def sfwreporting_start (sys : System) : System :=
  if !sys.rpt.rpt_enable_wanted then
    sfwreporting_stm_eval_state_later
      { sys with rpt := { sys.rpt with rpt_enable_wanted := true } }
  else sys

/-- The function `sfwreporting_stop`. -/
def sfwreporting_stop (sys : System) : System :=
  if sys.rpt.rpt_enable_wanted then
    sfwreporting_stm_eval_state_later
      { sys with rpt := { sys.rpt with rpt_enable_wanted := false } }
  else sys

/-- The function `sfwreporting_set_datarate`. -/
def sfwreporting_set_datarate (sys : System) (datarate_Hz : Nat) : System :=
  sfwreporting_stm_eval_state_later
    { sys with rpt := { sys.rpt with rpt_datarate_wanted := datarate_Hz } }

/-- The function `sfwreporting_set_override`. -/
def sfwreporting_set_override (sys : System) (override : Bool) : System :=
  sfwreporting_stm_eval_state_later
    { sys with rpt := { sys.rpt with rpt_override_wanted := override } }

/-- The accessor `sfwreporting_is_active`. -/
def sfwreporting_is_active (sys : System) : Bool := sys.rpt.rpt_active

/-! ## sfwsensor.c -/

/-- The function `sfwsensor_start`. -/
def sfwsensor_start (sys : System) : System := sfwreporting_start sys

/-- The function `sfwsensor_stop`. -/
def sfwsensor_stop (sys : System) : System := sfwreporting_stop sys

/-- The function `sfwsensor_set_datarate`. -/
def sfwsensor_set_datarate (sys : System) (datarate_hz : Nat) : System :=
  sfwreporting_set_datarate sys datarate_hz

/-- The function `sfwsensor_set_alwayson`. -/
def sfwsensor_set_alwayson (sys : System) (alwayson : Bool) : System :=
  sfwreporting_set_override sys alwayson

/-- The function `sfwsensor_set_valid`; the signal runs the Reporting's
handler synchronously, before any user handler. -/
def sfwsensor_set_valid (sys : System) (valid : Bool) : System :=
  if sys.sns.sns_valid != valid then
    observe
      (sfwreporting_sensor_changed_cb { sys with sns := { sys.sns with sns_valid := valid } })
      (.sensor_valid_changed valid)
  else sys

/-- The accessor `sfwsensor_session_id`. -/
def sfwsensor_session_id (sys : System) : Int := sys.sns.sns_session_id

/-- The accessor `sfwsensor_name`: the name of the Plugin's kind, `NULL`
without a Plugin. -/
def sfwsensor_name (sys : System) : Option String :=
  if sys.sns.sns_plugin then sfwsensorid_name sys.os.abi sys.plg.plg_id else none

/-- The function `sfwsensor_stm_cancel_eval_state`. -/
def sfwsensor_stm_cancel_eval_state (sys : System) : System :=
  if sys.sns.sns_eval_state_id then
    { sys with sns := { sys.sns with sns_eval_state_id := false } }
  else sys

/-- The function `sfwsensor_stm_eval_state_later`. -/
def sfwsensor_stm_eval_state_later (sys : System) : System :=
  if sys.sns.sns_state = .FINAL then sfwsensor_stm_cancel_eval_state sys
  else if !sys.sns.sns_eval_state_id then
    { sys with sns := { sys.sns with sns_eval_state_id := true } }
  else sys

/-- The function `sfwsensor_stm_start_retry_delay`: `gutil_timeout_start` with
the interval 5000 adds a timer only while the id slot is empty. -/
def sfwsensor_stm_start_retry_delay (sys : System) : System :=
  if !sys.sns.sns_retry_delay_id then
    observe { sys with sns := { sys.sns with sns_retry_delay_id := true } }
      (.call_timeout_add 5000 .sensor)
  else sys

/-- The function `sfwsensor_stm_cancel_retry_delay`. -/
def sfwsensor_stm_cancel_retry_delay (sys : System) : System :=
  if sys.sns.sns_retry_delay_id then
    { sys with sns := { sys.sns with sns_retry_delay_id := false } }
  else sys

/-- The function `sfwsensor_stm_pending_retry_delay`. -/
def sfwsensor_stm_pending_retry_delay (sys : System) : Bool :=
  sys.sns.sns_retry_delay_id

/-- The timer callback `sfwsensor_stm_retry_delay_cb`. -/
def sfwsensor_stm_retry_delay_cb (sys : System) : System :=
  sfwsensor_stm_eval_state_later
    { sys with sns := { sys.sns with sns_retry_delay_id := false } }

/-- The accessor chain `sfwservice_is_valid(sfwsensor_service(self))`: `false`
when the Sensor has no Plugin and hence no Service. -/
def sfwsensor_service_is_valid (sys : System) : Bool :=
  sys.sns.sns_plugin && sys.srv.srv_valid

/-- The accessor chain `sfwplugin_is_valid(sfwsensor_plugin(self))`. -/
def sfwsensor_plugin_is_valid (sys : System) : Bool :=
  sys.sns.sns_plugin && sys.plg.plg_valid

/-- The function `sfwsensor_stm_start_request_session`. -/
def sfwsensor_stm_start_request_session (sys : System) : System :=
  if sfwsensor_session_id sys = SESSION_ID_INVALID then
    let c := cancellable_start sys.gobj sys.sns.sns_request_session_cancellable
    issue_call
      { sys with gobj := c.1, sns := { sys.sns with sns_request_session_cancellable := c.2 } }
      .request_session (.call_request_sensor (sfwsensor_name sys) sys.os.pid)
  else sys

/-- The function `sfwsensor_stm_cancel_request_session`. -/
def sfwsensor_stm_cancel_request_session (sys : System) : System :=
  let c := cancellable_cancel sys.gobj sys.sns.sns_request_session_cancellable
  { sys with gobj := c.2.1, sns := { sys.sns with sns_request_session_cancellable := c.2.2 } }

/-- The function `sfwsensor_stm_pending_request_session`. -/
def sfwsensor_stm_pending_request_session (sys : System) : Bool :=
  sys.sns.sns_request_session_cancellable.isSome

/-- The completion callback `sfwsensor_stm_request_session_cb`; `rsp` is the
session id of the reply, `none` when the call failed. -/
def sfwsensor_stm_request_session_cb (sys : System) (rsp : Option Int) : System :=
  let session_id : Int :=
    match rsp with
    | some id => id
    | none => SESSION_ID_INVALID
  let f := cancellable_finish sys.sns.sns_request_session_cancellable
  let sys1 := { sys with sns := { sys.sns with sns_request_session_cancellable := f.2 } }
  if f.1 then
    sfwsensor_stm_eval_state_later
      (if session_id = SESSION_ID_INVALID then sys1
       else { sys1 with sns := { sys1.sns with sns_session_id := session_id } })
  else sys1

/-- The function `sfwsensor_stm_start_release_session`. -/
def sfwsensor_stm_start_release_session (sys : System) : System :=
  if sys.sns.sns_session_id = SESSION_ID_INVALID then sys
  else
    let sys1 := { sys with sns := { sys.sns with sns_session_id := SESSION_ID_INVALID } }
    if !sfwsensor_service_is_valid sys1 then sfwsensor_stm_eval_state_later sys1
    else
      let c := cancellable_start sys1.gobj sys1.sns.sns_release_session_cancellable
      issue_call
        { sys1 with gobj := c.1, sns := { sys1.sns with sns_release_session_cancellable := c.2 } }
        .release_session (.call_release_sensor (sfwsensor_name sys1))

/-- The function `sfwsensor_stm_cancel_release_session`. -/
def sfwsensor_stm_cancel_release_session (sys : System) : System :=
  let c := cancellable_cancel sys.gobj sys.sns.sns_release_session_cancellable
  { sys with gobj := c.2.1, sns := { sys.sns with sns_release_session_cancellable := c.2.2 } }

/-- The function `sfwsensor_stm_pending_release_session`. -/
def sfwsensor_stm_pending_release_session (sys : System) : Bool :=
  sys.sns.sns_release_session_cancellable.isSome

/-- The completion callback `sfwsensor_stm_release_session_cb`; a missing or
`false` reply is only logged. -/
def sfwsensor_stm_release_session_cb (sys : System) (_rsp : Option Bool) : System :=
  let f := cancellable_finish sys.sns.sns_release_session_cancellable
  let sys1 := { sys with sns := { sys.sns with sns_release_session_cancellable := f.2 } }
  if f.1 then sfwsensor_stm_eval_state_later sys1 else sys1

/-- The function `sfwsensor_stm_update_property` for a non-`NULL` value. -/
def sfwsensor_stm_update_property (sys : System) (key : String) (val : GVariant) : System :=
  if sys.sns.sns_properties.lookup key ≠ some val then
    { sys with
      sns := { sys.sns with
        sns_properties := (key, val) :: sys.sns.sns_properties.filter (fun kv => kv.1 != key) } }
  else sys

/-- The function `sfwsensor_stm_start_get_properties`. -/
def sfwsensor_stm_start_get_properties (sys : System) : System :=
  let id : SfwSensorId := if sys.sns.sns_plugin then sys.plg.plg_id else SFW_SENSOR_ID_INVALID
  let c := cancellable_start sys.gobj sys.sns.sns_get_properties_cancellable
  issue_call
    { sys with gobj := c.1, sns := { sys.sns with sns_get_properties_cancellable := c.2 } }
    .get_properties
    (.call_get_all (sfwsensorid_object sys.os.abi id) (sfwsensorid_interface sys.os.abi id))

/-- The function `sfwsensor_stm_cancel_get_properties`. -/
def sfwsensor_stm_cancel_get_properties (sys : System) : System :=
  let c := cancellable_cancel sys.gobj sys.sns.sns_get_properties_cancellable
  { sys with gobj := c.2.1, sns := { sys.sns with sns_get_properties_cancellable := c.2.2 } }

/-- The function `sfwsensor_stm_pending_get_properties`. -/
def sfwsensor_stm_pending_get_properties (sys : System) : Bool :=
  sys.sns.sns_get_properties_cancellable.isSome

/-- The completion callback `sfwsensor_stm_get_properties_cb`; `rsp` is the
returned dictionary, `none` when the call failed. -/
def sfwsensor_stm_get_properties_cb (sys : System)
    (rsp : Option (List (String × GVariant))) : System :=
  let f := cancellable_finish sys.sns.sns_get_properties_cancellable
  let sys1 := { sys with sns := { sys.sns with sns_get_properties_cancellable := f.2 } }
  if f.1 then
    sfwsensor_stm_eval_state_later
      (match rsp with
       | some array => array.foldl (fun s kv => sfwsensor_stm_update_property s kv.1 kv.2) sys1
       | none => sys1)
  else sys1

/-- The function `sfwsensor_stm_socket_disconnect`. -/
def sfwsensor_stm_socket_disconnect (sys : System) : System :=
  { sys with
    sns := { sys.sns with sns_socket_tx_cb := .tx_unexpected
                          sns_socket_rx_cb := .rx_unexpected
                          sns_socket_tx_id := false
                          sns_socket_rx_id := false
                          sns_socket_fd := -1 }
    sock := if sys.sns.sns_socket_fd ≠ -1 then none else sys.sock }

/-- The function `sfwsensor_stm_socket_connect`. -/
def sfwsensor_stm_socket_connect (sys0 : System) : System :=
  let sys := sfwsensor_stm_socket_disconnect sys0
  let fd := sys.os.socket_open_result
  if fd = -1 then sys
  else if !sys.os.add_notify_tx_ok then sys
  else if !sys.os.add_notify_rx_ok then sys
  else
    { sys with
      sns := { sys.sns with sns_socket_rx_cb := .rx_unexpected
                            sns_socket_tx_cb := .tx_handshake
                            sns_socket_rx_id := true
                            sns_socket_tx_id := true
                            sns_socket_fd := fd }
      sock := some { rx := [], eof := false, tx := [], blocking := false } }

/-- The function `sfwsensor_stm_pending_socket_handshake`. -/
def sfwsensor_stm_pending_socket_handshake (sys : System) : Bool :=
  decide (sys.sns.sns_socket_fd ≠ -1) && sys.sns.sns_socket_tx_id

/-- The function `sfwsensor_stm_socket_ready_to_receive`. -/
def sfwsensor_stm_socket_ready_to_receive (sys : System) : Bool :=
  decide (sys.sns.sns_socket_fd ≠ -1) && sys.sns.sns_socket_rx_id

/-- The function `sfwsensor_stm_enter_state`. -/
def sfwsensor_stm_enter_state (sys : System) : System :=
  match sys.sns.sns_state with
  | .INITIAL => sys
  | .DISABLED => sfwsensor_stm_start_release_session (sfwsensor_stm_socket_disconnect sys)
  | .SESSION => sfwsensor_stm_start_request_session sys
  | .PROPERTIES => sfwsensor_stm_start_get_properties sys
  | .CONNECT => sfwsensor_stm_socket_connect sys
  | .READY => sfwsensor_set_valid sys true
  | .FAILED => sfwsensor_stm_start_retry_delay (sfwsensor_stm_socket_disconnect sys)
  | .FINAL => sfwsensor_stm_socket_disconnect sys

/-- The function `sfwsensor_stm_leave_state`. -/
def sfwsensor_stm_leave_state (sys : System) : System :=
  match sys.sns.sns_state with
  | .INITIAL => sys
  | .DISABLED => sfwsensor_stm_cancel_release_session sys
  | .SESSION => sfwsensor_stm_cancel_request_session sys
  | .PROPERTIES => sfwsensor_stm_cancel_get_properties sys
  | .CONNECT => sys
  | .READY => sfwsensor_stm_socket_disconnect (sfwsensor_set_valid sys false)
  | .FAILED => sfwsensor_stm_cancel_retry_delay sys
  | .FINAL => sys

/-- The function `sfwsensor_stm_set_state`. -/
def sfwsensor_stm_set_state (sys : System) (state : SfwSensorState) : System :=
  if sys.sns.sns_state = .FINAL then sys
  else if sys.sns.sns_state ≠ state then
    let sys1 := sfwsensor_stm_leave_state sys
    let sys2 := { sys1 with sns := { sys1.sns with sns_state := state } }
    let sys3 := sfwsensor_stm_enter_state sys2
    sfwsensor_stm_eval_state_later sys3
  else sys

/-- The idle callback `sfwsensor_stm_eval_state_cb`. -/
def sfwsensor_stm_eval_state_cb (sys0 : System) : System :=
  let sys := { sys0 with sns := { sys0.sns with sns_eval_state_id := false } }
  match sys.sns.sns_state with
  | .INITIAL => sys
  | .DISABLED =>
    if sfwsensor_stm_pending_release_session sys then sys
    else if sfwsensor_plugin_is_valid sys then sfwsensor_stm_set_state sys .SESSION
    else sys
  | .SESSION =>
    if sfwsensor_stm_pending_request_session sys then sys
    else if sfwsensor_session_id sys = SESSION_ID_INVALID then
      sfwsensor_stm_set_state sys .FAILED
    else sfwsensor_stm_set_state sys .PROPERTIES
  | .PROPERTIES =>
    if sfwsensor_stm_pending_get_properties sys then sys
    else sfwsensor_stm_set_state sys .CONNECT
  | .CONNECT =>
    if sfwsensor_stm_pending_socket_handshake sys then sys
    else if !sfwsensor_stm_socket_ready_to_receive sys then
      sfwsensor_stm_set_state sys .FAILED
    else sfwsensor_stm_set_state sys .READY
  | .READY => sys
  | .FAILED =>
    if sfwsensor_stm_pending_retry_delay sys then sys
    else sfwsensor_stm_set_state sys .SESSION
  | .FINAL => sys

/-- The function `sfwsensor_stm_reset_state`. -/
def sfwsensor_stm_reset_state (sys : System) : System :=
  sfwsensor_stm_eval_state_later (sfwsensor_stm_set_state sys .DISABLED)

/-- The handler `sfwsensor_plugin_changed_cb`, connected to the Plugin's
valid-changed signal. -/
def sfwsensor_plugin_changed_cb (sys : System) : System :=
  sfwsensor_stm_reset_state sys

/-! ### Socket watch callbacks

Every callback returns the system afterwards and the `gboolean` result:
`true` for `G_SOURCE_CONTINUE`, `false` for `G_SOURCE_REMOVE`. -/

abbrev G_SOURCE_CONTINUE : Bool := true
abbrev G_SOURCE_REMOVE : Bool := false

/-- The callback `sfwsensor_stm_socket_rx_unexpected`. -/
def sfwsensor_stm_socket_rx_unexpected (sys : System) : System × Bool :=
  (sfwsensor_stm_set_state
    { sys with sns := { sys.sns with sns_socket_rx_id := false } } .FAILED, G_SOURCE_REMOVE)

/-- The callback `sfwsensor_stm_socket_rx_handshake`. -/
def sfwsensor_stm_socket_rx_handshake (sys : System) : System × Bool :=
  let r := socket_read sys.sns.sns_socket_fd sys.sock 1
  let ack : Nat := le_nat r.2.1
  let sys1 := { sys with sock := r.2.2 }
  if ack ≠ 10 then
    (sfwsensor_stm_set_state
      { sys1 with sns := { sys1.sns with sns_socket_rx_id := false } } .FAILED, G_SOURCE_REMOVE)
  else if !sys1.os.set_blocking_ok then
    (sfwsensor_stm_set_state
      { sys1 with sns := { sys1.sns with sns_socket_rx_id := false } } .FAILED, G_SOURCE_REMOVE)
  else
    (sfwsensor_stm_eval_state_later
      { sys1 with
        sns := { sys1.sns with sns_socket_rx_cb := .rx_reading }
        sock := sys1.sock.map (fun k => { k with blocking := true }) }, G_SOURCE_CONTINUE)

/-- The `for` loop of `sfwsensor_stm_socket_rx_reading` with `n` iterations
left: the system afterwards, and `false` when the loop was left by `goto EXIT`. -/
def sfwsensor_stm_socket_rx_reading_loop (blk : Nat) : Nat → System → System × Bool
  | 0, sys => (sys, true)
  | n + 1, sys =>
    let r := socket_read sys.sns.sns_socket_fd sys.sock blk
    let sys1 :=
      { sys with
        sock := r.2.2
        sns := { sys.sns with
          sns_reading := { sys.sns.sns_reading with
            sample := mem_store sys.sns.sns_reading.sample r.2.1 } } }
    if r.1 = -1 then (sys1, false)
    else if r.1 = 0 then (sys1, false)
    else if r.1 ≠ blk then (sys1, false)
    else if sfwreporting_is_active sys1 then
      let sys2 :=
        { sys1 with
          sns := { sys1.sns with
            sns_reading := sfwreading_normalize sys1.os.abi sys1.sns.sns_reading } }
      sfwsensor_stm_socket_rx_reading_loop blk n
        (observe sys2 (.sensor_reading_changed sys2.sns.sns_reading))
    else
      sfwsensor_stm_socket_rx_reading_loop blk n
        { sys1 with
          sns := { sys1.sns with
            sns_reading := sfwreading_normalize sys1.os.abi sys1.sns.sns_reading } }

/-- The part of `sfwsensor_stm_socket_rx_reading` before the label `EXIT`:
the system there and the value of `result`. -/
def sfwsensor_stm_socket_rx_reading_body (sys : System) : System × Bool :=
  let r := socket_read sys.sns.sns_socket_fd sys.sock 4
  let cnt : Nat := le_nat r.2.1
  let sys1 := { sys with sock := r.2.2 }
  let blk := sfwsensorid_sample_size sys1.os.abi sys1.sns.sns_reading.sensor_id
  if r.1 ≠ 4 then (sys1, G_SOURCE_REMOVE)
  else if cnt < 1 ∨ cnt > 16 then (sys1, G_SOURCE_REMOVE)
  else if blk < 4 ∨ blk > sizeof_SfwSample sys1.os.abi then (sys1, G_SOURCE_REMOVE)
  else sfwsensor_stm_socket_rx_reading_loop blk cnt sys1

/-- The callback `sfwsensor_stm_socket_rx_reading`. -/
def sfwsensor_stm_socket_rx_reading (sys : System) : System × Bool :=
  let res := sfwsensor_stm_socket_rx_reading_body sys
  if res.2 = G_SOURCE_REMOVE then
    (sfwsensor_stm_set_state
      { res.1 with sns := { res.1.sns with sns_socket_rx_id := false } } .FAILED, G_SOURCE_REMOVE)
  else res

/-- The callback `sfwsensor_stm_socket_tx_unexpected`. -/
def sfwsensor_stm_socket_tx_unexpected (sys : System) : System × Bool :=
  (sfwsensor_stm_set_state
    { sys with sns := { sys.sns with sns_socket_tx_id := false } } .FAILED, G_SOURCE_REMOVE)

/-- The callback `sfwsensor_stm_socket_tx_handshake`: the session id is sent
as 4 little-endian bytes. -/
def sfwsensor_stm_socket_tx_handshake (sys : System) : System × Bool :=
  let sys1 := { sys with sns := { sys.sns with sns_socket_tx_id := false } }
  let id := sfwsensor_session_id sys1
  let rc := sys1.os.send_result
  let sys2 :=
    { sys1 with
      sock := sys1.sock.map
        (fun k => { k with tx := k.tx ++ (le32_bytes (of_i32 id)).take rc.toNat }) }
  if rc ≠ 4 then (sfwsensor_stm_set_state sys2 .FAILED, G_SOURCE_REMOVE)
  else
    (sfwsensor_stm_eval_state_later
      { sys2 with sns := { sys2.sns with sns_socket_rx_cb := .rx_handshake } }, G_SOURCE_REMOVE)

/-- The watch callback `sfwsensor_stm_socket_tx_cb`: dispatch through the slot. -/
def sfwsensor_stm_socket_tx_cb (sys : System) : System × Bool :=
  match sys.sns.sns_socket_tx_cb with
  | .tx_unexpected => sfwsensor_stm_socket_tx_unexpected sys
  | .tx_handshake => sfwsensor_stm_socket_tx_handshake sys

/-- The watch callback `sfwsensor_stm_socket_rx_cb`: dispatch through the slot. -/
def sfwsensor_stm_socket_rx_cb (sys : System) : System × Bool :=
  match sys.sns.sns_socket_rx_cb with
  | .rx_unexpected => sfwsensor_stm_socket_rx_unexpected sys
  | .rx_handshake => sfwsensor_stm_socket_rx_handshake sys
  | .rx_reading => sfwsensor_stm_socket_rx_reading sys

/-! ## sfwplugin.c -/

/-- The initial field values set by `sfwplugin_init`. -/
def sfwplugin_init : SfwPluginPrivate :=
  { plg_id := SFW_SENSOR_ID_INVALID
    plg_valid := false
    plg_state := .INITIAL
    plg_eval_state_id := false
    plg_load_cancellable := none
    plg_load_succeeded := false
    plg_retry_delay_id := false }

/-- The function `sfwplugin_set_valid`; the signal runs the Sensor's handler
synchronously. -/
def sfwplugin_set_valid (sys : System) (valid : Bool) : System :=
  if sys.plg.plg_valid != valid then
    observe
      (sfwsensor_plugin_changed_cb { sys with plg := { sys.plg with plg_valid := valid } })
      (.plugin_valid_changed valid)
  else sys

/-- The accessor `sfwplugin_name`. -/
def sfwplugin_name (sys : System) : Option String :=
  sfwsensorid_name sys.os.abi sys.plg.plg_id

/-- The function `sfwplugin_stm_cancel_eval_state`. -/
def sfwplugin_stm_cancel_eval_state (sys : System) : System :=
  if sys.plg.plg_eval_state_id then
    { sys with plg := { sys.plg with plg_eval_state_id := false } }
  else sys

/-- The function `sfwplugin_stm_eval_state_later`. -/
def sfwplugin_stm_eval_state_later (sys : System) : System :=
  if sys.plg.plg_state = .FINAL then sfwplugin_stm_cancel_eval_state sys
  else if !sys.plg.plg_eval_state_id then
    { sys with plg := { sys.plg with plg_eval_state_id := true } }
  else sys

/-- The function `sfwplugin_stm_start_retry_delay`: `gutil_timeout_start` with
the interval 5000 adds a timer only while the id slot is empty. -/
def sfwplugin_stm_start_retry_delay (sys : System) : System :=
  if !sys.plg.plg_retry_delay_id then
    observe { sys with plg := { sys.plg with plg_retry_delay_id := true } }
      (.call_timeout_add 5000 .plugin)
  else sys

/-- The function `sfwplugin_stm_cancel_retry_delay`. -/
def sfwplugin_stm_cancel_retry_delay (sys : System) : System :=
  if sys.plg.plg_retry_delay_id then
    { sys with plg := { sys.plg with plg_retry_delay_id := false } }
  else sys

/-- The function `sfwplugin_stm_pending_retry_delay`. -/
def sfwplugin_stm_pending_retry_delay (sys : System) : Bool :=
  sys.plg.plg_retry_delay_id

/-- The timer callback `sfwplugin_stm_retry_delay_cb`. -/
def sfwplugin_stm_retry_delay_cb (sys : System) : System :=
  sfwplugin_stm_eval_state_later
    { sys with plg := { sys.plg with plg_retry_delay_id := false } }

/-- The function `sfwplugin_stm_start_load`. -/
def sfwplugin_stm_start_load (sys : System) : System :=
  let c := cancellable_start sys.gobj sys.plg.plg_load_cancellable
  issue_call
    { sys with
      gobj := c.1
      plg := { sys.plg with plg_load_succeeded := false, plg_load_cancellable := c.2 } }
    .load (.call_load_plugin (sfwplugin_name sys))

/-- The function `sfwplugin_stm_cancel_load`. -/
def sfwplugin_stm_cancel_load (sys : System) : System :=
  let c := cancellable_cancel sys.gobj sys.plg.plg_load_cancellable
  { sys with gobj := c.2.1, plg := { sys.plg with plg_load_cancellable := c.2.2 } }

/-- The function `sfwplugin_stm_pending_load`. -/
def sfwplugin_stm_pending_load (sys : System) : Bool :=
  sys.plg.plg_load_cancellable.isSome

/-- The completion callback `sfwplugin_stm_load_cb`; `rsp` is the boolean of
the reply, `none` when the call failed. -/
def sfwplugin_stm_load_cb (sys : System) (rsp : Option Bool) : System :=
  let ack : Bool :=
    match rsp with
    | some b => b
    | none => false
  let f := cancellable_finish sys.plg.plg_load_cancellable
  let sys1 := { sys with plg := { sys.plg with plg_load_cancellable := f.2 } }
  if f.1 then
    sfwplugin_stm_eval_state_later
      (if ack then { sys1 with plg := { sys1.plg with plg_load_succeeded := true } } else sys1)
  else sys1

/-- The function `sfwplugin_stm_enter_state`. -/
def sfwplugin_stm_enter_state (sys : System) : System :=
  match sys.plg.plg_state with
  | .INITIAL => sys
  | .DISABLED => sys
  | .LOADING => sfwplugin_stm_start_load sys
  | .READY => sfwplugin_set_valid sys true
  | .FAILED => sfwplugin_stm_start_retry_delay sys
  | .FINAL => sys

/-- The function `sfwplugin_stm_leave_state`. -/
def sfwplugin_stm_leave_state (sys : System) : System :=
  match sys.plg.plg_state with
  | .INITIAL => sys
  | .DISABLED => sys
  | .LOADING => sfwplugin_stm_cancel_load sys
  | .READY => sfwplugin_set_valid sys false
  | .FAILED => sfwplugin_stm_cancel_retry_delay sys
  | .FINAL => sys

/-- The function `sfwplugin_stm_set_state`. -/
def sfwplugin_stm_set_state (sys : System) (state : SfwPluginState) : System :=
  if sys.plg.plg_state = .FINAL then sys
  else if sys.plg.plg_state ≠ state then
    let sys1 := sfwplugin_stm_leave_state sys
    let sys2 := { sys1 with plg := { sys1.plg with plg_state := state } }
    let sys3 := sfwplugin_stm_enter_state sys2
    sfwplugin_stm_eval_state_later sys3
  else sys

/-- The idle callback `sfwplugin_stm_eval_state_cb`. -/
def sfwplugin_stm_eval_state_cb (sys0 : System) : System :=
  let sys := { sys0 with plg := { sys0.plg with plg_eval_state_id := false } }
  match sys.plg.plg_state with
  | .INITIAL => sys
  | .DISABLED =>
    if sys.srv.srv_valid then sfwplugin_stm_set_state sys .LOADING else sys
  | .LOADING =>
    if sfwplugin_stm_pending_load sys then sys
    else if sys.plg.plg_load_succeeded then sfwplugin_stm_set_state sys .READY
    else sfwplugin_stm_set_state sys .FAILED
  | .READY => sys
  | .FAILED =>
    if !sfwplugin_stm_pending_retry_delay sys then sfwplugin_stm_set_state sys .LOADING
    else sys
  | .FINAL => sys

/-- The function `sfwplugin_stm_reset_state`. -/
def sfwplugin_stm_reset_state (sys : System) : System :=
  sfwplugin_stm_eval_state_later (sfwplugin_stm_set_state sys .DISABLED)

/-- The handler `sfwplugin_service_changed_cb`, connected to the Service's
valid-changed signal once the Plugin exists. -/
def sfwplugin_service_changed_cb (sys : System) : System :=
  if sys.sns.sns_plugin then sfwplugin_stm_reset_state sys else sys

/-! ## sfwservice.c

In the C source `sfwservice_stm_set_state` can reach itself again:
leaving `INITIAL` and entering `FINAL` both disconnect, dropping the
connection removes the name watch, and clearing the name owner requests
`DISABLED`.  The functions below therefore take the state setter to use for
such nested requests as an argument, and `sfwservice_stm_set_state_n` ties the
knot with a bound on the nesting depth. -/

/-- The initial field values set by `sfwservice_init`. -/
def sfwservice_init : SfwServicePrivate :=
  { srv_valid := false
    srv_state := .INITIAL
    srv_eval_state_id := false
    srv_retry_delay_id := false
    srv_connection := false
    srv_bus_get_cancellable := none
    srv_name_owner := none
    srv_name_watcher_id := false
    srv_available_sensors := []
    srv_enumerate_cancellable := none }

/-- The function `sfwservice_set_valid`; the signal runs the Plugin's handler
synchronously. -/
def sfwservice_set_valid (sys : System) (valid : Bool) : System :=
  if sys.srv.srv_valid != valid then
    observe
      (sfwplugin_service_changed_cb { sys with srv := { sys.srv with srv_valid := valid } })
      (.service_valid_changed valid)
  else sys

/-- The function `sfwservice_stm_cancel_eval_state`. -/
def sfwservice_stm_cancel_eval_state (sys : System) : System :=
  if sys.srv.srv_eval_state_id then
    { sys with srv := { sys.srv with srv_eval_state_id := false } }
  else sys

/-- The function `sfwservice_stm_eval_state_later`. -/
def sfwservice_stm_eval_state_later (sys : System) : System :=
  if sys.srv.srv_state = .FINAL then sfwservice_stm_cancel_eval_state sys
  else if !sys.srv.srv_eval_state_id then
    { sys with srv := { sys.srv with srv_eval_state_id := true } }
  else sys

/-- The function `sfwservice_stm_start_retry_delay`: `gutil_timeout_start` with
the interval 5000 adds a timer only while the id slot is empty. -/
def sfwservice_stm_start_retry_delay (sys : System) : System :=
  if !sys.srv.srv_retry_delay_id then
    observe { sys with srv := { sys.srv with srv_retry_delay_id := true } }
      (.call_timeout_add 5000 .service)
  else sys

/-- The function `sfwservice_stm_cancel_retry_delay`. -/
def sfwservice_stm_cancel_retry_delay (sys : System) : System :=
  if sys.srv.srv_retry_delay_id then
    { sys with srv := { sys.srv with srv_retry_delay_id := false } }
  else sys

/-- The function `sfwservice_stm_pending_retry_delay`. -/
def sfwservice_stm_pending_retry_delay (sys : System) : Bool :=
  sys.srv.srv_retry_delay_id

/-- The timer callback `sfwservice_stm_retry_delay_cb`. -/
def sfwservice_stm_retry_delay_cb (sys : System) : System :=
  sfwservice_stm_eval_state_later
    { sys with srv := { sys.srv with srv_retry_delay_id := false } }

/-- The function `sfwservice_stm_start_enumerate`. -/
def sfwservice_stm_start_enumerate (sys : System) : System :=
  let c := cancellable_start sys.gobj sys.srv.srv_enumerate_cancellable
  issue_call
    { sys with gobj := c.1, srv := { sys.srv with srv_enumerate_cancellable := c.2 } }
    .enumerate .call_available_plugins

/-- The function `sfwservice_stm_cancel_enumerate`. -/
def sfwservice_stm_cancel_enumerate (sys : System) : System :=
  let c := cancellable_cancel sys.gobj sys.srv.srv_enumerate_cancellable
  { sys with gobj := c.2.1, srv := { sys.srv with srv_enumerate_cancellable := c.2.2 } }

/-- The function `sfwservice_stm_pending_enumerate`. -/
def sfwservice_stm_pending_enumerate (sys : System) : Bool :=
  sys.srv.srv_enumerate_cancellable.isSome

/-- The completion callback `sfwservice_stm_enumerate_cb`; `rsp` holds the
returned names, `none` when the call failed. -/
def sfwservice_stm_enumerate_cb (sys : System) (rsp : Option (List String)) : System :=
  let f := cancellable_finish sys.srv.srv_enumerate_cancellable
  let sys1 := { sys with srv := { sys.srv with srv_enumerate_cancellable := f.2 } }
  if f.1 then
    sfwservice_stm_eval_state_later
      { sys1 with
        srv := { sys1.srv with
          srv_available_sensors :=
            match rsp with
            | some sensors => sensors.eraseDups
            | none => [] } }
  else sys1

/-- The function `sfwservice_set_name_owner`. -/
def sfwservice_set_name_owner (set_state : System → SfwServiceState → System)
    (sys : System) (name_owner0 : Option String) : System :=
  let name_owner : Option String := if name_owner0 = some "" then none else name_owner0
  if sys.srv.srv_name_owner ≠ name_owner then
    let sys1 := { sys with srv := { sys.srv with srv_name_owner := name_owner } }
    if sys1.srv.srv_name_owner.isSome then set_state sys1 .ENUMERATING
    else set_state sys1 .DISABLED
  else sys

/-- The function `sfwservice_unwatch_name_owner`. -/
def sfwservice_unwatch_name_owner (set_state : System → SfwServiceState → System)
    (sys : System) : System :=
  sfwservice_set_name_owner set_state
    (if sys.srv.srv_name_watcher_id then
      { sys with srv := { sys.srv with srv_name_watcher_id := false } }
     else sys)
    none

/-- The function `sfwservice_watch_name_owner`. -/
def sfwservice_watch_name_owner (set_state : System → SfwServiceState → System)
    (sys : System) : System :=
  let sys1 := sfwservice_unwatch_name_owner set_state sys
  { sys1 with srv := { sys1.srv with srv_name_watcher_id := true } }

/-- The function `sfwservice_set_connection`; `con` tells whether the new
connection is non-`NULL`. -/
def sfwservice_set_connection (set_state : System → SfwServiceState → System)
    (sys : System) (con : Bool) : System :=
  if sys.srv.srv_connection != con then
    let sys1 :=
      if sys.srv.srv_connection then
        let sys2 := sfwservice_unwatch_name_owner set_state sys
        { sys2 with srv := { sys2.srv with srv_connection := false } }
      else sys
    if con then
      sfwservice_watch_name_owner set_state
        { sys1 with srv := { sys1.srv with srv_connection := true } }
    else sys1
  else sys

/-- The function `sfwservice_stm_disconnect`. -/
def sfwservice_stm_disconnect (set_state : System → SfwServiceState → System)
    (sys : System) : System :=
  let c := cancellable_cancel sys.gobj sys.srv.srv_bus_get_cancellable
  sfwservice_set_connection set_state
    { sys with gobj := c.2.1, srv := { sys.srv with srv_bus_get_cancellable := c.2.2 } } false

/-- The function `sfwservice_stm_connect`. -/
def sfwservice_stm_connect (set_state : System → SfwServiceState → System)
    (sys : System) : System :=
  let sys1 := sfwservice_stm_disconnect set_state sys
  let c := cancellable_start sys1.gobj sys1.srv.srv_bus_get_cancellable
  issue_call
    { sys1 with gobj := c.1, srv := { sys1.srv with srv_bus_get_cancellable := c.2 } }
    .bus_get .call_bus_get

/-- The function `sfwservice_stm_enter_state`. -/
def sfwservice_stm_enter_state (set_state : System → SfwServiceState → System)
    (sys : System) : System :=
  match sys.srv.srv_state with
  | .INITIAL => sys
  | .DISABLED => sys
  | .ENUMERATING => sfwservice_stm_start_enumerate sys
  | .READY => sfwservice_set_valid sys true
  | .FAILED => sfwservice_stm_start_retry_delay sys
  | .FINAL => sfwservice_stm_disconnect set_state (sfwservice_stm_cancel_enumerate sys)

/-- The function `sfwservice_stm_leave_state`. -/
def sfwservice_stm_leave_state (set_state : System → SfwServiceState → System)
    (sys : System) : System :=
  match sys.srv.srv_state with
  | .INITIAL => sfwservice_stm_connect set_state sys
  | .DISABLED => sys
  | .ENUMERATING => sfwservice_stm_cancel_enumerate sys
  | .READY => sfwservice_set_valid sys false
  | .FAILED => sfwservice_stm_cancel_enumerate (sfwservice_stm_cancel_retry_delay sys)
  | .FINAL => sys

/-- The function `sfwservice_stm_set_state`, with at most `n` levels of nested
state requests below this one; a request nested deeper is dropped. -/
def sfwservice_stm_set_state_n : Nat → System → SfwServiceState → System
  | 0, sys, _ => sys
  | n + 1, sys, state =>
    if sys.srv.srv_state = .FINAL then sys
    else if sys.srv.srv_state ≠ state then
      let sys1 := sfwservice_stm_leave_state (sfwservice_stm_set_state_n n) sys
      let sys2 := { sys1 with srv := { sys1.srv with srv_state := state } }
      let sys3 := sfwservice_stm_enter_state (sfwservice_stm_set_state_n n) sys2
      sfwservice_stm_eval_state_later sys3
    else sys

/-- The function `sfwservice_stm_set_state`.  A nested request can only come
from clearing a non-empty name owner, after which the owner is empty, so the
nesting never gets deeper than two levels. -/
def sfwservice_stm_set_state (sys : System) (state : SfwServiceState) : System :=
  sfwservice_stm_set_state_n 4 sys state

/-- The callback `sfwservice_name_owner_vanished_cb`. -/
def sfwservice_name_owner_vanished_cb (sys : System) : System :=
  sfwservice_set_name_owner sfwservice_stm_set_state sys none

/-- The callback `sfwservice_name_owner_appeared_cb`. -/
def sfwservice_name_owner_appeared_cb (sys : System) (name_owner : String) : System :=
  sfwservice_set_name_owner sfwservice_stm_set_state
    (sfwservice_set_name_owner sfwservice_stm_set_state sys none) (some name_owner)

/-- The completion callback `sfwservice_stm_connect_cb`; `con` tells whether
`g_bus_get_finish` returned a connection. -/
def sfwservice_stm_connect_cb (sys : System) (con : Bool) : System :=
  let f := cancellable_finish sys.srv.srv_bus_get_cancellable
  let sys1 := { sys with srv := { sys.srv with srv_bus_get_cancellable := f.2 } }
  if f.1 then sfwservice_set_connection sfwservice_stm_set_state sys1 con else sys1

/-- The idle callback `sfwservice_stm_eval_state_cb`. -/
def sfwservice_stm_eval_state_cb (sys0 : System) : System :=
  let sys := { sys0 with srv := { sys0.srv with srv_eval_state_id := false } }
  match sys.srv.srv_state with
  | .INITIAL => sys
  | .DISABLED => sys
  | .ENUMERATING =>
    if !sfwservice_stm_pending_enumerate sys then sfwservice_stm_set_state sys .READY else sys
  | .READY => sys
  | .FAILED =>
    if !sfwservice_stm_pending_retry_delay sys then sfwservice_stm_set_state sys .ENUMERATING
    else sys
  | .FINAL => sys

/-- The constructor `sfwservice_new`, applied to a system whose Service holds
the `sfwservice_init` values. -/
def sfwservice_new (sys : System) : System :=
  sfwservice_stm_set_state sys .DISABLED

/-! ## Construction -/

/-- The system before any object exists: every tier holds the values its
`_init` function sets (`g_object_new` zero-fills the rest), nothing is in
flight, nothing has been observed. -/
def System.blank (os : Os) : System :=
  { srv := sfwservice_init
    plg := sfwplugin_init
    sns :=
      { sns_plugin := false
        sns_valid := false
        sns_active := false
        sns_state := .INITIAL
        sns_session_id := SESSION_ID_INVALID
        sns_eval_state_id := false
        sns_get_properties_cancellable := none
        sns_request_session_cancellable := none
        sns_release_session_cancellable := none
        sns_retry_delay_id := false
        sns_properties := []
        sns_socket_fd := -1
        sns_socket_tx_id := false
        sns_socket_tx_cb := .tx_unexpected
        sns_socket_rx_id := false
        sns_socket_rx_cb := .rx_unexpected
        sns_reading := { sensor_id := SFW_SENSOR_ID_INVALID, sample := fun _ => 0 } }
    rpt := sfwreporting_init
    gobj := { next_cancellable := 0, cancelled := [] }
    os := os
    sock := none
    inflight := []
    trace := [] }

/-- The function `sfwsensor_init`: the fields are those of `System.blank`, and
the Reporting child is created. -/
def sfwsensor_init (sys : System) : System := sfwreporting_new sys

/-- The function `sfwplugin_new`: it records the kind, obtains the Service
(created here, by `sfwservice_instance`), and resets the Plugin state. -/
def sfwplugin_new (sys : System) (id : SfwSensorId) : System :=
  sfwplugin_stm_reset_state
    (sfwservice_new { sys with plg := { sys.plg with plg_id := id } })

/-- The function `sfwsensor_attach_to_plugin`; `sfwplugin_instance` gives no
Plugin for an invalid kind. -/
def sfwsensor_attach_to_plugin (sys : System) (id : SfwSensorId) : System :=
  let sys1 :=
    { sys with sns := { sys.sns with sns_reading := { sys.sns.sns_reading with sensor_id := id } } }
  let sys2 := if sfwsensorid_is_valid id then sfwplugin_new sys1 id else sys1
  sfwsensor_stm_reset_state
    { sys2 with sns := { sys2.sns with sns_plugin := sfwsensorid_is_valid id } }

/-- The constructor `sfwsensor_new` on a given platform. -/
def sfwsensor_new (os : Os) (id : SfwSensorId) : System :=
  sfwsensor_attach_to_plugin (sfwsensor_init (System.blank os)) id

/-! ## Events of the main loop -/

/-- Everything that can make the library run: user calls, idle and timer
sources, completions of asynchronous calls, name owner notifications, socket
watches, and changes in the environment. -/
inductive Event where
  | user_start
  | user_stop
  | user_set_datarate (datarate_hz : Nat)
  | user_set_alwayson (alwayson : Bool)
  | srv_eval
  | plg_eval
  | sns_eval
  | rpt_eval
  | srv_retry
  | plg_retry
  | sns_retry
  | rpt_retry
  | bus_get_done (con : Bool)
  | enumerate_done (rsp : Option (List String))
  | load_done (rsp : Option Bool)
  | request_session_done (rsp : Option Int)
  | release_session_done (rsp : Option Bool)
  | get_properties_done (rsp : Option (List (String × GVariant)))
  | enable_done (ack : Bool)
  | datarate_done (ack : Bool)
  | override_done (ack : Bool)
  | name_owner_appeared (name_owner : String)
  | name_owner_vanished
  | socket_tx_ready
  | socket_rx_ready
  | daemon_send (bytes : List Nat)
  | daemon_close
  | os_change (os : Os)

/-- Run a completion callback if a call of that kind is in flight. -/
def complete (sys : System) (k : CallKind) (cb : System → System) : System :=
  if k ∈ sys.inflight then cb { sys with inflight := sys.inflight.erase k } else sys

/-- One dispatch of the main loop.  A source only fires while it is
installed; a completion only arrives for a call in flight. -/
def step (sys : System) : Event → System
  | .user_start => sfwsensor_start sys
  | .user_stop => sfwsensor_stop sys
  | .user_set_datarate hz => sfwsensor_set_datarate sys hz
  | .user_set_alwayson b => sfwsensor_set_alwayson sys b
  | .srv_eval => if sys.srv.srv_eval_state_id then sfwservice_stm_eval_state_cb sys else sys
  | .plg_eval => if sys.plg.plg_eval_state_id then sfwplugin_stm_eval_state_cb sys else sys
  | .sns_eval => if sys.sns.sns_eval_state_id then sfwsensor_stm_eval_state_cb sys else sys
  | .rpt_eval => if sys.rpt.rpt_eval_state_id then sfwreporting_stm_eval_state_cb sys else sys
  | .srv_retry => if sys.srv.srv_retry_delay_id then sfwservice_stm_retry_delay_cb sys else sys
  | .plg_retry => if sys.plg.plg_retry_delay_id then sfwplugin_stm_retry_delay_cb sys else sys
  | .sns_retry => if sys.sns.sns_retry_delay_id then sfwsensor_stm_retry_delay_cb sys else sys
  | .rpt_retry => if sys.rpt.rpt_retry_delay_id then sfwreporting_stm_retry_delay_cb sys else sys
  | .bus_get_done con => complete sys .bus_get (fun s => sfwservice_stm_connect_cb s con)
  | .enumerate_done rsp => complete sys .enumerate (fun s => sfwservice_stm_enumerate_cb s rsp)
  | .load_done rsp => complete sys .load (fun s => sfwplugin_stm_load_cb s rsp)
  | .request_session_done rsp =>
    complete sys .request_session (fun s => sfwsensor_stm_request_session_cb s rsp)
  | .release_session_done rsp =>
    complete sys .release_session (fun s => sfwsensor_stm_release_session_cb s rsp)
  | .get_properties_done rsp =>
    complete sys .get_properties (fun s => sfwsensor_stm_get_properties_cb s rsp)
  | .enable_done ack => complete sys .enable (fun s => sfwreporting_stm_enable_cb s ack)
  | .datarate_done ack => complete sys .datarate (fun s => sfwreporting_stm_datarate_cb s ack)
  | .override_done ack => complete sys .override (fun s => sfwreporting_stm_override_cb s ack)
  | .name_owner_appeared o =>
    if sys.srv.srv_name_watcher_id then sfwservice_name_owner_appeared_cb sys o else sys
  | .name_owner_vanished =>
    if sys.srv.srv_name_watcher_id then sfwservice_name_owner_vanished_cb sys else sys
  | .socket_tx_ready =>
    if sys.sns.sns_socket_tx_id && sys.sock.isSome then (sfwsensor_stm_socket_tx_cb sys).1
    else sys
  | .socket_rx_ready =>
    if sys.sns.sns_socket_rx_id &&
        (match sys.sock with
         | some k => !k.rx.isEmpty || k.eof
         | none => false) then
      (sfwsensor_stm_socket_rx_cb sys).1
    else sys
  | .daemon_send bytes =>
    { sys with
      sock := sys.sock.map
        (fun k => if k.eof then k else { k with rx := k.rx ++ bytes.map (fun b => b % 256) }) }
  | .daemon_close => { sys with sock := sys.sock.map (fun k => { k with eof := true }) }
  | .os_change o =>
    { sys with
      os := { o with abi := sys.os.abi
                     pid := sys.os.pid
                     socket_open_result :=
                       if o.socket_open_result < 0 then -1 else o.socket_open_result } }

/-- Run a list of events in order. -/
def run (sys : System) (evs : List Event) : System := evs.foldl step sys

/-- The states the pipeline of a sensor of kind `id` can be in between two
dispatches of the main loop. -/
inductive Reachable (os : Os) (id : SfwSensorId) : System → Prop where
  | init : Reachable os id (sfwsensor_new os id)
  | step (sys : System) (ev : Event) : Reachable os id sys → Reachable os id (step sys ev)

/-! ## Reading the trace -/

/-- The readings delivered with reading-changed signals, oldest first. -/
def readings_emitted : List Obs → List SfwReading
  | [] => []
  | .sensor_reading_changed r :: t => r :: readings_emitted t
  | _ :: t => readings_emitted t

/-- The arguments of the `setDataRate` calls issued, oldest first. -/
def set_datarate_calls : List Obs → List Nat
  | [] => []
  | .call_set_datarate _ hz :: t => hz :: set_datarate_calls t
  | _ :: t => set_datarate_calls t

/-- The timers added with `g_timeout_add`, oldest first: interval in
milliseconds and owner. -/
def timeouts_armed : List Obs → List (Nat × RetryTimer)
  | [] => []
  | .call_timeout_add interval func :: t => (interval, func) :: timeouts_armed t
  | _ :: t => timeouts_armed t

/-- The number of `start` calls issued. -/
def start_calls : List Obs → Nat
  | [] => 0
  | .call_start _ :: t => start_calls t + 1
  | _ :: t => start_calls t

/-! ## Invariants of the composed system -/

/-- States in which the Reporting is working with the daemon or holds a
result: every state except `INITIAL`, `DISABLED` and `FINAL`. -/
def SfwReportingState.engaged : SfwReportingState → Bool
  | .INITIAL => false
  | .DISABLED => false
  | .FINAL => false
  | _ => true

/-- States in which the Sensor works on a session: every state except
`INITIAL`, `DISABLED` and `FINAL`. -/
def SfwSensorState.engaged : SfwSensorState → Bool
  | .INITIAL => false
  | .DISABLED => false
  | .FINAL => false
  | _ => true

/-- States in which the Plugin relies on the Service: `LOADING`, `READY` and
`FAILED`. -/
def SfwPluginState.engaged : SfwPluginState → Bool
  | .LOADING => true
  | .READY => true
  | .FAILED => true
  | _ => false

/-- The Reporting's flags follow its state, and the Sensor mirrors `active`. -/
def KRf (s : System) : Prop :=
  (s.rpt.rpt_active = true ↔ s.rpt.rpt_state = .STARTED) ∧
  (s.rpt.rpt_valid = true ↔ (s.rpt.rpt_state = .STARTED ∨ s.rpt.rpt_state = .STOPPED)) ∧
  s.sns.sns_active = s.rpt.rpt_active

/-- The Reporting's reconciliation data: a call handle is held only in the
state that issued the call; in `CONFIGURE` and `STARTED` the effective enable
value is the requested one; in `STARTED` all three effective values are the
requested ones. -/
def RDc (s : System) : Prop :=
  (s.rpt.rpt_state ≠ .STARTING → s.rpt.rpt_state ≠ .STOPPING →
    s.rpt.rpt_enable_cancellable = none) ∧
  (s.rpt.rpt_state ≠ .CONFIGURE →
    s.rpt.rpt_datarate_cancellable = none ∧ s.rpt.rpt_override_cancellable = none) ∧
  (s.rpt.rpt_state = .CONFIGURE → s.rpt.rpt_enable_effective = s.rpt.rpt_enable_requested) ∧
  (s.rpt.rpt_state = .STARTED →
    s.rpt.rpt_enable_effective = s.rpt.rpt_enable_requested ∧
    dbl_ne s.rpt.rpt_datarate_effective s.rpt.rpt_datarate_requested = false ∧
    s.rpt.rpt_override_effective = s.rpt.rpt_override_requested)

/-- In `STARTED` with no evaluation scheduled, every wanted value compares
equal to the effective one. -/
def RDw (s : System) : Prop :=
  s.rpt.rpt_state = .STARTED → s.rpt.rpt_eval_state_id = false →
    b2i s.rpt.rpt_enable_wanted = s.rpt.rpt_enable_effective ∧
    dbl_ne s.rpt.rpt_datarate_wanted s.rpt.rpt_datarate_effective = false ∧
    b2i s.rpt.rpt_override_wanted = s.rpt.rpt_override_effective

/-- The reconciliation invariant of the Reporting. -/
def RD (s : System) : Prop := RDc s ∧ RDw s

/-- The Reporting is consistent with its Sensor: the flags follow the state,
the reconciliation data are coherent, and an engaged Reporting has a valid
Sensor. -/
def KR (s : System) : Prop :=
  KRf s ∧ RD s ∧ (s.rpt.rpt_state.engaged = true → s.sns.sns_valid = true)

/-- The data socket is closed and both callback slots hold the `unexpected`
handlers. -/
def SockClosed (s : System) : Prop :=
  s.sns.sns_socket_fd = -1 ∧ s.sock = none ∧
  s.sns.sns_socket_rx_id = false ∧ s.sns.sns_socket_tx_id = false ∧
  s.sns.sns_socket_rx_cb = .rx_unexpected ∧ s.sns.sns_socket_tx_cb = .tx_unexpected

/-- The Sensor's own bookkeeping: `valid` only in `READY`, outside `CONNECT`
and `READY` the data socket is closed, and there is no socket without a
descriptor. -/
def JS (s : System) : Prop :=
  (s.sns.sns_valid = true → s.sns.sns_state = .READY) ∧
  (s.sns.sns_state ≠ .CONNECT → s.sns.sns_state ≠ .READY → SockClosed s) ∧
  (s.sns.sns_socket_fd = -1 → s.sock = none)

/-- The Sensor and everything below it are consistent with the Plugin. -/
def KS (s : System) : Prop :=
  JS s ∧
  (s.sns.sns_state.engaged = true → s.sns.sns_plugin = true ∧ s.plg.plg_valid = true) ∧
  KR s

/-- The Plugin's own bookkeeping: `valid` only in `READY`, a Plugin nobody
has attached to is still in `INITIAL`, and everything below is consistent. -/
def KPw (s : System) : Prop :=
  (s.plg.plg_valid = true → s.plg.plg_state = .READY) ∧
  (s.sns.sns_plugin = false → s.plg.plg_state = .INITIAL) ∧
  KS s

/-- The Plugin and everything below it are consistent with the Service. -/
def KP (s : System) : Prop :=
  KPw s ∧ (s.plg.plg_state.engaged = true → s.srv.srv_valid = true)

/-- The invariant of the composed system. -/
def Inv (s : System) : Prop :=
  (s.srv.srv_valid = true → s.srv.srv_state = .READY) ∧ KP s

/-- The Sensor's private data with the `active` mirror masked. -/
def sns_noact (x : SfwSensorPrivate) : SfwSensorPrivate := { x with sns_active := false }

/-- What a Reporting function may change outside the Reporting itself: the
Sensor's `active` mirror, the handle allocator, the calls in flight and the
trace. -/
def FrameR (s s' : System) : Prop :=
  s'.srv = s.srv ∧ s'.plg = s.plg ∧ s'.os = s.os ∧ s'.sock = s.sock ∧
  sns_noact s'.sns = sns_noact s.sns ∧
  readings_emitted s'.trace = readings_emitted s.trace

/-- What a Sensor function may change outside the Sensor and its Reporting. -/
def FrameS (s s' : System) : Prop :=
  s'.srv = s.srv ∧ s'.plg = s.plg ∧ s'.os = s.os ∧ s'.sns.sns_plugin = s.sns.sns_plugin ∧
  s'.sns.sns_reading = s.sns.sns_reading ∧
  readings_emitted s'.trace = readings_emitted s.trace

/-- What a Plugin function may change outside the Plugin and the tiers below. -/
def FrameP (s s' : System) : Prop :=
  s'.srv = s.srv ∧ s'.os = s.os ∧ s'.sns.sns_plugin = s.sns.sns_plugin ∧
  s'.plg.plg_id = s.plg.plg_id

/-- What the Sensor's own bookkeeping functions leave alone: the Reporting,
the `valid` and `active` flags, the Sensor state, the tiers above and the
platform. -/
def SameBelow (s s' : System) : Prop :=
  s'.rpt = s.rpt ∧ s'.sns.sns_valid = s.sns.sns_valid ∧ s'.sns.sns_active = s.sns.sns_active ∧
  s'.srv = s.srv ∧ s'.plg = s.plg ∧ s'.os = s.os ∧ s'.sns.sns_plugin = s.sns.sns_plugin ∧
  s'.sns.sns_state = s.sns.sns_state ∧ s'.sns.sns_reading = s.sns.sns_reading ∧
  readings_emitted s'.trace = readings_emitted s.trace


/-- The data socket and its bookkeeping are untouched. -/
def SockSame (s s' : System) : Prop :=
  s'.sock = s.sock ∧ s'.sns.sns_socket_fd = s.sns.sns_socket_fd ∧
  s'.sns.sns_socket_rx_id = s.sns.sns_socket_rx_id ∧
  s'.sns.sns_socket_tx_id = s.sns.sns_socket_tx_id ∧
  s'.sns.sns_socket_rx_cb = s.sns.sns_socket_rx_cb ∧
  s'.sns.sns_socket_tx_cb = s.sns.sns_socket_tx_cb

/-- What the socket reader leaves alone: everything `SameBelow` lists except
the reading slot and the readings delivered. -/
def SameCore (s s' : System) : Prop :=
  s'.rpt = s.rpt ∧ s'.sns.sns_valid = s.sns.sns_valid ∧ s'.sns.sns_active = s.sns.sns_active ∧
  s'.srv = s.srv ∧ s'.plg = s.plg ∧ s'.os = s.os ∧ s'.sns.sns_plugin = s.sns.sns_plugin ∧
  s'.sns.sns_state = s.sns.sns_state

/-- The socket bookkeeping is untouched and no socket appears from nowhere. -/
def SockKeep (s s' : System) : Prop :=
  (s.sock = none → s'.sock = none) ∧ s'.sns.sns_socket_fd = s.sns.sns_socket_fd ∧
  s'.sns.sns_socket_rx_id = s.sns.sns_socket_rx_id ∧
  s'.sns.sns_socket_tx_id = s.sns.sns_socket_tx_id ∧
  s'.sns.sns_socket_rx_cb = s.sns.sns_socket_rx_cb ∧
  s'.sns.sns_socket_tx_cb = s.sns.sns_socket_tx_cb

/-- What the Sensor tier never touches: the Service, the Plugin, the platform
and the Sensor's link to its Plugin. -/
def UpperSame (s s' : System) : Prop :=
  s'.srv = s.srv ∧ s'.plg = s.plg ∧ s'.os = s.os ∧ s'.sns.sns_plugin = s.sns.sns_plugin

/-- A change confined to the Plugin's private bookkeeping. -/
def PlgLocal (s s' : System) : Prop :=
  s'.srv = s.srv ∧ s'.sns = s.sns ∧ s'.rpt = s.rpt ∧ s'.sock = s.sock ∧ s'.os = s.os ∧
  s'.plg.plg_valid = s.plg.plg_valid ∧ s'.plg.plg_state = s.plg.plg_state ∧
  s'.plg.plg_id = s.plg.plg_id

/-- A change confined to the Service's private bookkeeping. -/
def SrvLocal (s s' : System) : Prop :=
  s'.plg = s.plg ∧ s'.sns = s.sns ∧ s'.rpt = s.rpt ∧ s'.sock = s.sock ∧ s'.os = s.os ∧
  s'.srv.srv_valid = s.srv.srv_valid ∧ s'.srv.srv_state = s.srv.srv_state

/-- What the Service's helpers need from the state setter they are given for
nested requests: it keeps the invariant, and it does not make the Service
valid unless `READY` is requested. -/
def SrvOk (f : System → SfwServiceState → System) : Prop :=
  ∀ (s : System) (st : SfwServiceState), Inv s →
    Inv (f s st) ∧ (s.srv.srv_valid = false → st ≠ .READY → (f s st).srv.srv_valid = false)

/-! ## Example runs

A platform on which every system call succeeds, and event sequences that
bring a proximity Sensor up, start its Reporting, and exercise the datarate
reconciliation. -/

/-- A platform where the socket opens as descriptor 5 and every call succeeds. -/
def example_os : Os :=
  { abi := .natural
    socket_open_result := 5
    add_notify_tx_ok := true
    add_notify_rx_ok := true
    send_result := 4
    set_blocking_ok := true
    pid := 1234 }

/-- The `double` 10.0. -/
def DBL_10 : Nat := 0x4024000000000000

/-- The `double` 20.0. -/
def DBL_20 : Nat := 0x4034000000000000

/-- Events that bring the Service, the Plugin and the Sensor to `READY`: the
bus connection, the name owner, the plugin list, the plugin load, the session,
the properties, and the socket handshake in both directions. -/
def ready_events : List Event :=
  [.bus_get_done true, .name_owner_appeared ":1.5",
   .enumerate_done (some ["proximitysensor"]), .srv_eval, .plg_eval,
   .load_done (some true), .plg_eval, .sns_eval, .request_session_done (some 42), .sns_eval,
   .get_properties_done (some []), .sns_eval, .socket_tx_ready, .daemon_send [10],
   .socket_rx_ready, .sns_eval]

/-- The events of `ready_events`, then `sfwsensor_start` and the evaluations
and the `start` acknowledgement that take the Reporting to `STARTED`. -/
def start_events : List Event :=
  ready_events ++
    [.user_start, .rpt_eval, .rpt_eval, .enable_done true, .rpt_eval, .rpt_eval, .rpt_eval]

/-- A proximity Sensor that is `READY` with its Reporting idle. -/
def ready_system : System := run (sfwsensor_new example_os SFW_SENSOR_ID_PROXIMITY) ready_events

/-- A proximity Sensor whose Reporting is `STARTED` with nothing pending. -/
def started_system : System :=
  run (sfwsensor_new example_os SFW_SENSOR_ID_PROXIMITY) start_events

/-- The state right after `sfwsensor_set_datarate(10.0)` is called on
`started_system`, before the main loop runs the deferred evaluation. -/
def retuned_system : System := step started_system (.user_set_datarate DBL_10)

/-- A run in which the wanted datarate changes while the Reporting is between
`RETHINK` and the acknowledgement of `setDataRate`: 10.0 is wanted when
`RETHINK` takes its snapshot, 20.0 when `CONFIGURE` is entered, and 10.0 again
before the call is acknowledged. -/
def datarate_race_events : List Event :=
  ready_events ++
    [.user_set_datarate DBL_10, .user_start, .rpt_eval, .rpt_eval,
     .user_set_datarate DBL_20, .enable_done true, .rpt_eval,
     .user_set_datarate DBL_10, .datarate_done true, .rpt_eval, .rpt_eval]

/-- The state at the end of `datarate_race_events`. -/
def datarate_race_system : System :=
  run (sfwsensor_new example_os SFW_SENSOR_ID_PROXIMITY) datarate_race_events

/-! ## What a read pass is expected to produce -/

/-- What one received sample does to the reading slot, in the words of the
specification: the bytes are copied to the start of the sample union, then
the reading is normalized. -/
def decode_sample (abi : Abi) (slot : SfwReading) (bytes : List Nat) : SfwReading :=
  sfwreading_normalize abi { slot with sample := mem_store slot.sample bytes }

/-- The readings a pass makes of the samples it receives, in the order
received; each one is decoded over the slot the previous one left. -/
def decode_samples (abi : Abi) : SfwReading → List (List Nat) → List SfwReading
  | _, [] => []
  | slot, b :: t => decode_sample abi slot b :: decode_samples abi (decode_sample abi slot b) t

/-- The wire frame of one proximity sample as the daemon sends it, the sample
being the 16 bytes of a `struct SfwSampleProximity`: count 1, timestamp 1000,
distance 5, proximity 1, three bytes of padding. -/
def proximity_frame_padded : List Nat :=
  [1, 0, 0, 0, 0xE8, 3, 0, 0, 0, 0, 0, 0, 5, 0, 0, 0, 1, 0, 0, 0]

/-- The same frame with a 13-byte sample, the fields laid out back to back
without padding. -/
def proximity_frame_packed : List Nat :=
  [1, 0, 0, 0, 0xE8, 3, 0, 0, 0, 0, 0, 0, 5, 0, 0, 0, 1]

/-- A frame that announces 17 samples. -/
def oversized_count_frame : List Nat := [17, 0, 0, 0]

/-- The wire frame of two padded proximity samples: count 2; timestamp 1000,
distance 5, proximity 1; timestamp 2000, distance 7, proximity 0. -/
def proximity_frame_pair : List Nat :=
  [2, 0, 0, 0,
   0xE8, 3, 0, 0, 0, 0, 0, 0, 5, 0, 0, 0, 1, 0, 0, 0,
   0xD0, 7, 0, 0, 0, 0, 0, 0, 7, 0, 0, 0, 0, 0, 0, 0]

/-- The two samples of `proximity_frame_pair`, 16 bytes each. -/
def proximity_pair_samples : List (List Nat) :=
  [(proximity_frame_pair.drop 4).take 16, proximity_frame_pair.drop 20]

/-- The started example with `proximity_frame_pair` waiting in the socket. -/
def pair_fed_system : System := step started_system (.daemon_send proximity_frame_pair)

/-- The members `timestamp`, `distance` and `proximity` of the proximity
sample held by a reading, on the natural ABI. -/
def proximity_members (r : SfwReading) : Nat × Nat × Nat :=
  (mem_rd r.sample (c_offsetof Abi.natural SfwSampleProximity 0) 8,
   mem_rd r.sample (c_offsetof Abi.natural SfwSampleProximity 1) 4,
   mem_rd r.sample (c_offsetof Abi.natural SfwSampleProximity 2) 1)

/-- The started example with `proximity_frame_padded` waiting in the socket. -/
def fed_system : System := step started_system (.daemon_send proximity_frame_padded)

/-- The started example with `proximity_frame_packed` waiting in the socket. -/
def underfed_system : System := step started_system (.daemon_send proximity_frame_packed)

/-- The started example with `oversized_count_frame` waiting in the socket. -/
def jammed_system : System := step started_system (.daemon_send oversized_count_frame)

/-- The data socket of the started example holding the given input: the
session id 42 has been written to it and it has been switched to blocking. -/
def example_socket (rx : List Nat) : Socket :=
  { rx := rx, eof := false, tx := [42, 0, 0, 0], blocking := true }

/-- The accelerometer sample of the normalization scenario as it arrives on
the wire: timestamp 0, x = 1000.0f, y = 0.0f, z = 0.0f. -/
def accelerometer_wire_sample : List Nat :=
  [0, 0, 0, 0, 0, 0, 0, 0, 0x00, 0x00, 0x7A, 0x44, 0, 0, 0, 0, 0, 0, 0, 0]

/-! ## Further example runs

Runs on `example_os` in which a call is rejected, a reply is late or missing,
or the daemon restarts. -/

/-- A quiet NaN `double`. -/
def DBL_NAN : Nat := 0x7FF8000000000000

/-- The proximity pipeline after the given events. -/
def proximity_run (evs : List Event) : System :=
  run (sfwsensor_new example_os SFW_SENSOR_ID_PROXIMITY) evs

/-- The datarate -1.0 is requested and the Reporting started; `start` is
acknowledged, `setDataRate` fails, and the evaluation that follows runs. -/
def negative_datarate_events : List Event :=
  ready_events ++
    [.user_set_datarate INVALID_DATARATE, .user_start, .rpt_eval, .rpt_eval, .enable_done true,
     .rpt_eval, .datarate_done false, .rpt_eval]

/-- A NaN datarate is requested and `sfwsensor_start` called once; every call
the library issues is acknowledged, and the retry timer fires once. -/
def nan_datarate_events : List Event :=
  ready_events ++
    [.user_set_datarate DBL_NAN, .user_start, .rpt_eval, .rpt_eval, .enable_done true,
     .rpt_eval, .datarate_done true, .rpt_eval, .rpt_retry, .rpt_eval, .rpt_eval]

/-- The Sensor is brought to `CONNECT`, the socket becomes writable and the
session id is written; the daemon has not replied when the next evaluation
runs. -/
def handshake_unanswered_events : List Event :=
  [.bus_get_done true, .name_owner_appeared ":1.5",
   .enumerate_done (some ["proximitysensor"]), .srv_eval, .plg_eval,
   .load_done (some true), .plg_eval, .sns_eval, .request_session_done (some 42), .sns_eval,
   .get_properties_done (some []), .sns_eval, .socket_tx_ready, .sns_eval]

/-- The Sensor is brought to `PROPERTIES`, the `GetAll` call fails, and the
evaluation that follows runs. -/
def properties_failed_events : List Event :=
  [.bus_get_done true, .name_owner_appeared ":1.5",
   .enumerate_done (some ["proximitysensor"]), .srv_eval, .plg_eval,
   .load_done (some true), .plg_eval, .sns_eval, .request_session_done (some 42), .sns_eval,
   .get_properties_done none, .sns_eval]

/-- The Service is brought to `ENUMERATING`, the `availableSensorPlugins` call
fails, and the evaluation that follows runs. -/
def enumerate_failed_events : List Event :=
  [.bus_get_done true, .name_owner_appeared ":1.5", .enumerate_done none, .srv_eval]

/-- The Plugin issues `loadPlugin`; before the reply arrives the daemon is
replaced by a new owner of the name, the Service enumerates again and the
Plugin issues a second `loadPlugin`. -/
def reload_events : List Event :=
  [.bus_get_done true, .name_owner_appeared ":1.5",
   .enumerate_done (some ["proximitysensor"]), .srv_eval, .plg_eval,
   .name_owner_appeared ":1.6", .enumerate_done (some ["proximitysensor"]), .srv_eval,
   .plg_eval]

/-- After `reload_events`, the reply `true` to the first `loadPlugin` call
arrives and the evaluation that follows runs. -/
def stale_load_events : List Event := reload_events ++ [.load_done (some true), .plg_eval]

/-! ## How a tier acts on the tiers below it

A tier reaches the tier below only through that tier's reset function, run by
the valid-changed signal.  A property of one tier's private data therefore
survives everything the tiers above do as soon as it survives the reset. -/

/-- The tier an event is dispatched to: 0 for the Reporting (user calls
included), 1 for the Sensor, 2 for the Plugin, 3 for the Service, and 4 for a
change in the environment. -/
def Event.tier : Event → Nat
  | .user_start => 0
  | .user_stop => 0
  | .user_set_datarate _ => 0
  | .user_set_alwayson _ => 0
  | .rpt_eval => 0
  | .rpt_retry => 0
  | .enable_done _ => 0
  | .datarate_done _ => 0
  | .override_done _ => 0
  | .sns_eval => 1
  | .sns_retry => 1
  | .request_session_done _ => 1
  | .release_session_done _ => 1
  | .get_properties_done _ => 1
  | .socket_tx_ready => 1
  | .socket_rx_ready => 1
  | .plg_eval => 2
  | .plg_retry => 2
  | .load_done _ => 2
  | .srv_eval => 3
  | .srv_retry => 3
  | .bus_get_done _ => 3
  | .enumerate_done _ => 3
  | .name_owner_appeared _ => 3
  | .name_owner_vanished => 3
  | .daemon_send _ => 4
  | .daemon_close => 4
  | .os_change _ => 4

/-- The Reporting's private data changed, if at all, by resets only. -/
def RptTouch (s s' : System) : Prop :=
  ∀ X : SfwReportingPrivate → Prop,
    (∀ a : System, X a.rpt → X (sfwreporting_stm_reset_state a).rpt) → X s.rpt → X s'.rpt

/-- The Sensor's private data, the `active` mirror apart, changed, if at all,
by resets only. -/
def SnsTouch (s s' : System) : Prop :=
  ∀ X : SfwSensorPrivate → Prop,
    (∀ a : System, X (sns_noact a.sns) → X (sns_noact (sfwsensor_stm_reset_state a).sns)) →
    X (sns_noact s.sns) → X (sns_noact s'.sns)

/-- The Plugin's private data changed, if at all, by resets only. -/
def PlgTouch (s s' : System) : Prop :=
  ∀ X : SfwPluginPrivate → Prop,
    (∀ a : System, X a.plg → X (sfwplugin_stm_reset_state a).plg) → X s.plg → X s'.plg

/-- What a Sensor function does outside the Sensor: it may reset the
Reporting, and it leaves the Plugin and the Service alone. -/
def BelowSensor (s s' : System) : Prop :=
  RptTouch s s' ∧ s'.plg = s.plg ∧ s'.srv = s.srv

/-- What a Plugin function does outside the Plugin: it may reset the Sensor,
which may reset the Reporting, and it leaves the Service alone. -/
def BelowPlugin (s s' : System) : Prop :=
  RptTouch s s' ∧ SnsTouch s s' ∧ s'.srv = s.srv

/-- What a Service function does outside the Service: it may reset the
Plugin, with what follows from that. -/
def BelowService (s s' : System) : Prop :=
  RptTouch s s' ∧ SnsTouch s s' ∧ PlgTouch s s'

/-! ## Bookkeeping invariants of the single tiers -/

/-- The Sensor's session bookkeeping: the object has not been finalized;
without a session in progress (`INITIAL`, `DISABLED`) there is no session id; a
`requestSensor` handle is held only in `SESSION` and only while there is no
session id; a retry timer is pending only in `FAILED`; the reading slot is
tagged with the kind the Sensor was created for. -/
def SnsBook (id : SfwSensorId) (x : SfwSensorPrivate) : Prop :=
  x.sns_state ≠ .FINAL ∧
  (x.sns_state = .INITIAL ∨ x.sns_state = .DISABLED → x.sns_session_id = SESSION_ID_INVALID) ∧
  (x.sns_request_session_cancellable ≠ none →
    x.sns_state = .SESSION ∧ x.sns_session_id = SESSION_ID_INVALID) ∧
  (x.sns_retry_delay_id = true → x.sns_state = .FAILED) ∧
  x.sns_reading.sensor_id = id

/-- The pipeline is brought to `READY`, then the daemon leaves the bus. -/
def vanished_events : List Event := ready_events ++ [.name_owner_vanished]

/-- The pipeline is brought to `READY`, the daemon closes the data socket and
the Sensor notices, and the retry timer of the Sensor fires. -/
def socket_lost_events : List Event :=
  ready_events ++ [.daemon_close, .socket_rx_ready, .sns_retry]

/-- The started example with the reading slot tagged with the invalid kind 0
and `proximity_frame_padded` waiting in the socket. -/
def untagged_system : System :=
  { fed_system with sns := { fed_system.sns with
      sns_reading := { fed_system.sns.sns_reading with sensor_id := SFW_SENSOR_ID_INVALID } } }

/-- The Plugin's load bookkeeping: the object has not been finalized; a
`loadPlugin` handle is held only in `LOADING` and only while the success flag
is clear; a retry timer is pending only in `FAILED`. -/
def PlgBook (x : SfwPluginPrivate) : Prop :=
  x.plg_state ≠ .FINAL ∧
  (x.plg_load_cancellable ≠ none → x.plg_state = .LOADING ∧ x.plg_load_succeeded = false) ∧
  (x.plg_retry_delay_id = true → x.plg_state = .FAILED)

/-- The Reporting's retry bookkeeping: the object has not been finalized, and
a retry timer is pending only in `FAILED`. -/
def RptBook (x : SfwReportingPrivate) : Prop :=
  x.rpt_state ≠ .FINAL ∧ (x.rpt_retry_delay_id = true → x.rpt_state = .FAILED)

/-- The Reporting has been stopped or disabled and has not entered
`CONFIGURE` since: it is in one of the states on the way there, the effective
datarate and override hold their defaults, and no `setDataRate` or
`setStandbyOverride` call is pending. -/
def RptFresh (x : SfwReportingPrivate) : Prop :=
  (x.rpt_state = .DISABLED ∨ x.rpt_state = .RETHINK ∨ x.rpt_state = .STARTING ∨
    x.rpt_state = .STOPPING ∨ x.rpt_state = .STOPPED ∨ x.rpt_state = .FAILED) ∧
  x.rpt_datarate_effective = DEFAULT_DATARATE ∧
  x.rpt_override_effective = b2i DEFAULT_OVERRIDE ∧
  x.rpt_datarate_cancellable = none ∧ x.rpt_override_cancellable = none

/-- The calls `CONFIGURE` issues on entry when the effective datarate and
override hold their defaults: `setDataRate` with the wanted datarate if the
requested datarate differs from 0, then `setStandbyOverride` with the wanted
override if the requested override differs from `false`. -/
def configure_calls (s : System) : List Obs :=
  (if dbl_ne s.rpt.rpt_datarate_requested DEFAULT_DATARATE then
    [Obs.call_set_datarate s.sns.sns_session_id s.rpt.rpt_datarate_wanted]
   else []) ++
  (if s.rpt.rpt_override_requested ≠ b2i DEFAULT_OVERRIDE then
    [Obs.call_set_override s.sns.sns_session_id s.rpt.rpt_override_wanted]
   else [])

/-- A stop and start cycle on the started example with the datarate 10.0 and
the standby override wanted, up to the evaluation that enters `CONFIGURE`
again. -/
def restart_events : List Event :=
  start_events ++
    [.user_set_datarate DBL_10, .user_set_alwayson true, .rpt_eval, .rpt_eval,
     .rpt_eval, .datarate_done true, .override_done true, .rpt_eval, .rpt_eval,
     .user_stop, .rpt_eval, .rpt_eval, .enable_done true, .rpt_eval,
     .user_start, .rpt_eval, .rpt_eval, .enable_done true, .rpt_eval]

/-- The step from `s` to `t` entered `CONFIGURE` and issued exactly
`configure_calls s`, keeping a handle for each call issued. -/
def EntersConfigure (s t : System) : Prop :=
  t.rpt.rpt_state = .CONFIGURE ∧
  t.trace = s.trace ++ configure_calls s ∧
  (t.rpt.rpt_datarate_cancellable ≠ none ↔
    dbl_ne s.rpt.rpt_datarate_requested DEFAULT_DATARATE = true) ∧
  (t.rpt.rpt_override_cancellable ≠ none ↔ s.rpt.rpt_override_requested ≠ b2i DEFAULT_OVERRIDE)

/-- The Plugin issues `loadPlugin`, the call fails, and the evaluation that
follows runs: the Plugin is in `FAILED` with its retry timer pending. -/
def load_failed_events : List Event := ready_events.take 5 ++ [.load_done none, .plg_eval]

/-! ## Finalized tiers -/

/-- The Reporting has been finalized: it is in `FINAL`, no evaluation is
scheduled, and it is neither valid nor active. -/
def RptFinal (x : SfwReportingPrivate) : Prop :=
  x.rpt_state = .FINAL ∧ x.rpt_eval_state_id = false ∧ x.rpt_valid = false ∧
  x.rpt_active = false

/-- The Sensor has been finalized: it is in `FINAL`, no evaluation is
scheduled, and it is not valid. -/
def SnsFinal (x : SfwSensorPrivate) : Prop :=
  x.sns_state = .FINAL ∧ x.sns_eval_state_id = false ∧ x.sns_valid = false

/-- The Service has been finalized: it is in `FINAL`, no evaluation is
scheduled, and it is not valid. -/
def SrvFinal (x : SfwServicePrivate) : Prop :=
  x.srv_state = .FINAL ∧ x.srv_eval_state_id = false ∧ x.srv_valid = false

/-- The Service's state, its scheduled evaluation and its `valid` flag are
the same in both systems. -/
def SrvStill (s s' : System) : Prop :=
  s'.srv.srv_state = s.srv.srv_state ∧ s'.srv.srv_eval_state_id = s.srv.srv_eval_state_id ∧
  s'.srv.srv_valid = s.srv.srv_valid

/-! ## The Service's bookkeeping -/

/-- The Service's state, name owner, name watch, connection and pending
`g_bus_get` handle are the same in both systems. -/
def SrvCore (s s' : System) : Prop :=
  s'.srv.srv_state = s.srv.srv_state ∧ s'.srv.srv_name_owner = s.srv.srv_name_owner ∧
  s'.srv.srv_name_watcher_id = s.srv.srv_name_watcher_id ∧
  s'.srv.srv_connection = s.srv.srv_connection ∧
  s'.srv.srv_bus_get_cancellable = s.srv.srv_bus_get_cancellable

/-- The Service's bookkeeping: it is in one of `INITIAL`, `DISABLED`,
`ENUMERATING` and `READY`; the name owner is never the empty string, and it is
known exactly in `ENUMERATING` and `READY`; a known name owner implies an
installed name watch, which implies a connection; in `INITIAL` there is no
connection and no pending `g_bus_get`. -/
def SrvBook (x : SfwServicePrivate) : Prop :=
  (x.srv_state = .INITIAL ∨ x.srv_state = .DISABLED ∨ x.srv_state = .ENUMERATING ∨
    x.srv_state = .READY) ∧
  x.srv_name_owner ≠ some "" ∧
  (x.srv_name_owner ≠ none ↔ (x.srv_state = .ENUMERATING ∨ x.srv_state = .READY)) ∧
  (x.srv_name_owner ≠ none → x.srv_name_watcher_id = true) ∧
  (x.srv_name_watcher_id = true → x.srv_connection = true) ∧
  (x.srv_state = .INITIAL → x.srv_connection = false ∧ x.srv_bus_get_cancellable = none)

/-! ## sfwlogging.c: verbosity, patterns and the per-site cache

The pattern matcher `fnmatch` of the C library is a parameter: `fnmatch p k`
tells whether `fnmatch(p, k, 0)` returns 0.  The output target and the
formatting of messages are not modelled. -/

abbrev EMIT_UNKNOWN : Int := 0
abbrev EMIT_ENABLED : Int := 1
abbrev EMIT_DISABLED : Int := 2

abbrev SFWLOG_EMERG : Int := 0
abbrev SFWLOG_WARNING : Int := 4
abbrev SFWLOG_DEBUG : Int := 7
abbrev SFWLOG_TRACE : Int := SFWLOG_DEBUG + 1
abbrev SFWLOG_MINLEV : Int := SFWLOG_EMERG
abbrev SFWLOG_MAXLEV : Int := SFWLOG_TRACE
abbrev SFWLOG_DEFLEV : Int := SFWLOG_WARNING

/-- The file-scope variables of `sfwlogging.c`; a `NULL` hash table is
`none`, and a table is the list of its entries. -/
structure SfwLogData where
  sfwlog_level : Int
  sfwlog_pattern_hash : Option (List (String × Int))
  sfwlog_pattern_list : List String
  sfwlog_generation : Int

/-- The initial values of the file-scope variables. -/
def sfwlog_data_init : SfwLogData :=
  { sfwlog_level := SFWLOG_DEFLEV
    sfwlog_pattern_hash := none
    sfwlog_pattern_list := []
    sfwlog_generation := 1 }

/-- A `struct SfwLoggingState`, the cell a call site keeps; the line number
is not used by the functions modelled. -/
structure SfwLoggingState where
  file : String
  func : String
  level : Int
  generation : Int
  enabled : Bool

/-- The function `sfwlog_normalize_level`. -/
def sfwlog_normalize_level (level : Int) : Int :=
  if level < SFWLOG_MINLEV then SFWLOG_MINLEV
  else if level > SFWLOG_MAXLEV then SFWLOG_MAXLEV
  else level

/-- The function `sfwlog_lookup_pattern`: the listed string equal to
`pattern`, `none` for `NULL`. -/
def sfwlog_lookup_pattern (g : SfwLogData) (pattern : Option String) : Option String :=
  match pattern with
  | some p => g.sfwlog_pattern_list.find? (fun item => item == p)
  | none => none

/-- The function `sfwlog_lookup_from_list`. -/
def sfwlog_lookup_from_list (fnmatch : String → String → Bool) (g : SfwLogData)
    (key : String) : Int :=
  if g.sfwlog_pattern_list.any (fun item => fnmatch item key) then EMIT_ENABLED
  else EMIT_DISABLED

/-- The function `sfwlog_lookup_from_hash`; a miss gives `NULL`, that is
`EMIT_UNKNOWN`. -/
def sfwlog_lookup_from_hash (g : SfwLogData) (key : String) : Int :=
  match g.sfwlog_pattern_hash with
  | some h =>
    (match h.lookup key with
     | some v => v
     | none => EMIT_UNKNOWN)
  | none => EMIT_UNKNOWN

/-- The function `sfwlog_store_to_hash`. -/
def sfwlog_store_to_hash (g : SfwLogData) (key : String) (emit : Int) : SfwLogData :=
  let h : List (String × Int) :=
    match g.sfwlog_pattern_hash with
    | some h => h
    | none => []
  { g with sfwlog_pattern_hash := some ((key, emit) :: h.filter (fun kv => kv.1 != key)) }

/-- The function `sfwlog_generation_bump`; the `int` counter wraps. -/
def sfwlog_generation_bump (g : SfwLogData) : SfwLogData :=
  { g with sfwlog_generation := wrap_i32 (g.sfwlog_generation + 1)
           sfwlog_pattern_hash := none }

/-- The function `sfwlog_set_verbosity`. -/
def sfwlog_set_verbosity (g : SfwLogData) (level0 : Int) : SfwLogData :=
  let level := sfwlog_normalize_level level0
  if g.sfwlog_level ≠ level then sfwlog_generation_bump { g with sfwlog_level := level }
  else g

/-- The function `sfwlog_add_pattern`. -/
def sfwlog_add_pattern (g : SfwLogData) (pattern : Option String) : SfwLogData :=
  match pattern with
  | some p =>
    if (sfwlog_lookup_pattern g pattern).isNone then
      sfwlog_generation_bump { g with sfwlog_pattern_list := p :: g.sfwlog_pattern_list }
    else g
  | none => g

/-- The function `sfwlog_remove_pattern`: the first listed string equal to
`pattern` is removed. -/
def sfwlog_remove_pattern (g : SfwLogData) (pattern : Option String) : SfwLogData :=
  match sfwlog_lookup_pattern g pattern with
  | some cached =>
    sfwlog_generation_bump
      { g with sfwlog_pattern_list := g.sfwlog_pattern_list.erase cached }
  | none => g

/-- The function `sfwlog_clear_patterns`. -/
def sfwlog_clear_patterns (g : SfwLogData) : SfwLogData :=
  if !g.sfwlog_pattern_list.isEmpty then
    sfwlog_generation_bump { g with sfwlog_pattern_list := [] }
  else g

/-- The function `sfwlog_p_`: the variables afterwards and the result. -/
def sfwlog_p_ (fnmatch : String → String → Bool) (g : SfwLogData)
    (file func : String) (level : Int) : SfwLogData × Bool :=
  if level ≤ g.sfwlog_level then (g, EMIT_ENABLED == EMIT_ENABLED)
  else if g.sfwlog_pattern_list.isEmpty then (g, EMIT_DISABLED == EMIT_ENABLED)
  else
    let key := file ++ ":" ++ func
    let state := sfwlog_lookup_from_hash g key
    if state = EMIT_UNKNOWN then
      let state1 := sfwlog_lookup_from_list fnmatch g key
      (sfwlog_store_to_hash g key state1, state1 == EMIT_ENABLED)
    else (g, state == EMIT_ENABLED)

/-- The function `sfwlogging_state_evaluate`: the variables and the cell
afterwards, and the result. -/
def sfwlogging_state_evaluate (fnmatch : String → String → Bool) (g : SfwLogData)
    (self : SfwLoggingState) : SfwLogData × SfwLoggingState × Bool :=
  if self.generation ≠ g.sfwlog_generation then
    let r := sfwlog_p_ fnmatch g self.file self.func self.level
    (r.1, { self with generation := g.sfwlog_generation, enabled := r.2 }, r.2)
  else (g, self, self.enabled)

/-- A call into the logging module: one of the four configuration functions,
a query from some other call site, or an evaluation of the cell under
study. -/
inductive LogOp where
  | set_verbosity (level : Int)
  | add_pattern (pattern : Option String)
  | remove_pattern (pattern : Option String)
  | clear_patterns
  | query (file func : String) (level : Int)
  | evaluate

/-- The effect of one call on the variables and on the cell. -/
def log_step (fnmatch : String → String → Bool) (st : SfwLogData × SfwLoggingState) :
    LogOp → SfwLogData × SfwLoggingState
  | .set_verbosity level => (sfwlog_set_verbosity st.1 level, st.2)
  | .add_pattern p => (sfwlog_add_pattern st.1 p, st.2)
  | .remove_pattern p => (sfwlog_remove_pattern st.1 p, st.2)
  | .clear_patterns => (sfwlog_clear_patterns st.1, st.2)
  | .query file func level => ((sfwlog_p_ fnmatch st.1 file func level).1, st.2)
  | .evaluate =>
    ((sfwlogging_state_evaluate fnmatch st.1 st.2).1,
      (sfwlogging_state_evaluate fnmatch st.1 st.2).2.1)

/-- A sequence of calls. -/
def log_run (fnmatch : String → String → Bool) (st : SfwLogData × SfwLoggingState)
    (ops : List LogOp) : SfwLogData × SfwLoggingState :=
  ops.foldl (log_step fnmatch) st

/-- The number of calls in a sequence that changed the configuration, that is,
that bumped the generation. -/
def log_changes (fnmatch : String → String → Bool) :
    SfwLogData × SfwLoggingState → List LogOp → Nat
  | _, [] => 0
  | st, op :: ops =>
    (if (log_step fnmatch st op).1.sfwlog_generation ≠ st.1.sfwlog_generation then 1 else 0)
      + log_changes fnmatch (log_step fnmatch st op) ops

/-- The decision of the logging predicate spelled out without the pattern
match cache and without the per-site cell: a message is emitted when its
level is within the verbosity, or when some listed pattern matches
`file:func`. -/
def log_decision (fnmatch : String → String → Bool) (g : SfwLogData)
    (file func : String) (level : Int) : Bool :=
  decide (level ≤ g.sfwlog_level) ||
    g.sfwlog_pattern_list.any (fun item => fnmatch item (file ++ ":" ++ func))

/-- The pattern match cache is coherent: every entry holds what the pattern
list gives for its key. -/
def HashOk (fnmatch : String → String → Bool) (g : SfwLogData) : Prop :=
  ∀ h, g.sfwlog_pattern_hash = some h → ∀ k v, h.lookup k = some v →
    v = sfwlog_lookup_from_list fnmatch g k

/-- The state of the module after `n` configuration changes: the generation is
`1 + n` as an `int`, the pattern match cache is coherent, and the cell is
either fresh, or was stamped after `m ≤ n` changes and, if `m = n`, holds the
decision for the present configuration. -/
def LogInv (fnmatch : String → String → Bool) (n : Nat) (g : SfwLogData)
    (c : SfwLoggingState) : Prop :=
  n < 2 ^ 31 ∧ g.sfwlog_generation = wrap_i32 (1 + n) ∧ HashOk fnmatch g ∧
  (c.generation = 0 ∨ ∃ m : Nat, m ≤ n ∧ c.generation = wrap_i32 (1 + m) ∧
    (m = n → c.enabled = log_decision fnmatch g c.file c.func c.level))

/-- An example run: the verbosity is raised to debug, the cell of a trace
message in `f` of `a.c` is evaluated, the pattern `a.c:f` is added, another
site asks, and the cell is evaluated again. -/
def log_example_ops : List LogOp :=
  [.set_verbosity SFWLOG_DEBUG, .evaluate, .add_pattern (some "a.c:f"),
   .query "a.c" "g" SFWLOG_TRACE, .evaluate]

/-- The cell of a trace message in `f` of `a.c`, not evaluated yet. -/
def log_example_cell : SfwLoggingState :=
  { file := "a.c", func := "f", level := SFWLOG_TRACE, generation := 0, enabled := false }

/-! # Theorems -/

set_option maxRecDepth 4000

/-! ## Memory and layout lemmas -/

theorem mem_rd_congr (m1 m2 : Mem) (n : Nat) : ∀ off : Nat,
    (∀ a, off ≤ a → a < off + n → m1 a = m2 a) → mem_rd m1 off n = mem_rd m2 off n := by
  induction n with
  | zero => intro off _; rfl
  | succ n ih =>
    intro off h
    simp only [mem_rd]
    rw [h off (le_refl _) (by omega), ih (off + 1) (fun a h1 h2 => h a (by omega) (by omega))]

theorem mem_rd_lt (m : Mem) (n : Nat) : ∀ off : Nat, mem_rd m off n < 256 ^ n := by
  induction n with
  | zero => intro off; simp [mem_rd]
  | succ n ih =>
    intro off
    have h1 := ih (off + 1)
    have h2 : m off % 256 < 256 := Nat.mod_lt _ (by norm_num)
    simp only [mem_rd, pow_succ]
    nlinarith

theorem mem_rd_wr_same (m : Mem) (n : Nat) : ∀ off v : Nat,
    mem_rd (mem_wr m off n v) off n = v % 256 ^ n := by
  induction n with
  | zero => intro off v; simp [mem_rd, Nat.mod_one]
  | succ n ih =>
    intro off v
    simp only [mem_rd]
    have h0 : mem_wr m off (n + 1) v off = v % 256 := by
      simp [mem_wr]
    have h1 : mem_rd (mem_wr m off (n + 1) v) (off + 1) n
        = mem_rd (mem_wr m (off + 1) n (v / 256)) (off + 1) n := by
      apply mem_rd_congr
      intro a ha hb
      have e : a - off = (a - (off + 1)) + 1 := by omega
      simp only [mem_wr]
      rw [if_pos (by omega), if_pos (by omega), e, pow_succ, Nat.mul_comm, Nat.div_div_eq_div_mul]
    rw [h0, h1, ih, Nat.mod_mod, pow_succ', Nat.mod_mul]

theorem mem_rd_wr_other (m : Mem) (off n v off2 n2 : Nat)
    (h : off2 + n2 ≤ off ∨ off + n ≤ off2) :
    mem_rd (mem_wr m off n v) off2 n2 = mem_rd m off2 n2 := by
  apply mem_rd_congr
  intro a ha hb
  simp only [mem_wr]
  rw [if_neg (by omega)]

theorem to_i32_of_i32 (i : Int) (h0 : -2 ^ 31 ≤ i) (h1 : i < 2 ^ 31) : to_i32 (of_i32 i) = i := by
  unfold to_i32 of_i32
  have hpos : (0 : Int) ≤ i % 2 ^ 32 := Int.emod_nonneg _ (by norm_num)
  have hlt : i % 2 ^ 32 < 2 ^ 32 := Int.emod_lt_of_pos _ (by norm_num)
  have hc : ((i % 2 ^ 32).toNat : Int) = i % 2 ^ 32 := Int.toNat_of_nonneg hpos
  have hm : (i % 2 ^ 32).toNat % 2 ^ 32 = (i % 2 ^ 32).toNat := by
    apply Nat.mod_eq_of_lt
    omega
  rw [hm]
  split
  · omega
  · omega


theorem offsetof_xyz (abi : Abi) :
    c_offsetof abi SfwSampleXyz 1 = 8 ∧ c_offsetof abi SfwSampleXyz 2 = 12 ∧
    c_offsetof abi SfwSampleXyz 3 = 16 := by
  cases abi <;> decide

theorem offsetof_magnetometer_level (abi : Abi) :
    c_offsetof abi SfwSampleMagnetometer 7 = 32 := by
  cases abi <;> decide

theorem offsetof_compass_level (abi : Abi) : c_offsetof abi SfwSampleCompass 4 = 20 := by
  cases abi <;> decide

/-- What `sfwreading_normalize_level` leaves in the slot, as an `int32_t`. -/
theorem normalize_level_value (m : Mem) (p : Nat) :
    to_i32 (mem_rd (sfwreading_normalize_level m p) p 4)
      = (if to_i32 (mem_rd m p 4) ≤ 0 then 0
         else if to_i32 (mem_rd m p 4) ≥ 3 then 100
         else to_i32 (mem_rd m p 4) * 100 / 3) := by
  unfold sfwreading_normalize_level
  simp only []
  rw [mem_rd_wr_same]
  generalize to_i32 (mem_rd m p 4) = level
  by_cases h0 : level ≤ 0
  · simp [h0, of_i32, to_i32]
  · by_cases h3 : level ≥ 3
    · simp [h0, h3, of_i32, to_i32]
    · have h12 : level = 1 ∨ level = 2 := by omega
      rcases h12 with h | h <;> subst h <;> decide

theorem normalize_level_range (level : Int) :
    0 ≤ (if level ≤ 0 then (0 : Int) else if level ≥ 3 then 100 else level * 100 / 3) ∧
    (if level ≤ 0 then (0 : Int) else if level ≥ 3 then 100 else level * 100 / 3) ≤ 100 := by
  by_cases h0 : level ≤ 0
  · simp [h0]
  · by_cases h3 : level ≥ 3
    · simp [h0, h3]
    · have h12 : level = 1 ∨ level = 2 := by omega
      rcases h12 with h | h <;> subst h <;> decide

/-- C4. For a magnetometer or compass reading holding any `int32_t` value
`level`, `sfwreading_normalize` stores 0 when `level <= 0`, 100 when
`level >= 3` and `level * 100 / 3` otherwise (33 for 1, 66 for 2); the stored
value lies in [0, 100], and the product `level * 100` that is computed (only
for `level` 1 or 2) fits an `int32_t`. -/
theorem normalize_level_remap (abi : Abi) (m : Mem) :
    (let p := c_offsetof abi SfwSampleMagnetometer 7
     let level := to_i32 (mem_rd m p 4)
     let out := to_i32 (mem_rd (sfwreading_normalize abi ⟨SFW_SENSOR_ID_MAGNETOMETER, m⟩).sample p 4)
     out = (if level ≤ 0 then 0 else if level ≥ 3 then 100 else level * 100 / 3)
       ∧ 0 ≤ out ∧ out ≤ 100) ∧
    (let p := c_offsetof abi SfwSampleCompass 4
     let level := to_i32 (mem_rd m p 4)
     let out := to_i32 (mem_rd (sfwreading_normalize abi ⟨SFW_SENSOR_ID_COMPASS, m⟩).sample p 4)
     out = (if level ≤ 0 then 0 else if level ≥ 3 then 100 else level * 100 / 3)
       ∧ 0 ≤ out ∧ out ≤ 100) ∧
    (∀ level : Int, ¬ level ≤ 0 → ¬ level ≥ 3 →
      wrap_i32 (level * 100) = level * 100 ∧ -2 ^ 31 ≤ level * 100 ∧ level * 100 < 2 ^ 31) ∧
    ((1 : Int) * 100 / 3 = 33 ∧ (2 : Int) * 100 / 3 = 66) := by
  refine ⟨?_, ?_, ?_, by decide⟩
  · have e : (sfwreading_normalize abi ⟨SFW_SENSOR_ID_MAGNETOMETER, m⟩).sample
        = sfwreading_normalize_level m (c_offsetof abi SfwSampleMagnetometer 7) := rfl
    simp only [e, normalize_level_value]
    exact ⟨trivial, normalize_level_range _⟩
  · have e : (sfwreading_normalize abi ⟨SFW_SENSOR_ID_COMPASS, m⟩).sample
        = sfwreading_normalize_level m (c_offsetof abi SfwSampleCompass 4) := rfl
    simp only [e, normalize_level_value]
    exact ⟨trivial, normalize_level_range _⟩
  · intro level h0 h3
    have h12 : level = 1 ∨ level = 2 := by omega
    rcases h12 with h | h <;> subst h <;> decide

/-- C4, at a concrete input: level 2 of a magnetometer reading becomes 66. -/
theorem normalize_level_remap_witness :
    to_i32 (mem_rd (sfwreading_normalize Abi.natural
        ⟨SFW_SENSOR_ID_MAGNETOMETER, mem_wr (fun _ => 0) 32 4 2⟩).sample 32 4) = 66 ∧
    wrap_i32 (2 * 100) = 2 * 100 := by
  have h := normalize_level_remap Abi.natural (mem_wr (fun _ => 0) 32 4 2)
  refine ⟨?_, (h.2.2.1 2 (by decide) (by decide)).1⟩
  have h1 := h.1
  simp only [offsetof_magnetometer_level] at h1
  rw [h1.1]
  decide

theorem normalize_invalid (abi : Abi) (r : SfwReading)
    (h : sfwsensorid_is_valid r.sensor_id = false) : sfwreading_normalize abi r = r := by
  simp [sfwreading_normalize, sfwreading_sensor_id, sfwsensorid_info, h]

theorem sensorid_valid_cases (id : Int) (h : sfwsensorid_is_valid id = true) :
    id = 1 ∨ id = 2 ∨ id = 3 ∨ id = 4 ∨ id = 5 ∨ id = 6 ∨ id = 7 ∨ id = 8 ∨ id = 9 ∨
    id = 10 ∨ id = 11 ∨ id = 12 ∨ id = 13 ∨ id = 14 := by
  simp [sfwsensorid_is_valid] at h
  have h' : (0 : Int) < id ∧ id < 15 := h
  omega

theorem normalize_accelerometer (abi : Abi) (m : Mem) :
    sfwreading_normalize abi ⟨SFW_SENSOR_ID_ACCELEROMETER, m⟩
      = ⟨SFW_SENSOR_ID_ACCELEROMETER,
          f32_scale_at (f32_scale_at (f32_scale_at m 8 GRAVITY_EARTH_THOUSANDTH) 12
            GRAVITY_EARTH_THOUSANDTH) 16 GRAVITY_EARTH_THOUSANDTH⟩ := by
  have h := offsetof_xyz abi
  show sfwreading_accelerometer_cb abi _ = _
  simp only [sfwreading_accelerometer_cb, h.1, h.2.1, h.2.2]

theorem normalize_gyroscope (abi : Abi) (m : Mem) :
    sfwreading_normalize abi ⟨SFW_SENSOR_ID_GYROSCOPE, m⟩
      = ⟨SFW_SENSOR_ID_GYROSCOPE,
          f32_scale_at (f32_scale_at (f32_scale_at m 8 MILLI) 12 MILLI) 16 MILLI⟩ := by
  have h := offsetof_xyz abi
  show sfwreading_gyroscope_cb abi _ = _
  simp only [sfwreading_gyroscope_cb, h.1, h.2.1, h.2.2]

theorem normalize_magnetometer (abi : Abi) (m : Mem) :
    sfwreading_normalize abi ⟨SFW_SENSOR_ID_MAGNETOMETER, m⟩
      = ⟨SFW_SENSOR_ID_MAGNETOMETER, sfwreading_normalize_level m 32⟩ := by
  show sfwreading_magnetometer_cb abi _ = _
  simp only [sfwreading_magnetometer_cb, offsetof_magnetometer_level]

theorem normalize_compass (abi : Abi) (m : Mem) :
    sfwreading_normalize abi ⟨SFW_SENSOR_ID_COMPASS, m⟩
      = ⟨SFW_SENSOR_ID_COMPASS, sfwreading_normalize_level m 20⟩ := by
  show sfwreading_compass_cb abi _ = _
  simp only [sfwreading_compass_cb, offsetof_compass_level]

theorem normalize_other (abi : Abi) (r : SfwReading)
    (h4 : r.sensor_id ≠ 4) (h5 : r.sensor_id ≠ 5) (h6 : r.sensor_id ≠ 6) (h9 : r.sensor_id ≠ 9) :
    sfwreading_normalize abi r = r := by
  cases hv : sfwsensorid_is_valid r.sensor_id with
  | false => exact normalize_invalid abi r hv
  | true =>
    obtain ⟨id, m⟩ := r
    simp only at h4 h5 h6 h9 hv
    rcases sensorid_valid_cases id hv with h | h | h | h | h | h | h | h | h | h | h | h | h | h <;>
      subst h <;> first | rfl | contradiction

theorem f32_scale_at_other (m : Mem) (p c a : Nat) (h : a < p ∨ p + 4 ≤ a) :
    f32_scale_at m p c a = m a := by
  simp only [f32_scale_at, mem_wr]
  rw [if_neg (by omega)]

theorem normalize_level_other (m : Mem) (p a : Nat) (h : a < p ∨ p + 4 ≤ a) :
    sfwreading_normalize_level m p a = m a := by
  simp only [sfwreading_normalize_level, mem_wr]
  rw [if_neg (by omega)]

/-- Bytes of the sample that `sfwreading_normalize` may change, per kind: the
members x, y, z of an accelerometer or gyroscope sample, the member level of a
magnetometer or compass sample, nothing else. -/
theorem normalize_bytes (abi : Abi) (r : SfwReading) (a : Nat)
    (h : (r.sensor_id = 4 ∨ r.sensor_id = 6) ∧ (a < 8 ∨ 20 ≤ a) ∨
         r.sensor_id = 9 ∧ (a < 32 ∨ 36 ≤ a) ∨
         r.sensor_id = 5 ∧ (a < 20 ∨ 24 ≤ a) ∨
         (r.sensor_id ≠ 4 ∧ r.sensor_id ≠ 5 ∧ r.sensor_id ≠ 6 ∧ r.sensor_id ≠ 9)) :
    (sfwreading_normalize abi r).sample a = r.sample a := by
  obtain ⟨id, m⟩ := r
  simp only at h
  rcases h with ⟨h | h, ha⟩ | ⟨h, ha⟩ | ⟨h, ha⟩ | ⟨h4, h5, h6, h9⟩
  · subst h
    rw [normalize_accelerometer]
    simp only
    rw [f32_scale_at_other _ _ _ _ (by omega), f32_scale_at_other _ _ _ _ (by omega),
      f32_scale_at_other _ _ _ _ (by omega)]
  · subst h
    rw [normalize_gyroscope]
    simp only
    rw [f32_scale_at_other _ _ _ _ (by omega), f32_scale_at_other _ _ _ _ (by omega),
      f32_scale_at_other _ _ _ _ (by omega)]
  · subst h
    rw [normalize_magnetometer]
    exact normalize_level_other _ _ _ (by omega)
  · subst h
    rw [normalize_compass]
    exact normalize_level_other _ _ _ (by omega)
  · rw [normalize_other abi ⟨id, m⟩ h4 h5 h6 h9]

theorem normalize_sensor_id (abi : Abi) (r : SfwReading) :
    (sfwreading_normalize abi r).sensor_id = r.sensor_id := by
  by_cases h4 : r.sensor_id = 4
  · obtain ⟨id, m⟩ := r; simp only at h4; subst h4; rw [normalize_accelerometer]
  by_cases h5 : r.sensor_id = 5
  · obtain ⟨id, m⟩ := r; simp only at h5; subst h5; rw [normalize_compass]
  by_cases h6 : r.sensor_id = 6
  · obtain ⟨id, m⟩ := r; simp only at h6; subst h6; rw [normalize_gyroscope]
  by_cases h9 : r.sensor_id = 9
  · obtain ⟨id, m⟩ := r; simp only at h9; subst h9; rw [normalize_magnetometer]
  rw [normalize_other abi r h4 h5 h6 h9]

theorem normalize_field (abi : Abi) (r : SfwReading) (p n : Nat)
    (h : (r.sensor_id = 4 ∨ r.sensor_id = 6) ∧ (p + n ≤ 8 ∨ 20 ≤ p) ∨
         r.sensor_id = 9 ∧ (p + n ≤ 32 ∨ 36 ≤ p) ∨
         r.sensor_id = 5 ∧ (p + n ≤ 20 ∨ 24 ≤ p) ∨
         (r.sensor_id ≠ 4 ∧ r.sensor_id ≠ 5 ∧ r.sensor_id ≠ 6 ∧ r.sensor_id ≠ 9)) :
    mem_rd (sfwreading_normalize abi r).sample p n = mem_rd r.sample p n := by
  apply mem_rd_congr
  intro a ha hb
  apply normalize_bytes
  rcases h with ⟨h, ha'⟩ | ⟨h, ha'⟩ | ⟨h, ha'⟩ | h
  · exact Or.inl ⟨h, by omega⟩
  · exact Or.inr (Or.inl ⟨h, by omega⟩)
  · exact Or.inr (Or.inr (Or.inl ⟨h, by omega⟩))
  · exact Or.inr (Or.inr (Or.inr h))

theorem normalize_timestamp (abi : Abi) (r : SfwReading) :
    mem_rd (sfwreading_normalize abi r).sample 0 8 = mem_rd r.sample 0 8 := by
  apply normalize_field
  by_cases h4 : r.sensor_id = 4
  · exact Or.inl ⟨Or.inl h4, by omega⟩
  by_cases h6 : r.sensor_id = 6
  · exact Or.inl ⟨Or.inr h6, by omega⟩
  by_cases h9 : r.sensor_id = 9
  · exact Or.inr (Or.inl ⟨h9, by omega⟩)
  by_cases h5 : r.sensor_id = 5
  · exact Or.inr (Or.inr (Or.inl ⟨h5, by omega⟩))
  exact Or.inr (Or.inr (Or.inr ⟨h4, h5, h6, h9⟩))

/-- C6. `sfwreading_normalize` returns a reading of any kind other than
accelerometer, gyroscope, magnetometer and compass unchanged, an invalid
sensor id included; it never changes the sensor id or the timestamp; in an
accelerometer or gyroscope sample it changes no byte outside x, y, z, in a
magnetometer sample no byte outside level (so x, y, z, rx, ry, rz stay), in a
compass sample no byte outside level (so degrees, raw_degrees and
corrected_degrees stay). -/
theorem normalize_frame (abi : Abi) (r : SfwReading) :
    (r.sensor_id ≠ SFW_SENSOR_ID_ACCELEROMETER → r.sensor_id ≠ SFW_SENSOR_ID_COMPASS →
      r.sensor_id ≠ SFW_SENSOR_ID_GYROSCOPE → r.sensor_id ≠ SFW_SENSOR_ID_MAGNETOMETER →
      sfwreading_normalize abi r = r) ∧
    (sfwsensorid_is_valid r.sensor_id = false → sfwreading_normalize abi r = r) ∧
    (sfwreading_normalize abi r).sensor_id = r.sensor_id ∧
    mem_rd (sfwreading_normalize abi r).sample 0 8 = mem_rd r.sample 0 8 ∧
    (r.sensor_id = SFW_SENSOR_ID_ACCELEROMETER ∨ r.sensor_id = SFW_SENSOR_ID_GYROSCOPE →
      ∀ a, a < c_offsetof abi SfwSampleXyz 1 ∨ c_offsetof abi SfwSampleXyz 3 + 4 ≤ a →
        (sfwreading_normalize abi r).sample a = r.sample a) ∧
    (r.sensor_id = SFW_SENSOR_ID_MAGNETOMETER →
      (∀ a, a < c_offsetof abi SfwSampleMagnetometer 7 ∨
          c_offsetof abi SfwSampleMagnetometer 7 + 4 ≤ a →
        (sfwreading_normalize abi r).sample a = r.sample a) ∧
      (∀ i, 1 ≤ i → i ≤ 6 →
        mem_rd (sfwreading_normalize abi r).sample (c_offsetof abi SfwSampleMagnetometer i) 4
          = mem_rd r.sample (c_offsetof abi SfwSampleMagnetometer i) 4)) ∧
    (r.sensor_id = SFW_SENSOR_ID_COMPASS →
      (∀ a, a < c_offsetof abi SfwSampleCompass 4 ∨ c_offsetof abi SfwSampleCompass 4 + 4 ≤ a →
        (sfwreading_normalize abi r).sample a = r.sample a) ∧
      (∀ i, 1 ≤ i → i ≤ 3 →
        mem_rd (sfwreading_normalize abi r).sample (c_offsetof abi SfwSampleCompass i) 4
          = mem_rd r.sample (c_offsetof abi SfwSampleCompass i) 4)) := by
  refine ⟨normalize_other abi r, normalize_invalid abi r, normalize_sensor_id abi r,
    normalize_timestamp abi r, ?_, ?_, ?_⟩
  · intro h a ha
    have ho := offsetof_xyz abi
    rw [ho.1, ho.2.2] at ha
    exact normalize_bytes abi r a (Or.inl ⟨h, by omega⟩)
  · intro h
    constructor
    · intro a ha
      rw [offsetof_magnetometer_level] at ha
      exact normalize_bytes abi r a (Or.inr (Or.inl ⟨h, by omega⟩))
    · intro i h1 h6
      apply normalize_field
      refine Or.inr (Or.inl ⟨h, Or.inl ?_⟩)
      have : i = 1 ∨ i = 2 ∨ i = 3 ∨ i = 4 ∨ i = 5 ∨ i = 6 := by omega
      rcases this with e | e | e | e | e | e <;> subst e <;> cases abi <;> decide
  · intro h
    constructor
    · intro a ha
      rw [offsetof_compass_level] at ha
      exact normalize_bytes abi r a (Or.inr (Or.inr (Or.inl ⟨h, by omega⟩)))
    · intro i h1 h3
      apply normalize_field
      refine Or.inr (Or.inr (Or.inl ⟨h, Or.inl ?_⟩))
      have : i = 1 ∨ i = 2 ∨ i = 3 := by omega
      rcases this with e | e | e <;> subst e <;> cases abi <;> decide

/-- C6, at concrete inputs: a proximity reading and a reading with the invalid
id 99 come back unchanged, and the member rz (member 6) of a magnetometer
sample is what it was. -/
theorem normalize_frame_witness :
    sfwreading_normalize Abi.natural ⟨SFW_SENSOR_ID_PROXIMITY, fun a => a⟩
      = ⟨SFW_SENSOR_ID_PROXIMITY, fun a => a⟩ ∧
    sfwreading_normalize Abi.natural ⟨99, fun a => a⟩ = ⟨99, fun a => a⟩ ∧
    mem_rd (sfwreading_normalize Abi.natural ⟨SFW_SENSOR_ID_MAGNETOMETER, fun a => a⟩).sample
        (c_offsetof Abi.natural SfwSampleMagnetometer 6) 4
      = mem_rd (fun a => a) (c_offsetof Abi.natural SfwSampleMagnetometer 6) 4 :=
  ⟨(normalize_frame Abi.natural ⟨SFW_SENSOR_ID_PROXIMITY, fun a => a⟩).1
      (by decide) (by decide) (by decide) (by decide),
   (normalize_frame Abi.natural ⟨99, fun a => a⟩).2.1 (by decide),
   ((normalize_frame Abi.natural ⟨SFW_SENSOR_ID_MAGNETOMETER, fun a => a⟩).2.2.2.2.2.1 rfl).2 6
      (by decide) (by decide)⟩

/-! ## Scaling of accelerometer and gyroscope samples (C5)

The product of two `float` patterns is again a 32-bit pattern, so the four
bytes stored by `*p *= c` hold exactly `f32_mul`. -/

theorem bit_length_lt : ∀ (fuel n k : Nat), k ≤ fuel → n < 2 ^ k →
    n < 2 ^ bit_length fuel n := by
  intro fuel
  induction fuel with
  | zero =>
    intro n k hk h
    have hk0 : k = 0 := by omega
    subst hk0
    simp only [pow_zero, Nat.lt_one_iff] at h
    subst h
    simp [bit_length]
  | succ f ih =>
    intro n k hk h
    unfold bit_length
    split
    · rename_i h0
      subst h0
      simp
    · rename_i h0
      have hk1 : 1 ≤ k := by
        by_contra hc
        have hk0 : k = 0 := by omega
        subst hk0
        simp only [pow_zero, Nat.lt_one_iff] at h
        exact h0 h
      have h2 : n / 2 < 2 ^ (k - 1) := by
        have e : k = (k - 1) + 1 := by omega
        rw [e, pow_succ] at h
        omega
      have := ih (n / 2) (k - 1) (by omega) h2
      rw [pow_succ]
      omega

theorem bit_length_zero (fuel : Nat) : bit_length fuel 0 = 0 := by
  cases fuel <;> simp [bit_length]

theorem bit_length_ge : ∀ (fuel n : Nat), 0 < n → 0 < fuel →
    1 ≤ bit_length fuel n ∧ 2 ^ (bit_length fuel n - 1) ≤ n := by
  intro fuel
  induction fuel with
  | zero => intro n _ h; exact absurd h (by simp)
  | succ f ih =>
    intro n hn _
    unfold bit_length
    rw [if_neg (by omega)]
    refine ⟨by omega, ?_⟩
    simp only [Nat.add_sub_cancel]
    by_cases h2 : n / 2 = 0
    · rw [h2, bit_length_zero]
      simpa using hn
    · by_cases hf : f = 0
      · subst hf
        simp only [bit_length, pow_zero]
        omega
      · obtain ⟨a, b⟩ := ih (n / 2) (by omega) (by omega)
        have e : bit_length f (n / 2) = (bit_length f (n / 2) - 1) + 1 := by omega
        rw [e, pow_succ]
        omega


theorem pow_le_mul_pow (n d a b c : Nat) (hn : n < 2 ^ a) (hd : 2 ^ b ≤ d) (h : a ≤ b + c) :
    n < d * 2 ^ c := by
  calc n < 2 ^ a := hn
    _ ≤ 2 ^ (b + c) := Nat.pow_le_pow_right (by norm_num) h
    _ = 2 ^ b * 2 ^ c := pow_add 2 b c
    _ ≤ d * 2 ^ c := Nat.mul_le_mul_right _ hd

theorem mul_pow_lt (n d a b c : Nat) (hn : n < 2 ^ a) (hd : 2 ^ b ≤ d) (h : a + c ≤ b) :
    n * 2 ^ c < d := by
  have h1 : n * 2 ^ c < 2 ^ a * 2 ^ c :=
    Nat.mul_lt_mul_of_pos_right hn (by positivity)
  calc n * 2 ^ c < 2 ^ a * 2 ^ c := h1
    _ = 2 ^ (a + c) := (pow_add 2 a c).symm
    _ ≤ 2 ^ b := Nat.pow_le_pow_right (by norm_num) h
    _ ≤ d := hd

/-- The ratio `n / d` lies below `2 ^ (E + 1)` for `E = floor_log2_ratio n d`. -/
theorem floor_log2_ratio_upper (n d k : Nat) (hk : k ≤ 1024) (hn : n < 2 ^ k) (hd : 0 < d) :
    (0 ≤ floor_log2_ratio n d + 1 → n < d * 2 ^ (floor_log2_ratio n d + 1).toNat) ∧
    (floor_log2_ratio n d + 1 < 0 → n * 2 ^ (-(floor_log2_ratio n d + 1)).toNat < d) := by
  have hL := bit_length_lt 1024 n k hk hn
  obtain ⟨hD1, hD⟩ := bit_length_ge 1024 d hd (by norm_num)
  unfold floor_log2_ratio
  generalize bit_length 1024 n = L at *
  generalize bit_length 1024 d = D at *
  simp only []
  by_cases hl : (0 : Int) ≤ (L : Int) - (D : Int)
  · rw [if_pos hl]
    have e0 : ((L : Int) - (D : Int)).toNat = L - D := by omega
    rw [e0]
    by_cases hc : d * 2 ^ (L - D) ≤ n
    · rw [if_pos hc]
      constructor
      · intro _
        have e1 : ((L : Int) - (D : Int) + 1).toNat = L - D + 1 := by omega
        rw [e1]
        exact pow_le_mul_pow n d L (D - 1) (L - D + 1) hL hD (by omega)
      · intro h; omega
    · rw [if_neg hc]
      constructor
      · intro _
        have e1 : ((L : Int) - (D : Int) - 1 + 1).toNat = L - D := by omega
        rw [e1]
        omega
      · intro h; omega
  · rw [if_neg hl]
    have e0 : (-((L : Int) - (D : Int))).toNat = D - L := by omega
    rw [e0]
    by_cases hc : d ≤ n * 2 ^ (D - L)
    · rw [if_pos hc]
      constructor
      · intro h
        have e1 : ((L : Int) - (D : Int) + 1).toNat = 0 := by omega
        rw [e1]
        exact pow_le_mul_pow n d L (D - 1) 0 hL hD (by omega)
      · intro h
        have e1 : (-((L : Int) - (D : Int) + 1)).toNat = D - L - 1 := by omega
        rw [e1]
        exact mul_pow_lt n d L (D - 1) (D - L - 1) hL hD (by omega)
    · rw [if_neg hc]
      constructor
      · intro h; omega
      · intro _
        have e1 : (-((L : Int) - (D : Int) - 1 + 1)).toNat = D - L := by omega
        rw [e1]
        omega

theorem rne_div_le (a b k : Nat) (hb : 0 < b) (h : a < b * k) : rne_div a b ≤ k := by
  have hq : a / b < k := (Nat.div_lt_iff_lt_mul hb).mpr (by rw [Nat.mul_comm]; exact h)
  unfold rne_div
  simp only []
  split <;> omega

theorem f32_round_mant_le (n d : Nat) (e : Int) (hd : 0 < d)
    (h1 : 0 ≤ e + 1 → n < d * 2 ^ (e + 1).toNat)
    (h2 : e + 1 < 0 → n * 2 ^ (-(e + 1)).toNat < d) :
    (if 0 ≤ max (e - 23) (-149) then rne_div n (d * 2 ^ (max (e - 23) (-149)).toNat)
      else rne_div (n * 2 ^ (-(max (e - 23) (-149))).toNat) d) ≤ 2 ^ 24 := by
  generalize hq : max (e - 23) (-149) = q
  have hq1 : e - 23 ≤ q := by rw [← hq]; exact le_max_left _ _
  split
  · rename_i hq0
    apply rne_div_le _ _ _ (by positivity)
    rw [Nat.mul_assoc, ← pow_add]
    by_cases he : 0 ≤ e + 1
    · have := h1 he
      calc n < d * 2 ^ (e + 1).toNat := this
        _ ≤ d * 2 ^ (q.toNat + 24) :=
          Nat.mul_le_mul_left _ (Nat.pow_le_pow_right (by norm_num) (by omega))
    · have := h2 (by omega)
      have hp : 0 < 2 ^ (-(e + 1)).toNat := by positivity
      have hp2 : 0 < 2 ^ (q.toNat + 24) := by positivity
      calc n ≤ n * 2 ^ (-(e + 1)).toNat := Nat.le_mul_of_pos_right _ hp
        _ < d := this
        _ ≤ d * 2 ^ (q.toNat + 24) := Nat.le_mul_of_pos_right _ hp2
  · rename_i hq0
    apply rne_div_le _ _ _ hd
    by_cases he : 0 ≤ e + 1
    · have := h1 he
      have hp : 0 < 2 ^ (-q).toNat := by positivity
      calc n * 2 ^ (-q).toNat < d * 2 ^ (e + 1).toNat * 2 ^ (-q).toNat :=
            Nat.mul_lt_mul_of_pos_right this hp
        _ = d * 2 ^ ((e + 1).toNat + (-q).toNat) := by rw [Nat.mul_assoc, ← pow_add]
        _ ≤ d * 2 ^ 24 :=
          Nat.mul_le_mul_left _ (Nat.pow_le_pow_right (by norm_num) (by omega))
    · have := h2 (by omega)
      have e1 : (-q).toNat + ((-(e + 1)).toNat + 24 - (-q).toNat) = (-(e + 1)).toNat + 24 := by
        omega
      have hp : 0 < 2 ^ ((-(e + 1)).toNat + 24 - (-q).toNat) := by positivity
      calc n * 2 ^ (-q).toNat
          ≤ n * 2 ^ (-q).toNat * 2 ^ ((-(e + 1)).toNat + 24 - (-q).toNat) :=
            Nat.le_mul_of_pos_right _ hp
        _ = n * 2 ^ (-(e + 1)).toNat * 2 ^ 24 := by
            rw [Nat.mul_assoc, ← pow_add, e1, pow_add, Nat.mul_assoc]
        _ < d * 2 ^ 24 := Nat.mul_lt_mul_of_pos_right this (by positivity)

/-- A rounded value is a 32-bit pattern. -/
theorem f32_round_lt (sign n d k : Nat) (hs : sign ≤ 1) (hk : k ≤ 1024) (hn : n < 2 ^ k)
    (hd : 0 < d) :
    f32_round sign n d < 2 ^ 32 := by
  unfold f32_round
  split
  · omega
  · obtain ⟨h1, h2⟩ := floor_log2_ratio_upper n d k hk hn hd
    have hm := f32_round_mant_le n d (floor_log2_ratio n d) hd h1 h2
    simp only []
    generalize floor_log2_ratio n d = e at *
    generalize (if 0 ≤ max (e - 23) (-149) then rne_div n (d * 2 ^ (max (e - 23) (-149)).toNat)
      else rne_div (n * 2 ^ (-(max (e - 23) (-149))).toNat) d) = m at *
    generalize max (e - 23) (-149) = q
    clear h1 h2 hn hk
    by_cases h24 : 2 ^ 24 ≤ m
    · simp only [h24, if_true]
      (repeat' split) <;> omega
    · simp only [h24, if_false]
      (repeat' split) <;> omega

theorem f32_mant_lt (a : Nat) : f32_mant a < 2 ^ 24 := by
  unfold f32_mant f32_frac
  split <;> omega

theorem f32_scale_le (a : Nat) : f32_scale a ≤ 255 := by
  unfold f32_scale f32_exp
  split <;> omega

/-- The product of two 32-bit patterns is a 32-bit pattern. -/
theorem f32_mul_lt (a b : Nat) (ha : a < 2 ^ 32) (hb : b < 2 ^ 32) : f32_mul a b < 2 ^ 32 := by
  have hma := f32_mant_lt a
  have hmb := f32_mant_lt b
  have hsa := f32_scale_le a
  have hsb := f32_scale_le b
  have hn : f32_mant a * f32_mant b < 2 ^ 48 := by
    have := Nat.mul_lt_mul'' hma hmb
    calc f32_mant a * f32_mant b < 2 ^ 24 * 2 ^ 24 := this
      _ = 2 ^ 48 := by norm_num
  have hs : (f32_sign a + f32_sign b) % 2 ≤ 1 := by omega
  unfold f32_mul
  simp only []
  split
  · split <;> omega
  · split
    · split <;> omega
    · split
      · split <;> omega
      · split
        · split <;> omega
        · split
          · have hp : 0 < 2 ^ (f32_scale a + f32_scale b - 300) := by positivity
            have h1 := Nat.mul_lt_mul_of_pos_right hn hp
            rw [← pow_add] at h1
            exact f32_round_lt _ _ _ _ hs (by omega) h1 (by norm_num)
          · exact f32_round_lt _ _ _ 48 hs (by omega) hn (by positivity)

theorem f32_constants_lt : GRAVITY_EARTH_THOUSANDTH < 2 ^ 32 ∧ MILLI < 2 ^ 32 :=
  ⟨f32_round_lt 0 980665 100000000 20 (by omega) (by omega) (by norm_num) (by norm_num),
   f32_round_lt 0 1 1000 1 (by omega) (by omega) (by norm_num) (by norm_num)⟩

theorem f32_scale_at_same (m : Mem) (p c : Nat) (hc : c < 2 ^ 32) :
    mem_rd (f32_scale_at m p c) p 4 = f32_mul (mem_rd m p 4) c := by
  unfold f32_scale_at
  rw [mem_rd_wr_same]
  apply Nat.mod_eq_of_lt
  have h1 : mem_rd m p 4 < 2 ^ 32 := by
    have := mem_rd_lt m 4 p
    norm_num at this ⊢
    exact this
  have := f32_mul_lt (mem_rd m p 4) c h1 hc
  norm_num at this ⊢
  exact this

theorem f32_scale_at_disjoint (m : Mem) (p c q : Nat) (h : q + 4 ≤ p ∨ p + 4 ≤ q) :
    mem_rd (f32_scale_at m p c) q 4 = mem_rd m q 4 := by
  unfold f32_scale_at
  exact mem_rd_wr_other m p 4 _ q 4 h

theorem f32_scale_xyz (m : Mem) (c : Nat) (hc : c < 2 ^ 32) :
    mem_rd (f32_scale_at (f32_scale_at (f32_scale_at m 8 c) 12 c) 16 c) 8 4
      = f32_mul (mem_rd m 8 4) c ∧
    mem_rd (f32_scale_at (f32_scale_at (f32_scale_at m 8 c) 12 c) 16 c) 12 4
      = f32_mul (mem_rd m 12 4) c ∧
    mem_rd (f32_scale_at (f32_scale_at (f32_scale_at m 8 c) 12 c) 16 c) 16 4
      = f32_mul (mem_rd m 16 4) c := by
  refine ⟨?_, ?_, ?_⟩
  · rw [f32_scale_at_disjoint _ 16 c 8 (by omega), f32_scale_at_disjoint _ 12 c 8 (by omega),
      f32_scale_at_same _ _ _ hc]
  · rw [f32_scale_at_disjoint _ 16 c 12 (by omega), f32_scale_at_same _ _ _ hc,
      f32_scale_at_disjoint _ 8 c 12 (by omega)]
  · rw [f32_scale_at_same _ _ _ hc, f32_scale_at_disjoint _ 12 c 16 (by omega),
      f32_scale_at_disjoint _ 8 c 16 (by omega)]

set_option maxRecDepth 100000 in
/-- C5. `sfwreading_normalize` stores in each of the members x, y, z of an
accelerometer sample the single-precision product of the member with
`GRAVITY_EARTH_THOUSANDTH`, the `float` nearest to 0.00980665 (pattern
0x3C20AC12), and in each member of a gyroscope sample the product with `MILLI`,
the `float` nearest to 0.001 (pattern 0x3A83126F).  For the wire sample x = 1000.0, y = 0, z = 0 the accelerometer result
has y = 0 and z = 0, and x is the `float` 10283018 * 2 ^ (-20), which is
within 0.00001 of 9.80665. -/
theorem normalize_scaling (abi : Abi) (m : Mem) :
    (mem_rd (sfwreading_normalize abi ⟨SFW_SENSOR_ID_ACCELEROMETER, m⟩).sample
        (c_offsetof abi SfwSampleXyz 1) 4
      = f32_mul (mem_rd m (c_offsetof abi SfwSampleXyz 1) 4) GRAVITY_EARTH_THOUSANDTH ∧
     mem_rd (sfwreading_normalize abi ⟨SFW_SENSOR_ID_ACCELEROMETER, m⟩).sample
        (c_offsetof abi SfwSampleXyz 2) 4
      = f32_mul (mem_rd m (c_offsetof abi SfwSampleXyz 2) 4) GRAVITY_EARTH_THOUSANDTH ∧
     mem_rd (sfwreading_normalize abi ⟨SFW_SENSOR_ID_ACCELEROMETER, m⟩).sample
        (c_offsetof abi SfwSampleXyz 3) 4
      = f32_mul (mem_rd m (c_offsetof abi SfwSampleXyz 3) 4) GRAVITY_EARTH_THOUSANDTH) ∧
    (mem_rd (sfwreading_normalize abi ⟨SFW_SENSOR_ID_GYROSCOPE, m⟩).sample
        (c_offsetof abi SfwSampleXyz 1) 4
      = f32_mul (mem_rd m (c_offsetof abi SfwSampleXyz 1) 4) MILLI ∧
     mem_rd (sfwreading_normalize abi ⟨SFW_SENSOR_ID_GYROSCOPE, m⟩).sample
        (c_offsetof abi SfwSampleXyz 2) 4
      = f32_mul (mem_rd m (c_offsetof abi SfwSampleXyz 2) 4) MILLI ∧
     mem_rd (sfwreading_normalize abi ⟨SFW_SENSOR_ID_GYROSCOPE, m⟩).sample
        (c_offsetof abi SfwSampleXyz 3) 4
      = f32_mul (mem_rd m (c_offsetof abi SfwSampleXyz 3) 4) MILLI) ∧
    (GRAVITY_EARTH_THOUSANDTH = 0x3C20AC12 ∧ MILLI = 0x3A83126F) ∧
    (mem_rd (mem_store (fun _ => 0) accelerometer_wire_sample) 8 4 = 0x447A0000 ∧
     f32_mant 0x447A0000 = 1000 * 2 ^ (150 - f32_scale 0x447A0000) ∧
     mem_rd (sfwreading_normalize abi
        ⟨SFW_SENSOR_ID_ACCELEROMETER, mem_store (fun _ => 0) accelerometer_wire_sample⟩).sample
        8 4 = 0x411CE80A ∧
     f32_scale 0x411CE80A = 130 ∧ f32_mant 0x411CE80A = 10283018 ∧
     980664 * 2 ^ 20 < 10283018 * 100000 ∧ 10283018 * 100000 < 980666 * 2 ^ 20 ∧
     mem_rd (sfwreading_normalize abi
        ⟨SFW_SENSOR_ID_ACCELEROMETER, mem_store (fun _ => 0) accelerometer_wire_sample⟩).sample
        12 4 = 0 ∧
     mem_rd (sfwreading_normalize abi
        ⟨SFW_SENSOR_ID_ACCELEROMETER, mem_store (fun _ => 0) accelerometer_wire_sample⟩).sample
        16 4 = 0) := by
  have ho : c_offsetof abi SfwSampleXyz 1 = 8 ∧ c_offsetof abi SfwSampleXyz 2 = 12 ∧
      c_offsetof abi SfwSampleXyz 3 = 16 := by
    cases abi <;> decide
  obtain ⟨o1, o2, o3⟩ := ho
  have ha := f32_scale_xyz m GRAVITY_EARTH_THOUSANDTH f32_constants_lt.1
  have hg := f32_scale_xyz m MILLI f32_constants_lt.2
  have hw := f32_scale_xyz (mem_store (fun _ => 0) accelerometer_wire_sample)
    GRAVITY_EARTH_THOUSANDTH f32_constants_lt.1
  rw [normalize_accelerometer, normalize_gyroscope, normalize_accelerometer, o1, o2, o3]
  refine ⟨ha, hg, ⟨by decide, by decide⟩, by decide, by decide, ?_, by decide, by decide, by decide,
    by decide, ?_, ?_⟩
  · rw [hw.1]
    decide
  · rw [hw.2.1]
    decide
  · rw [hw.2.2]
    decide

/-! ## The Reporting tier -/

theorem readings_emitted_append (a b : List Obs) :
    readings_emitted (a ++ b) = readings_emitted a ++ readings_emitted b := by
  induction a with
  | nil => rfl
  | cons o t ih => cases o <;> simp [readings_emitted, ih]

theorem FrameR.reflR (s : System) : FrameR s s := ⟨rfl, rfl, rfl, rfl, rfl, rfl⟩

theorem FrameR.transR {a b c : System} (h1 : FrameR a b) (h2 : FrameR b c) : FrameR a c := by
  unfold FrameR at *
  simp only [h2, h1, and_self]

/-- The Sensor fields a Reporting function leaves alone. -/
theorem FrameR.proj {a b : System} (h : FrameR a b) :
    b.sns.sns_plugin = a.sns.sns_plugin ∧ b.sns.sns_valid = a.sns.sns_valid ∧
    b.sns.sns_state = a.sns.sns_state ∧ b.sns.sns_session_id = a.sns.sns_session_id ∧
    b.sns.sns_socket_fd = a.sns.sns_socket_fd ∧
    b.sns.sns_socket_tx_id = a.sns.sns_socket_tx_id ∧
    b.sns.sns_socket_tx_cb = a.sns.sns_socket_tx_cb ∧
    b.sns.sns_socket_rx_id = a.sns.sns_socket_rx_id ∧
    b.sns.sns_socket_rx_cb = a.sns.sns_socket_rx_cb ∧
    b.sns.sns_reading = a.sns.sns_reading := by
  have e := h.2.2.2.2.1
  simp only [sns_noact, SfwSensorPrivate.mk.injEq] at e
  obtain ⟨e1, e2, _, e4, e5, e6, e7, e8, e9, e10, e11, e12, e13, e14, e15, e16⟩ := e
  exact ⟨e1, e2, e4, e5, e12, e13, e14, e15, e16.1, e16.2⟩

theorem FrameR.sns_valid {a b : System} (h : FrameR a b) : b.sns.sns_valid = a.sns.sns_valid :=
  h.proj.2.1

theorem FrameR.sns_state {a b : System} (h : FrameR a b) : b.sns.sns_state = a.sns.sns_state :=
  h.proj.2.2.1

theorem rpt_leave_frame (s : System) : FrameR s (sfwreporting_stm_leave_state s) := by
  unfold sfwreporting_stm_leave_state
  cases hs : s.rpt.rpt_state <;>
    simp only [FrameR, sns_noact, sfwreporting_set_valid, sfwreporting_set_active,
      sfwsensor_reporting_active_changed_cb, sfwsensor_eval_active, observe,
      sfwreporting_stm_cancel_enable, sfwreporting_stm_cancel_datarate,
      sfwreporting_stm_cancel_override, sfwreporting_stm_cancel_retry_delay] <;>
    (repeat' split) <;> simp [readings_emitted_append, readings_emitted]

theorem rpt_enter_frame (s : System) : FrameR s (sfwreporting_stm_enter_state s) := by
  unfold sfwreporting_stm_enter_state
  cases hs : s.rpt.rpt_state <;>
    simp only [FrameR, sns_noact, sfwreporting_set_valid, sfwreporting_set_active,
      sfwsensor_reporting_active_changed_cb, sfwsensor_eval_active, observe, issue_call,
      sfwreporting_stm_start_enable, sfwreporting_stm_start_datarate,
      sfwreporting_stm_start_override, sfwreporting_stm_start_retry_delay] <;>
    (repeat' split) <;> simp [readings_emitted_append, readings_emitted]

theorem rpt_leave_effect (s : System) :
    (sfwreporting_stm_leave_state s).rpt.rpt_state = s.rpt.rpt_state ∧
    (sfwreporting_stm_leave_state s).rpt.rpt_eval_state_id = s.rpt.rpt_eval_state_id ∧
    (sfwreporting_stm_leave_state s).rpt.rpt_enable_wanted = s.rpt.rpt_enable_wanted ∧
    (sfwreporting_stm_leave_state s).rpt.rpt_enable_requested = s.rpt.rpt_enable_requested ∧
    (sfwreporting_stm_leave_state s).rpt.rpt_enable_effective = s.rpt.rpt_enable_effective ∧
    (sfwreporting_stm_leave_state s).rpt.rpt_datarate_wanted = s.rpt.rpt_datarate_wanted ∧
    (sfwreporting_stm_leave_state s).rpt.rpt_datarate_requested = s.rpt.rpt_datarate_requested ∧
    (sfwreporting_stm_leave_state s).rpt.rpt_datarate_effective = s.rpt.rpt_datarate_effective ∧
    (sfwreporting_stm_leave_state s).rpt.rpt_override_wanted = s.rpt.rpt_override_wanted ∧
    (sfwreporting_stm_leave_state s).rpt.rpt_override_requested = s.rpt.rpt_override_requested ∧
    (sfwreporting_stm_leave_state s).rpt.rpt_override_effective = s.rpt.rpt_override_effective ∧
    (KRf s →
      (sfwreporting_stm_leave_state s).rpt.rpt_active = false ∧
      (sfwreporting_stm_leave_state s).rpt.rpt_valid = false ∧
      (sfwreporting_stm_leave_state s).sns.sns_active = false) ∧
    (RDc s →
      (sfwreporting_stm_leave_state s).rpt.rpt_enable_cancellable = none ∧
      (sfwreporting_stm_leave_state s).rpt.rpt_datarate_cancellable = none ∧
      (sfwreporting_stm_leave_state s).rpt.rpt_override_cancellable = none) := by
  unfold sfwreporting_stm_leave_state KRf RDc
  cases hs : s.rpt.rpt_state <;>
    simp only [sfwreporting_set_valid, sfwreporting_set_active,
      sfwsensor_reporting_active_changed_cb, sfwsensor_eval_active, observe,
      sfwreporting_stm_cancel_enable, sfwreporting_stm_cancel_datarate,
      sfwreporting_stm_cancel_override, sfwreporting_stm_cancel_retry_delay,
      cancellable_cancel] <;>
    (repeat' split) <;> simp_all

theorem rpt_enter_effect (s : System)
    (ha : s.rpt.rpt_active = false) (hv : s.rpt.rpt_valid = false)
    (hsa : s.sns.sns_active = false)
    (he : s.rpt.rpt_enable_cancellable = none)
    (hdr : s.rpt.rpt_datarate_cancellable = none)
    (hov : s.rpt.rpt_override_cancellable = none)
    (h1 : s.rpt.rpt_state = .STARTED →
      s.rpt.rpt_enable_effective = s.rpt.rpt_enable_requested ∧
      dbl_ne s.rpt.rpt_datarate_effective s.rpt.rpt_datarate_requested = false ∧
      s.rpt.rpt_override_effective = s.rpt.rpt_override_requested)
    (h2 : s.rpt.rpt_state = .CONFIGURE →
      s.rpt.rpt_enable_effective = s.rpt.rpt_enable_requested) :
    (sfwreporting_stm_enter_state s).rpt.rpt_state = s.rpt.rpt_state ∧
    (sfwreporting_stm_enter_state s).rpt.rpt_eval_state_id = s.rpt.rpt_eval_state_id ∧
    KRf (sfwreporting_stm_enter_state s) ∧
    (s.rpt.rpt_state ≠ .STARTED → RDc (sfwreporting_stm_enter_state s)) ∧
    (s.rpt.rpt_state = .STARTED →
      (sfwreporting_stm_enter_state s).rpt.rpt_enable_cancellable = none ∧
      (sfwreporting_stm_enter_state s).rpt.rpt_datarate_cancellable = none ∧
      (sfwreporting_stm_enter_state s).rpt.rpt_override_cancellable = none ∧
      (sfwreporting_stm_enter_state s).rpt.rpt_enable_effective
        = (sfwreporting_stm_enter_state s).rpt.rpt_enable_requested ∧
      dbl_ne (sfwreporting_stm_enter_state s).rpt.rpt_datarate_effective
        (sfwreporting_stm_enter_state s).rpt.rpt_datarate_requested = false ∧
      (sfwreporting_stm_enter_state s).rpt.rpt_override_effective
        = (sfwreporting_stm_enter_state s).rpt.rpt_override_requested) := by
  unfold sfwreporting_stm_enter_state KRf RDc
  cases hs : s.rpt.rpt_state <;>
    simp only [sfwreporting_set_valid, sfwreporting_set_active,
      sfwsensor_reporting_active_changed_cb, sfwsensor_eval_active, observe, issue_call,
      sfwreporting_stm_start_enable, sfwreporting_stm_start_datarate,
      sfwreporting_stm_start_override, sfwreporting_stm_start_retry_delay,
      cancellable_start, cancellable_cancel] <;>
    (repeat' split) <;> simp_all

theorem rpt_eval_later_effect (s : System) :
    FrameR s (sfwreporting_stm_eval_state_later s) ∧
    (sfwreporting_stm_eval_state_later s).rpt
      = { s.rpt with rpt_eval_state_id := (sfwreporting_stm_eval_state_later s).rpt.rpt_eval_state_id } ∧
    (s.rpt.rpt_state ≠ .FINAL → (sfwreporting_stm_eval_state_later s).rpt.rpt_eval_state_id = true) := by
  rcases s with ⟨srv, plg, sns, ⟨_, _, _, _, _, _, _, _, _, _, _, _, _, _, _, _, _⟩, g, os, sock, inf, tr⟩
  unfold sfwreporting_stm_eval_state_later sfwreporting_stm_cancel_eval_state FrameR
  (repeat' split) <;> simp_all

theorem rpt_set_state_frame (s : System) (st : SfwReportingState) :
    FrameR s (sfwreporting_stm_set_state s st) := by
  unfold sfwreporting_stm_set_state
  split
  · exact FrameR.reflR s
  · split
    · refine FrameR.transR (rpt_leave_frame s) (FrameR.transR ?_ (FrameR.transR (rpt_enter_frame _)
        (rpt_eval_later_effect _).1))
      exact ⟨rfl, rfl, rfl, rfl, rfl, rfl⟩
    · exact FrameR.reflR s

theorem rpt_set_state_spec (s : System) (st : SfwReportingState) (hf : KRf s) (hd : RDc s)
    (hw : s.rpt.rpt_state = st → RDw s)
    (h1 : st = .STARTED →
      s.rpt.rpt_enable_effective = s.rpt.rpt_enable_requested ∧
      dbl_ne s.rpt.rpt_datarate_effective s.rpt.rpt_datarate_requested = false ∧
      s.rpt.rpt_override_effective = s.rpt.rpt_override_requested)
    (h2 : st = .CONFIGURE → s.rpt.rpt_enable_effective = s.rpt.rpt_enable_requested) :
    KRf (sfwreporting_stm_set_state s st) ∧ RD (sfwreporting_stm_set_state s st) ∧
    (sfwreporting_stm_set_state s st).rpt.rpt_state
      = (if s.rpt.rpt_state = .FINAL then .FINAL else st) := by
  unfold sfwreporting_stm_set_state
  by_cases hfin : s.rpt.rpt_state = .FINAL
  · refine ⟨by simpa [hfin] using hf, ⟨by simpa [hfin] using hd, ?_⟩, by simp [hfin]⟩
    intro h
    simp [hfin] at h
  by_cases hne : s.rpt.rpt_state = st
  · have hw' := hw hne
    subst hne
    simp [hfin, hf, hd, hw', RD]
  simp only [hfin, if_false, ne_eq, hne, not_false_eq_true, if_true]
  obtain ⟨l1, l2, l3, l4, l5, l6, l7, l8, l9, l10, l11, l12, l13⟩ := rpt_leave_effect s
  obtain ⟨la, lv, lsa⟩ := l12 hf
  obtain ⟨le, ldr, lov⟩ := l13 hd
  generalize sfwreporting_stm_leave_state s = s1 at *
  have e := rpt_enter_effect { s1 with rpt := { s1.rpt with rpt_state := st } }
    la lv lsa le ldr lov
    (by intro h; simp only at h; simp only [l4, l5, l7, l8, l10, l11]; exact h1 h)
    (by intro h; simp only at h; simp only [l4, l5]; exact h2 h)
  obtain ⟨e1, e2, e3, e4, e5⟩ := e
  generalize sfwreporting_stm_enter_state { s1 with rpt := { s1.rpt with rpt_state := st } } = s2 at *
  simp only at e1 e4 e5
  obtain ⟨v1, v2, v3⟩ := rpt_eval_later_effect s2
  have hst : s2.rpt.rpt_state ≠ .FINAL → (sfwreporting_stm_eval_state_later s2).rpt.rpt_eval_state_id = true := v3
  have hsns : (sfwreporting_stm_eval_state_later s2).sns.sns_active = s2.sns.sns_active := by
    unfold sfwreporting_stm_eval_state_later sfwreporting_stm_cancel_eval_state
    (repeat' split) <;> rfl
  refine ⟨?_, ?_, ?_⟩
  · unfold KRf at e3 ⊢
    rw [v2, hsns]
    exact e3
  · by_cases hS : st = .STARTED
    · have e5' := e5 hS
      have hnf : s2.rpt.rpt_state ≠ .FINAL := by rw [e1, hS]; decide
      have hp := hst hnf
      unfold RD RDc RDw
      rw [v2] at hp ⊢
      simp only at hp ⊢
      simp [e1, hS, e5', hp]
    · have e4' := e4 hS
      unfold RD RDw
      unfold RDc at e4' ⊢
      rw [v2]
      simp only
      refine ⟨e4', ?_⟩
      intro h
      rw [e1] at h
      exact absurd h hS
  · rw [v2]
    exact e1

theorem rpt_eval_later_keeps (s : System) (hf : KRf s) (hd : RDc s) :
    KRf (sfwreporting_stm_eval_state_later s) ∧ RD (sfwreporting_stm_eval_state_later s) ∧
    (sfwreporting_stm_eval_state_later s).rpt.rpt_state = s.rpt.rpt_state := by
  unfold sfwreporting_stm_eval_state_later sfwreporting_stm_cancel_eval_state
  unfold KRf at hf ⊢
  unfold RD RDw
  unfold RDc at hd ⊢
  (repeat' split) <;> simp_all

/-- Resetting the Reporting, as the Sensor's valid-changed signal does. -/
theorem rpt_reset_spec (s : System) (hf : KRf s) (hd : RDc s) :
    KR (sfwreporting_stm_reset_state s) ∧ FrameR s (sfwreporting_stm_reset_state s) ∧
    (sfwreporting_stm_reset_state s).rpt.rpt_state.engaged = false := by
  unfold sfwreporting_stm_reset_state
  obtain ⟨a1, a2, a3⟩ := rpt_set_state_spec s .DISABLED hf hd
    (by intro h; intro h1; rw [h] at h1; cases h1) (by intro h; cases h) (by intro h; cases h)
  obtain ⟨b1, b2, b3⟩ := rpt_eval_later_keeps _ a1 a2.1
  have hst : (sfwreporting_stm_eval_state_later
      (sfwreporting_stm_set_state s .DISABLED)).rpt.rpt_state.engaged = false := by
    rw [b3, a3]
    split <;> rfl
  refine ⟨⟨b1, b2, ?_⟩, FrameR.transR (rpt_set_state_frame s _) (rpt_eval_later_effect _).1, hst⟩
  intro h
  rw [hst] at h
  cases h

theorem rpt_clear_eval_keeps (s : System) (h : KR s) :
    KRf { s with rpt := { s.rpt with rpt_eval_state_id := false } } ∧
    RDc { s with rpt := { s.rpt with rpt_eval_state_id := false } } :=
  ⟨h.1, h.2.1.1⟩

/-- The deferred evaluation of the Reporting keeps it consistent. -/
theorem rpt_eval_spec (s : System) (h : KR s) :
    KR (sfwreporting_stm_eval_state_cb s) ∧ FrameR s (sfwreporting_stm_eval_state_cb s) := by
  obtain ⟨hf, hd⟩ := rpt_clear_eval_keeps s h
  have hv := h.2.2
  have hfr0 : FrameR s { s with rpt := { s.rpt with rpt_eval_state_id := false } } :=
    ⟨rfl, rfl, rfl, rfl, rfl, rfl⟩
  unfold sfwreporting_stm_eval_state_cb
  generalize hs0 : ({ s with rpt := { s.rpt with rpt_eval_state_id := false } } : System) = s0 at *
  simp only []
  have hst : s0.rpt.rpt_state = s.rpt.rpt_state := by rw [← hs0]
  have hev : s0.rpt.rpt_eval_state_id = false := by rw [← hs0]
  have hval : s0.sns.sns_valid = s.sns.sns_valid := by rw [← hs0]
  have keep : ∀ st : SfwReportingState, s0.rpt.rpt_state ≠ st →
      (st = .STARTED →
        s0.rpt.rpt_enable_effective = s0.rpt.rpt_enable_requested ∧
        dbl_ne s0.rpt.rpt_datarate_effective s0.rpt.rpt_datarate_requested = false ∧
        s0.rpt.rpt_override_effective = s0.rpt.rpt_override_requested) →
      (st = .CONFIGURE → s0.rpt.rpt_enable_effective = s0.rpt.rpt_enable_requested) →
      (st.engaged = true → s0.sns.sns_valid = true) →
      KR (sfwreporting_stm_set_state s0 st) ∧ FrameR s (sfwreporting_stm_set_state s0 st) := by
    intro st hns h1 h2 h3
    obtain ⟨a1, a2, a3⟩ := rpt_set_state_spec s0 st hf hd
      (by intro h; exact absurd h hns) h1 h2
    have fr := rpt_set_state_frame s0 st
    refine ⟨⟨a1, a2, ?_⟩, FrameR.transR hfr0 fr⟩
    rw [a3, fr.sns_valid]
    split
    · intro h; cases h
    · exact h3
  have same : s0.rpt.rpt_state ≠ .STARTED → KR s0 ∧ FrameR s s0 := by
    intro hns
    exact ⟨⟨hf, ⟨hd, fun h => absurd h hns⟩, by rw [hst, hval]; exact hv⟩, hfr0⟩
  have hv0 : s0.rpt.rpt_state.engaged = true → s0.sns.sns_valid = true := by
    rw [hst, hval]; exact hv
  cases hs : s0.rpt.rpt_state <;> simp only []
  · exact same (by rw [hs]; decide)
  · split
    · rename_i hsv
      exact keep _ (by rw [hs]; decide) (by intro h; cases h) (by intro h; cases h)
        (fun _ => hsv)
    · exact same (by rw [hs]; decide)
  · have hv1 := hv0 (by rw [hs]; rfl)
    split
    · exact keep _ (by rw [hs]; decide) (by intro h; cases h) (by intro h; cases h) (fun _ => hv1)
    · exact keep _ (by rw [hs]; decide) (by intro h; cases h) (by intro h; cases h) (fun _ => hv1)
  · have hv1 := hv0 (by rw [hs]; rfl)
    split
    · exact same (by rw [hs]; decide)
    · split
      · exact keep _ (by rw [hs]; decide) (by intro h; cases h) (by intro h; cases h)
          (fun _ => hv1)
      · rename_i hne
        exact keep _ (by rw [hs]; decide) (by intro h; cases h)
          (fun _ => by simpa using hne) (fun _ => hv1)
  · have hv1 := hv0 (by rw [hs]; rfl)
    have hen := hd.2.2.1 hs
    split
    · exact same (by rw [hs]; decide)
    · split
      · exact same (by rw [hs]; decide)
      · split
        · exact keep _ (by rw [hs]; decide) (by intro h; cases h) (by intro h; cases h)
            (fun _ => hv1)
        · rename_i hne
          simp only [not_or, Bool.not_eq_true, ne_eq, not_not] at hne
          exact keep _ (by rw [hs]; decide) (fun _ => ⟨hen, hne.1, hne.2⟩)
            (by intro h; cases h) (fun _ => hv1)
  · have hv1 := hv0 (by rw [hs]; rfl)
    have hd4 := hd.2.2.2 hs
    split
    · exact keep _ (by rw [hs]; decide) (by intro h; cases h) (by intro h; cases h)
        (fun _ => hv1)
    · rename_i hne
      simp only [not_or, Bool.not_eq_true, ne_eq, not_not] at hne
      refine ⟨⟨hf, ⟨hd, fun _ _ => hne⟩, fun _ => hv1⟩, hfr0⟩
  · have hv1 := hv0 (by rw [hs]; rfl)
    split
    · exact same (by rw [hs]; decide)
    · split
      · exact keep _ (by rw [hs]; decide) (by intro h; cases h) (by intro h; cases h)
          (fun _ => hv1)
      · exact keep _ (by rw [hs]; decide) (by intro h; cases h) (by intro h; cases h)
          (fun _ => hv1)
  · have hv1 := hv0 (by rw [hs]; rfl)
    split
    · exact keep _ (by rw [hs]; decide) (by intro h; cases h) (by intro h; cases h)
        (fun _ => hv1)
    · exact same (by rw [hs]; decide)
  · have hv1 := hv0 (by rw [hs]; rfl)
    split
    · exact keep _ (by rw [hs]; decide) (by intro h; cases h) (by intro h; cases h)
        (fun _ => hv1)
    · exact same (by rw [hs]; decide)
  · exact same (by rw [hs]; decide)

theorem rpt_retry_spec (s : System) (h : KR s) :
    KR (sfwreporting_stm_retry_delay_cb s) ∧ FrameR s (sfwreporting_stm_retry_delay_cb s) := by
  unfold sfwreporting_stm_retry_delay_cb
  have hf : KRf { s with rpt := { s.rpt with rpt_retry_delay_id := false } } := h.1
  have hd : RDc { s with rpt := { s.rpt with rpt_retry_delay_id := false } } := h.2.1.1
  obtain ⟨b1, b2, b3⟩ := rpt_eval_later_keeps _ hf hd
  have fr := (rpt_eval_later_effect { s with rpt := { s.rpt with rpt_retry_delay_id := false } }).1
  refine ⟨⟨b1, b2, ?_⟩, FrameR.transR ⟨rfl, rfl, rfl, rfl, rfl, rfl⟩ fr⟩
  rw [b3, fr.sns_valid]
  exact h.2.2

theorem rpt_user_spec (s : System) (h : KR s) :
    (KR (sfwreporting_start s) ∧ FrameR s (sfwreporting_start s)) ∧
    (KR (sfwreporting_stop s) ∧ FrameR s (sfwreporting_stop s)) ∧
    (∀ hz, KR (sfwreporting_set_datarate s hz) ∧ FrameR s (sfwreporting_set_datarate s hz)) ∧
    (∀ b, KR (sfwreporting_set_override s b) ∧ FrameR s (sfwreporting_set_override s b)) := by
  have key : ∀ r : SfwReportingPrivate,
      r.rpt_state = s.rpt.rpt_state → r.rpt_active = s.rpt.rpt_active →
      r.rpt_valid = s.rpt.rpt_valid →
      r.rpt_enable_cancellable = s.rpt.rpt_enable_cancellable →
      r.rpt_datarate_cancellable = s.rpt.rpt_datarate_cancellable →
      r.rpt_override_cancellable = s.rpt.rpt_override_cancellable →
      r.rpt_enable_requested = s.rpt.rpt_enable_requested →
      r.rpt_enable_effective = s.rpt.rpt_enable_effective →
      r.rpt_datarate_requested = s.rpt.rpt_datarate_requested →
      r.rpt_datarate_effective = s.rpt.rpt_datarate_effective →
      r.rpt_override_requested = s.rpt.rpt_override_requested →
      r.rpt_override_effective = s.rpt.rpt_override_effective →
      KR (sfwreporting_stm_eval_state_later { s with rpt := r }) ∧
      FrameR s (sfwreporting_stm_eval_state_later { s with rpt := r }) := by
    intro r e1 e2 e3 e4 e5 e6 e7 e8 e9 e10 e11 e12
    have hf : KRf { s with rpt := r } := by
      have := h.1
      unfold KRf at this ⊢
      simp only [e1, e2, e3]
      exact this
    have hd : RDc { s with rpt := r } := by
      have := h.2.1.1
      unfold RDc at this ⊢
      simp only [e1, e4, e5, e6, e7, e8, e9, e10, e11, e12]
      exact this
    obtain ⟨b1, b2, b3⟩ := rpt_eval_later_keeps _ hf hd
    have fr := (rpt_eval_later_effect { s with rpt := r }).1
    refine ⟨⟨b1, b2, ?_⟩, FrameR.transR ⟨rfl, rfl, rfl, rfl, rfl, rfl⟩ fr⟩
    rw [b3, fr.sns_valid]
    simp only [e1]
    exact h.2.2
  refine ⟨?_, ?_, ?_, ?_⟩
  · unfold sfwreporting_start
    split
    · exact key _ rfl rfl rfl rfl rfl rfl rfl rfl rfl rfl rfl rfl
    · exact ⟨h, FrameR.reflR s⟩
  · unfold sfwreporting_stop
    split
    · exact key _ rfl rfl rfl rfl rfl rfl rfl rfl rfl rfl rfl rfl
    · exact ⟨h, FrameR.reflR s⟩
  · intro hz
    exact key _ rfl rfl rfl rfl rfl rfl rfl rfl rfl rfl rfl rfl
  · intro b
    exact key _ rfl rfl rfl rfl rfl rfl rfl rfl rfl rfl rfl rfl

theorem rpt_callbacks_spec (s : System) (h : KR s) (ack : Bool) :
    (KR (sfwreporting_stm_enable_cb s ack) ∧ FrameR s (sfwreporting_stm_enable_cb s ack)) ∧
    (KR (sfwreporting_stm_datarate_cb s ack) ∧ FrameR s (sfwreporting_stm_datarate_cb s ack)) ∧
    (KR (sfwreporting_stm_override_cb s ack) ∧
      FrameR s (sfwreporting_stm_override_cb s ack)) := by
  obtain ⟨hf, ⟨hd, hw⟩, hv⟩ := h
  have key : ∀ r : SfwReportingPrivate,
      KRf { s with rpt := r } → RDc { s with rpt := r } → r.rpt_state = s.rpt.rpt_state →
      KR (sfwreporting_stm_eval_state_later { s with rpt := r }) ∧
      FrameR s (sfwreporting_stm_eval_state_later { s with rpt := r }) := by
    intro r hf' hd' e1
    obtain ⟨b1, b2, b3⟩ := rpt_eval_later_keeps _ hf' hd'
    have fr := (rpt_eval_later_effect { s with rpt := r }).1
    refine ⟨⟨b1, b2, ?_⟩, FrameR.transR ⟨rfl, rfl, rfl, rfl, rfl, rfl⟩ fr⟩
    rw [b3, fr.sns_valid]
    simp only [e1]
    exact hv
  unfold KRf at hf
  unfold RDc at hd
  unfold RDw at hw
  obtain ⟨d1, d2, d3, d4⟩ := hd
  refine ⟨?_, ?_, ?_⟩
  · unfold sfwreporting_stm_enable_cb cancellable_finish
    simp only []
    cases hc : s.rpt.rpt_enable_cancellable with
    | none =>
      simp only [Option.isSome_none, Bool.false_eq_true, if_false]
      refine ⟨⟨?_, ⟨?_, ?_⟩, hv⟩, ⟨rfl, rfl, rfl, rfl, rfl, rfl⟩⟩
      · unfold KRf; exact hf
      · unfold RDc; simp only []; exact ⟨fun _ _ => trivial, d2, d3, d4⟩
      · unfold RDw; exact hw
    | some c =>
      simp only [Option.isSome_some, if_true]
      have hst : s.rpt.rpt_state = .STARTING ∨ s.rpt.rpt_state = .STOPPING := by
        by_contra hcon
        simp only [not_or] at hcon
        have := d1 hcon.1 hcon.2
        rw [hc] at this
        cases this
      cases ack
      · apply key
        · unfold KRf; exact hf
        · unfold RDc; simp only []
          refine ⟨fun _ _ => trivial, d2, d3, d4⟩
        · rfl
      · apply key
        · unfold KRf; exact hf
        · unfold RDc; simp only [if_true]
          refine ⟨fun _ _ => trivial, d2, fun _ => trivial, ?_⟩
          intro h; rcases hst with h' | h' <;> rw [h'] at h <;> cases h
        · rfl
  · unfold sfwreporting_stm_datarate_cb cancellable_finish
    simp only []
    cases hc : s.rpt.rpt_datarate_cancellable with
    | none =>
      simp only [Option.isSome_none, Bool.false_eq_true, if_false]
      refine ⟨⟨?_, ⟨?_, ?_⟩, hv⟩, ⟨rfl, rfl, rfl, rfl, rfl, rfl⟩⟩
      · unfold KRf; exact hf
      · unfold RDc; simp only []
        exact ⟨d1, fun h => ⟨trivial, (d2 h).2⟩, d3, d4⟩
      · unfold RDw; exact hw
    | some c =>
      simp only [Option.isSome_some, if_true]
      have hst : s.rpt.rpt_state = .CONFIGURE := by
        by_contra hcon
        have := (d2 hcon).1
        rw [hc] at this
        cases this
      cases ack
      · apply key
        · unfold KRf; exact hf
        · unfold RDc; simp only []
          refine ⟨d1, fun h => absurd hst h, d3, d4⟩
        · rfl
      · apply key
        · unfold KRf; exact hf
        · unfold RDc; simp only [if_true]
          refine ⟨d1, fun h => absurd hst h, d3, ?_⟩
          intro h; rw [hst] at h; cases h
        · rfl
  · unfold sfwreporting_stm_override_cb cancellable_finish
    simp only []
    cases hc : s.rpt.rpt_override_cancellable with
    | none =>
      simp only [Option.isSome_none, Bool.false_eq_true, if_false]
      refine ⟨⟨?_, ⟨?_, ?_⟩, hv⟩, ⟨rfl, rfl, rfl, rfl, rfl, rfl⟩⟩
      · unfold KRf; exact hf
      · unfold RDc; simp only []
        exact ⟨d1, fun h => ⟨(d2 h).1, trivial⟩, d3, d4⟩
      · unfold RDw; exact hw
    | some c =>
      simp only [Option.isSome_some, if_true]
      have hst : s.rpt.rpt_state = .CONFIGURE := by
        by_contra hcon
        have := (d2 hcon).2
        rw [hc] at this
        cases this
      apply key
      · unfold KRf; exact hf
      · unfold RDc; simp only []
        refine ⟨d1, fun h => absurd hst h, d3, ?_⟩
        intro h; rw [hst] at h; cases h
      · rfl

/-! ## The Sensor tier -/

theorem SameBelow.reflB (s : System) : SameBelow s s :=
  ⟨rfl, rfl, rfl, rfl, rfl, rfl, rfl, rfl, rfl, rfl⟩

theorem SameBelow.transB {a b c : System} (h1 : SameBelow a b) (h2 : SameBelow b c) :
    SameBelow a c := by
  unfold SameBelow at *
  simp only [h2, h1, and_self]

theorem KR_of_same {s s' : System} (h : SameBelow s s') (k : KR s) : KR s' := by
  obtain ⟨a1, a2, a3, a4, a5, a6, a7, a8, a9, a10⟩ := h
  unfold KR KRf RD RDc RDw at *
  rw [a1, a2, a3]
  exact k

theorem FrameS.reflS (s : System) : FrameS s s := ⟨rfl, rfl, rfl, rfl, rfl, rfl⟩

theorem FrameS.transS {a b c : System} (h1 : FrameS a b) (h2 : FrameS b c) : FrameS a c := by
  unfold FrameS at *
  simp only [h2, h1, and_self]

theorem FrameS.of_same {s s' : System} (h : SameBelow s s') : FrameS s s' :=
  ⟨h.2.2.2.1, h.2.2.2.2.1, h.2.2.2.2.2.1, h.2.2.2.2.2.2.1, h.2.2.2.2.2.2.2.2.1,
    h.2.2.2.2.2.2.2.2.2⟩

theorem FrameS.of_frameR {s s' : System} (h : FrameR s s') : FrameS s s' :=
  ⟨h.1, h.2.1, h.2.2.1, h.proj.1, h.proj.2.2.2.2.2.2.2.2.2, h.2.2.2.2.2⟩


/-- The Sensor's `valid` setter keeps the Reporting consistent: a change
resets the Reporting at once. -/
theorem sns_set_valid_spec (s : System) (v : Bool) (h : KR s) :
    KR (sfwsensor_set_valid s v) ∧ (sfwsensor_set_valid s v).sns.sns_valid = v ∧
    FrameS s (sfwsensor_set_valid s v) ∧
    (sfwsensor_set_valid s v).sns.sns_state = s.sns.sns_state ∧
    (sfwsensor_set_valid s v).sock = s.sock ∧
    (sfwsensor_set_valid s v).sns.sns_socket_fd = s.sns.sns_socket_fd ∧
    (sfwsensor_set_valid s v).sns.sns_socket_rx_id = s.sns.sns_socket_rx_id ∧
    (sfwsensor_set_valid s v).sns.sns_socket_tx_id = s.sns.sns_socket_tx_id ∧
    (sfwsensor_set_valid s v).sns.sns_socket_rx_cb = s.sns.sns_socket_rx_cb ∧
    (sfwsensor_set_valid s v).sns.sns_socket_tx_cb = s.sns.sns_socket_tx_cb := by
  unfold sfwsensor_set_valid
  split
  · have hf : KRf { s with sns := { s.sns with sns_valid := v } } := h.1
    have hd : RDc { s with sns := { s.sns with sns_valid := v } } := h.2.1.1
    obtain ⟨r1, r2, r3⟩ := rpt_reset_spec _ hf hd
    unfold sfwreporting_sensor_changed_cb
    generalize sfwreporting_stm_reset_state { s with sns := { s.sns with sns_valid := v } } = s1 at *
    obtain ⟨p1, p2, p3, p4, p5, p6, p7, p8, p9, p10⟩ := r2.proj
    have fs := FrameS.of_frameR r2
    refine ⟨KR_of_same ⟨rfl, rfl, rfl, rfl, rfl, rfl, rfl, rfl, rfl, ?_⟩ r1, p2,
      ⟨fs.1, fs.2.1, fs.2.2.1, fs.2.2.2.1, fs.2.2.2.2.1, ?_⟩, p3, r2.2.2.2.1, p5, p8, p6, p9, p7⟩
    · simp [observe, readings_emitted_append, readings_emitted]
    · simp only [observe, readings_emitted_append, readings_emitted, List.append_nil]
      exact fs.2.2.2.2.2
  · rename_i heq
    simp only [bne_iff_ne, ne_eq, not_not] at heq
    exact ⟨h, heq, FrameS.reflS s, rfl, rfl, rfl, rfl, rfl, rfl, rfl⟩

theorem sns_disconnect_closed (s : System) (h : s.sns.sns_socket_fd = -1 → s.sock = none) :
    SockClosed (sfwsensor_stm_socket_disconnect s) ∧
    SameBelow s (sfwsensor_stm_socket_disconnect s) := by
  refine ⟨?_, ⟨rfl, rfl, rfl, rfl, rfl, rfl, rfl, rfl, rfl, rfl⟩⟩
  unfold SockClosed sfwsensor_stm_socket_disconnect
  simp only [true_and, and_true]
  split
  · rfl
  · rename_i hfd
    simp only [ne_eq, not_not] at hfd
    exact h hfd

theorem sns_leave_effect (s : System) (hj : JS s) (hk : KR s) :
    KR (sfwsensor_stm_leave_state s) ∧ FrameS s (sfwsensor_stm_leave_state s) ∧
    (sfwsensor_stm_leave_state s).sns.sns_state = s.sns.sns_state ∧
    (sfwsensor_stm_leave_state s).sns.sns_valid = false ∧
    (s.sns.sns_state ≠ .CONNECT → SockClosed (sfwsensor_stm_leave_state s)) ∧
    ((sfwsensor_stm_leave_state s).sns.sns_socket_fd = -1 →
      (sfwsensor_stm_leave_state s).sock = none) := by
  obtain ⟨j1, j2, j3⟩ := hj
  unfold sfwsensor_stm_leave_state
  cases hs : s.sns.sns_state
  case READY =>
    simp only []
    obtain ⟨v1, v2, v3, v4, v5, v6, v7, v8, v9, v10⟩ := sns_set_valid_spec s false hk
    generalize sfwsensor_set_valid s false = s1 at *
    have hd := sns_disconnect_closed s1 (by rw [v5, v6]; exact j3)
    refine ⟨KR_of_same hd.2 v1, FrameS.transS v3 (FrameS.of_same hd.2), ?_, ?_, fun _ => hd.1, ?_⟩
    · rw [hd.2.2.2.2.2.2.2.2.1, v4, hs]
    · rw [hd.2.2.1, v2]
    · intro _; exact hd.1.2.1
  all_goals
    have hv : s.sns.sns_valid = false := by
      cases hval : s.sns.sns_valid with
      | false => rfl
      | true => have := j1 hval; rw [hs] at this; cases this
    first
    | (have hc := j2 (by rw [hs]; decide) (by rw [hs]; decide)
       unfold SockClosed at hc ⊢
       simp only [sfwsensor_stm_cancel_release_session, sfwsensor_stm_cancel_request_session,
         sfwsensor_stm_cancel_get_properties, sfwsensor_stm_cancel_retry_delay,
         cancellable_cancel]
       refine ⟨KR_of_same ?_ hk, ?_, ?_, ?_, ?_, ?_⟩
       · (repeat' split) <;> exact ⟨rfl, rfl, rfl, rfl, rfl, rfl, rfl, rfl, rfl, rfl⟩
       · (repeat' split) <;> exact ⟨rfl, rfl, rfl, rfl, rfl, rfl⟩
       · (repeat' split) <;> simp [hs]
       · (repeat' split) <;> simp [hv]
       · intro _; (repeat' split) <;> simpa using hc
       · (repeat' split) <;> simpa using j3)
    | (refine ⟨hk, FrameS.reflS s, hs, hv, ?_, j3⟩
       intro h; exact absurd rfl h)

theorem SockSame.closed {s s' : System} (h : SockSame s s') (c : SockClosed s) :
    SockClosed s' := by
  obtain ⟨h1, h2, h3, h4, h5, h6⟩ := h
  unfold SockClosed at *
  rw [h1, h2, h3, h4, h5, h6]
  exact c

theorem SockSame.fd {s s' : System} (h : SockSame s s')
    (c : s.sns.sns_socket_fd = -1 → s.sock = none) : s'.sns.sns_socket_fd = -1 → s'.sock = none := by
  rw [h.1, h.2.1]
  exact c

theorem SockSame.transK {a b c : System} (h1 : SockSame a b) (h2 : SockSame b c) :
    SockSame a c := by
  unfold SockSame at *
  simp only [h2, h1, and_self]

theorem sns_eval_later_same (s : System) : SameBelow s (sfwsensor_stm_eval_state_later s) ∧
    SockSame s (sfwsensor_stm_eval_state_later s) := by
  unfold sfwsensor_stm_eval_state_later sfwsensor_stm_cancel_eval_state
  (repeat' split) <;>
    exact ⟨⟨rfl, rfl, rfl, rfl, rfl, rfl, rfl, rfl, rfl, rfl⟩, ⟨rfl, rfl, rfl, rfl, rfl, rfl⟩⟩

theorem sns_start_same (s : System) :
    (SameBelow s (sfwsensor_stm_start_release_session s) ∧
      SockSame s (sfwsensor_stm_start_release_session s)) ∧
    (SameBelow s (sfwsensor_stm_start_request_session s) ∧
      SockSame s (sfwsensor_stm_start_request_session s)) ∧
    (SameBelow s (sfwsensor_stm_start_get_properties s) ∧
      SockSame s (sfwsensor_stm_start_get_properties s)) ∧
    (SameBelow s (sfwsensor_stm_start_retry_delay s) ∧
      SockSame s (sfwsensor_stm_start_retry_delay s)) := by
  refine ⟨?_, ?_, ?_, ?_⟩
  · unfold sfwsensor_stm_start_release_session
    split
    · exact ⟨SameBelow.reflB s, ⟨rfl, rfl, rfl, rfl, rfl, rfl⟩⟩
    · simp only []
      split
      · have := sns_eval_later_same
          { s with sns := { s.sns with sns_session_id := SESSION_ID_INVALID } }
        exact ⟨SameBelow.transB ⟨rfl, rfl, rfl, rfl, rfl, rfl, rfl, rfl, rfl, rfl⟩ this.1,
          SockSame.transK ⟨rfl, rfl, rfl, rfl, rfl, rfl⟩ this.2⟩
      · refine ⟨⟨rfl, rfl, rfl, rfl, rfl, rfl, rfl, rfl, rfl, ?_⟩, ⟨rfl, rfl, rfl, rfl, rfl, rfl⟩⟩
        simp [issue_call, readings_emitted_append, readings_emitted]
  · unfold sfwsensor_stm_start_request_session
    split
    · refine ⟨⟨rfl, rfl, rfl, rfl, rfl, rfl, rfl, rfl, rfl, ?_⟩, ⟨rfl, rfl, rfl, rfl, rfl, rfl⟩⟩
      simp [issue_call, readings_emitted_append, readings_emitted]
    · exact ⟨SameBelow.reflB s, ⟨rfl, rfl, rfl, rfl, rfl, rfl⟩⟩
  · unfold sfwsensor_stm_start_get_properties
    refine ⟨⟨rfl, rfl, rfl, rfl, rfl, rfl, rfl, rfl, rfl, ?_⟩, ⟨rfl, rfl, rfl, rfl, rfl, rfl⟩⟩
    simp [issue_call, readings_emitted_append, readings_emitted]
  · unfold sfwsensor_stm_start_retry_delay
    split
    · refine ⟨⟨rfl, rfl, rfl, rfl, rfl, rfl, rfl, rfl, rfl, ?_⟩, ⟨rfl, rfl, rfl, rfl, rfl, rfl⟩⟩
      simp [observe, readings_emitted_append, readings_emitted]
    · exact ⟨⟨rfl, rfl, rfl, rfl, rfl, rfl, rfl, rfl, rfl, rfl⟩, ⟨rfl, rfl, rfl, rfl, rfl, rfl⟩⟩

theorem sns_enter_effect (s : System) (hv : s.sns.sns_valid = false)
    (hc : s.sns.sns_state = .INITIAL ∨ s.sns.sns_state = .SESSION ∨
      s.sns.sns_state = .PROPERTIES → SockClosed s)
    (hfd : s.sns.sns_socket_fd = -1 → s.sock = none)
    (hk : KR s) :
    KR (sfwsensor_stm_enter_state s) ∧ JS (sfwsensor_stm_enter_state s) ∧
    FrameS s (sfwsensor_stm_enter_state s) ∧
    (sfwsensor_stm_enter_state s).sns.sns_state = s.sns.sns_state := by
  unfold sfwsensor_stm_enter_state
  cases hs : s.sns.sns_state
  case READY =>
    simp only []
    obtain ⟨v1, v2, v3, v4, v5, v6, v7, v8, v9, v10⟩ := sns_set_valid_spec s true hk
    refine ⟨v1, ⟨(fun _ => by rw [v4, hs]), (fun _ h => ?_), ?_⟩, v3, (by rw [v4, hs])⟩
    · rw [v4, hs] at h; exact absurd rfl h
    · rw [v5, v6]; exact hfd
  case INITIAL =>
    have hc' := hc (Or.inl hs)
    exact ⟨hk, ⟨(fun h => by rw [hv] at h; cases h), (fun _ _ => hc'), hfd⟩, FrameS.reflS s, hs⟩
  case CONNECT =>
    simp only []
    have hd := sns_disconnect_closed s hfd
    unfold sfwsensor_stm_socket_connect
    generalize sfwsensor_stm_socket_disconnect s = s1 at *
    have hv1 : s1.sns.sns_valid = false := by rw [hd.2.2.1, hv]
    have hs1 : s1.sns.sns_state = .CONNECT := by rw [hd.2.2.2.2.2.2.2.2.1, hs]
    have hk1 := KR_of_same hd.2 hk
    have hfs := FrameS.of_same hd.2
    have fail : KR s1 ∧ JS s1 ∧ FrameS s s1 ∧ s1.sns.sns_state = .CONNECT :=
      ⟨hk1, ⟨(fun h => by rw [hv1] at h; cases h), (fun h _ => absurd hs1 h), (fun _ => hd.1.2.1)⟩,
        hfs, hs1⟩
    simp only []
    by_cases h1 : s1.os.socket_open_result = -1
    · rw [if_pos h1]; exact fail
    rw [if_neg h1]
    by_cases h2 : (!s1.os.add_notify_tx_ok) = true
    · rw [if_pos h2]; exact fail
    rw [if_neg h2]
    by_cases h3 : (!s1.os.add_notify_rx_ok) = true
    · rw [if_pos h3]; exact fail
    rw [if_neg h3]
    refine ⟨KR_of_same ⟨rfl, rfl, rfl, rfl, rfl, rfl, rfl, rfl, rfl, rfl⟩ hk1,
      ⟨(fun h => ?_), (fun h _ => absurd hs1 h), (fun h => absurd h h1)⟩,
      FrameS.transS hfs ⟨rfl, rfl, rfl, rfl, rfl, rfl⟩, hs1⟩
    rw [show ({ s1 with sns := _, sock := _ } : System).sns.sns_valid = s1.sns.sns_valid
      from rfl, hv1] at h
    cases h
  case DISABLED =>
    simp only []
    have hd := sns_disconnect_closed s hfd
    generalize sfwsensor_stm_socket_disconnect s = s1 at *
    have hr := (sns_start_same s1).1
    have sb := SameBelow.transB hd.2 hr.1
    have cl := hr.2.closed hd.1
    refine ⟨KR_of_same sb hk, ⟨(fun h => ?_), (fun _ _ => cl), (fun _ => cl.2.1)⟩,
      FrameS.of_same sb, ?_⟩
    · rw [sb.2.1, hv] at h; cases h
    · rw [sb.2.2.2.2.2.2.2.1, hs]
  case FAILED =>
    simp only []
    have hd := sns_disconnect_closed s hfd
    generalize sfwsensor_stm_socket_disconnect s = s1 at *
    have hr := (sns_start_same s1).2.2.2
    have sb := SameBelow.transB hd.2 hr.1
    have cl := hr.2.closed hd.1
    refine ⟨KR_of_same sb hk, ⟨(fun h => ?_), (fun _ _ => cl), (fun _ => cl.2.1)⟩,
      FrameS.of_same sb, ?_⟩
    · rw [sb.2.1, hv] at h; cases h
    · rw [sb.2.2.2.2.2.2.2.1, hs]
  case FINAL =>
    simp only []
    have hd := sns_disconnect_closed s hfd
    have sb := hd.2
    have cl := hd.1
    refine ⟨KR_of_same sb hk, ⟨(fun h => ?_), (fun _ _ => cl), (fun _ => cl.2.1)⟩,
      FrameS.of_same sb, ?_⟩
    · rw [sb.2.1, hv] at h; cases h
    · rw [sb.2.2.2.2.2.2.2.1, hs]
  case SESSION =>
    simp only []
    have hr := (sns_start_same s).2.1
    have sb := hr.1
    have cl := hr.2.closed (hc (Or.inr (Or.inl hs)))
    refine ⟨KR_of_same sb hk, ⟨(fun h => ?_), (fun _ _ => cl), (fun _ => cl.2.1)⟩,
      FrameS.of_same sb, ?_⟩
    · rw [sb.2.1, hv] at h; cases h
    · rw [sb.2.2.2.2.2.2.2.1, hs]
  case PROPERTIES =>
    simp only []
    have hr := (sns_start_same s).2.2.1
    have sb := hr.1
    have cl := hr.2.closed (hc (Or.inr (Or.inr hs)))
    refine ⟨KR_of_same sb hk, ⟨(fun h => ?_), (fun _ _ => cl), (fun _ => cl.2.1)⟩,
      FrameS.of_same sb, ?_⟩
    · rw [sb.2.1, hv] at h; cases h
    · rw [sb.2.2.2.2.2.2.2.1, hs]

/-- A state change of the Sensor keeps its bookkeeping and the Reporting
consistent, delivers no reading and leaves the reading slot as it is. -/
theorem sns_set_state_spec (s : System) (st : SfwSensorState) (hj : JS s) (hk : KR s)
    (hpre : st = .INITIAL ∨ st = .SESSION ∨ st = .PROPERTIES → s.sns.sns_state ≠ .CONNECT) :
    KR (sfwsensor_stm_set_state s st) ∧ JS (sfwsensor_stm_set_state s st) ∧
    FrameS s (sfwsensor_stm_set_state s st) ∧
    (sfwsensor_stm_set_state s st).sns.sns_state
      = (if s.sns.sns_state = .FINAL then .FINAL else st) := by
  unfold sfwsensor_stm_set_state
  by_cases hfin : s.sns.sns_state = .FINAL
  · simp only [hfin, if_true]
    exact ⟨hk, hj, FrameS.reflS s, trivial⟩
  by_cases hne : s.sns.sns_state = st
  · subst hne
    simp only [hfin, if_false, ne_eq, not_true_eq_false]
    exact ⟨hk, hj, FrameS.reflS s, trivial⟩
  simp only [hfin, if_false, ne_eq, hne, not_false_eq_true, if_true]
  obtain ⟨l1, l2, l3, l4, l5, l6⟩ := sns_leave_effect s hj hk
  generalize sfwsensor_stm_leave_state s = s1 at *
  have hk2 : KR { s1 with sns := { s1.sns with sns_state := st } } := l1
  obtain ⟨e1, e2, e3, e4⟩ := sns_enter_effect { s1 with sns := { s1.sns with sns_state := st } }
    l4 (fun h => l5 (hpre h)) l6 hk2
  generalize sfwsensor_stm_enter_state { s1 with sns := { s1.sns with sns_state := st } } = s2 at *
  simp only at e4
  obtain ⟨v1, v2⟩ := sns_eval_later_same s2
  refine ⟨KR_of_same v1 e1, ?_, FrameS.transS l2 (FrameS.transS ⟨rfl, rfl, rfl, rfl, rfl, rfl⟩
    (FrameS.transS e3 (FrameS.of_same v1))), ?_⟩
  · obtain ⟨j1, j2, j3⟩ := e2
    refine ⟨?_, ?_, v2.fd j3⟩
    · rw [v1.2.1, v1.2.2.2.2.2.2.2.1]; exact j1
    · rw [v1.2.2.2.2.2.2.2.1]
      intro a b
      exact v2.closed (j2 a b)
  · rw [v1.2.2.2.2.2.2.2.1, e4]

theorem sns_reset_spec (s : System) (hj : JS s) (hk : KR s) :
    KR (sfwsensor_stm_reset_state s) ∧ JS (sfwsensor_stm_reset_state s) ∧
    FrameS s (sfwsensor_stm_reset_state s) ∧
    (sfwsensor_stm_reset_state s).sns.sns_state.engaged = false := by
  unfold sfwsensor_stm_reset_state
  obtain ⟨a1, a2, a3, a4⟩ := sns_set_state_spec s .DISABLED hj hk
    (by intro h; rcases h with h | h | h <;> cases h)
  generalize sfwsensor_stm_set_state s .DISABLED = s1 at *
  obtain ⟨v1, v2⟩ := sns_eval_later_same s1
  obtain ⟨j1, j2, j3⟩ := a2
  refine ⟨KR_of_same v1 a1, ⟨?_, ?_, v2.fd j3⟩, FrameS.transS a3 (FrameS.of_same v1), ?_⟩
  · rw [v1.2.1, v1.2.2.2.2.2.2.2.1]; exact j1
  · rw [v1.2.2.2.2.2.2.2.1]
    intro a b
    exact v2.closed (j2 a b)
  · rw [v1.2.2.2.2.2.2.2.1, a4]
    split <;> rfl

/-- The upper tiers and the Sensor's link to its Plugin are untouched. -/
theorem FrameS.upper {s s' : System} (h : FrameS s s') :
    s'.srv = s.srv ∧ s'.plg = s.plg ∧ s'.sns.sns_plugin = s.sns.sns_plugin :=
  ⟨h.1, h.2.1, h.2.2.2.1⟩

theorem KS_of_set_state (s : System) (st : SfwSensorState) (h : KS s)
    (hpre : st = .INITIAL ∨ st = .SESSION ∨ st = .PROPERTIES → s.sns.sns_state ≠ .CONNECT)
    (hst : st.engaged = true → s.sns.sns_plugin = true ∧ s.plg.plg_valid = true) :
    KS (sfwsensor_stm_set_state s st) ∧ FrameS s (sfwsensor_stm_set_state s st) := by
  obtain ⟨hj, h4, hk⟩ := h
  obtain ⟨a1, a2, a3, a4⟩ := sns_set_state_spec s st hj hk hpre
  refine ⟨⟨a2, ?_, a1⟩, a3⟩
  rw [a4, a3.2.1, a3.2.2.2.1]
  split
  · intro h; cases h
  · exact hst

theorem KS_of_same {s s' : System} (h : SameBelow s s') (k : SockSame s s') (ks : KS s) :
    KS s' := by
  obtain ⟨⟨j1, j2, j3⟩, h4, hk⟩ := ks
  refine ⟨⟨?_, ?_, k.fd j3⟩, ?_, KR_of_same h hk⟩
  · rw [h.2.1, h.2.2.2.2.2.2.2.1]; exact j1
  · rw [h.2.2.2.2.2.2.2.1]
    intro a b
    exact k.closed (j2 a b)
  · rw [h.2.2.2.2.2.2.2.1, h.2.2.2.2.2.2.1, h.2.2.2.2.1]; exact h4

theorem KS_of_frameR {s s' : System} (h : FrameR s s') (k : KR s') (ks : KS s) : KS s' := by
  obtain ⟨⟨j1, j2, j3⟩, h4, _⟩ := ks
  obtain ⟨p1, p2, p3, p4, p5, p6, p7, p8, p9, p10⟩ := h.proj
  refine ⟨⟨?_, ?_, ?_⟩, ?_, k⟩
  · rw [p2, p3]; exact j1
  · rw [p3]
    intro a b
    have c := j2 a b
    unfold SockClosed at c ⊢
    rw [p5, h.2.2.2.1, p8, p6, p9, p7]
    exact c
  · rw [p5, h.2.2.2.1]; exact j3
  · rw [p3, p1, h.2.1]; exact h4

/-- The deferred evaluation of the Sensor keeps everything below the Plugin
consistent. -/
theorem sns_eval_spec (s : System) (h : KS s) :
    KS (sfwsensor_stm_eval_state_cb s) ∧ FrameS s (sfwsensor_stm_eval_state_cb s) := by
  have h0 : KS { s with sns := { s.sns with sns_eval_state_id := false } } :=
    KS_of_same ⟨rfl, rfl, rfl, rfl, rfl, rfl, rfl, rfl, rfl, rfl⟩ ⟨rfl, rfl, rfl, rfl, rfl, rfl⟩ h
  have f0 : FrameS s { s with sns := { s.sns with sns_eval_state_id := false } } :=
    ⟨rfl, rfl, rfl, rfl, rfl, rfl⟩
  unfold sfwsensor_stm_eval_state_cb
  generalize hs0 : ({ s with sns := { s.sns with sns_eval_state_id := false } } : System) = s0 at *
  simp only []
  have same : KS s0 ∧ FrameS s s0 := ⟨h0, f0⟩
  have go : ∀ st : SfwSensorState,
      (st = .INITIAL ∨ st = .SESSION ∨ st = .PROPERTIES → s0.sns.sns_state ≠ .CONNECT) →
      (st.engaged = true → s0.sns.sns_plugin = true ∧ s0.plg.plg_valid = true) →
      KS (sfwsensor_stm_set_state s0 st) ∧ FrameS s (sfwsensor_stm_set_state s0 st) := by
    intro st a b
    have := KS_of_set_state s0 st h0 a b
    exact ⟨this.1, FrameS.transS f0 this.2⟩
  have h4 := h0.2.1
  cases hs : s0.sns.sns_state <;> simp only []
  · exact same
  · split
    · exact same
    · split
      · rename_i hp
        simp only [sfwsensor_plugin_is_valid, Bool.and_eq_true] at hp
        exact go _ (by rw [hs]; intro _; decide) (fun _ => hp)
      · exact same
  · have hp := h4 (by rw [hs]; rfl)
    split
    · exact same
    · split
      · exact go _ (by rw [hs]; intro _; decide) (fun _ => hp)
      · exact go _ (by rw [hs]; intro _; decide) (fun _ => hp)
  · have hp := h4 (by rw [hs]; rfl)
    split
    · exact same
    · exact go _ (by intro h; rcases h with h | h | h <;> cases h) (fun _ => hp)
  · have hp := h4 (by rw [hs]; rfl)
    split
    · exact same
    · split
      · exact go _ (by intro h; rcases h with h | h | h <;> cases h) (fun _ => hp)
      · exact go _ (by intro h; rcases h with h | h | h <;> cases h) (fun _ => hp)
  · exact same
  · have hp := h4 (by rw [hs]; rfl)
    split
    · exact same
    · exact go _ (by rw [hs]; intro _; decide) (fun _ => hp)
  · exact same

theorem sns_local_callbacks_spec (s : System) (h : KS s) :
    (KS (sfwsensor_stm_retry_delay_cb s) ∧ FrameS s (sfwsensor_stm_retry_delay_cb s)) ∧
    (∀ rsp, KS (sfwsensor_stm_request_session_cb s rsp) ∧
      FrameS s (sfwsensor_stm_request_session_cb s rsp)) ∧
    (∀ rsp, KS (sfwsensor_stm_release_session_cb s rsp) ∧
      FrameS s (sfwsensor_stm_release_session_cb s rsp)) ∧
    (∀ rsp, KS (sfwsensor_stm_get_properties_cb s rsp) ∧
      FrameS s (sfwsensor_stm_get_properties_cb s rsp)) := by
  have key : ∀ s1 : System, SameBelow s s1 → SockSame s s1 →
      KS (sfwsensor_stm_eval_state_later s1) ∧ FrameS s (sfwsensor_stm_eval_state_later s1) := by
    intro s1 a b
    have e := sns_eval_later_same s1
    exact ⟨KS_of_same (SameBelow.transB a e.1) (SockSame.transK b e.2) h,
      FrameS.of_same (SameBelow.transB a e.1)⟩
  have key0 : ∀ s1 : System, SameBelow s s1 → SockSame s s1 → KS s1 ∧ FrameS s s1 :=
    fun s1 a b => ⟨KS_of_same a b h, FrameS.of_same a⟩
  refine ⟨?_, ?_, ?_, ?_⟩
  · unfold sfwsensor_stm_retry_delay_cb
    exact key _ ⟨rfl, rfl, rfl, rfl, rfl, rfl, rfl, rfl, rfl, rfl⟩ ⟨rfl, rfl, rfl, rfl, rfl, rfl⟩
  · intro rsp
    unfold sfwsensor_stm_request_session_cb
    simp only []
    split
    · split
      · exact key _ ⟨rfl, rfl, rfl, rfl, rfl, rfl, rfl, rfl, rfl, rfl⟩
          ⟨rfl, rfl, rfl, rfl, rfl, rfl⟩
      · exact key _ ⟨rfl, rfl, rfl, rfl, rfl, rfl, rfl, rfl, rfl, rfl⟩
          ⟨rfl, rfl, rfl, rfl, rfl, rfl⟩
    · exact key0 _ ⟨rfl, rfl, rfl, rfl, rfl, rfl, rfl, rfl, rfl, rfl⟩
        ⟨rfl, rfl, rfl, rfl, rfl, rfl⟩
  · intro rsp
    unfold sfwsensor_stm_release_session_cb
    simp only []
    split
    · exact key _ ⟨rfl, rfl, rfl, rfl, rfl, rfl, rfl, rfl, rfl, rfl⟩
        ⟨rfl, rfl, rfl, rfl, rfl, rfl⟩
    · exact key0 _ ⟨rfl, rfl, rfl, rfl, rfl, rfl, rfl, rfl, rfl, rfl⟩
        ⟨rfl, rfl, rfl, rfl, rfl, rfl⟩
  · intro rsp
    unfold sfwsensor_stm_get_properties_cb
    simp only []
    have upd : ∀ (l : List (String × GVariant)) (s1 : System), SameBelow s s1 → SockSame s s1 →
        SameBelow s (l.foldl (fun s kv => sfwsensor_stm_update_property s kv.1 kv.2) s1) ∧
        SockSame s (l.foldl (fun s kv => sfwsensor_stm_update_property s kv.1 kv.2) s1) := by
      intro l
      induction l with
      | nil => intro s1 a b; exact ⟨a, b⟩
      | cons kv t ih =>
        intro s1 a b
        simp only [List.foldl_cons]
        apply ih
        · unfold sfwsensor_stm_update_property
          split
          · exact SameBelow.transB a ⟨rfl, rfl, rfl, rfl, rfl, rfl, rfl, rfl, rfl, rfl⟩
          · exact a
        · unfold sfwsensor_stm_update_property
          split
          · exact SockSame.transK b ⟨rfl, rfl, rfl, rfl, rfl, rfl⟩
          · exact b
    split
    · cases rsp with
      | none =>
        exact key _ ⟨rfl, rfl, rfl, rfl, rfl, rfl, rfl, rfl, rfl, rfl⟩
          ⟨rfl, rfl, rfl, rfl, rfl, rfl⟩
      | some l =>
        simp only []
        have u := upd l _ (⟨rfl, rfl, rfl, rfl, rfl, rfl, rfl, rfl, rfl, rfl⟩ :
          SameBelow s { s with sns := { s.sns with
            sns_get_properties_cancellable :=
              (cancellable_finish s.sns.sns_get_properties_cancellable).2 } })
          ⟨rfl, rfl, rfl, rfl, rfl, rfl⟩
        exact key _ u.1 u.2
    · exact key0 _ ⟨rfl, rfl, rfl, rfl, rfl, rfl, rfl, rfl, rfl, rfl⟩
        ⟨rfl, rfl, rfl, rfl, rfl, rfl⟩

theorem KS_of_core {s s' : System} (h : SameCore s s') (k : SockKeep s s') (ks : KS s) :
    KS s' := by
  obtain ⟨⟨j1, j2, j3⟩, h4, hk⟩ := ks
  obtain ⟨a1, a2, a3, a4, a5, a6, a7, a8⟩ := h
  obtain ⟨k1, k2, k3, k4, k5, k6⟩ := k
  refine ⟨⟨?_, ?_, ?_⟩, ?_, ?_⟩
  · rw [a2, a8]; exact j1
  · rw [a8]
    intro a b
    have c := j2 a b
    unfold SockClosed at c ⊢
    rw [k2, k3, k4, k5, k6]
    exact ⟨c.1, k1 c.2.1, c.2.2⟩
  · rw [k2]
    intro hfd
    exact k1 (j3 hfd)
  · rw [a8, a7, a5]; exact h4
  · unfold KR KRf RD RDc RDw at *
    rw [a1, a2, a3]
    exact hk

theorem socket_read_keep (fd : Int) (sock : Option Socket) (n : Nat) :
    (sock = none → (socket_read fd sock n).2.2 = none) := by
  intro h
  subst h
  rfl

theorem rx_loop_core (blk : Nat) : ∀ (n : Nat) (s : System),
    SameCore s (sfwsensor_stm_socket_rx_reading_loop blk n s).1 ∧
    SockKeep s (sfwsensor_stm_socket_rx_reading_loop blk n s).1 := by
  intro n
  induction n with
  | zero =>
    intro s
    exact ⟨⟨rfl, rfl, rfl, rfl, rfl, rfl, rfl, rfl⟩, ⟨fun h => h, rfl, rfl, rfl, rfl, rfl⟩⟩
  | succ n ih =>
    intro s
    unfold sfwsensor_stm_socket_rx_reading_loop
    simp only []
    have hk := socket_read_keep s.sns.sns_socket_fd s.sock blk
    have base : ∀ s1 : System, SameCore s s1 → SockKeep s s1 →
        SameCore s (sfwsensor_stm_socket_rx_reading_loop blk n s1).1 ∧
        SockKeep s (sfwsensor_stm_socket_rx_reading_loop blk n s1).1 := by
      intro s1 a b
      obtain ⟨i1, i2⟩ := ih s1
      obtain ⟨a1, a2, a3, a4, a5, a6, a7, a8⟩ := a
      obtain ⟨b1, b2, b3, b4, b5, b6⟩ := b
      obtain ⟨c1, c2, c3, c4, c5, c6, c7, c8⟩ := i1
      obtain ⟨d1, d2, d3, d4, d5, d6⟩ := i2
      exact ⟨⟨c1.trans a1, c2.trans a2, c3.trans a3, c4.trans a4, c5.trans a5, c6.trans a6,
        c7.trans a7, c8.trans a8⟩,
        ⟨fun h => d1 (b1 h), d2.trans b2, d3.trans b3, d4.trans b4, d5.trans b5, d6.trans b6⟩⟩
    (repeat' split)
    all_goals
      first
      | exact ⟨⟨rfl, rfl, rfl, rfl, rfl, rfl, rfl, rfl⟩, ⟨hk, rfl, rfl, rfl, rfl, rfl⟩⟩
      | exact base _ ⟨rfl, rfl, rfl, rfl, rfl, rfl, rfl, rfl⟩ ⟨hk, rfl, rfl, rfl, rfl, rfl⟩

theorem rx_body_core (s : System) :
    SameCore s (sfwsensor_stm_socket_rx_reading_body s).1 ∧
    SockKeep s (sfwsensor_stm_socket_rx_reading_body s).1 := by
  unfold sfwsensor_stm_socket_rx_reading_body
  simp only []
  have hk := socket_read_keep s.sns.sns_socket_fd s.sock 4
  (repeat' split)
  all_goals
    first
    | exact ⟨⟨rfl, rfl, rfl, rfl, rfl, rfl, rfl, rfl⟩, ⟨hk, rfl, rfl, rfl, rfl, rfl⟩⟩
    | (obtain ⟨⟨c1, c2, c3, c4, c5, c6, c7, c8⟩, ⟨d1, d2, d3, d4, d5, d6⟩⟩ := rx_loop_core
        (sfwsensorid_sample_size s.os.abi s.sns.sns_reading.sensor_id)
        (le_nat (socket_read s.sns.sns_socket_fd s.sock 4).2.1)
        { s with sock := (socket_read s.sns.sns_socket_fd s.sock 4).2.2 }
       exact ⟨⟨c1, c2, c3, c4, c5, c6, c7, c8⟩, ⟨fun h => d1 (hk h), d2, d3, d4, d5, d6⟩⟩)

theorem UpperSame.reflU (s : System) : UpperSame s s := ⟨rfl, rfl, rfl, rfl⟩

theorem UpperSame.transU {a b c : System} (h1 : UpperSame a b) (h2 : UpperSame b c) :
    UpperSame a c :=
  ⟨h2.1.trans h1.1, h2.2.1.trans h1.2.1, h2.2.2.1.trans h1.2.2.1, h2.2.2.2.trans h1.2.2.2⟩

theorem FrameS.upperS {s s' : System} (h : FrameS s s') : UpperSame s s' :=
  ⟨h.1, h.2.1, h.2.2.1, h.2.2.2.1⟩

theorem SameCore.upperC {s s' : System} (h : SameCore s s') : UpperSame s s' :=
  ⟨h.2.2.2.1, h.2.2.2.2.1, h.2.2.2.2.2.1, h.2.2.2.2.2.2.1⟩

theorem SameBelow.upperB {s s' : System} (h : SameBelow s s') : UpperSame s s' :=
  ⟨h.2.2.2.1, h.2.2.2.2.1, h.2.2.2.2.2.1, h.2.2.2.2.2.2.1⟩

theorem KS_of_core_open (s s' : System) (h : SameCore s s')
    (ho : s.sns.sns_state = .CONNECT ∨ s.sns.sns_state = .READY)
    (hfd : s'.sns.sns_socket_fd = -1 → s'.sock = none) (ks : KS s) : KS s' := by
  obtain ⟨⟨j1, _, _⟩, h4, hk⟩ := ks
  obtain ⟨a1, a2, a3, a4, a5, a6, a7, a8⟩ := h
  refine ⟨⟨?_, ?_, hfd⟩, ?_, ?_⟩
  · rw [a2, a8]; exact j1
  · rw [a8]
    intro a b
    rcases ho with ho | ho
    · exact absurd ho a
    · exact absurd ho b
  · rw [a8, a7, a5]; exact h4
  · unfold KR KRf RD RDc RDw at *
    rw [a1, a2, a3]
    exact hk

theorem sns_open_of_watch (s : System) (h : KS s)
    (hw : s.sns.sns_socket_tx_id = true ∨ s.sns.sns_socket_rx_id = true) :
    (s.sns.sns_state = .CONNECT ∨ s.sns.sns_state = .READY) ∧
    s.sns.sns_plugin = true ∧ s.plg.plg_valid = true := by
  obtain ⟨⟨_, j2, _⟩, h4, _⟩ := h
  have ho : s.sns.sns_state = .CONNECT ∨ s.sns.sns_state = .READY := by
    by_contra hn
    push_neg at hn
    obtain ⟨_, _, c3, c4, _⟩ := j2 hn.1 hn.2
    rcases hw with hw | hw
    · rw [c4] at hw; cases hw
    · rw [c3] at hw; cases hw
  refine ⟨ho, h4 ?_⟩
  rcases ho with ho | ho <;> rw [ho] <;> rfl

theorem sns_fail_open (s s' : System) (h : KS s) (c : SameCore s s')
    (ho : s.sns.sns_state = .CONNECT ∨ s.sns.sns_state = .READY)
    (hp : s.sns.sns_plugin = true ∧ s.plg.plg_valid = true)
    (hfd : s'.sns.sns_socket_fd = -1 → s'.sock = none) :
    KS (sfwsensor_stm_set_state s' .FAILED) ∧
    UpperSame s (sfwsensor_stm_set_state s' .FAILED) := by
  have k1 : KS s' := KS_of_core_open s s' c ho hfd h
  have hp' : s'.sns.sns_plugin = true ∧ s'.plg.plg_valid = true := by
    rw [c.2.2.2.2.2.2.1, c.2.2.2.2.1]; exact hp
  obtain ⟨r1, r2⟩ := KS_of_set_state s' .FAILED k1 (by simp) (fun _ => hp')
  exact ⟨r1, UpperSame.transU c.upperC r2.upperS⟩

theorem sns_later_open (s s' : System) (h : KS s) (c : SameCore s s')
    (ho : s.sns.sns_state = .CONNECT ∨ s.sns.sns_state = .READY)
    (hfd : s'.sns.sns_socket_fd = -1 → s'.sock = none) :
    KS (sfwsensor_stm_eval_state_later s') ∧
    UpperSame s (sfwsensor_stm_eval_state_later s') := by
  have k1 : KS s' := KS_of_core_open s s' c ho hfd h
  obtain ⟨e1, e2⟩ := sns_eval_later_same s'
  exact ⟨KS_of_same e1 e2 k1, UpperSame.transU c.upperC e1.upperB⟩

/-- The write-side socket callback keeps everything below the Plugin
consistent. -/
theorem sns_tx_cb_spec (s : System) (h : KS s) (hw : s.sns.sns_socket_tx_id = true) :
    KS (sfwsensor_stm_socket_tx_cb s).1 ∧ UpperSame s (sfwsensor_stm_socket_tx_cb s).1 := by
  obtain ⟨ho, hp⟩ := sns_open_of_watch s h (Or.inl hw)
  have j3 := h.1.2.2
  unfold sfwsensor_stm_socket_tx_cb
  split
  · unfold sfwsensor_stm_socket_tx_unexpected
    exact sns_fail_open s _ h ⟨rfl, rfl, rfl, rfl, rfl, rfl, rfl, rfl⟩ ho hp j3
  · unfold sfwsensor_stm_socket_tx_handshake
    simp only []
    split
    · refine sns_fail_open s _ h ⟨rfl, rfl, rfl, rfl, rfl, rfl, rfl, rfl⟩ ho hp ?_
      intro hfd
      show Option.map _ s.sock = none
      rw [j3 hfd]
      rfl
    · refine sns_later_open s _ h ⟨rfl, rfl, rfl, rfl, rfl, rfl, rfl, rfl⟩ ho ?_
      intro hfd
      show Option.map _ s.sock = none
      rw [j3 hfd]
      rfl

theorem socket_read_fd (fd : Int) (sock : Option Socket) (n : Nat)
    (h : fd = -1 → sock = none) : fd = -1 → (socket_read fd sock n).2.2 = none := by
  intro hfd
  rw [h hfd]
  rfl

/-- The read-side socket callback keeps everything below the Plugin
consistent. -/
theorem sns_rx_cb_spec (s : System) (h : KS s) (hw : s.sns.sns_socket_rx_id = true) :
    KS (sfwsensor_stm_socket_rx_cb s).1 ∧ UpperSame s (sfwsensor_stm_socket_rx_cb s).1 := by
  obtain ⟨ho, hp⟩ := sns_open_of_watch s h (Or.inr hw)
  have j3 := h.1.2.2
  unfold sfwsensor_stm_socket_rx_cb
  split
  · unfold sfwsensor_stm_socket_rx_unexpected
    exact sns_fail_open s _ h ⟨rfl, rfl, rfl, rfl, rfl, rfl, rfl, rfl⟩ ho hp j3
  · unfold sfwsensor_stm_socket_rx_handshake
    simp only []
    have hfd1 := socket_read_fd s.sns.sns_socket_fd s.sock 1 j3
    split
    · exact sns_fail_open s _ h ⟨rfl, rfl, rfl, rfl, rfl, rfl, rfl, rfl⟩ ho hp hfd1
    · split
      · exact sns_fail_open s _ h ⟨rfl, rfl, rfl, rfl, rfl, rfl, rfl, rfl⟩ ho hp hfd1
      · refine sns_later_open s _ h ⟨rfl, rfl, rfl, rfl, rfl, rfl, rfl, rfl⟩ ho ?_
        intro hfd
        show Option.map _ (socket_read s.sns.sns_socket_fd s.sock 1).2.2 = none
        rw [hfd1 hfd]
        rfl
  · unfold sfwsensor_stm_socket_rx_reading
    simp only []
    obtain ⟨b1, b2⟩ := rx_body_core s
    have kb : KS (sfwsensor_stm_socket_rx_reading_body s).1 := KS_of_core b1 b2 h
    split
    · exact sns_fail_open s _ h
        ⟨b1.1, b1.2.1, b1.2.2.1, b1.2.2.2.1, b1.2.2.2.2.1, b1.2.2.2.2.2.1, b1.2.2.2.2.2.2.1,
          b1.2.2.2.2.2.2.2⟩ ho hp kb.1.2.2
    · exact ⟨kb, b1.upperC⟩

/-! ## The Plugin tier -/

theorem PlgLocal.reflL (s : System) : PlgLocal s s := ⟨rfl, rfl, rfl, rfl, rfl, rfl, rfl, rfl⟩

theorem PlgLocal.transL {a b c : System} (h1 : PlgLocal a b) (h2 : PlgLocal b c) :
    PlgLocal a c := by
  unfold PlgLocal at *
  simp only [h2, h1, and_self]

theorem PlgLocal.toFrameP {s s' : System} (h : PlgLocal s s') : FrameP s s' := by
  obtain ⟨a1, a2, a3, a4, a5, a6, a7, a8⟩ := h
  exact ⟨a1, a5, by rw [a2], a8⟩

theorem FrameP.reflP (s : System) : FrameP s s := ⟨rfl, rfl, rfl, rfl⟩

theorem FrameP.transP {a b c : System} (h1 : FrameP a b) (h2 : FrameP b c) : FrameP a c :=
  ⟨h2.1.trans h1.1, h2.2.1.trans h1.2.1, h2.2.2.1.trans h1.2.2.1, h2.2.2.2.trans h1.2.2.2⟩

theorem KS_of_plg (s s' : System) (a2 : s'.sns = s.sns) (a3 : s'.rpt = s.rpt)
    (a4 : s'.sock = s.sock) (a6 : s'.plg.plg_valid = s.plg.plg_valid) (ks : KS s) : KS s' := by
  unfold KS JS SockClosed KR KRf RD RDc RDw at *
  rw [a2, a3, a4, a6]
  exact ks

theorem KS_of_plg_local {s s' : System} (h : PlgLocal s s') (ks : KS s) : KS s' :=
  KS_of_plg s s' h.2.1 h.2.2.1 h.2.2.2.1 h.2.2.2.2.2.1 ks

theorem KPw_of_plg_local {s s' : System} (h : PlgLocal s s') (k : KPw s) : KPw s' := by
  obtain ⟨k1, k2, k3⟩ := k
  refine ⟨?_, ?_, KS_of_plg_local h k3⟩
  · rw [h.2.2.2.2.2.1, h.2.2.2.2.2.2.1]; exact k1
  · rw [h.2.1, h.2.2.2.2.2.2.1]; exact k2

/-- The Plugin's `valid` flag is written and the Sensor is reset behind it. -/
theorem plg_set_valid_spec (s : System) (v : Bool) (h : KS s) :
    KS (sfwplugin_set_valid s v) ∧ FrameP s (sfwplugin_set_valid s v) ∧
    (sfwplugin_set_valid s v).plg.plg_valid = v ∧
    (sfwplugin_set_valid s v).plg.plg_state = s.plg.plg_state := by
  unfold sfwplugin_set_valid
  split
  · obtain ⟨hj, _, hk⟩ := h
    have hj1 : JS { s with plg := { s.plg with plg_valid := v } } := hj
    have hk1 : KR { s with plg := { s.plg with plg_valid := v } } := hk
    obtain ⟨r1, r2, r3, r4⟩ := sns_reset_spec _ hj1 hk1
    unfold sfwsensor_plugin_changed_cb observe
    generalize sfwsensor_stm_reset_state { s with plg := { s.plg with plg_valid := v } } = s1 at *
    obtain ⟨f1, f2, f3, f4, f5, f6⟩ := r3
    refine ⟨⟨r2, ?_, r1⟩, ⟨f1, f3, f4, ?_⟩, ?_, ?_⟩
    · intro he
      show s1.sns.sns_plugin = true ∧ s1.plg.plg_valid = true
      have : s1.sns.sns_state.engaged = true := he
      rw [r4] at this
      cases this
    · show s1.plg.plg_id = s.plg.plg_id
      rw [f2]
    · show s1.plg.plg_valid = v
      rw [f2]
    · show s1.plg.plg_state = s.plg.plg_state
      rw [f2]
  · rename_i hne
    refine ⟨h, FrameP.reflP s, ?_, rfl⟩
    simpa using hne

theorem plg_eval_later_local (s : System) : PlgLocal s (sfwplugin_stm_eval_state_later s) := by
  unfold sfwplugin_stm_eval_state_later sfwplugin_stm_cancel_eval_state
  (repeat' split) <;> exact ⟨rfl, rfl, rfl, rfl, rfl, rfl, rfl, rfl⟩

theorem plg_misc_local (s : System) :
    PlgLocal s (sfwplugin_stm_start_retry_delay s) ∧
    PlgLocal s (sfwplugin_stm_cancel_retry_delay s) ∧
    PlgLocal s (sfwplugin_stm_start_load s) ∧
    PlgLocal s (sfwplugin_stm_cancel_load s) := by
  refine ⟨?_, ?_, ?_, ?_⟩
  · unfold sfwplugin_stm_start_retry_delay
    split <;> exact ⟨rfl, rfl, rfl, rfl, rfl, rfl, rfl, rfl⟩
  · unfold sfwplugin_stm_cancel_retry_delay
    split <;> exact ⟨rfl, rfl, rfl, rfl, rfl, rfl, rfl, rfl⟩
  · unfold sfwplugin_stm_start_load issue_call
    exact ⟨rfl, rfl, rfl, rfl, rfl, rfl, rfl, rfl⟩
  · unfold sfwplugin_stm_cancel_load
    exact ⟨rfl, rfl, rfl, rfl, rfl, rfl, rfl, rfl⟩

theorem plg_leave_effect (s : System) (h : KPw s) :
    KS (sfwplugin_stm_leave_state s) ∧ FrameP s (sfwplugin_stm_leave_state s) ∧
    (sfwplugin_stm_leave_state s).plg.plg_valid = false ∧
    (sfwplugin_stm_leave_state s).plg.plg_state = s.plg.plg_state := by
  obtain ⟨k1, k2, k3⟩ := h
  obtain ⟨m1, m2, m3, m4⟩ := plg_misc_local s
  have hv : s.plg.plg_state ≠ .READY → s.plg.plg_valid = false := by
    intro hn
    cases hval : s.plg.plg_valid
    · rfl
    · exact absurd (k1 hval) hn
  have loc : ∀ s' : System, PlgLocal s s' → s.plg.plg_state ≠ .READY →
      KS s' ∧ FrameP s s' ∧ s'.plg.plg_valid = false ∧ s'.plg.plg_state = s.plg.plg_state := by
    intro s' l hn
    exact ⟨KS_of_plg_local l k3, l.toFrameP, by rw [l.2.2.2.2.2.1]; exact hv hn, l.2.2.2.2.2.2.1⟩
  unfold sfwplugin_stm_leave_state
  split
  · rename_i he; exact loc s (PlgLocal.reflL s) (by rw [he]; simp)
  · rename_i he; exact loc s (PlgLocal.reflL s) (by rw [he]; simp)
  · rename_i he; exact loc _ m4 (by rw [he]; simp)
  · exact plg_set_valid_spec s false k3
  · rename_i he; exact loc _ m2 (by rw [he]; simp)
  · rename_i he; exact loc s (PlgLocal.reflL s) (by rw [he]; simp)

theorem plg_enter_effect (s : System) (h : KS s) (hv : s.plg.plg_valid = false) :
    KS (sfwplugin_stm_enter_state s) ∧ FrameP s (sfwplugin_stm_enter_state s) ∧
    ((sfwplugin_stm_enter_state s).plg.plg_valid = true → s.plg.plg_state = .READY) ∧
    (sfwplugin_stm_enter_state s).plg.plg_state = s.plg.plg_state := by
  obtain ⟨m1, m2, m3, m4⟩ := plg_misc_local s
  have loc : ∀ s' : System, PlgLocal s s' →
      KS s' ∧ FrameP s s' ∧ (s'.plg.plg_valid = true → s.plg.plg_state = .READY) ∧
      s'.plg.plg_state = s.plg.plg_state := by
    intro s' l
    refine ⟨KS_of_plg_local l h, l.toFrameP, ?_, l.2.2.2.2.2.2.1⟩
    rw [l.2.2.2.2.2.1, hv]
    intro hc; cases hc
  unfold sfwplugin_stm_enter_state
  split
  · exact loc s (PlgLocal.reflL s)
  · exact loc s (PlgLocal.reflL s)
  · exact loc _ m3
  · rename_i he
    obtain ⟨a1, a2, a3, a4⟩ := plg_set_valid_spec s true h
    exact ⟨a1, a2, fun _ => he, a4⟩
  · exact loc _ m1
  · exact loc s (PlgLocal.reflL s)

/-- A state change of the Plugin. -/
theorem plg_set_state_spec (s : System) (st : SfwPluginState) (h : KPw s)
    (h9 : st ≠ .INITIAL → s.sns.sns_plugin = true) :
    KPw (sfwplugin_stm_set_state s st) ∧ FrameP s (sfwplugin_stm_set_state s st) ∧
    (sfwplugin_stm_set_state s st).plg.plg_state
      = (if s.plg.plg_state = .FINAL then .FINAL else st) := by
  unfold sfwplugin_stm_set_state
  by_cases hfin : s.plg.plg_state = .FINAL
  · simp only [hfin, if_true]
    exact ⟨h, FrameP.reflP s, trivial⟩
  by_cases hne : s.plg.plg_state = st
  · subst hne
    simp only [hfin, if_false, ne_eq, not_true_eq_false]
    exact ⟨h, FrameP.reflP s, trivial⟩
  simp only [hfin, if_false, ne_eq, hne, not_false_eq_true, if_true]
  obtain ⟨l1, l2, l3, l4⟩ := plg_leave_effect s h
  generalize sfwplugin_stm_leave_state s = s1 at *
  have k2 : KS { s1 with plg := { s1.plg with plg_state := st } } :=
    KS_of_plg s1 _ rfl rfl rfl rfl l1
  obtain ⟨e1, e2, e3, e4⟩ := plg_enter_effect { s1 with plg := { s1.plg with plg_state := st } }
    k2 l3
  generalize sfwplugin_stm_enter_state { s1 with plg := { s1.plg with plg_state := st } } = s2 at *
  simp only at e3 e4
  have v := plg_eval_later_local s2
  have fr : FrameP s (sfwplugin_stm_eval_state_later s2) :=
    FrameP.transP l2 (FrameP.transP ⟨rfl, rfl, rfl, rfl⟩ (FrameP.transP e2 v.toFrameP))
  refine ⟨⟨?_, ?_, KS_of_plg_local v e1⟩, fr, ?_⟩
  · rw [v.2.2.2.2.2.1, v.2.2.2.2.2.2.1, e4]
    exact e3
  · rw [v.2.2.2.2.2.2.1, e4, fr.2.2.1]
    intro hp
    by_contra hc
    rw [h9 hc] at hp
    cases hp
  · rw [v.2.2.2.2.2.2.1, e4]

/-- Resetting the Plugin, as the Service's valid-changed signal does. -/
theorem plg_reset_spec (s : System) (h : KPw s) (hp : s.sns.sns_plugin = true) :
    KPw (sfwplugin_stm_reset_state s) ∧ FrameP s (sfwplugin_stm_reset_state s) ∧
    (sfwplugin_stm_reset_state s).plg.plg_state.engaged = false := by
  unfold sfwplugin_stm_reset_state
  obtain ⟨a1, a2, a3⟩ := plg_set_state_spec s .DISABLED h (fun _ => hp)
  generalize sfwplugin_stm_set_state s .DISABLED = s1 at *
  have v := plg_eval_later_local s1
  refine ⟨KPw_of_plg_local v a1, FrameP.transP a2 v.toFrameP, ?_⟩
  rw [v.2.2.2.2.2.2.1, a3]
  split <;> rfl

theorem KP_of_set_state (s : System) (st : SfwPluginState) (h : KP s)
    (h9 : st ≠ .INITIAL → s.sns.sns_plugin = true)
    (h8 : st.engaged = true → s.srv.srv_valid = true) :
    KP (sfwplugin_stm_set_state s st) ∧ FrameP s (sfwplugin_stm_set_state s st) := by
  obtain ⟨a1, a2, a3⟩ := plg_set_state_spec s st h.1 h9
  refine ⟨⟨a1, ?_⟩, a2⟩
  rw [a3, a2.1]
  split
  · intro hc; cases hc
  · exact h8

theorem KP_of_plg_local {s s' : System} (h : PlgLocal s s') (k : KP s) : KP s' := by
  refine ⟨KPw_of_plg_local h k.1, ?_⟩
  rw [h.2.2.2.2.2.2.1, h.1]
  exact k.2

/-- The deferred evaluation of the Plugin keeps everything below the Service
consistent. -/
theorem plg_eval_spec (s : System) (h : KP s) :
    KP (sfwplugin_stm_eval_state_cb s) ∧ FrameP s (sfwplugin_stm_eval_state_cb s) := by
  have h0 : KP { s with plg := { s.plg with plg_eval_state_id := false } } :=
    KP_of_plg_local (s := s) ⟨rfl, rfl, rfl, rfl, rfl, rfl, rfl, rfl⟩ h
  have f0 : FrameP s { s with plg := { s.plg with plg_eval_state_id := false } } :=
    ⟨rfl, rfl, rfl, rfl⟩
  unfold sfwplugin_stm_eval_state_cb
  generalize hs0 : ({ s with plg := { s.plg with plg_eval_state_id := false } } : System) = s0 at *
  simp only []
  have h9 : s0.plg.plg_state ≠ .INITIAL → s0.sns.sns_plugin = true := by
    intro hn
    cases hp : s0.sns.sns_plugin
    · exact absurd (h0.1.2.1 hp) hn
    · rfl
  have go : ∀ st : SfwPluginState, s0.plg.plg_state ≠ .INITIAL →
      (st.engaged = true → s0.srv.srv_valid = true) →
      KP (sfwplugin_stm_set_state s0 st) ∧ FrameP s (sfwplugin_stm_set_state s0 st) := by
    intro st hn h8
    obtain ⟨a1, a2⟩ := KP_of_set_state s0 st h0 (fun _ => h9 hn) h8
    exact ⟨a1, FrameP.transP f0 a2⟩
  split
  · exact ⟨h0, f0⟩
  · rename_i he
    split
    · rename_i hv
      exact go _ (by rw [he]; simp) (fun _ => hv)
    · exact ⟨h0, f0⟩
  · rename_i he
    have hsv : s0.srv.srv_valid = true := h0.2 (by rw [he]; rfl)
    split
    · exact ⟨h0, f0⟩
    · split
      · exact go _ (by rw [he]; simp) (fun _ => hsv)
      · exact go _ (by rw [he]; simp) (fun _ => hsv)
  · exact ⟨h0, f0⟩
  · rename_i he
    have hsv : s0.srv.srv_valid = true := h0.2 (by rw [he]; rfl)
    split
    · exact go _ (by rw [he]; simp) (fun _ => hsv)
    · exact ⟨h0, f0⟩
  · exact ⟨h0, f0⟩

theorem plg_callbacks_spec (s : System) (h : KP s) :
    (KP (sfwplugin_stm_retry_delay_cb s) ∧ FrameP s (sfwplugin_stm_retry_delay_cb s)) ∧
    (∀ rsp, KP (sfwplugin_stm_load_cb s rsp) ∧ FrameP s (sfwplugin_stm_load_cb s rsp)) := by
  refine ⟨?_, ?_⟩
  · unfold sfwplugin_stm_retry_delay_cb
    have v := plg_eval_later_local { s with plg := { s.plg with plg_retry_delay_id := false } }
    have l : PlgLocal s (sfwplugin_stm_eval_state_later
        { s with plg := { s.plg with plg_retry_delay_id := false } }) :=
      PlgLocal.transL ⟨rfl, rfl, rfl, rfl, rfl, rfl, rfl, rfl⟩ v
    exact ⟨KP_of_plg_local l h, l.toFrameP⟩
  · intro rsp
    unfold sfwplugin_stm_load_cb
    simp only []
    split
    · split
      · have v := plg_eval_later_local { s with
          plg := { s.plg with plg_load_cancellable := (cancellable_finish
            s.plg.plg_load_cancellable).2, plg_load_succeeded := true } }
        have l := PlgLocal.transL (a := s) ⟨rfl, rfl, rfl, rfl, rfl, rfl, rfl, rfl⟩ v
        exact ⟨KP_of_plg_local l h, l.toFrameP⟩
      · have v := plg_eval_later_local { s with
          plg := { s.plg with plg_load_cancellable := (cancellable_finish
            s.plg.plg_load_cancellable).2 } }
        have l := PlgLocal.transL (a := s) ⟨rfl, rfl, rfl, rfl, rfl, rfl, rfl, rfl⟩ v
        exact ⟨KP_of_plg_local l h, l.toFrameP⟩
    · have l : PlgLocal s { s with
          plg := { s.plg with plg_load_cancellable := (cancellable_finish
            s.plg.plg_load_cancellable).2 } } := ⟨rfl, rfl, rfl, rfl, rfl, rfl, rfl, rfl⟩
      exact ⟨KP_of_plg_local l h, l.toFrameP⟩

/-! ## The Service tier -/

theorem KP_of_srv (s s' : System) (a1 : s'.plg = s.plg) (a2 : s'.sns = s.sns)
    (a3 : s'.rpt = s.rpt) (a4 : s'.sock = s.sock) (a6 : s'.srv.srv_valid = s.srv.srv_valid)
    (k : KP s) : KP s' := by
  unfold KP KPw KS JS SockClosed KR KRf RD RDc RDw at *
  rw [a1, a2, a3, a4, a6]
  exact k

theorem Inv_of_srv_local {s s' : System} (h : SrvLocal s s') (k : Inv s) : Inv s' := by
  obtain ⟨a1, a2, a3, a4, a5, a6, a7⟩ := h
  refine ⟨?_, KP_of_srv s s' a1 a2 a3 a4 a6 k.2⟩
  rw [a6, a7]
  exact k.1

theorem SrvLocal.transV {a b c : System} (h1 : SrvLocal a b) (h2 : SrvLocal b c) :
    SrvLocal a c := by
  unfold SrvLocal at *
  simp only [h2, h1, and_self]

/-- The Service's `valid` flag is written and the Plugin is reset behind it. -/
theorem srv_set_valid_spec (s : System) (v : Bool) (h : KP s) :
    KP (sfwservice_set_valid s v) ∧ (sfwservice_set_valid s v).srv.srv_valid = v ∧
    (sfwservice_set_valid s v).srv.srv_state = s.srv.srv_state := by
  unfold sfwservice_set_valid
  split
  · have k0 : KPw { s with srv := { s.srv with srv_valid := v } } := h.1
    unfold sfwplugin_service_changed_cb observe
    split
    · rename_i hp
      obtain ⟨r1, r2, r3⟩ := plg_reset_spec _ k0 hp
      generalize sfwplugin_stm_reset_state { s with srv := { s.srv with srv_valid := v } } = s1 at *
      refine ⟨⟨r1, ?_⟩, ?_, ?_⟩
      · intro he
        have : s1.plg.plg_state.engaged = true := he
        rw [r3] at this
        cases this
      · show s1.srv.srv_valid = v
        rw [r2.1]
      · show s1.srv.srv_state = s.srv.srv_state
        rw [r2.1]
    · rename_i hp
      refine ⟨⟨k0, ?_⟩, rfl, rfl⟩
      intro he
      have hi : s.plg.plg_state = .INITIAL := h.1.2.1 (by simpa using hp)
      have : s.plg.plg_state.engaged = true := he
      rw [hi] at this
      cases this
  · rename_i hne
    refine ⟨h, ?_, rfl⟩
    simpa using hne

theorem srv_misc_local (s : System) :
    SrvLocal s (sfwservice_stm_eval_state_later s) ∧
    SrvLocal s (sfwservice_stm_start_retry_delay s) ∧
    SrvLocal s (sfwservice_stm_cancel_retry_delay s) ∧
    SrvLocal s (sfwservice_stm_start_enumerate s) ∧
    SrvLocal s (sfwservice_stm_cancel_enumerate s) := by
  refine ⟨?_, ?_, ?_, ?_, ?_⟩
  · unfold sfwservice_stm_eval_state_later sfwservice_stm_cancel_eval_state
    (repeat' split) <;> exact ⟨rfl, rfl, rfl, rfl, rfl, rfl, rfl⟩
  · unfold sfwservice_stm_start_retry_delay
    split <;> exact ⟨rfl, rfl, rfl, rfl, rfl, rfl, rfl⟩
  · unfold sfwservice_stm_cancel_retry_delay
    split <;> exact ⟨rfl, rfl, rfl, rfl, rfl, rfl, rfl⟩
  · unfold sfwservice_stm_start_enumerate issue_call
    exact ⟨rfl, rfl, rfl, rfl, rfl, rfl, rfl⟩
  · unfold sfwservice_stm_cancel_enumerate
    exact ⟨rfl, rfl, rfl, rfl, rfl, rfl, rfl⟩

theorem srv_set_name_owner_spec (f : System → SfwServiceState → System) (hf : SrvOk f)
    (s : System) (o : Option String) (h : Inv s) :
    Inv (sfwservice_set_name_owner f s o) ∧
    (s.srv.srv_valid = false → (sfwservice_set_name_owner f s o).srv.srv_valid = false) := by
  unfold sfwservice_set_name_owner
  simp only []
  generalize (if o = some "" then none else o) = o1
  by_cases hne : s.srv.srv_name_owner = o1
  · simp only [hne, ne_eq, not_true_eq_false, if_false]
    exact ⟨h, fun hv => hv⟩
  · simp only [ne_eq, hne, not_false_eq_true, if_true]
    have h1 : Inv { s with srv := { s.srv with srv_name_owner := o1 } } :=
      Inv_of_srv_local (s := s) ⟨rfl, rfl, rfl, rfl, rfl, rfl, rfl⟩ h
    split
    · obtain ⟨a1, a2⟩ := hf { s with srv := { s.srv with srv_name_owner := o1 } } .ENUMERATING h1
      exact ⟨a1, fun hv => a2 hv (by simp)⟩
    · obtain ⟨a1, a2⟩ := hf { s with srv := { s.srv with srv_name_owner := o1 } } .DISABLED h1
      exact ⟨a1, fun hv => a2 hv (by simp)⟩

theorem srv_unwatch_spec (f : System → SfwServiceState → System) (hf : SrvOk f)
    (s : System) (h : Inv s) :
    Inv (sfwservice_unwatch_name_owner f s) ∧
    (s.srv.srv_valid = false → (sfwservice_unwatch_name_owner f s).srv.srv_valid = false) := by
  unfold sfwservice_unwatch_name_owner
  split
  · exact srv_set_name_owner_spec f hf _ none
      (Inv_of_srv_local (s := s) ⟨rfl, rfl, rfl, rfl, rfl, rfl, rfl⟩ h)
  · exact srv_set_name_owner_spec f hf s none h

theorem srv_watch_spec (f : System → SfwServiceState → System) (hf : SrvOk f)
    (s : System) (h : Inv s) :
    Inv (sfwservice_watch_name_owner f s) ∧
    (s.srv.srv_valid = false → (sfwservice_watch_name_owner f s).srv.srv_valid = false) := by
  unfold sfwservice_watch_name_owner
  obtain ⟨a1, a2⟩ := srv_unwatch_spec f hf s h
  simp only []
  generalize sfwservice_unwatch_name_owner f s = s1 at *
  exact ⟨Inv_of_srv_local (s := s1) ⟨rfl, rfl, rfl, rfl, rfl, rfl, rfl⟩ a1, a2⟩

theorem srv_set_connection_spec (f : System → SfwServiceState → System) (hf : SrvOk f)
    (s : System) (con : Bool) (h : Inv s) :
    Inv (sfwservice_set_connection f s con) ∧
    (s.srv.srv_valid = false → (sfwservice_set_connection f s con).srv.srv_valid = false) := by
  unfold sfwservice_set_connection
  split
  · simp only []
    have h1 : Inv (if s.srv.srv_connection = true then
          { sfwservice_unwatch_name_owner f s with
            srv := { (sfwservice_unwatch_name_owner f s).srv with srv_connection := false } }
        else s) ∧
        (s.srv.srv_valid = false → (if s.srv.srv_connection = true then
          { sfwservice_unwatch_name_owner f s with
            srv := { (sfwservice_unwatch_name_owner f s).srv with srv_connection := false } }
        else s).srv.srv_valid = false) := by
      split
      · obtain ⟨a1, a2⟩ := srv_unwatch_spec f hf s h
        generalize sfwservice_unwatch_name_owner f s = s1 at *
        exact ⟨Inv_of_srv_local (s := s1) ⟨rfl, rfl, rfl, rfl, rfl, rfl, rfl⟩ a1, a2⟩
      · exact ⟨h, fun hv => hv⟩
    generalize (if s.srv.srv_connection = true then
          { sfwservice_unwatch_name_owner f s with
            srv := { (sfwservice_unwatch_name_owner f s).srv with srv_connection := false } }
        else s) = s1 at *
    split
    · obtain ⟨b1, b2⟩ := srv_watch_spec f hf { s1 with srv := { s1.srv with srv_connection := true } }
        (Inv_of_srv_local (s := s1) ⟨rfl, rfl, rfl, rfl, rfl, rfl, rfl⟩ h1.1)
      exact ⟨b1, fun hv => b2 (h1.2 hv)⟩
    · exact h1
  · exact ⟨h, fun hv => hv⟩

theorem srv_disconnect_spec (f : System → SfwServiceState → System) (hf : SrvOk f)
    (s : System) (h : Inv s) :
    Inv (sfwservice_stm_disconnect f s) ∧
    (s.srv.srv_valid = false → (sfwservice_stm_disconnect f s).srv.srv_valid = false) := by
  unfold sfwservice_stm_disconnect
  exact srv_set_connection_spec f hf _ false
    (Inv_of_srv_local (s := s) ⟨rfl, rfl, rfl, rfl, rfl, rfl, rfl⟩ h)

theorem srv_connect_spec (f : System → SfwServiceState → System) (hf : SrvOk f)
    (s : System) (h : Inv s) :
    Inv (sfwservice_stm_connect f s) ∧
    (s.srv.srv_valid = false → (sfwservice_stm_connect f s).srv.srv_valid = false) := by
  unfold sfwservice_stm_connect issue_call
  obtain ⟨a1, a2⟩ := srv_disconnect_spec f hf s h
  simp only []
  generalize sfwservice_stm_disconnect f s = s1 at *
  exact ⟨Inv_of_srv_local (s := s1) ⟨rfl, rfl, rfl, rfl, rfl, rfl, rfl⟩ a1, a2⟩

theorem srv_valid_false_of_state {s : System} (h : Inv s) (hn : s.srv.srv_state ≠ .READY) :
    s.srv.srv_valid = false := by
  cases hv : s.srv.srv_valid
  · rfl
  · exact absurd (h.1 hv) hn

theorem srv_leave_effect (f : System → SfwServiceState → System) (hf : SrvOk f)
    (s : System) (h : Inv s) :
    KP (sfwservice_stm_leave_state f s) ∧
    (sfwservice_stm_leave_state f s).srv.srv_valid = false := by
  obtain ⟨m1, m2, m3, m4, m5⟩ := srv_misc_local s
  have loc : ∀ s' : System, SrvLocal s s' → s.srv.srv_state ≠ .READY →
      KP s' ∧ s'.srv.srv_valid = false := by
    intro s' l hn
    refine ⟨(Inv_of_srv_local l h).2, ?_⟩
    rw [l.2.2.2.2.2.1]
    exact srv_valid_false_of_state h hn
  unfold sfwservice_stm_leave_state
  split
  · rename_i he
    obtain ⟨a1, a2⟩ := srv_connect_spec f hf s h
    exact ⟨a1.2, a2 (srv_valid_false_of_state h (by rw [he]; simp))⟩
  · rename_i he; exact loc s ⟨rfl, rfl, rfl, rfl, rfl, rfl, rfl⟩ (by rw [he]; simp)
  · rename_i he; exact loc _ m5 (by rw [he]; simp)
  · obtain ⟨a1, a2, _⟩ := srv_set_valid_spec s false h.2
    exact ⟨a1, a2⟩
  · rename_i he
    have l := (srv_misc_local (sfwservice_stm_cancel_retry_delay s)).2.2.2.2
    exact loc _ (SrvLocal.transV m3 l) (by rw [he]; simp)
  · rename_i he; exact loc s ⟨rfl, rfl, rfl, rfl, rfl, rfl, rfl⟩ (by rw [he]; simp)

theorem srv_enter_effect (f : System → SfwServiceState → System) (hf : SrvOk f)
    (s : System) (h : KP s) (hv : s.srv.srv_valid = false) :
    Inv (sfwservice_stm_enter_state f s) ∧
    ((sfwservice_stm_enter_state f s).srv.srv_valid = true → s.srv.srv_state = .READY) := by
  have hi : Inv s := ⟨(by rw [hv]; intro hc; cases hc), h⟩
  obtain ⟨m1, m2, m3, m4, m5⟩ := srv_misc_local s
  have loc : ∀ s' : System, SrvLocal s s' →
      Inv s' ∧ (s'.srv.srv_valid = true → s.srv.srv_state = .READY) := by
    intro s' l
    refine ⟨Inv_of_srv_local l hi, ?_⟩
    rw [l.2.2.2.2.2.1, hv]
    intro hc; cases hc
  unfold sfwservice_stm_enter_state
  split
  · exact loc s ⟨rfl, rfl, rfl, rfl, rfl, rfl, rfl⟩
  · exact loc s ⟨rfl, rfl, rfl, rfl, rfl, rfl, rfl⟩
  · exact loc _ m4
  · rename_i he
    obtain ⟨a1, a2, a3⟩ := srv_set_valid_spec s true h
    exact ⟨⟨(fun _ => by rw [a3]; exact he), a1⟩, (fun _ => he)⟩
  · exact loc _ m2
  · obtain ⟨a1, a2⟩ := srv_disconnect_spec f hf _ (Inv_of_srv_local m5 hi)
    refine ⟨a1, ?_⟩
    intro hc
    rw [a2 (by rw [m5.2.2.2.2.2.1]; exact hv)] at hc
    cases hc

/-- Every nesting bound gives a state setter that keeps the invariant. -/
theorem srv_set_state_n_ok : ∀ n : Nat, SrvOk (sfwservice_stm_set_state_n n) := by
  intro n
  induction n with
  | zero =>
    intro s st h
    exact ⟨h, fun hv _ => hv⟩
  | succ n ih =>
    intro s st h
    unfold sfwservice_stm_set_state_n
    by_cases hfin : s.srv.srv_state = .FINAL
    · simp only [hfin, if_true]
      exact ⟨h, fun hv _ => hv⟩
    by_cases hne : s.srv.srv_state = st
    · subst hne
      simp only [hfin, if_false, ne_eq, not_true_eq_false]
      exact ⟨h, fun hv _ => hv⟩
    simp only [hfin, if_false, ne_eq, hne, not_false_eq_true, if_true]
    obtain ⟨l1, l2⟩ := srv_leave_effect (sfwservice_stm_set_state_n n) ih s h
    generalize sfwservice_stm_leave_state (sfwservice_stm_set_state_n n) s = s1 at *
    have k2 : KP { s1 with srv := { s1.srv with srv_state := st } } :=
      KP_of_srv s1 _ rfl rfl rfl rfl rfl l1
    obtain ⟨e1, e2⟩ := srv_enter_effect (sfwservice_stm_set_state_n n) ih
      { s1 with srv := { s1.srv with srv_state := st } } k2 l2
    generalize sfwservice_stm_enter_state (sfwservice_stm_set_state_n n)
      { s1 with srv := { s1.srv with srv_state := st } } = s2 at *
    simp only at e2
    have v := (srv_misc_local s2).1
    refine ⟨Inv_of_srv_local v e1, ?_⟩
    intro _ hst
    rw [v.2.2.2.2.2.1]
    cases hv2 : s2.srv.srv_valid
    · rfl
    · exact absurd (e2 hv2) hst

theorem srv_set_state_ok : SrvOk sfwservice_stm_set_state := srv_set_state_n_ok 4

/-- The Service's entry points keep the invariant. -/
theorem srv_callbacks_spec (s : System) (h : Inv s) :
    Inv (sfwservice_stm_eval_state_cb s) ∧
    Inv (sfwservice_stm_retry_delay_cb s) ∧
    (∀ rsp, Inv (sfwservice_stm_enumerate_cb s rsp)) ∧
    (∀ con, Inv (sfwservice_stm_connect_cb s con)) ∧
    Inv (sfwservice_name_owner_vanished_cb s) ∧
    (∀ o, Inv (sfwservice_name_owner_appeared_cb s o)) := by
  refine ⟨?_, ?_, ?_, ?_, ?_, ?_⟩
  · have h0 : Inv { s with srv := { s.srv with srv_eval_state_id := false } } :=
      Inv_of_srv_local (s := s) ⟨rfl, rfl, rfl, rfl, rfl, rfl, rfl⟩ h
    unfold sfwservice_stm_eval_state_cb
    generalize ({ s with srv := { s.srv with srv_eval_state_id := false } } : System) = s0 at *
    simp only []
    (repeat' split) <;> first | exact h0 | exact (srv_set_state_ok s0 _ h0).1
  · unfold sfwservice_stm_retry_delay_cb
    exact Inv_of_srv_local (SrvLocal.transV (a := s) ⟨rfl, rfl, rfl, rfl, rfl, rfl, rfl⟩
      (srv_misc_local _).1) h
  · intro rsp
    unfold sfwservice_stm_enumerate_cb
    simp only []
    split
    · exact Inv_of_srv_local (SrvLocal.transV (a := s) ⟨rfl, rfl, rfl, rfl, rfl, rfl, rfl⟩
        (srv_misc_local _).1) h
    · exact Inv_of_srv_local (s := s) ⟨rfl, rfl, rfl, rfl, rfl, rfl, rfl⟩ h
  · intro con
    unfold sfwservice_stm_connect_cb
    simp only []
    split
    · refine (srv_set_connection_spec _ srv_set_state_ok _ con ?_).1
      exact Inv_of_srv_local (s := s) ⟨rfl, rfl, rfl, rfl, rfl, rfl, rfl⟩ h
    · exact Inv_of_srv_local (s := s) ⟨rfl, rfl, rfl, rfl, rfl, rfl, rfl⟩ h
  · unfold sfwservice_name_owner_vanished_cb
    exact (srv_set_name_owner_spec _ srv_set_state_ok s none h).1
  · intro o
    unfold sfwservice_name_owner_appeared_cb
    exact (srv_set_name_owner_spec _ srv_set_state_ok _ _
      (srv_set_name_owner_spec _ srv_set_state_ok s none h).1).1

/-! ## The invariant over reachable states -/

theorem FrameR.upperR {s s' : System} (h : FrameR s s') : UpperSame s s' :=
  ⟨h.1, h.2.1, h.2.2.1, h.proj.1⟩

theorem Inv_of_upper {s s' : System} (u : UpperSame s s') (k : KS s') (h : Inv s) : Inv s' := by
  obtain ⟨u1, u2, _, u4⟩ := u
  obtain ⟨j0, ⟨j7, j9, _⟩, j8⟩ := h
  refine ⟨?_, ⟨?_, ?_, k⟩, ?_⟩
  · rw [u1]; exact j0
  · rw [u2]; exact j7
  · rw [u2, u4]; exact j9
  · rw [u2, u1]; exact j8

theorem Inv_of_frameP {s s' : System} (u : FrameP s s') (k : KP s') (h : Inv s) : Inv s' := by
  refine ⟨?_, k⟩
  rw [u.1]
  exact h.1

theorem Inv_of_frameR {s s' : System} (r : KR s' ∧ FrameR s s') (h : Inv s) : Inv s' :=
  Inv_of_upper r.2.upperR (KS_of_frameR r.2 r.1 h.2.1.2.2) h

theorem Inv_of_frameS {s s' : System} (r : KS s' ∧ FrameS s s') (h : Inv s) : Inv s' :=
  Inv_of_upper r.2.upperS r.1 h

theorem srv_new_fields (s : System) (h : s.srv = sfwservice_init) :
    (sfwservice_new s).plg = s.plg ∧ (sfwservice_new s).sns = s.sns ∧
    (sfwservice_new s).rpt = s.rpt ∧ (sfwservice_new s).sock = s.sock ∧
    (sfwservice_new s).srv.srv_valid = false := by
  rcases s with ⟨srv, plg, sns, rpt, gobj, os, sock, inflight, trace⟩
  simp only at h
  subst h
  exact ⟨rfl, rfl, rfl, rfl, rfl⟩

theorem plg_reset_initial (s : System) (h : s.plg.plg_state = .INITIAL) :
    (sfwplugin_stm_reset_state s).srv = s.srv ∧ (sfwplugin_stm_reset_state s).sns = s.sns ∧
    (sfwplugin_stm_reset_state s).rpt = s.rpt ∧ (sfwplugin_stm_reset_state s).sock = s.sock ∧
    (sfwplugin_stm_reset_state s).plg.plg_valid = s.plg.plg_valid ∧
    (sfwplugin_stm_reset_state s).plg.plg_state = .DISABLED := by
  unfold sfwplugin_stm_reset_state sfwplugin_stm_set_state sfwplugin_stm_leave_state
    sfwplugin_stm_enter_state sfwplugin_stm_eval_state_later sfwplugin_stm_cancel_eval_state
  cases he : s.plg.plg_eval_state_id <;> simp [h, he]

theorem JS_KR_of_sns (s s' : System) (hr : s'.rpt = s.rpt) (hk : s'.sock = s.sock)
    (hs : ∃ p r, s'.sns = { s.sns with sns_plugin := p, sns_reading := r })
    (hj : JS s) (hq : KR s) : JS s' ∧ KR s' := by
  obtain ⟨p, r, hs⟩ := hs
  unfold JS SockClosed KR KRf RD RDc RDw at *
  rw [hr, hk, hs]
  exact ⟨hj, hq⟩

theorem Inv_of_reset (x : System) (hj : JS x) (hk : KR x) (h0 : x.srv.srv_valid = false)
    (h7 : x.plg.plg_valid = false) (h8 : x.plg.plg_state.engaged = false)
    (h9 : x.sns.sns_plugin = false → x.plg.plg_state = .INITIAL) :
    Inv (sfwsensor_stm_reset_state x) := by
  obtain ⟨r1, r2, r3, r4⟩ := sns_reset_spec x hj hk
  obtain ⟨f1, f2, f3, f4, f5, f6⟩ := r3
  refine ⟨?_, ⟨⟨?_, ?_, ⟨r2, ?_, r1⟩⟩, ?_⟩⟩
  · rw [f1, h0]; intro hc; cases hc
  · rw [f2, h7]; intro hc; cases hc
  · rw [f2, f4]; exact h9
  · rw [r4]; intro hc; cases hc
  · rw [f2, h8]; intro hc; cases hc

theorem sensor_init_fields (os : Os) :
    JS (sfwsensor_init (System.blank os)) ∧ KR (sfwsensor_init (System.blank os)) ∧
    (sfwsensor_init (System.blank os)).srv = sfwservice_init ∧
    (sfwsensor_init (System.blank os)).plg = sfwplugin_init := by
  have hf : KRf (System.blank os) := by
    simp [KRf, System.blank, sfwreporting_init]
  have hd : RDc (System.blank os) := by
    simp [RDc, System.blank, sfwreporting_init]
  have hj : JS (System.blank os) := by
    simp [JS, SockClosed, System.blank]
  unfold sfwsensor_init sfwreporting_new
  obtain ⟨a1, a2, a3⟩ := rpt_set_state_spec (System.blank os) .DISABLED hf hd
    (by intro h; cases h) (by intro h; cases h) (by intro h; cases h)
  have fr := rpt_set_state_frame (System.blank os) .DISABLED
  generalize sfwreporting_stm_set_state (System.blank os) .DISABLED = s1 at *
  have hst : s1.rpt.rpt_state = .DISABLED := by
    rw [a3]
    rfl
  obtain ⟨p1, p2, p3, p4, p5, p6, p7, p8, p9, p10⟩ := fr.proj
  obtain ⟨j1, j2, j3⟩ := hj
  refine ⟨⟨?_, ?_, ?_⟩, ⟨a1, a2, ?_⟩, fr.1, fr.2.1⟩
  · rw [p2, p3]; exact j1
  · rw [p3]
    intro a b
    have c := j2 a b
    unfold SockClosed at c ⊢
    rw [p5, fr.2.2.2.1, p8, p6, p9, p7]
    exact c
  · rw [p5, fr.2.2.2.1]; exact j3
  · rw [hst]; intro hc; cases hc

/-- The freshly constructed pipeline satisfies the invariant. -/
theorem inv_init (os : Os) (id : SfwSensorId) : Inv (sfwsensor_new os id) := by
  obtain ⟨hj, hk, hsrv, hplg⟩ := sensor_init_fields os
  unfold sfwsensor_new sfwsensor_attach_to_plugin
  simp only []
  generalize sfwsensor_init (System.blank os) = s1 at *
  cases hv : sfwsensorid_is_valid id
  · simp only [Bool.false_eq_true, if_false]
    obtain ⟨b1, b2⟩ := JS_KR_of_sns s1
      { s1 with sns := { s1.sns with sns_reading := { s1.sns.sns_reading with sensor_id := id },
                                     sns_plugin := false } } rfl rfl ⟨_, _, rfl⟩ hj hk
    refine Inv_of_reset _ b1 b2 ?_ ?_ ?_ ?_
    · show s1.srv.srv_valid = false
      rw [hsrv]; rfl
    · show s1.plg.plg_valid = false
      rw [hplg]; rfl
    · show s1.plg.plg_state.engaged = false
      rw [hplg]; rfl
    · intro _
      show s1.plg.plg_state = .INITIAL
      rw [hplg]; rfl
  · simp only [if_true]
    unfold sfwplugin_new
    obtain ⟨c1, c2, c3, c4, c5⟩ := srv_new_fields
      { s1 with sns := { s1.sns with sns_reading := { s1.sns.sns_reading with sensor_id := id } },
                plg := { s1.plg with plg_id := id } } hsrv
    generalize sfwservice_new
      { s1 with sns := { s1.sns with sns_reading := { s1.sns.sns_reading with sensor_id := id } },
                plg := { s1.plg with plg_id := id } } = s4 at *
    simp only at c1 c2 c3 c4
    obtain ⟨d1, d2, d3, d4, d5, d6⟩ := plg_reset_initial s4 (by rw [c1, hplg]; rfl)
    generalize sfwplugin_stm_reset_state s4 = s5 at *
    obtain ⟨b1, b2⟩ := JS_KR_of_sns s1 { s5 with sns := { s5.sns with sns_plugin := true } }
      (by show s5.rpt = s1.rpt; rw [d3, c3]) (by show s5.sock = s1.sock; rw [d4, c4])
      ⟨true, { s1.sns.sns_reading with sensor_id := id }, by
        show { s5.sns with sns_plugin := true } = _
        rw [d2, c2]⟩ hj hk
    refine Inv_of_reset _ b1 b2 ?_ ?_ ?_ ?_
    · show s5.srv.srv_valid = false
      rw [d1, c5]
    · show s5.plg.plg_valid = false
      rw [d5, c1, hplg]; rfl
    · show s5.plg.plg_state.engaged = false
      rw [d6]; rfl
    · intro hc
      cases hc

theorem Inv_of_sock (s s' : System) (a1 : s'.srv = s.srv) (a2 : s'.plg = s.plg)
    (a3 : s'.sns = s.sns) (a4 : s'.rpt = s.rpt) (a5 : s.sock = none → s'.sock = none)
    (h : Inv s) : Inv s' := by
  obtain ⟨j0, ⟨⟨j7, j9, ⟨⟨js1, js2, js3⟩, k4, kr⟩⟩, j8⟩⟩ := h
  unfold Inv KP KPw KS JS KR KRf RD RDc RDw at *
  unfold SockClosed at js2 ⊢
  rw [a1, a2, a3, a4]
  refine ⟨j0, ⟨⟨j7, j9, ⟨⟨js1, ?_, ?_⟩, k4, kr⟩⟩, j8⟩⟩
  · intro a b
    obtain ⟨c1, c2, c3⟩ := js2 a b
    exact ⟨c1, a5 c2, c3⟩
  · intro hfd
    exact a5 (js3 hfd)

theorem Inv_complete (s : System) (k : CallKind) (cb : System → System)
    (hcb : ∀ x : System, Inv x → Inv (cb x)) (h : Inv s) : Inv (complete s k cb) := by
  unfold complete
  split
  · exact hcb _ (Inv_of_sock s _ rfl rfl rfl rfl (fun e => e) h)
  · exact h

/-- Every dispatch of the main loop keeps the invariant. -/
theorem inv_step (s : System) (ev : Event) (h : Inv s) : Inv (step s ev) := by
  have ks : KS s := h.2.1.2.2
  have kr : KR s := ks.2.2
  cases ev with
  | user_start => exact Inv_of_frameR (rpt_user_spec s kr).1 h
  | user_stop => exact Inv_of_frameR (rpt_user_spec s kr).2.1 h
  | user_set_datarate hz => exact Inv_of_frameR ((rpt_user_spec s kr).2.2.1 hz) h
  | user_set_alwayson b => exact Inv_of_frameR ((rpt_user_spec s kr).2.2.2 b) h
  | srv_eval =>
    simp only [step]
    split
    · exact (srv_callbacks_spec s h).1
    · exact h
  | plg_eval =>
    simp only [step]
    split
    · obtain ⟨a, b⟩ := plg_eval_spec s h.2
      exact Inv_of_frameP b a h
    · exact h
  | sns_eval =>
    simp only [step]
    split
    · exact Inv_of_frameS (sns_eval_spec s ks) h
    · exact h
  | rpt_eval =>
    simp only [step]
    split
    · exact Inv_of_frameR (rpt_eval_spec s kr) h
    · exact h
  | srv_retry =>
    simp only [step]
    split
    · exact (srv_callbacks_spec s h).2.1
    · exact h
  | plg_retry =>
    simp only [step]
    split
    · obtain ⟨a, b⟩ := (plg_callbacks_spec s h.2).1
      exact Inv_of_frameP b a h
    · exact h
  | sns_retry =>
    simp only [step]
    split
    · exact Inv_of_frameS (sns_local_callbacks_spec s ks).1 h
    · exact h
  | rpt_retry =>
    simp only [step]
    split
    · exact Inv_of_frameR (rpt_retry_spec s kr) h
    · exact h
  | bus_get_done con =>
    exact Inv_complete s _ _ (fun x hx => (srv_callbacks_spec x hx).2.2.2.1 con) h
  | enumerate_done rsp =>
    exact Inv_complete s _ _ (fun x hx => (srv_callbacks_spec x hx).2.2.1 rsp) h
  | load_done rsp =>
    refine Inv_complete s _ _ (fun x hx => ?_) h
    obtain ⟨a, b⟩ := (plg_callbacks_spec x hx.2).2 rsp
    exact Inv_of_frameP b a hx
  | request_session_done rsp =>
    exact Inv_complete s _ _
      (fun x hx => Inv_of_frameS ((sns_local_callbacks_spec x hx.2.1.2.2).2.1 rsp) hx) h
  | release_session_done rsp =>
    exact Inv_complete s _ _
      (fun x hx => Inv_of_frameS ((sns_local_callbacks_spec x hx.2.1.2.2).2.2.1 rsp) hx) h
  | get_properties_done rsp =>
    exact Inv_complete s _ _
      (fun x hx => Inv_of_frameS ((sns_local_callbacks_spec x hx.2.1.2.2).2.2.2 rsp) hx) h
  | enable_done ack =>
    exact Inv_complete s _ _
      (fun x hx => Inv_of_frameR (rpt_callbacks_spec x hx.2.1.2.2.2.2 ack).1 hx) h
  | datarate_done ack =>
    exact Inv_complete s _ _
      (fun x hx => Inv_of_frameR (rpt_callbacks_spec x hx.2.1.2.2.2.2 ack).2.1 hx) h
  | override_done ack =>
    exact Inv_complete s _ _
      (fun x hx => Inv_of_frameR (rpt_callbacks_spec x hx.2.1.2.2.2.2 ack).2.2 hx) h
  | name_owner_appeared o =>
    simp only [step]
    split
    · exact (srv_callbacks_spec s h).2.2.2.2.2 o
    · exact h
  | name_owner_vanished =>
    simp only [step]
    split
    · exact (srv_callbacks_spec s h).2.2.2.2.1
    · exact h
  | socket_tx_ready =>
    simp only [step]
    split
    · rename_i hg
      simp only [Bool.and_eq_true] at hg
      obtain ⟨a, b⟩ := sns_tx_cb_spec s ks hg.1
      exact Inv_of_upper b a h
    · exact h
  | socket_rx_ready =>
    simp only [step]
    split
    · rename_i hg
      simp only [Bool.and_eq_true] at hg
      obtain ⟨a, b⟩ := sns_rx_cb_spec s ks hg.1
      exact Inv_of_upper b a h
    · exact h
  | daemon_send bytes =>
    refine Inv_of_sock s _ rfl rfl rfl rfl ?_ h
    intro e
    show Option.map _ s.sock = none
    rw [e]
    rfl
  | daemon_close =>
    refine Inv_of_sock s _ rfl rfl rfl rfl ?_ h
    intro e
    show Option.map _ s.sock = none
    rw [e]
    rfl
  | os_change o => exact Inv_of_sock s _ rfl rfl rfl rfl (fun e => e) h

/-- Every reachable state satisfies the invariant. -/
theorem inv_reachable (os : Os) (id : SfwSensorId) (s : System) (h : Reachable os id s) :
    Inv s := by
  induction h with
  | init => exact inv_init os id
  | step s ev _ ih => exact inv_step s ev ih

/-- Running events from the constructed pipeline gives a reachable state. -/
theorem reachable_run (os : Os) (id : SfwSensorId) (evs : List Event) :
    Reachable os id (run (sfwsensor_new os id) evs) := by
  have key : ∀ (l : List Event) (s : System), Reachable os id s → Reachable os id (run s l) := by
    intro l
    induction l with
    | nil => intro s hs; exact hs
    | cons e t ih =>
      intro s hs
      exact ih (step s e) (Reachable.step s e hs)
  exact key evs _ Reachable.init

/-! ## The validity chain and the Reporting invariants (C7, C8, C9, C10) -/

/-- C7. In every state the composed system can reach, an active Sensor is
valid, a valid Sensor has a valid Plugin, and a valid Plugin has a valid
Service. -/
theorem valid_chain (os : Os) (id : SfwSensorId) (s : System) (h : Reachable os id s) :
    (s.sns.sns_active = true → s.sns.sns_valid = true) ∧
    (s.sns.sns_valid = true → s.plg.plg_valid = true) ∧
    (s.plg.plg_valid = true → s.srv.srv_valid = true) := by
  obtain ⟨_, ⟨⟨j7, _, ⟨⟨js1, _, _⟩, k4, ⟨⟨f1, _, f3⟩, _, k5⟩⟩⟩, j8⟩⟩ := inv_reachable os id s h
  refine ⟨?_, ?_, ?_⟩
  · intro ha
    rw [f3] at ha
    apply k5
    rw [f1.mp ha]
    rfl
  · intro hv
    refine (k4 ?_).2
    rw [js1 hv]
    rfl
  · intro hv
    apply j8
    rw [j7 hv]
    rfl

set_option maxRecDepth 100000 in
/-- C7 on the started example: the Sensor is active there, so the chain gives
a valid Sensor, Plugin and Service. -/
theorem valid_chain_witness :
    started_system.sns.sns_active = true ∧ started_system.sns.sns_valid = true ∧
    started_system.plg.plg_valid = true ∧ started_system.srv.srv_valid = true :=
  have c := valid_chain example_os SFW_SENSOR_ID_PROXIMITY started_system
    (reachable_run example_os SFW_SENSOR_ID_PROXIMITY start_events)
  ⟨by decide, c.1 (by decide), c.2.1 (c.1 (by decide)), c.2.2 (c.2.1 (c.1 (by decide)))⟩

/-- C8. In every reachable state `rpt_active` holds exactly in `STARTED` and
`rpt_valid` exactly in `STARTED` and `STOPPED`; in the eight other states both
are false. -/
theorem reporting_flags (os : Os) (id : SfwSensorId) (s : System) (h : Reachable os id s) :
    (s.rpt.rpt_active = true ↔ s.rpt.rpt_state = .STARTED) ∧
    (s.rpt.rpt_valid = true ↔ (s.rpt.rpt_state = .STARTED ∨ s.rpt.rpt_state = .STOPPED)) ∧
    (s.rpt.rpt_state ∈ [SfwReportingState.INITIAL, .DISABLED, .RETHINK, .STARTING,
        .CONFIGURE, .STOPPING, .FAILED, .FINAL] →
      s.rpt.rpt_active = false ∧ s.rpt.rpt_valid = false) := by
  obtain ⟨f1, f2, _⟩ := (inv_reachable os id s h).2.1.2.2.2.2.1
  refine ⟨f1, f2, ?_⟩
  intro hm
  have h1 : s.rpt.rpt_state ≠ .STARTED := by
    intro e; rw [e] at hm; simp at hm
  have h2 : s.rpt.rpt_state ≠ .STOPPED := by
    intro e; rw [e] at hm; simp at hm
  constructor
  · cases ha : s.rpt.rpt_active
    · rfl
    · exact absurd (f1.mp ha) h1
  · cases hv : s.rpt.rpt_valid
    · rfl
    · rcases f2.mp hv with e | e
      · exact absurd e h1
      · exact absurd e h2

set_option maxRecDepth 100000 in
/-- C8 on the examples: the started Reporting is in `STARTED` with both flags
set; the idle one is in `DISABLED` with both flags clear. -/
theorem reporting_flags_witness :
    (started_system.rpt.rpt_state = .STARTED ∧ started_system.rpt.rpt_active = true ∧
      started_system.rpt.rpt_valid = true) ∧
    (ready_system.rpt.rpt_state = .DISABLED ∧ ready_system.rpt.rpt_active = false ∧
      ready_system.rpt.rpt_valid = false) :=
  have c := reporting_flags example_os SFW_SENSOR_ID_PROXIMITY started_system
    (reachable_run example_os SFW_SENSOR_ID_PROXIMITY start_events)
  have d := reporting_flags example_os SFW_SENSOR_ID_PROXIMITY ready_system
    (reachable_run example_os SFW_SENSOR_ID_PROXIMITY ready_events)
  have hs : started_system.rpt.rpt_state = .STARTED := by decide
  have hr : ready_system.rpt.rpt_state = .DISABLED := by decide
  ⟨⟨hs, c.1.mpr hs, c.2.1.mpr (Or.inl hs)⟩,
   ⟨hr, d.2.2 (by rw [hr]; simp)⟩⟩

set_option maxRecDepth 100000 in
/-- C9 fails as stated: right after `sfwsensor_set_datarate(10.0)` on a started
Reporting the state is still `STARTED`, the wanted datarate is 10.0 and the
effective datarate is still 0. -/
theorem wanted_differs_in_started :
    Reachable example_os SFW_SENSOR_ID_PROXIMITY retuned_system ∧
    retuned_system.rpt.rpt_state = .STARTED ∧
    retuned_system.rpt.rpt_datarate_wanted = DBL_10 ∧
    retuned_system.rpt.rpt_datarate_effective = 0 ∧
    dbl_ne retuned_system.rpt.rpt_datarate_wanted retuned_system.rpt.rpt_datarate_effective
      = true ∧
    retuned_system.rpt.rpt_eval_state_id = true :=
  ⟨Reachable.step _ _ (reachable_run example_os SFW_SENSOR_ID_PROXIMITY start_events),
    by decide, by decide, by decide, by decide, by decide⟩

/-- C9, amended. In every reachable state in `STARTED` the effective value of
enable, datarate and override equals the requested one, and when no deferred
evaluation is scheduled the wanted value equals the effective one for all
three. -/
theorem started_reconciled (os : Os) (id : SfwSensorId) (s : System)
    (h : Reachable os id s) (hs : s.rpt.rpt_state = .STARTED) :
    (s.rpt.rpt_enable_effective = s.rpt.rpt_enable_requested ∧
      dbl_ne s.rpt.rpt_datarate_effective s.rpt.rpt_datarate_requested = false ∧
      s.rpt.rpt_override_effective = s.rpt.rpt_override_requested) ∧
    (s.rpt.rpt_eval_state_id = false →
      b2i s.rpt.rpt_enable_wanted = s.rpt.rpt_enable_effective ∧
      dbl_ne s.rpt.rpt_datarate_wanted s.rpt.rpt_datarate_effective = false ∧
      b2i s.rpt.rpt_override_wanted = s.rpt.rpt_override_effective) := by
  obtain ⟨⟨_, _, _, d4⟩, dw⟩ := (inv_reachable os id s h).2.1.2.2.2.2.2.1
  exact ⟨d4 hs, dw hs⟩

set_option maxRecDepth 100000 in
/-- C9, amended, on the started example, where nothing is pending. -/
theorem started_reconciled_witness :
    started_system.rpt.rpt_state = .STARTED ∧
    started_system.rpt.rpt_eval_state_id = false ∧
    b2i started_system.rpt.rpt_enable_wanted = started_system.rpt.rpt_enable_effective ∧
    dbl_ne started_system.rpt.rpt_datarate_wanted started_system.rpt.rpt_datarate_effective
      = false ∧
    b2i started_system.rpt.rpt_override_wanted = started_system.rpt.rpt_override_effective :=
  have hs : started_system.rpt.rpt_state = .STARTED := by decide
  have he : started_system.rpt.rpt_eval_state_id = false := by decide
  have c := started_reconciled example_os SFW_SENSOR_ID_PROXIMITY started_system
    (reachable_run example_os SFW_SENSOR_ID_PROXIMITY start_events) hs
  ⟨hs, he, c.2 he⟩

set_option maxRecDepth 100000 in
/-- C10 fails on the code. At the end of `datarate_race_events` the Reporting
is `STARTED` with no evaluation and no call pending and wanted equal to
effective for all three variables, the wanted datarate is 10.0, and the only
`setDataRate` call ever issued carried 20.0: `sfwreporting_stm_start_datarate`
sends the wanted value while `sfwreporting_stm_datarate_cb` records the
requested one. -/
theorem datarate_call_mismatch :
    Reachable example_os SFW_SENSOR_ID_PROXIMITY datarate_race_system ∧
    datarate_race_system.rpt.rpt_state = .STARTED ∧
    datarate_race_system.rpt.rpt_eval_state_id = false ∧
    datarate_race_system.inflight = [] ∧
    b2i datarate_race_system.rpt.rpt_enable_wanted
      = datarate_race_system.rpt.rpt_enable_effective ∧
    datarate_race_system.rpt.rpt_datarate_wanted = DBL_10 ∧
    datarate_race_system.rpt.rpt_datarate_effective = DBL_10 ∧
    b2i datarate_race_system.rpt.rpt_override_wanted
      = datarate_race_system.rpt.rpt_override_effective ∧
    set_datarate_calls datarate_race_system.trace = [DBL_20] ∧
    dbl_ne DBL_20 DBL_10 = true :=
  ⟨reachable_run example_os SFW_SENSOR_ID_PROXIMITY datarate_race_events,
    by decide, by decide, by decide, by decide, by decide, by decide, by decide, by decide,
    by decide⟩

/-! ## The read pass (C1, C2, C3) -/

theorem socket_read_block (fd : Int) (k : Socket) (bytes rest : List Nat) (hfd : fd ≠ -1)
    (hpos : 0 < bytes.length) (hrx : k.rx = bytes ++ rest) :
    socket_read fd (some k) bytes.length
      = ((bytes.length : Int), bytes, some { k with rx := rest }) := by
  unfold socket_read
  have hne : k.rx.isEmpty = false := by
    rw [hrx]
    cases bytes with
    | nil => simp at hpos
    | cons b t => rfl
  simp only [hfd, if_false, hne, Bool.false_eq_true]
  rw [hrx, List.take_left' rfl, List.drop_left' rfl]

theorem decode_samples_length (abi : Abi) (samples : List (List Nat)) :
    ∀ slot : SfwReading, (decode_samples abi slot samples).length = samples.length := by
  induction samples with
  | nil => intro slot; rfl
  | cons b t ih =>
    intro slot
    simp [decode_samples, ih]

theorem decode_samples_last (abi : Abi) (samples : List (List Nat)) :
    ∀ slot : SfwReading, samples ≠ [] →
      (decode_samples abi slot samples).getLast?
        = some (samples.foldl (decode_sample abi) slot) := by
  induction samples with
  | nil => intro slot h; exact absurd rfl h
  | cons b t ih =>
    intro slot _
    cases t with
    | nil => rfl
    | cons c u =>
      have := ih (decode_sample abi slot b) (by simp)
      simpa [decode_samples, List.getLast?_cons_cons] using this

/-- Each decoded reading is the normalization of the slot the previous one
left, with the bytes of its sample copied over the start. -/
theorem decode_samples_get (abi : Abi) (samples : List (List Nat)) :
    ∀ (slot : SfwReading) (i : Nat) (b : List Nat) (prev : SfwReading),
      samples[i]? = some b →
      (slot :: decode_samples abi slot samples)[i]? = some prev →
      prev.sensor_id = slot.sensor_id ∧
      (decode_samples abi slot samples)[i]?
        = some (sfwreading_normalize abi
            ⟨slot.sensor_id, fun a => if a < b.length then b.getD a 0 else prev.sample a⟩) := by
  induction samples with
  | nil =>
    intro slot i b prev h
    simp at h
  | cons c t ih =>
    intro slot i b prev h1 h2
    cases i with
    | zero =>
      simp only [List.getElem?_cons_zero, Option.some.injEq] at h1 h2
      subst h1
      subst h2
      refine ⟨rfl, ?_⟩
      simp only [decode_samples, List.getElem?_cons_zero]
      rfl
    | succ j =>
      simp only [List.getElem?_cons_succ] at h1 h2
      have e : (decode_sample abi slot c).sensor_id = slot.sensor_id := by
        unfold decode_sample
        rw [normalize_sensor_id]
      have k := ih (decode_sample abi slot c) j b prev h1 h2
      rw [e] at k
      exact ⟨k.1, by simpa [decode_samples] using k.2⟩

theorem readings_emitted_map (l : List SfwReading) :
    readings_emitted (l.map Obs.sensor_reading_changed) = l := by
  induction l with
  | nil => rfl
  | cons a t ih => simp [readings_emitted, ih]

/-- The sample loop on complete samples: every sample is stored and
normalized in turn, a reading is delivered for each one when the Reporting is
active, and the loop runs to its end. -/
theorem rx_loop_complete (blk : Nat) (hblk : 0 < blk) (samples : List (List Nat)) :
    ∀ (s : System) (k : Socket) (rest : List Nat), s.sock = some k →
      s.sns.sns_socket_fd ≠ -1 → k.rx = samples.flatten ++ rest →
      (∀ x ∈ samples, x.length = blk) →
      sfwsensor_stm_socket_rx_reading_loop blk samples.length s
        = ({ s with
              sock := some { k with rx := rest }
              sns := { s.sns with
                sns_reading := samples.foldl (decode_sample s.os.abi) s.sns.sns_reading }
              trace := s.trace ++
                (if s.rpt.rpt_active then
                  (decode_samples s.os.abi s.sns.sns_reading samples).map
                    Obs.sensor_reading_changed
                 else []) }, true) := by
  induction samples with
  | nil =>
    intro s k rest hk hfd hrx _
    simp only [List.flatten_nil, List.nil_append] at hrx
    rcases s with ⟨srv, plg, sns, rpt, gobj, os, sock, inflight, trace⟩
    rcases k with ⟨rx, eof, tx, blocking⟩
    simp only at hk hrx
    subst hk hrx
    simp [sfwsensor_stm_socket_rx_reading_loop, decode_samples]
  | cons x t ih =>
    intro s k rest hk hfd hrx hlen
    have hx : x.length = blk := hlen x (List.mem_cons_self _ _)
    have hrx' : k.rx = x ++ (t.flatten ++ rest) := by
      rw [hrx, List.flatten_cons, List.append_assoc]
    have hrd := socket_read_block s.sns.sns_socket_fd k x (t.flatten ++ rest) hfd
      (by rw [hx]; exact hblk) hrx'
    rw [hx] at hrd
    rw [List.length_cons]
    unfold sfwsensor_stm_socket_rx_reading_loop
    simp only []
    rw [hk, hrd]
    have h1 : ((blk : Int) = -1) = False := by
      apply propext; constructor
      · intro h; omega
      · intro h; exact h.elim
    have h2 : ((blk : Int) = 0) = False := by
      apply propext; constructor
      · intro h; omega
      · intro h; exact h.elim
    simp only [h1, h2, if_false, ne_eq, not_true_eq_false]
    by_cases ha : s.rpt.rpt_active = true
    · simp only [sfwreporting_is_active, ha, if_true]
      refine Eq.trans (ih _ { k with rx := t.flatten ++ rest } rest ?_ ?_ rfl ?_) ?_
      · rfl
      · exact hfd
      · exact fun y hy => hlen y (List.mem_cons_of_mem _ hy)
      · simp [observe, decode_samples, decode_sample, ha, List.append_assoc]
    · have ha' : s.rpt.rpt_active = false := by simpa using ha
      simp only [sfwreporting_is_active, ha', Bool.false_eq_true, if_false]
      refine Eq.trans (ih _ { k with rx := t.flatten ++ rest } rest ?_ ?_ rfl ?_) ?_
      · rfl
      · exact hfd
      · exact fun y hy => hlen y (List.mem_cons_of_mem _ hy)
      · simp [decode_samples, decode_sample, ha']

theorem le_nat_le32 (n : Nat) (h : n < 2 ^ 32) : le_nat (le32_bytes n) = n := by
  unfold le32_bytes
  simp only [le_nat]
  omega

theorem sample_size_bounds (abi : Abi) (id : Int) (h : sfwsensorid_is_valid id = true) :
    4 ≤ sfwsensorid_sample_size abi id ∧
    sfwsensorid_sample_size abi id ≤ sizeof_SfwSample abi := by
  rcases sensorid_valid_cases id h with h | h | h | h | h | h | h | h | h | h | h | h | h | h <;>
    subst h <;> cases abi <;> decide

/-- The part of a read pass before `EXIT`, on a frame with a count in range
and that many complete samples. -/
theorem rx_body_complete (s : System) (k : Socket) (samples : List (List Nat))
    (rest : List Nat) (hk : s.sock = some k) (hfd : s.sns.sns_socket_fd ≠ -1)
    (hid : sfwsensorid_is_valid s.sns.sns_reading.sensor_id = true)
    (hn1 : 1 ≤ samples.length) (hn2 : samples.length ≤ 16)
    (hlen : ∀ x ∈ samples,
      x.length = sfwsensorid_sample_size s.os.abi s.sns.sns_reading.sensor_id)
    (hrx : k.rx = le32_bytes samples.length ++ samples.flatten ++ rest) :
    sfwsensor_stm_socket_rx_reading_body s
      = ({ s with
            sock := some { k with rx := rest }
            sns := { s.sns with
              sns_reading := samples.foldl (decode_sample s.os.abi) s.sns.sns_reading }
            trace := s.trace ++
              (if s.rpt.rpt_active then
                (decode_samples s.os.abi s.sns.sns_reading samples).map
                  Obs.sensor_reading_changed
               else []) }, true) := by
  obtain ⟨b1, b2⟩ := sample_size_bounds s.os.abi s.sns.sns_reading.sensor_id hid
  have hrx' : k.rx = le32_bytes samples.length ++ (samples.flatten ++ rest) := by
    rw [hrx, List.append_assoc]
  have hrd := socket_read_block s.sns.sns_socket_fd k (le32_bytes samples.length)
    (samples.flatten ++ rest) hfd (by simp [le32_bytes]) hrx'
  have hl4 : (le32_bytes samples.length).length = 4 := rfl
  rw [hl4] at hrd
  have hcnt : le_nat (le32_bytes samples.length) = samples.length :=
    le_nat_le32 _ (by omega)
  unfold sfwsensor_stm_socket_rx_reading_body
  simp only []
  rw [hk, hrd]
  simp only [hcnt, Nat.cast_ofNat, ne_eq, not_true_eq_false, if_false]
  rw [if_neg (by omega), if_neg (by omega)]
  refine Eq.trans (rx_loop_complete _ (by omega) samples _
    { k with rx := samples.flatten ++ rest } rest ?_ ?_ rfl ?_) ?_
  · rfl
  · exact hfd
  · exact hlen
  · rfl

/-- C1. A read pass on a frame whose count N is between 1 and 16 and which is
followed by N complete samples of the Sensor's kind: it returns
`G_SOURCE_CONTINUE`; the readings delivered are the decoded ones, in order,
when the Reporting is active, and none when it is not; there are N decoded
readings and the slot ends up holding the last one; the watch, the Sensor
state and the bytes after the frame are left as they are.  The i-th decoded
reading is one normalization of the slot as the reading before it left it
(the slot before the pass for the first), with the bytes of the i-th sample
received written over its start. -/
theorem rx_reading_pass (s : System) (k : Socket) (samples : List (List Nat))
    (rest : List Nat) (hk : s.sock = some k) (hfd : s.sns.sns_socket_fd ≠ -1)
    (hid : sfwsensorid_is_valid s.sns.sns_reading.sensor_id = true)
    (hn1 : 1 ≤ samples.length) (hn2 : samples.length ≤ 16)
    (hlen : ∀ x ∈ samples,
      x.length = sfwsensorid_sample_size s.os.abi s.sns.sns_reading.sensor_id)
    (hrx : k.rx = le32_bytes samples.length ++ samples.flatten ++ rest) :
    (sfwsensor_stm_socket_rx_reading s).2 = G_SOURCE_CONTINUE ∧
    readings_emitted (sfwsensor_stm_socket_rx_reading s).1.trace
      = readings_emitted s.trace ++
          (if sfwreporting_is_active s then
            decode_samples s.os.abi s.sns.sns_reading samples
           else []) ∧
    (decode_samples s.os.abi s.sns.sns_reading samples).length = samples.length ∧
    (decode_samples s.os.abi s.sns.sns_reading samples).getLast?
      = some (sfwsensor_stm_socket_rx_reading s).1.sns.sns_reading ∧
    (sfwsensor_stm_socket_rx_reading s).1.sns.sns_socket_rx_id = s.sns.sns_socket_rx_id ∧
    (sfwsensor_stm_socket_rx_reading s).1.sns.sns_state = s.sns.sns_state ∧
    (sfwsensor_stm_socket_rx_reading s).1.sock = some { k with rx := rest } ∧
    (∀ (i : Nat) (b : List Nat) (prev : SfwReading), samples[i]? = some b →
      (s.sns.sns_reading :: decode_samples s.os.abi s.sns.sns_reading samples)[i]? = some prev →
      (decode_samples s.os.abi s.sns.sns_reading samples)[i]?
        = some (sfwreading_normalize s.os.abi
            ⟨s.sns.sns_reading.sensor_id,
             fun a =>
               if a < sfwsensorid_sample_size s.os.abi s.sns.sns_reading.sensor_id then
                 b.getD a 0
               else prev.sample a⟩)) := by
  have hb := rx_body_complete s k samples rest hk hfd hid hn1 hn2 hlen hrx
  have hne : samples ≠ [] := by
    intro e
    rw [e] at hn1
    simp at hn1
  unfold sfwsensor_stm_socket_rx_reading
  simp only []
  rw [hb]
  simp only [G_SOURCE_REMOVE, G_SOURCE_CONTINUE, Bool.true_eq_false, if_false]
  refine ⟨trivial, ?_, decode_samples_length _ _ _, decode_samples_last _ _ _ hne, trivial,
    trivial, trivial, ?_⟩
  · rw [readings_emitted_append]
    unfold sfwreporting_is_active
    split
    · rw [readings_emitted_map]
    · rfl
  · intro i b prev h1 h2
    have hl := hlen b (List.getElem?_mem h1)
    rw [← hl]
    exact (decode_samples_get s.os.abi samples s.sns.sns_reading i b prev h1 h2).2

set_option maxRecDepth 100000 in
/-- C1 on the started example with two padded proximity samples waiting, no
reading delivered before: the pass continues and delivers two readings, the
first with timestamp 1000, distance 5 and proximity 1, the second with
timestamp 2000, distance 7 and proximity 0, and the slot, which held zeroes,
ends up holding the second. -/
theorem rx_reading_pass_witness :
    (sfwsensor_stm_socket_rx_reading pair_fed_system).2 = G_SOURCE_CONTINUE ∧
    sfwreporting_is_active pair_fed_system = true ∧
    readings_emitted (sfwsensor_stm_socket_rx_reading pair_fed_system).1.trace
      = readings_emitted pair_fed_system.trace ++
          (if sfwreporting_is_active pair_fed_system then
            decode_samples pair_fed_system.os.abi pair_fed_system.sns.sns_reading
              proximity_pair_samples
           else []) ∧
    (readings_emitted pair_fed_system.trace).length = 0 ∧
    proximity_members pair_fed_system.sns.sns_reading = (0, 0, 0) ∧
    (readings_emitted (sfwsensor_stm_socket_rx_reading pair_fed_system).1.trace).map
        (fun r => (r.sensor_id, proximity_members r))
      = [(SFW_SENSOR_ID_PROXIMITY, 1000, 5, 1), (SFW_SENSOR_ID_PROXIMITY, 2000, 7, 0)] ∧
    proximity_members (sfwsensor_stm_socket_rx_reading pair_fed_system).1.sns.sns_reading
      = (2000, 7, 0) :=
  have c := rx_reading_pass pair_fed_system (example_socket proximity_frame_pair)
    proximity_pair_samples [] (by decide) (by decide) (by decide) (by decide)
    (by decide) (by decide) (by decide)
  ⟨c.1, by decide, c.2.1, by decide, by decide, by decide, by decide⟩

/-- C2. A read pass on a frame whose 32-bit count is below 1 or above 16
takes only the four count bytes from the socket, leaves the reading slot
alone, delivers no reading and returns `G_SOURCE_REMOVE`, and the Sensor ends
in `FAILED`, not valid, with the socket closed; a count from 1 to 16 on a
Sensor of a valid kind passes the check and the pass goes on to the sample
loop. -/
theorem rx_reading_bad_count (os : Os) (id : SfwSensorId) (s : System) (k : Socket)
    (cnt : Nat) (rest : List Nat) (hr : Reachable os id s) (hk : s.sock = some k)
    (hfd : s.sns.sns_socket_fd ≠ -1) (hc32 : cnt < 2 ^ 32)
    (hrx : k.rx = le32_bytes cnt ++ rest) :
    ((cnt < 1 ∨ 16 < cnt) →
      (sfwsensor_stm_socket_rx_reading_body s).1.sock = some { k with rx := rest } ∧
      (sfwsensor_stm_socket_rx_reading s).2 = G_SOURCE_REMOVE ∧
      (sfwsensor_stm_socket_rx_reading s).1.sns.sns_reading = s.sns.sns_reading ∧
      readings_emitted (sfwsensor_stm_socket_rx_reading s).1.trace
        = readings_emitted s.trace ∧
      (sfwsensor_stm_socket_rx_reading s).1.sns.sns_state = .FAILED ∧
      (sfwsensor_stm_socket_rx_reading s).1.sns.sns_valid = false ∧
      (sfwsensor_stm_socket_rx_reading s).1.sns.sns_socket_fd = -1 ∧
      (sfwsensor_stm_socket_rx_reading s).1.sock = none) ∧
    ((1 ≤ cnt ∧ cnt ≤ 16) → sfwsensorid_is_valid s.sns.sns_reading.sensor_id = true →
      sfwsensor_stm_socket_rx_reading_body s
        = sfwsensor_stm_socket_rx_reading_loop
            (sfwsensorid_sample_size s.os.abi s.sns.sns_reading.sensor_id) cnt
            { s with sock := some { k with rx := rest } }) := by
  have ks : KS s := (inv_reachable os id s hr).2.1.2.2
  have hrd := socket_read_block s.sns.sns_socket_fd k (le32_bytes cnt) rest hfd
    (by simp [le32_bytes]) hrx
  have hl4 : (le32_bytes cnt).length = 4 := rfl
  rw [hl4] at hrd
  have hcnt : le_nat (le32_bytes cnt) = cnt := le_nat_le32 _ hc32
  have ho : s.sns.sns_state = .CONNECT ∨ s.sns.sns_state = .READY := by
    by_contra hn
    push_neg at hn
    exact hfd (ks.1.2.1 hn.1 hn.2).1
  constructor
  · intro hbad
    have hbody : sfwsensor_stm_socket_rx_reading_body s
        = ({ s with sock := some { k with rx := rest } }, G_SOURCE_REMOVE) := by
      unfold sfwsensor_stm_socket_rx_reading_body
      simp only []
      rw [hk, hrd]
      simp only [hcnt, Nat.cast_ofNat, ne_eq, not_true_eq_false, if_false]
      rw [if_pos (by omega)]
    have k1 : KS { s with
        sock := some { k with rx := rest }
        sns := { s.sns with sns_socket_rx_id := false } } :=
      KS_of_core_open s _ ⟨rfl, rfl, rfl, rfl, rfl, rfl, rfl, rfl⟩ ho
        (fun h => absurd h hfd) ks
    obtain ⟨r1, r2, r3, r4⟩ := sns_set_state_spec _ .FAILED k1.1 k1.2.2 (by simp)
    have hst : (sfwsensor_stm_set_state { s with
        sock := some { k with rx := rest }
        sns := { s.sns with sns_socket_rx_id := false } } .FAILED).sns.sns_state = .FAILED := by
      rw [r4]
      rcases ho with ho | ho <;> simp [ho]
    have hcl := r2.2.1 (by rw [hst]; simp) (by rw [hst]; simp)
    unfold sfwsensor_stm_socket_rx_reading
    simp only []
    rw [hbody]
    simp only [if_true]
    refine ⟨trivial, trivial, r3.2.2.2.2.1, r3.2.2.2.2.2, hst, ?_, hcl.1, hcl.2.1⟩
    cases hv : (sfwsensor_stm_set_state { s with
        sock := some { k with rx := rest }
        sns := { s.sns with sns_socket_rx_id := false } } .FAILED).sns.sns_valid
    · rfl
    · have := r2.1 hv
      rw [hst] at this
      cases this
  · intro hin hid
    obtain ⟨b1, b2⟩ := sample_size_bounds s.os.abi s.sns.sns_reading.sensor_id hid
    unfold sfwsensor_stm_socket_rx_reading_body
    simp only []
    rw [hk, hrd]
    simp only [hcnt, Nat.cast_ofNat, ne_eq, not_true_eq_false, if_false]
    rw [if_neg (by omega), if_neg (by omega)]

set_option maxRecDepth 100000 in
/-- C2 on the started example with the count 17 waiting in the socket. -/
theorem rx_reading_bad_count_witness :
    (sfwsensor_stm_socket_rx_reading jammed_system).2 = G_SOURCE_REMOVE ∧
    (sfwsensor_stm_socket_rx_reading jammed_system).1.sns.sns_state = .FAILED ∧
    (sfwsensor_stm_socket_rx_reading jammed_system).1.sns.sns_socket_fd = -1 :=
  have c := (rx_reading_bad_count example_os SFW_SENSOR_ID_PROXIMITY jammed_system
    (example_socket oversized_count_frame) 17 []
    (Reachable.step _ _ (reachable_run example_os SFW_SENSOR_ID_PROXIMITY start_events))
    (by decide) (by decide) (by decide) (by decide)).1 (by decide)
  ⟨c.2.1, c.2.2.2.2.1, c.2.2.2.2.2.2.1⟩

set_option maxRecDepth 100000 in
/-- C3 fails as stated: a proximity sample takes 16 bytes, not 13, under both
layout conventions, and an accelerometer sample 24 where `uint64_t` is aligned
to 8; the frame of scenario 1 with a 13-byte sample is not decoded: the pass
gives up, the Sensor goes to `FAILED` and no reading is delivered. -/
theorem proximity_sample_is_padded :
    sfwsensorid_sample_size Abi.natural SFW_SENSOR_ID_PROXIMITY = 16 ∧
    sfwsensorid_sample_size Abi.i386 SFW_SENSOR_ID_PROXIMITY = 16 ∧
    sfwsensorid_sample_size Abi.natural SFW_SENSOR_ID_ACCELEROMETER = 24 ∧
    underfed_system.sock = some (example_socket proximity_frame_packed) ∧
    (sfwsensor_stm_socket_rx_reading underfed_system).2 = G_SOURCE_REMOVE ∧
    (sfwsensor_stm_socket_rx_reading underfed_system).1.sns.sns_state = .FAILED ∧
    (readings_emitted (sfwsensor_stm_socket_rx_reading underfed_system).1.trace).length
      = (readings_emitted underfed_system.trace).length := by
  refine ⟨by decide, by decide, by decide, by decide, by decide, by decide, by decide⟩

set_option maxRecDepth 100000 in
/-- C3, amended. For every valid kind `sfwsensorid_sample_size` is the
`sizeof` of the kind's sample struct, padding included: 24, 16, 16, 24, 16 and
40 bytes where `uint64_t` is aligned to 8, and 20, 12, 16, 24, 16 and 36 bytes
where it is aligned to 4.  The proximity frame of scenario 1, sent with the
16-byte struct as its sample, is decoded as one complete sample with
timestamp 1000, distance 5 and proximity 1. -/
theorem sample_size_is_sizeof (abi : Abi) :
    (sfwsensorid_sample_size abi SFW_SENSOR_ID_PROXIMITY = c_sizeof abi SfwSampleProximity ∧
     sfwsensorid_sample_size abi SFW_SENSOR_ID_ALS = c_sizeof abi SfwSampleAls ∧
     sfwsensorid_sample_size abi SFW_SENSOR_ID_ORIENTATION
       = c_sizeof abi SfwSampleOrientation ∧
     sfwsensorid_sample_size abi SFW_SENSOR_ID_ACCELEROMETER = c_sizeof abi SfwSampleXyz ∧
     sfwsensorid_sample_size abi SFW_SENSOR_ID_COMPASS = c_sizeof abi SfwSampleCompass ∧
     sfwsensorid_sample_size abi SFW_SENSOR_ID_GYROSCOPE = c_sizeof abi SfwSampleXyz ∧
     sfwsensorid_sample_size abi SFW_SENSOR_ID_LID = c_sizeof abi SfwSampleLid ∧
     sfwsensorid_sample_size abi SFW_SENSOR_ID_HUMIDITY = c_sizeof abi SfwSampleHumidity ∧
     sfwsensorid_sample_size abi SFW_SENSOR_ID_MAGNETOMETER
       = c_sizeof abi SfwSampleMagnetometer ∧
     sfwsensorid_sample_size abi SFW_SENSOR_ID_PRESSURE = c_sizeof abi SfwSamplePressure ∧
     sfwsensorid_sample_size abi SFW_SENSOR_ID_ROTATION = c_sizeof abi SfwSampleXyz ∧
     sfwsensorid_sample_size abi SFW_SENSOR_ID_STEPCOUNTER
       = c_sizeof abi SfwSampleStepcounter ∧
     sfwsensorid_sample_size abi SFW_SENSOR_ID_TAP = c_sizeof abi SfwSampleTap ∧
     sfwsensorid_sample_size abi SFW_SENSOR_ID_TEMPERATURE
       = c_sizeof abi SfwSampleTemperature) ∧
    ([SFW_SENSOR_ID_ACCELEROMETER, SFW_SENSOR_ID_ALS, SFW_SENSOR_ID_PROXIMITY,
        SFW_SENSOR_ID_COMPASS, SFW_SENSOR_ID_LID, SFW_SENSOR_ID_MAGNETOMETER].map
        (sfwsensorid_sample_size Abi.natural) = [24, 16, 16, 24, 16, 40] ∧
     [SFW_SENSOR_ID_GYROSCOPE, SFW_SENSOR_ID_ROTATION].map
        (sfwsensorid_sample_size Abi.natural) = [24, 24] ∧
     [SFW_SENSOR_ID_HUMIDITY, SFW_SENSOR_ID_PRESSURE, SFW_SENSOR_ID_STEPCOUNTER,
        SFW_SENSOR_ID_TEMPERATURE, SFW_SENSOR_ID_ORIENTATION, SFW_SENSOR_ID_TAP].map
        (sfwsensorid_sample_size Abi.natural) = [16, 16, 16, 16, 16, 16]) ∧
    ([SFW_SENSOR_ID_ACCELEROMETER, SFW_SENSOR_ID_ALS, SFW_SENSOR_ID_PROXIMITY,
        SFW_SENSOR_ID_COMPASS, SFW_SENSOR_ID_LID, SFW_SENSOR_ID_MAGNETOMETER].map
        (sfwsensorid_sample_size Abi.i386) = [20, 12, 16, 24, 16, 36] ∧
     [SFW_SENSOR_ID_GYROSCOPE, SFW_SENSOR_ID_ROTATION].map
        (sfwsensorid_sample_size Abi.i386) = [20, 20] ∧
     [SFW_SENSOR_ID_HUMIDITY, SFW_SENSOR_ID_PRESSURE, SFW_SENSOR_ID_STEPCOUNTER,
        SFW_SENSOR_ID_TEMPERATURE, SFW_SENSOR_ID_ORIENTATION, SFW_SENSOR_ID_TAP].map
        (sfwsensorid_sample_size Abi.i386) = [12, 12, 12, 12, 12, 16]) ∧
    (fed_system.sock = some (example_socket proximity_frame_padded) ∧
     (sfwsensor_stm_socket_rx_reading fed_system).2 = G_SOURCE_CONTINUE ∧
     (readings_emitted (sfwsensor_stm_socket_rx_reading fed_system).1.trace).length
       = (readings_emitted fed_system.trace).length + 1 ∧
     mem_rd (sfwsensor_stm_socket_rx_reading fed_system).1.sns.sns_reading.sample
       (c_offsetof Abi.natural SfwSampleProximity 0) 8 = 1000 ∧
     mem_rd (sfwsensor_stm_socket_rx_reading fed_system).1.sns.sns_reading.sample
       (c_offsetof Abi.natural SfwSampleProximity 1) 4 = 5 ∧
     mem_rd (sfwsensor_stm_socket_rx_reading fed_system).1.sns.sns_reading.sample
       (c_offsetof Abi.natural SfwSampleProximity 2) 1 = 1) := by
  refine ⟨?_, ⟨by decide, by decide, by decide⟩, ⟨by decide, by decide, by decide⟩,
    ⟨by decide, by decide, by decide, by decide, by decide, by decide⟩⟩
  cases abi <;> decide

/-! ## Failures, stale completions and bookkeeping -/

/-! ## Runs in which a call fails or a reply is late (C12, C13, C14, C20, C23) -/

set_option maxRecDepth 100000 in
/-- C12 fails on the code for the datarate -1.0. At the end of
`negative_datarate_events` the only `setDataRate` call issued, carrying -1.0,
has completed without an acknowledgement while the Reporting held its handle,
and the evaluation that followed took the Reporting to `STARTED` with `active`
set, not to `FAILED`: `sfwreporting_stm_start_datarate` marks the effective
datarate as unknown with `INVALID_DATARATE`, which is -1.0 itself. -/
theorem negative_datarate_failure_ignored :
    Reachable example_os SFW_SENSOR_ID_PROXIMITY (proximity_run negative_datarate_events) ∧
    (let before := proximity_run (negative_datarate_events.take 22)
     before.rpt.rpt_state = .CONFIGURE ∧ before.rpt.rpt_datarate_cancellable.isSome = true ∧
     before.inflight = [CallKind.datarate] ∧
     set_datarate_calls before.trace = [INVALID_DATARATE] ∧
     before.rpt.rpt_datarate_requested = before.rpt.rpt_datarate_effective) ∧
    negative_datarate_events.drop 22 = [.datarate_done false, .rpt_eval] ∧
    (proximity_run negative_datarate_events).rpt.rpt_state = .STARTED ∧
    (proximity_run negative_datarate_events).rpt.rpt_active = true ∧
    (proximity_run negative_datarate_events).inflight = [] :=
  ⟨reachable_run example_os SFW_SENSOR_ID_PROXIMITY negative_datarate_events,
    ⟨by decide, by decide, by decide, by decide, by decide⟩, rfl, by decide, by decide,
    by decide⟩

set_option maxRecDepth 100000 in
/-- C13 fails on the code for a NaN datarate. In `nan_datarate_events`
`sfwsensor_start` is called once and never `sfwsensor_stop`, every call the
library issues is acknowledged and the Sensor stays valid, and two `start`
calls are issued: the comparison of the effective with the requested datarate
in `CONFIGURE` is never satisfied by a NaN, so the Reporting goes to `FAILED`,
which forgets the effective enable value, and the retry starts again. -/
theorem nan_datarate_restarts :
    Reachable example_os SFW_SENSOR_ID_PROXIMITY (proximity_run nan_datarate_events) ∧
    nan_datarate_events.drop 16 =
      [.user_set_datarate DBL_NAN, .user_start, .rpt_eval, .rpt_eval, .enable_done true,
       .rpt_eval, .datarate_done true, .rpt_eval, .rpt_retry, .rpt_eval, .rpt_eval] ∧
    (proximity_run (nan_datarate_events.take 24)).rpt.rpt_state = .FAILED ∧
    (proximity_run (nan_datarate_events.take 24)).sns.sns_valid = true ∧
    start_calls (proximity_run (nan_datarate_events.take 24)).trace = 1 ∧
    (proximity_run nan_datarate_events).rpt.rpt_state = .STARTING ∧
    (proximity_run nan_datarate_events).sns.sns_valid = true ∧
    start_calls (proximity_run nan_datarate_events).trace = 2 :=
  ⟨reachable_run example_os SFW_SENSOR_ID_PROXIMITY nan_datarate_events,
    rfl, by decide, by decide, by decide, by decide, by decide, by decide⟩

set_option maxRecDepth 100000 in
/-- C14 fails on the code. At the end of `handshake_unanswered_events` the
session id has been written to the socket and the daemon has sent nothing, yet
the Sensor is `READY` and valid with the handshake reader still in the read
slot and the socket still non-blocking: in `CONNECT` the evaluation waits only
for the write watch to be gone. -/
theorem ready_before_handshake_reply :
    Reachable example_os SFW_SENSOR_ID_PROXIMITY (proximity_run handshake_unanswered_events) ∧
    (proximity_run (handshake_unanswered_events.take 12)).sns.sns_state = .CONNECT ∧
    (proximity_run handshake_unanswered_events).sns.sns_state = .READY ∧
    (proximity_run handshake_unanswered_events).sns.sns_valid = true ∧
    (proximity_run handshake_unanswered_events).sns.sns_socket_rx_cb = .rx_handshake ∧
    (proximity_run handshake_unanswered_events).sock
      = some { rx := [], eof := false, tx := [42, 0, 0, 0], blocking := false } :=
  ⟨reachable_run example_os SFW_SENSOR_ID_PROXIMITY handshake_unanswered_events,
    by decide, by decide, by decide, by decide, by decide⟩

set_option maxRecDepth 100000 in
/-- C20 fails on the code. At the end of `enumerate_failed_events` the
`availableSensorPlugins` call has failed while the Service was `ENUMERATING`
and held the handle, and the evaluation that followed took the Service to
`READY`, valid, with an empty set of sensors and no retry timer. -/
theorem enumerate_failure_ignored :
    Reachable example_os SFW_SENSOR_ID_PROXIMITY (proximity_run enumerate_failed_events) ∧
    (proximity_run (enumerate_failed_events.take 2)).srv.srv_state = .ENUMERATING ∧
    (proximity_run (enumerate_failed_events.take 2)).srv.srv_enumerate_cancellable.isSome
      = true ∧
    (proximity_run enumerate_failed_events).srv.srv_state = .READY ∧
    (proximity_run enumerate_failed_events).srv.srv_valid = true ∧
    (proximity_run enumerate_failed_events).srv.srv_available_sensors = [] ∧
    (proximity_run enumerate_failed_events).srv.srv_retry_delay_id = false :=
  ⟨reachable_run example_os SFW_SENSOR_ID_PROXIMITY enumerate_failed_events,
    by decide, by decide, by decide, by decide, by decide, by decide⟩

set_option maxRecDepth 100000 in
/-- C23 fails on the code. After `reload_events` the first `loadPlugin` call
has been given up and a second one started, with a new handle; both are in
flight.  The completion of the first call then finds the slot occupied, takes
the handle of the second call, sets the success flag, and the next evaluation
makes the Plugin `READY` and valid while the second call is still in flight. -/
theorem stale_completion_taken :
    Reachable example_os SFW_SENSOR_ID_PROXIMITY (proximity_run stale_load_events) ∧
    (proximity_run (reload_events.take 5)).plg.plg_load_cancellable = some 2 ∧
    (proximity_run reload_events).plg.plg_state = .LOADING ∧
    (proximity_run reload_events).plg.plg_load_cancellable = some 4 ∧
    (proximity_run reload_events).plg.plg_load_succeeded = false ∧
    (proximity_run reload_events).inflight = [CallKind.load, CallKind.load] ∧
    (proximity_run reload_events).gobj.cancelled = [] ∧
    (step (proximity_run reload_events) (.load_done (some true))).plg.plg_load_cancellable
      = none ∧
    (step (proximity_run reload_events) (.load_done (some true))).plg.plg_load_succeeded
      = true ∧
    (proximity_run stale_load_events).plg.plg_state = .READY ∧
    (proximity_run stale_load_events).plg.plg_valid = true ∧
    (proximity_run stale_load_events).inflight = [CallKind.load] :=
  ⟨reachable_run example_os SFW_SENSOR_ID_PROXIMITY stale_load_events,
    by decide, by decide, by decide, by decide, by decide, by decide, by decide, by decide,
    by decide, by decide, by decide⟩

/-! ## The cancellation helpers (C24) -/

/-- C24 fails on the code. Whatever handle a slot holds, `cancellable_cancel`
and `cancellable_start` leave the set of cancelled handles as it was: the slot
is cleared before `g_cancellable_cancel` is applied to its content.  The rest
holds: cancel returns `true` and empties the slot, start leaves a fresh handle,
cancel on an empty slot returns `false` and changes nothing, and finish
returns `true` exactly for a non-empty slot and empties it. -/
theorem cancel_never_cancels (g : GObjects) (h : Nat) (slot : Option Nat) :
    cancellable_cancel g (some h) = (true, g, none) ∧
    (cancellable_start g (some h)).1.cancelled = g.cancelled ∧
    (cancellable_start g (some h)).2 = some g.next_cancellable ∧
    (cancellable_start g (some h)).1.next_cancellable = g.next_cancellable + 1 ∧
    cancellable_cancel g none = (false, g, none) ∧
    cancellable_finish slot = (slot.isSome, none) ∧
    (cancellable_cancel { next_cancellable := 1, cancelled := [] } (some 0)).2.1.cancelled
      = [] := by
  refine ⟨rfl, rfl, rfl, rfl, rfl, rfl, rfl⟩

/-! ## Tier by tier: what each function leaves alone -/

theorem RptTouch.of_eqT {s s' : System} (h : s'.rpt = s.rpt) : RptTouch s s' := by
  intro X _ hx
  rw [h]
  exact hx

theorem RptTouch.transT {a b c : System} (h1 : RptTouch a b) (h2 : RptTouch b c) :
    RptTouch a c :=
  fun X hr hx => h2 X hr (h1 X hr hx)

theorem RptTouch.resetT (s : System) : RptTouch s (sfwreporting_stm_reset_state s) :=
  fun _ hr hx => hr s hx

theorem SnsTouch.of_eqN {s s' : System} (h : sns_noact s'.sns = sns_noact s.sns) :
    SnsTouch s s' := by
  intro X _ hx
  rw [h]
  exact hx

theorem SnsTouch.transN {a b c : System} (h1 : SnsTouch a b) (h2 : SnsTouch b c) :
    SnsTouch a c :=
  fun X hr hx => h2 X hr (h1 X hr hx)

theorem SnsTouch.resetN (s : System) : SnsTouch s (sfwsensor_stm_reset_state s) :=
  fun _ hr hx => hr s hx

theorem PlgTouch.of_eqG {s s' : System} (h : s'.plg = s.plg) : PlgTouch s s' := by
  intro X _ hx
  rw [h]
  exact hx

theorem PlgTouch.transG {a b c : System} (h1 : PlgTouch a b) (h2 : PlgTouch b c) :
    PlgTouch a c :=
  fun X hr hx => h2 X hr (h1 X hr hx)

theorem PlgTouch.resetG (s : System) : PlgTouch s (sfwplugin_stm_reset_state s) :=
  fun _ hr hx => hr s hx

/-! ### The Reporting's functions -/

theorem rpt_eval_frame (s : System) : FrameR s (sfwreporting_stm_eval_state_cb s) := by
  have hfr0 : FrameR s { s with rpt := { s.rpt with rpt_eval_state_id := false } } :=
    ⟨rfl, rfl, rfl, rfl, rfl, rfl⟩
  have k : ∀ st, FrameR s (sfwreporting_stm_set_state
      { s with rpt := { s.rpt with rpt_eval_state_id := false } } st) :=
    fun st => FrameR.transR hfr0 (rpt_set_state_frame _ st)
  unfold sfwreporting_stm_eval_state_cb
  simp only []
  split <;> (repeat' split) <;> first | exact hfr0 | exact k _

theorem rpt_later_frame (s : System) (r : SfwReportingPrivate) :
    FrameR s (sfwreporting_stm_eval_state_later { s with rpt := r }) :=
  FrameR.transR ⟨rfl, rfl, rfl, rfl, rfl, rfl⟩ (rpt_eval_later_effect _).1

theorem rpt_handlers_frame (s : System) :
    FrameR s (sfwreporting_stm_retry_delay_cb s) ∧
    FrameR s (sfwreporting_start s) ∧ FrameR s (sfwreporting_stop s) ∧
    (∀ hz, FrameR s (sfwreporting_set_datarate s hz)) ∧
    (∀ b, FrameR s (sfwreporting_set_override s b)) ∧
    (∀ ack, FrameR s (sfwreporting_stm_enable_cb s ack)) ∧
    (∀ ack, FrameR s (sfwreporting_stm_datarate_cb s ack)) ∧
    (∀ ack, FrameR s (sfwreporting_stm_override_cb s ack)) := by
  have h0 : ∀ r, FrameR s { s with rpt := r } := fun r => ⟨rfl, rfl, rfl, rfl, rfl, rfl⟩
  refine ⟨rpt_later_frame s _, ?_, ?_, fun hz => rpt_later_frame s _,
    fun b => rpt_later_frame s _, ?_, ?_, ?_⟩
  · unfold sfwreporting_start
    split
    · exact rpt_later_frame s _
    · exact FrameR.reflR s
  · unfold sfwreporting_stop
    split
    · exact rpt_later_frame s _
    · exact FrameR.reflR s
  · intro ack
    unfold sfwreporting_stm_enable_cb
    simp only []
    split
    · split
      · exact rpt_later_frame s _
      · exact rpt_later_frame s _
    · exact h0 _
  · intro ack
    unfold sfwreporting_stm_datarate_cb
    simp only []
    split
    · split
      · exact rpt_later_frame s _
      · exact rpt_later_frame s _
    · exact h0 _
  · intro ack
    unfold sfwreporting_stm_override_cb
    simp only []
    split
    · exact rpt_later_frame s _
    · exact h0 _

theorem complete_cases (s : System) (k : CallKind) (cb : System → System)
    (P : System → Prop) (h0 : P s)
    (h1 : P (cb { s with inflight := s.inflight.erase k })) : P (complete s k cb) := by
  unfold complete
  split
  · exact h1
  · exact h0

theorem FrameR.inflight (s : System) (l : List CallKind) : FrameR s { s with inflight := l } :=
  ⟨rfl, rfl, rfl, rfl, rfl, rfl⟩

/-- An event of the Reporting tier leaves the Service, the Plugin, the socket
and the Sensor (its `active` mirror apart) as they were. -/
theorem rpt_step_frame (s : System) (ev : Event) (h : ev.tier = 0) : FrameR s (step s ev) := by
  obtain ⟨h1, h2, h3, h4, h5, h6, h7, h8⟩ := rpt_handlers_frame s
  cases ev <;> simp only [Event.tier] at h <;> simp only [step] <;> try (exact absurd h (by decide))
  · exact h2
  · exact h3
  · exact h4 _
  · exact h5 _
  · split
    · exact rpt_eval_frame s
    · exact FrameR.reflR s
  · split
    · exact h1
    · exact FrameR.reflR s
  · exact complete_cases s _ _ (FrameR s) (FrameR.reflR s)
      (FrameR.transR (FrameR.inflight s _) ((rpt_handlers_frame _).2.2.2.2.2.1 _))
  · exact complete_cases s _ _ (FrameR s) (FrameR.reflR s)
      (FrameR.transR (FrameR.inflight s _) ((rpt_handlers_frame _).2.2.2.2.2.2.1 _))
  · exact complete_cases s _ _ (FrameR s) (FrameR.reflR s)
      (FrameR.transR (FrameR.inflight s _) ((rpt_handlers_frame _).2.2.2.2.2.2.2 _))

/-! ### The Sensor's functions -/

theorem BelowSensor.of_eqE {s s' : System} (h1 : s'.rpt = s.rpt) (h2 : s'.plg = s.plg)
    (h3 : s'.srv = s.srv) : BelowSensor s s' :=
  ⟨RptTouch.of_eqT h1, h2, h3⟩

theorem BelowSensor.transE {a b c : System} (h1 : BelowSensor a b) (h2 : BelowSensor b c) :
    BelowSensor a c :=
  ⟨h1.1.transT h2.1, h2.2.1.trans h1.2.1, h2.2.2.trans h1.2.2⟩

theorem BelowSensor.afterE {s m t : System} (h : BelowSensor m t) (h1 : m.rpt = s.rpt)
    (h2 : m.plg = s.plg) (h3 : m.srv = s.srv) : BelowSensor s t :=
  (BelowSensor.of_eqE h1 h2 h3).transE h

theorem BelowSensor.of_sameE {s s' : System} (h : SameBelow s s') : BelowSensor s s' :=
  BelowSensor.of_eqE h.1 h.2.2.2.2.1 h.2.2.2.1

theorem BelowSensor.of_core {s s' : System} (h : SameCore s s') : BelowSensor s s' :=
  BelowSensor.of_eqE h.1 h.2.2.2.2.1 h.2.2.2.1

theorem rpt_reset_frame (s : System) : FrameR s (sfwreporting_stm_reset_state s) :=
  FrameR.transR (rpt_set_state_frame s _) (rpt_eval_later_effect _).1

theorem sns_set_valid_below (s : System) (v : Bool) : BelowSensor s (sfwsensor_set_valid s v) := by
  unfold sfwsensor_set_valid
  split
  · unfold sfwreporting_sensor_changed_cb
    generalize hx : ({ s with sns := { s.sns with sns_valid := v } } : System) = x
    have fr := rpt_reset_frame x
    have a : RptTouch s x := RptTouch.of_eqT (by rw [← hx])
    have c : RptTouch (sfwreporting_stm_reset_state x)
        (observe (sfwreporting_stm_reset_state x) (.sensor_valid_changed v)) :=
      RptTouch.of_eqT rfl
    have e1 : x.plg = s.plg := by rw [← hx]
    have e2 : x.srv = s.srv := by rw [← hx]
    exact ⟨a.transT ((RptTouch.resetT x).transT c), fr.2.1.trans e1, fr.1.trans e2⟩
  · exact BelowSensor.of_eqE rfl rfl rfl

theorem sns_misc_below (s : System) :
    BelowSensor s (sfwsensor_stm_eval_state_later s) ∧
    BelowSensor s (sfwsensor_stm_start_retry_delay s) ∧
    BelowSensor s (sfwsensor_stm_cancel_retry_delay s) ∧
    BelowSensor s (sfwsensor_stm_start_request_session s) ∧
    BelowSensor s (sfwsensor_stm_cancel_request_session s) ∧
    BelowSensor s (sfwsensor_stm_start_release_session s) ∧
    BelowSensor s (sfwsensor_stm_cancel_release_session s) ∧
    BelowSensor s (sfwsensor_stm_start_get_properties s) ∧
    BelowSensor s (sfwsensor_stm_cancel_get_properties s) ∧
    BelowSensor s (sfwsensor_stm_socket_disconnect s) ∧
    BelowSensor s (sfwsensor_stm_socket_connect s) := by
  refine ⟨BelowSensor.of_sameE (sns_eval_later_same s).1,
    BelowSensor.of_sameE (sns_start_same s).2.2.2.1, ?_,
    BelowSensor.of_sameE (sns_start_same s).2.1.1, BelowSensor.of_eqE rfl rfl rfl,
    BelowSensor.of_sameE (sns_start_same s).1.1, BelowSensor.of_eqE rfl rfl rfl,
    BelowSensor.of_sameE (sns_start_same s).2.2.1.1, BelowSensor.of_eqE rfl rfl rfl,
    BelowSensor.of_eqE rfl rfl rfl, ?_⟩
  · unfold sfwsensor_stm_cancel_retry_delay
    split <;> exact BelowSensor.of_eqE rfl rfl rfl
  · unfold sfwsensor_stm_socket_connect
    simp only []
    (repeat' split) <;> exact BelowSensor.of_eqE rfl rfl rfl

theorem sns_leave_below (s : System) : BelowSensor s (sfwsensor_stm_leave_state s) := by
  obtain ⟨_, _, h3, _, h5, _, h7, _, h9, _, _⟩ := sns_misc_below s
  unfold sfwsensor_stm_leave_state
  split
  · exact BelowSensor.of_eqE rfl rfl rfl
  · exact h7
  · exact h5
  · exact h9
  · exact BelowSensor.of_eqE rfl rfl rfl
  · exact (sns_set_valid_below s false).transE (sns_misc_below _).2.2.2.2.2.2.2.2.2.1
  · exact h3
  · exact BelowSensor.of_eqE rfl rfl rfl

theorem sns_enter_below (s : System) : BelowSensor s (sfwsensor_stm_enter_state s) := by
  obtain ⟨_, _, _, h4, _, _, _, h8, _, h10, h11⟩ := sns_misc_below s
  unfold sfwsensor_stm_enter_state
  split
  · exact BelowSensor.of_eqE rfl rfl rfl
  · exact h10.transE (sns_misc_below _).2.2.2.2.2.1
  · exact h4
  · exact h8
  · exact h11
  · exact sns_set_valid_below s true
  · exact h10.transE (sns_misc_below _).2.1
  · exact h10

theorem sns_set_state_below (s : System) (st : SfwSensorState) :
    BelowSensor s (sfwsensor_stm_set_state s st) := by
  unfold sfwsensor_stm_set_state
  split
  · exact BelowSensor.of_eqE rfl rfl rfl
  · split
    · simp only []
      exact (sns_leave_below s).transE
        (BelowSensor.afterE ((sns_enter_below _).transE (sns_misc_below _).1) rfl rfl rfl)
    · exact BelowSensor.of_eqE rfl rfl rfl

theorem sns_reset_below (s : System) : BelowSensor s (sfwsensor_stm_reset_state s) :=
  (sns_set_state_below s _).transE (sns_misc_below _).1

theorem sns_eval_below (s : System) : BelowSensor s (sfwsensor_stm_eval_state_cb s) := by
  have h0 : BelowSensor s { s with sns := { s.sns with sns_eval_state_id := false } } :=
    BelowSensor.of_eqE rfl rfl rfl
  have k : ∀ st, BelowSensor s (sfwsensor_stm_set_state
      { s with sns := { s.sns with sns_eval_state_id := false } } st) :=
    fun st => BelowSensor.afterE (sns_set_state_below _ st) rfl rfl rfl
  unfold sfwsensor_stm_eval_state_cb
  simp only []
  split <;> (repeat' split) <;> first | exact h0 | exact k _

theorem sns_later_below (s : System) (x : SfwSensorPrivate) (k : Option Socket) :
    BelowSensor s (sfwsensor_stm_eval_state_later { s with sns := x, sock := k }) :=
  BelowSensor.afterE (sns_misc_below _).1 rfl rfl rfl

theorem sns_fail_below (s : System) (x : SfwSensorPrivate) (k : Option Socket) :
    BelowSensor s (sfwsensor_stm_set_state { s with sns := x, sock := k } .FAILED) :=
  BelowSensor.afterE (sns_set_state_below _ _) rfl rfl rfl

theorem update_properties_below (l : List (String × GVariant)) : ∀ s : System,
    BelowSensor s (l.foldl (fun s kv => sfwsensor_stm_update_property s kv.1 kv.2) s) := by
  induction l with
  | nil => intro s; exact BelowSensor.of_eqE rfl rfl rfl
  | cons a t ih =>
    intro s
    rw [List.foldl_cons]
    refine BelowSensor.transE ?_ (ih _)
    unfold sfwsensor_stm_update_property
    split <;> exact BelowSensor.of_eqE rfl rfl rfl

theorem sns_callbacks_below (s : System) :
    BelowSensor s (sfwsensor_stm_retry_delay_cb s) ∧
    (∀ rsp, BelowSensor s (sfwsensor_stm_request_session_cb s rsp)) ∧
    (∀ rsp, BelowSensor s (sfwsensor_stm_release_session_cb s rsp)) ∧
    (∀ rsp, BelowSensor s (sfwsensor_stm_get_properties_cb s rsp)) := by
  have h0 : ∀ x : SfwSensorPrivate, BelowSensor s { s with sns := x } :=
    fun x => BelowSensor.of_eqE rfl rfl rfl
  have h1 : ∀ x : SfwSensorPrivate,
      BelowSensor s (sfwsensor_stm_eval_state_later { s with sns := x }) :=
    fun x => BelowSensor.afterE (sns_misc_below _).1 rfl rfl rfl
  refine ⟨h1 _, ?_, ?_, ?_⟩
  · intro rsp
    unfold sfwsensor_stm_request_session_cb
    simp only []
    split
    · split
      · exact h1 _
      · exact h1 _
    · exact h0 _
  · intro rsp
    unfold sfwsensor_stm_release_session_cb
    simp only []
    split
    · exact h1 _
    · exact h0 _
  · intro rsp
    unfold sfwsensor_stm_get_properties_cb
    simp only []
    split
    · cases rsp with
      | none => exact h1 _
      | some array =>
        exact BelowSensor.afterE ((update_properties_below array _).transE (sns_misc_below _).1)
          rfl rfl rfl
    · exact h0 _

theorem sns_tx_below (s : System) : BelowSensor s (sfwsensor_stm_socket_tx_cb s).1 := by
  unfold sfwsensor_stm_socket_tx_cb
  split
  · exact sns_fail_below s _ _
  · unfold sfwsensor_stm_socket_tx_handshake
    simp only []
    split
    · exact sns_fail_below s _ _
    · exact sns_later_below s _ _

theorem sns_rx_below (s : System) : BelowSensor s (sfwsensor_stm_socket_rx_cb s).1 := by
  unfold sfwsensor_stm_socket_rx_cb
  split
  · exact sns_fail_below s _ _
  · unfold sfwsensor_stm_socket_rx_handshake
    simp only []
    split
    · exact sns_fail_below s _ _
    · split
      · exact sns_fail_below s _ _
      · exact sns_later_below s _ _
  · unfold sfwsensor_stm_socket_rx_reading
    simp only []
    have hb := BelowSensor.of_core (rx_body_core s).1
    split
    · exact hb.transE (BelowSensor.afterE (sns_set_state_below _ _) rfl rfl rfl)
    · exact hb

/-- An event of the Sensor tier resets the Reporting at most, and leaves the
Plugin and the Service as they were. -/
theorem sns_step_below (s : System) (ev : Event) (h : ev.tier = 1) :
    BelowSensor s (step s ev) := by
  have hr : BelowSensor s s := BelowSensor.of_eqE rfl rfl rfl
  cases ev <;> simp only [Event.tier] at h <;> simp only [step] <;> try (exact absurd h (by decide))
  · split
    · exact sns_eval_below s
    · exact hr
  · split
    · exact (sns_callbacks_below s).1
    · exact hr
  · exact complete_cases s _ _ (BelowSensor s) hr
      (BelowSensor.afterE ((sns_callbacks_below _).2.1 _) rfl rfl rfl)
  · exact complete_cases s _ _ (BelowSensor s) hr
      (BelowSensor.afterE ((sns_callbacks_below _).2.2.1 _) rfl rfl rfl)
  · exact complete_cases s _ _ (BelowSensor s) hr
      (BelowSensor.afterE ((sns_callbacks_below _).2.2.2 _) rfl rfl rfl)
  · split
    · exact sns_tx_below s
    · exact hr
  · split
    · exact sns_rx_below s
    · exact hr

/-! ### The Plugin's functions -/

theorem BelowPlugin.of_eqW {s s' : System} (h1 : s'.rpt = s.rpt) (h2 : s'.sns = s.sns)
    (h3 : s'.srv = s.srv) : BelowPlugin s s' :=
  ⟨RptTouch.of_eqT h1, SnsTouch.of_eqN (by rw [h2]), h3⟩

theorem BelowPlugin.transW {a b c : System} (h1 : BelowPlugin a b) (h2 : BelowPlugin b c) :
    BelowPlugin a c :=
  ⟨h1.1.transT h2.1, h1.2.1.transN h2.2.1, h2.2.2.trans h1.2.2⟩

theorem BelowPlugin.afterW {s m t : System} (h : BelowPlugin m t) (h1 : m.rpt = s.rpt)
    (h2 : m.sns = s.sns) (h3 : m.srv = s.srv) : BelowPlugin s t :=
  (BelowPlugin.of_eqW h1 h2 h3).transW h

theorem BelowPlugin.of_localW {s s' : System} (h : PlgLocal s s') : BelowPlugin s s' :=
  BelowPlugin.of_eqW h.2.2.1 h.2.1 h.1

theorem BelowPlugin.sns_reset (s : System) : BelowPlugin s (sfwsensor_stm_reset_state s) :=
  ⟨(sns_reset_below s).1, SnsTouch.resetN s, (sns_reset_below s).2.2⟩

theorem plg_set_valid_below (s : System) (v : Bool) : BelowPlugin s (sfwplugin_set_valid s v) := by
  unfold sfwplugin_set_valid
  split
  · unfold sfwsensor_plugin_changed_cb
    generalize hx : ({ s with plg := { s.plg with plg_valid := v } } : System) = x
    have a : BelowPlugin s x := BelowPlugin.of_eqW (by rw [← hx]) (by rw [← hx]) (by rw [← hx])
    have c : BelowPlugin (sfwsensor_stm_reset_state x)
        (observe (sfwsensor_stm_reset_state x) (.plugin_valid_changed v)) :=
      BelowPlugin.of_eqW rfl rfl rfl
    exact a.transW ((BelowPlugin.sns_reset x).transW c)
  · exact BelowPlugin.of_eqW rfl rfl rfl

theorem plg_leave_below (s : System) : BelowPlugin s (sfwplugin_stm_leave_state s) := by
  obtain ⟨_, h2, _, h4⟩ := plg_misc_local s
  unfold sfwplugin_stm_leave_state
  split
  · exact BelowPlugin.of_eqW rfl rfl rfl
  · exact BelowPlugin.of_eqW rfl rfl rfl
  · exact BelowPlugin.of_localW h4
  · exact plg_set_valid_below s false
  · exact BelowPlugin.of_localW h2
  · exact BelowPlugin.of_eqW rfl rfl rfl

theorem plg_enter_below (s : System) : BelowPlugin s (sfwplugin_stm_enter_state s) := by
  obtain ⟨h1, _, h3, _⟩ := plg_misc_local s
  unfold sfwplugin_stm_enter_state
  split
  · exact BelowPlugin.of_eqW rfl rfl rfl
  · exact BelowPlugin.of_eqW rfl rfl rfl
  · exact BelowPlugin.of_localW h3
  · exact plg_set_valid_below s true
  · exact BelowPlugin.of_localW h1
  · exact BelowPlugin.of_eqW rfl rfl rfl

theorem plg_later_below (s : System) : BelowPlugin s (sfwplugin_stm_eval_state_later s) :=
  BelowPlugin.of_localW (plg_eval_later_local s)

theorem plg_set_state_below (s : System) (st : SfwPluginState) :
    BelowPlugin s (sfwplugin_stm_set_state s st) := by
  unfold sfwplugin_stm_set_state
  split
  · exact BelowPlugin.of_eqW rfl rfl rfl
  · split
    · simp only []
      exact (plg_leave_below s).transW
        (BelowPlugin.afterW ((plg_enter_below _).transW (plg_later_below _)) rfl rfl rfl)
    · exact BelowPlugin.of_eqW rfl rfl rfl

theorem plg_reset_below (s : System) : BelowPlugin s (sfwplugin_stm_reset_state s) :=
  (plg_set_state_below s _).transW (plg_later_below _)

theorem plg_eval_below (s : System) : BelowPlugin s (sfwplugin_stm_eval_state_cb s) := by
  have h0 : BelowPlugin s { s with plg := { s.plg with plg_eval_state_id := false } } :=
    BelowPlugin.of_eqW rfl rfl rfl
  have k : ∀ st, BelowPlugin s (sfwplugin_stm_set_state
      { s with plg := { s.plg with plg_eval_state_id := false } } st) :=
    fun st => BelowPlugin.afterW (plg_set_state_below _ st) rfl rfl rfl
  unfold sfwplugin_stm_eval_state_cb
  simp only []
  split <;> (repeat' split) <;> first | exact h0 | exact k _

theorem plg_callbacks_below (s : System) :
    BelowPlugin s (sfwplugin_stm_retry_delay_cb s) ∧
    (∀ rsp, BelowPlugin s (sfwplugin_stm_load_cb s rsp)) := by
  have h0 : ∀ x : SfwPluginPrivate, BelowPlugin s { s with plg := x } :=
    fun x => BelowPlugin.of_eqW rfl rfl rfl
  have h1 : ∀ x : SfwPluginPrivate,
      BelowPlugin s (sfwplugin_stm_eval_state_later { s with plg := x }) :=
    fun x => BelowPlugin.afterW (plg_later_below _) rfl rfl rfl
  refine ⟨h1 _, ?_⟩
  intro rsp
  unfold sfwplugin_stm_load_cb
  simp only []
  split
  · split
    · exact h1 _
    · exact h1 _
  · exact h0 _

/-- An event of the Plugin tier resets the Sensor at most, and leaves the
Service as it was. -/
theorem plg_step_below (s : System) (ev : Event) (h : ev.tier = 2) :
    BelowPlugin s (step s ev) := by
  have hr : BelowPlugin s s := BelowPlugin.of_eqW rfl rfl rfl
  cases ev <;> simp only [Event.tier] at h <;> simp only [step] <;> try (exact absurd h (by decide))
  · split
    · exact plg_eval_below s
    · exact hr
  · split
    · exact (plg_callbacks_below s).1
    · exact hr
  · exact complete_cases s _ _ (BelowPlugin s) hr
      (BelowPlugin.afterW ((plg_callbacks_below _).2 _) rfl rfl rfl)

/-! ### The Service's functions -/

theorem BelowService.of_eqX {s s' : System} (h1 : s'.rpt = s.rpt) (h2 : s'.sns = s.sns)
    (h3 : s'.plg = s.plg) : BelowService s s' :=
  ⟨RptTouch.of_eqT h1, SnsTouch.of_eqN (by rw [h2]), PlgTouch.of_eqG h3⟩

theorem BelowService.transX {a b c : System} (h1 : BelowService a b) (h2 : BelowService b c) :
    BelowService a c :=
  ⟨h1.1.transT h2.1, h1.2.1.transN h2.2.1, h1.2.2.transG h2.2.2⟩

theorem BelowService.afterX {s m t : System} (h : BelowService m t) (h1 : m.rpt = s.rpt)
    (h2 : m.sns = s.sns) (h3 : m.plg = s.plg) : BelowService s t :=
  (BelowService.of_eqX h1 h2 h3).transX h

theorem BelowService.of_localX {s s' : System} (h : SrvLocal s s') : BelowService s s' :=
  BelowService.of_eqX h.2.2.1 h.2.1 h.1

theorem BelowService.plg_reset (s : System) : BelowService s (sfwplugin_stm_reset_state s) :=
  ⟨(plg_reset_below s).1, (plg_reset_below s).2.1, PlgTouch.resetG s⟩

theorem srv_set_valid_below (s : System) (v : Bool) :
    BelowService s (sfwservice_set_valid s v) := by
  unfold sfwservice_set_valid
  split
  · unfold sfwplugin_service_changed_cb
    generalize hx : ({ s with srv := { s.srv with srv_valid := v } } : System) = x
    have a : BelowService s x := BelowService.of_eqX (by rw [← hx]) (by rw [← hx]) (by rw [← hx])
    split
    · have c : BelowService (sfwplugin_stm_reset_state x)
          (observe (sfwplugin_stm_reset_state x) (.service_valid_changed v)) :=
        BelowService.of_eqX rfl rfl rfl
      exact a.transX ((BelowService.plg_reset x).transX c)
    · exact a.transX (BelowService.of_eqX rfl rfl rfl)
  · exact BelowService.of_eqX rfl rfl rfl

theorem srv_set_name_owner_below (f : System → SfwServiceState → System)
    (hf : ∀ x st, BelowService x (f x st)) (s : System) (o : Option String) :
    BelowService s (sfwservice_set_name_owner f s o) := by
  unfold sfwservice_set_name_owner
  simp only []
  generalize (if o = some "" then none else o) = o1
  split
  · split
    · exact BelowService.afterX (hf _ _) rfl rfl rfl
    · exact BelowService.afterX (hf _ _) rfl rfl rfl
  · exact BelowService.of_eqX rfl rfl rfl

theorem srv_unwatch_below (f : System → SfwServiceState → System)
    (hf : ∀ x st, BelowService x (f x st)) (s : System) :
    BelowService s (sfwservice_unwatch_name_owner f s) := by
  unfold sfwservice_unwatch_name_owner
  split
  · exact BelowService.afterX (srv_set_name_owner_below f hf _ _) rfl rfl rfl
  · exact srv_set_name_owner_below f hf _ _

theorem srv_watch_below (f : System → SfwServiceState → System)
    (hf : ∀ x st, BelowService x (f x st)) (s : System) :
    BelowService s (sfwservice_watch_name_owner f s) := by
  unfold sfwservice_watch_name_owner
  simp only []
  exact (srv_unwatch_below f hf s).transX (BelowService.of_eqX rfl rfl rfl)

theorem srv_set_connection_below (f : System → SfwServiceState → System)
    (hf : ∀ x st, BelowService x (f x st)) (s : System) (con : Bool) :
    BelowService s (sfwservice_set_connection f s con) := by
  unfold sfwservice_set_connection
  split
  · simp only []
    have h1 : BelowService s (if s.srv.srv_connection = true then
          { sfwservice_unwatch_name_owner f s with
            srv := { (sfwservice_unwatch_name_owner f s).srv with srv_connection := false } }
        else s) := by
      split
      · exact (srv_unwatch_below f hf s).transX (BelowService.of_eqX rfl rfl rfl)
      · exact BelowService.of_eqX rfl rfl rfl
    generalize (if s.srv.srv_connection = true then
          { sfwservice_unwatch_name_owner f s with
            srv := { (sfwservice_unwatch_name_owner f s).srv with srv_connection := false } }
        else s) = s1 at *
    split
    · exact h1.transX (BelowService.afterX (srv_watch_below f hf _) rfl rfl rfl)
    · exact h1
  · exact BelowService.of_eqX rfl rfl rfl

theorem srv_disconnect_below (f : System → SfwServiceState → System)
    (hf : ∀ x st, BelowService x (f x st)) (s : System) :
    BelowService s (sfwservice_stm_disconnect f s) := by
  unfold sfwservice_stm_disconnect
  simp only []
  exact BelowService.afterX (srv_set_connection_below f hf _ _) rfl rfl rfl

theorem srv_connect_below (f : System → SfwServiceState → System)
    (hf : ∀ x st, BelowService x (f x st)) (s : System) :
    BelowService s (sfwservice_stm_connect f s) := by
  unfold sfwservice_stm_connect issue_call
  simp only []
  exact (srv_disconnect_below f hf s).transX (BelowService.of_eqX rfl rfl rfl)

theorem srv_enter_below (f : System → SfwServiceState → System)
    (hf : ∀ x st, BelowService x (f x st)) (s : System) :
    BelowService s (sfwservice_stm_enter_state f s) := by
  obtain ⟨_, h2, _, h4, h5⟩ := srv_misc_local s
  unfold sfwservice_stm_enter_state
  split
  · exact BelowService.of_eqX rfl rfl rfl
  · exact BelowService.of_eqX rfl rfl rfl
  · exact BelowService.of_localX h4
  · exact srv_set_valid_below s true
  · exact BelowService.of_localX h2
  · exact (BelowService.of_localX h5).transX (srv_disconnect_below f hf _)

theorem srv_leave_below (f : System → SfwServiceState → System)
    (hf : ∀ x st, BelowService x (f x st)) (s : System) :
    BelowService s (sfwservice_stm_leave_state f s) := by
  obtain ⟨_, _, h3, _, h5⟩ := srv_misc_local s
  unfold sfwservice_stm_leave_state
  split
  · exact srv_connect_below f hf s
  · exact BelowService.of_eqX rfl rfl rfl
  · exact BelowService.of_localX h5
  · exact srv_set_valid_below s false
  · exact (BelowService.of_localX h3).transX
      (BelowService.of_localX (srv_misc_local _).2.2.2.2)
  · exact BelowService.of_eqX rfl rfl rfl

theorem srv_set_state_n_below : ∀ (n : Nat) (s : System) (st : SfwServiceState),
    BelowService s (sfwservice_stm_set_state_n n s st) := by
  intro n
  induction n with
  | zero => intro s st; exact BelowService.of_eqX rfl rfl rfl
  | succ n ih =>
    intro s st
    unfold sfwservice_stm_set_state_n
    split
    · exact BelowService.of_eqX rfl rfl rfl
    · split
      · simp only []
        exact (srv_leave_below _ ih s).transX
          (BelowService.afterX ((srv_enter_below _ ih _).transX
            (BelowService.of_localX (srv_misc_local _).1)) rfl rfl rfl)
      · exact BelowService.of_eqX rfl rfl rfl

theorem srv_set_state_below (s : System) (st : SfwServiceState) :
    BelowService s (sfwservice_stm_set_state s st) :=
  srv_set_state_n_below 4 s st

theorem srv_callbacks_below (s : System) :
    BelowService s (sfwservice_stm_eval_state_cb s) ∧
    BelowService s (sfwservice_stm_retry_delay_cb s) ∧
    (∀ rsp, BelowService s (sfwservice_stm_enumerate_cb s rsp)) ∧
    (∀ con, BelowService s (sfwservice_stm_connect_cb s con)) ∧
    BelowService s (sfwservice_name_owner_vanished_cb s) ∧
    (∀ o, BelowService s (sfwservice_name_owner_appeared_cb s o)) := by
  have h0 : ∀ x : SfwServicePrivate, BelowService s { s with srv := x } :=
    fun x => BelowService.of_eqX rfl rfl rfl
  have h1 : ∀ x : SfwServicePrivate,
      BelowService s (sfwservice_stm_eval_state_later { s with srv := x }) :=
    fun x => BelowService.afterX (BelowService.of_localX (srv_misc_local _).1) rfl rfl rfl
  have k : ∀ (x : SfwServicePrivate) st,
      BelowService s (sfwservice_stm_set_state { s with srv := x } st) :=
    fun x st => BelowService.afterX (srv_set_state_below _ st) rfl rfl rfl
  refine ⟨?_, h1 _, ?_, ?_, srv_set_name_owner_below _ srv_set_state_below s none, ?_⟩
  · unfold sfwservice_stm_eval_state_cb
    simp only []
    split <;> (repeat' split) <;> first | exact h0 _ | exact k _ _
  · intro rsp
    unfold sfwservice_stm_enumerate_cb
    simp only []
    split
    · exact h1 _
    · exact h0 _
  · intro con
    unfold sfwservice_stm_connect_cb
    simp only []
    split
    · exact BelowService.afterX (srv_set_connection_below _ srv_set_state_below _ con)
        rfl rfl rfl
    · exact h0 _
  · intro o
    unfold sfwservice_name_owner_appeared_cb
    exact (srv_set_name_owner_below _ srv_set_state_below s none).transX
      (srv_set_name_owner_below _ srv_set_state_below _ _)

/-- An event of the Service tier resets the Plugin at most. -/
theorem srv_step_below (s : System) (ev : Event) (h : ev.tier = 3) :
    BelowService s (step s ev) := by
  have hr : BelowService s s := BelowService.of_eqX rfl rfl rfl
  obtain ⟨c1, c2, _, _, c5, c6⟩ := srv_callbacks_below s
  cases ev <;> simp only [Event.tier] at h <;> simp only [step] <;> try (exact absurd h (by decide))
  · split
    · exact c1
    · exact hr
  · split
    · exact c2
    · exact hr
  · exact complete_cases s _ _ (BelowService s) hr
      (BelowService.afterX ((srv_callbacks_below _).2.2.2.1 _) rfl rfl rfl)
  · exact complete_cases s _ _ (BelowService s) hr
      (BelowService.afterX ((srv_callbacks_below _).2.2.1 _) rfl rfl rfl)
  · split
    · exact c6 _
    · exact hr
  · split
    · exact c5
    · exact hr

/-! ### Every event, seen from each tier -/

theorem env_step_same (s : System) (ev : Event) (h : ev.tier = 4) :
    (step s ev).rpt = s.rpt ∧ (step s ev).sns = s.sns ∧ (step s ev).plg = s.plg ∧
    (step s ev).srv = s.srv := by
  cases ev <;> simp only [Event.tier] at h <;>
    first | exact absurd h (by decide) | exact ⟨rfl, rfl, rfl, rfl⟩

theorem tier_cases (ev : Event) :
    ev.tier = 0 ∨ ev.tier = 1 ∨ ev.tier = 2 ∨ ev.tier = 3 ∨ ev.tier = 4 := by
  cases ev <;> simp [Event.tier]

/-- Events of other tiers change the Reporting's private data by resets only. -/
theorem step_rpt_touch (s : System) (ev : Event) (h : ev.tier ≠ 0) : RptTouch s (step s ev) := by
  rcases tier_cases ev with h0 | h1 | h2 | h3 | h4
  · exact absurd h0 h
  · exact (sns_step_below s ev h1).1
  · exact (plg_step_below s ev h2).1
  · exact (srv_step_below s ev h3).1
  · exact RptTouch.of_eqT (env_step_same s ev h4).1

/-- Events of other tiers change the Sensor's private data, the `active`
mirror apart, by resets only. -/
theorem step_sns_touch (s : System) (ev : Event) (h : ev.tier ≠ 1) : SnsTouch s (step s ev) := by
  rcases tier_cases ev with h0 | h1 | h2 | h3 | h4
  · exact SnsTouch.of_eqN (rpt_step_frame s ev h0).2.2.2.2.1
  · exact absurd h1 h
  · exact (plg_step_below s ev h2).2.1
  · exact (srv_step_below s ev h3).2.1
  · exact SnsTouch.of_eqN (by rw [(env_step_same s ev h4).2.1])

/-- Events of other tiers change the Plugin's private data by resets only. -/
theorem step_plg_touch (s : System) (ev : Event) (h : ev.tier ≠ 2) : PlgTouch s (step s ev) := by
  rcases tier_cases ev with h0 | h1 | h2 | h3 | h4
  · exact PlgTouch.of_eqG (rpt_step_frame s ev h0).2.1
  · exact PlgTouch.of_eqG (sns_step_below s ev h1).2.1
  · exact absurd h2 h
  · exact (srv_step_below s ev h3).2.2
  · exact PlgTouch.of_eqG (env_step_same s ev h4).2.2.1

/-- Events of other tiers leave the Service's private data alone. -/
theorem step_srv_same (s : System) (ev : Event) (h : ev.tier ≠ 3) : (step s ev).srv = s.srv := by
  rcases tier_cases ev with h0 | h1 | h2 | h3 | h4
  · exact (rpt_step_frame s ev h0).1
  · exact (sns_step_below s ev h1).2.2
  · exact (plg_step_below s ev h2).2.2
  · exact absurd h3 h
  · exact (env_step_same s ev h4).2.2.2

/-! ## The Sensor's own bookkeeping -/

theorem sns_set_valid_noact (s : System) (v : Bool) :
    sns_noact (sfwsensor_set_valid s v).sns = sns_noact { s.sns with sns_valid := v } := by
  unfold sfwsensor_set_valid
  split
  · exact (rpt_reset_frame { s with sns := { s.sns with sns_valid := v } }).2.2.2.2.1
  · rename_i h
    have e : s.sns.sns_valid = v := by
      cases hv : s.sns.sns_valid <;> cases v <;> simp [hv] at h <;> rfl
    rw [← e]

/-- What `sfwsensor_set_valid` does to the Sensor's private data: it sets
`valid`, and the `active` mirror may follow the Reporting. -/
theorem sns_set_valid_fields (s : System) (v : Bool) :
    (sfwsensor_set_valid s v).sns
      = { s.sns with sns_valid := v, sns_active := (sfwsensor_set_valid s v).sns.sns_active } := by
  have h := sns_set_valid_noact s v
  unfold sns_noact at h
  generalize (sfwsensor_set_valid s v).sns = r at *
  cases r
  simp only [SfwSensorPrivate.mk.injEq] at h ⊢
  obtain ⟨h1, h2, h3, h4, h5, h6, h7, h8, h9, h10, h11, h12, h13, h14, h15, h16, h17⟩ := h
  exact ⟨h1, h2, trivial, h4, h5, h6, h7, h8, h9, h10, h11, h12, h13, h14, h15, h16, h17⟩

theorem cancellable_cancel_slot (g : GObjects) (slot : Option Nat) :
    (cancellable_cancel g slot).2.2 = none ∧ (cancellable_cancel g slot).2.1 = g := by
  cases slot <;> exact ⟨rfl, rfl⟩

theorem cancellable_start_slot (g : GObjects) (slot : Option Nat) :
    (cancellable_start g slot).2 = some g.next_cancellable ∧
    (cancellable_start g slot).1.cancelled = g.cancelled := by
  cases slot <;> exact ⟨rfl, rfl⟩

/-- What `sfwsensor_stm_eval_state_later` does to the Sensor's private data. -/
theorem sns_later_fields (s : System) :
    (sfwsensor_stm_eval_state_later s).sns
      = { s.sns with
          sns_eval_state_id := (if s.sns.sns_state = .FINAL then false else true) } ∧
    (sfwsensor_stm_eval_state_later s).trace = s.trace ∧
    (sfwsensor_stm_eval_state_later s).inflight = s.inflight := by
  rcases s with ⟨srv, plg, ⟨f1, f2, f3, f4, f5, f6, f7, f8, f9, f10, f11, f12, f13, f14, f15,
    f16, f17⟩, rpt, gobj, os, sock, infl, tr⟩
  unfold sfwsensor_stm_eval_state_later sfwsensor_stm_cancel_eval_state
  by_cases hf : f4 = .FINAL <;> cases f6 <;> simp [hf]

/-- What leaving a state does to the Sensor's private data. -/
theorem sns_leave_fields (s : System) :
    (sfwsensor_stm_leave_state s).sns.sns_state = s.sns.sns_state ∧
    (sfwsensor_stm_leave_state s).sns.sns_session_id = s.sns.sns_session_id ∧
    (sfwsensor_stm_leave_state s).sns.sns_reading = s.sns.sns_reading ∧
    (sfwsensor_stm_leave_state s).sns.sns_properties = s.sns.sns_properties ∧
    (sfwsensor_stm_leave_state s).sns.sns_request_session_cancellable
      = (if s.sns.sns_state = .SESSION then none else s.sns.sns_request_session_cancellable) ∧
    (sfwsensor_stm_leave_state s).sns.sns_retry_delay_id
      = (if s.sns.sns_state = .FAILED then false else s.sns.sns_retry_delay_id) := by
  unfold sfwsensor_stm_leave_state
  cases hs : s.sns.sns_state <;> simp only []
  · simp [hs]
  · simp [sfwsensor_stm_cancel_release_session, hs]
  · simp [sfwsensor_stm_cancel_request_session, cancellable_cancel_slot, hs]
  · simp [sfwsensor_stm_cancel_get_properties, hs]
  · simp [hs]
  · simp only [sfwsensor_stm_socket_disconnect]
    rw [sns_set_valid_fields s false]
    simp [hs]
  · unfold sfwsensor_stm_cancel_retry_delay
    split <;> simp [*]
  · simp [hs]

theorem sns_disconnect_fields (s : System) :
    (sfwsensor_stm_socket_disconnect s).sns.sns_state = s.sns.sns_state ∧
    (sfwsensor_stm_socket_disconnect s).sns.sns_reading = s.sns.sns_reading ∧
    (sfwsensor_stm_socket_disconnect s).sns.sns_properties = s.sns.sns_properties ∧
    (sfwsensor_stm_socket_disconnect s).sns.sns_session_id = s.sns.sns_session_id ∧
    (sfwsensor_stm_socket_disconnect s).sns.sns_request_session_cancellable
      = s.sns.sns_request_session_cancellable ∧
    (sfwsensor_stm_socket_disconnect s).sns.sns_retry_delay_id = s.sns.sns_retry_delay_id ∧
    (sfwsensor_stm_socket_disconnect s).gobj = s.gobj :=
  ⟨rfl, rfl, rfl, rfl, rfl, rfl, rfl⟩

/-- What entering a state does to the Sensor's private data. -/
theorem sns_enter_fields (s : System) :
    (sfwsensor_stm_enter_state s).sns.sns_state = s.sns.sns_state ∧
    (sfwsensor_stm_enter_state s).sns.sns_reading = s.sns.sns_reading ∧
    (sfwsensor_stm_enter_state s).sns.sns_properties = s.sns.sns_properties ∧
    (sfwsensor_stm_enter_state s).sns.sns_session_id
      = (if s.sns.sns_state = .DISABLED then SESSION_ID_INVALID else s.sns.sns_session_id) ∧
    (sfwsensor_stm_enter_state s).sns.sns_request_session_cancellable
      = (if s.sns.sns_state = .SESSION ∧ s.sns.sns_session_id = SESSION_ID_INVALID then
          some s.gobj.next_cancellable
         else s.sns.sns_request_session_cancellable) ∧
    (sfwsensor_stm_enter_state s).sns.sns_retry_delay_id
      = (if s.sns.sns_state = .FAILED then true else s.sns.sns_retry_delay_id) := by
  obtain ⟨d1, d2, d3, d4, d5, d6, d7⟩ := sns_disconnect_fields s
  unfold sfwsensor_stm_enter_state
  cases hs : s.sns.sns_state <;> simp only []
  · simp [hs]
  · generalize sfwsensor_stm_socket_disconnect s = d at *
    have r2 : ¬ (SfwSensorState.DISABLED = .SESSION ∧ s.sns.sns_session_id = SESSION_ID_INVALID) :=
      fun c => absurd c.1 (by decide)
    have r3 : ¬ (SfwSensorState.DISABLED = .FAILED) := by decide
    rw [if_pos True.intro, if_neg r2, if_neg r3]
    unfold sfwsensor_stm_start_release_session
    split
    · rename_i h
      simp [hs, h, d1, d2, d3, d4, d5, d6]
    · simp only []
      split
      · rw [(sns_later_fields _).1]
        simp [hs, d1, d2, d3, d4, d5, d6]
      · simp [hs, issue_call, d1, d2, d3, d4, d5, d6]
  · unfold sfwsensor_stm_start_request_session sfwsensor_session_id
    split
    · rename_i h
      simp [hs, h, issue_call, cancellable_start_slot]
    · rename_i h
      simp [hs, h]
  · simp [sfwsensor_stm_start_get_properties, hs, issue_call]
  · unfold sfwsensor_stm_socket_connect
    simp only []
    generalize sfwsensor_stm_socket_disconnect s = d at *
    have r1 : ¬ (SfwSensorState.CONNECT = .DISABLED) := by decide
    have r2 : ¬ (SfwSensorState.CONNECT = .SESSION ∧ s.sns.sns_session_id = SESSION_ID_INVALID) :=
      fun c => absurd c.1 (by decide)
    have r3 : ¬ (SfwSensorState.CONNECT = .FAILED) := by decide
    rw [if_neg r1, if_neg r2, if_neg r3]
    (repeat' split) <;> simp [hs, d1, d2, d3, d4, d5, d6]
  · rw [sns_set_valid_fields s true]
    simp [hs]
  · generalize sfwsensor_stm_socket_disconnect s = d at *
    unfold sfwsensor_stm_start_retry_delay
    split
    · simp [observe, hs, d1, d2, d3, d4, d5, d6]
    · rename_i h
      simp at h
      simp [hs, h, d1, d2, d3, d4, d5, d6]
  · simp [sfwsensor_stm_socket_disconnect, hs]

/-- What a state change does to the Sensor's private data. -/
theorem sns_set_state_fields (s : System) (st : SfwSensorState) (h : s.sns.sns_state ≠ .FINAL)
    (hne : s.sns.sns_state ≠ st) :
    (sfwsensor_stm_set_state s st).sns.sns_state = st ∧
    (sfwsensor_stm_set_state s st).sns.sns_eval_state_id
      = (if st = .FINAL then false else true) ∧
    (sfwsensor_stm_set_state s st).sns.sns_reading = s.sns.sns_reading ∧
    (sfwsensor_stm_set_state s st).sns.sns_properties = s.sns.sns_properties ∧
    (sfwsensor_stm_set_state s st).sns.sns_session_id
      = (if st = .DISABLED then SESSION_ID_INVALID else s.sns.sns_session_id) ∧
    ((sfwsensor_stm_set_state s st).sns.sns_request_session_cancellable ≠ none →
      st = .SESSION ∧ s.sns.sns_session_id = SESSION_ID_INVALID ∨
      s.sns.sns_state ≠ .SESSION ∧ s.sns.sns_request_session_cancellable ≠ none) ∧
    (st = .SESSION → s.sns.sns_session_id = SESSION_ID_INVALID →
      (sfwsensor_stm_set_state s st).sns.sns_request_session_cancellable ≠ none) ∧
    (sfwsensor_stm_set_state s st).sns.sns_retry_delay_id
      = (if st = .FAILED then true else if s.sns.sns_state = .FAILED then false
         else s.sns.sns_retry_delay_id) := by
  unfold sfwsensor_stm_set_state
  rw [if_neg h, if_pos hne]
  simp only []
  obtain ⟨l1, l2, l3, l4, l5, l6⟩ := sns_leave_fields s
  generalize sfwsensor_stm_leave_state s = l at *
  obtain ⟨e1, e2, e3, e4, e5, e6⟩ :=
    sns_enter_fields { l with sns := { l.sns with sns_state := st } }
  generalize sfwsensor_stm_enter_state { l with sns := { l.sns with sns_state := st } } = e at *
  simp only [] at e1 e2 e3 e4 e5 e6
  rw [(sns_later_fields e).1]
  simp only [e1, e2, e3, e4, e5, e6, l2, l3, l4, l5, l6]
  refine ⟨trivial, trivial, trivial, trivial, trivial, ?_, ?_, trivial⟩
  · intro hx
    by_cases c : st = .SESSION ∧ s.sns.sns_session_id = SESSION_ID_INVALID
    · exact Or.inl c
    · rw [if_neg c] at hx
      by_cases c2 : s.sns.sns_state = .SESSION
      · rw [if_pos c2] at hx
        exact absurd rfl hx
      · rw [if_neg c2] at hx
        exact Or.inr ⟨c2, hx⟩
  · intro a b
    rw [if_pos ⟨a, b⟩]
    simp

theorem SnsBook.congrN {id : SfwSensorId} {a b : SfwSensorPrivate}
    (h1 : b.sns_state = a.sns_state) (h2 : b.sns_session_id = a.sns_session_id)
    (h3 : b.sns_request_session_cancellable = a.sns_request_session_cancellable)
    (h4 : b.sns_retry_delay_id = a.sns_retry_delay_id)
    (h5 : b.sns_reading.sensor_id = a.sns_reading.sensor_id) (h : SnsBook id a) :
    SnsBook id b := by
  unfold SnsBook at *
  rw [h1, h2, h3, h4, h5]
  exact h

theorem snsbook_later {id : SfwSensorId} (s : System) (h : SnsBook id s.sns) :
    SnsBook id (sfwsensor_stm_eval_state_later s).sns := by
  rw [(sns_later_fields s).1]
  exact SnsBook.congrN rfl rfl rfl rfl rfl h

/-- A state change keeps the Sensor's session bookkeeping. -/
theorem snsbook_set_state {id : SfwSensorId} (s : System) (st : SfwSensorState)
    (h1 : st ≠ .INITIAL) (h2 : st ≠ .FINAL) (h : SnsBook id s.sns) :
    SnsBook id (sfwsensor_stm_set_state s st).sns := by
  obtain ⟨b0, b1, b2, b3, b4⟩ := h
  by_cases hne : s.sns.sns_state = st
  · have e : sfwsensor_stm_set_state s st = s := by
      unfold sfwsensor_stm_set_state
      rw [if_neg b0, if_neg (by simpa using hne)]
    rw [e]
    exact ⟨b0, b1, b2, b3, b4⟩
  · obtain ⟨f1, _, f3, _, f5, f6, _, f8⟩ := sns_set_state_fields s st b0 hne
    refine ⟨by rw [f1]; exact h2, ?_, ?_, ?_, by rw [f3]; exact b4⟩
    · rw [f1, f5]
      intro c
      rcases c with c | c
      · exact absurd c h1
      · rw [if_pos c]
    · intro c
      rw [f1, f5]
      rcases f6 c with ⟨c1, c2⟩ | ⟨c1, c2⟩
      · rw [if_neg (by rw [c1]; decide)]
        exact ⟨c1, c2⟩
      · exact absurd (b2 c2).1 c1
    · rw [f8, f1]
      intro c
      by_cases c1 : st = .FAILED
      · exact c1
      · rw [if_neg c1] at c
        by_cases c2 : s.sns.sns_state = .FAILED
        · rw [if_pos c2] at c
          cases c
        · rw [if_neg c2] at c
          exact absurd (b3 c) c2

theorem snsbook_reset {id : SfwSensorId} (s : System) (h : SnsBook id s.sns) :
    SnsBook id (sfwsensor_stm_reset_state s).sns :=
  snsbook_later _ (snsbook_set_state s _ (by decide) (by decide) h)

theorem SnsBook.noact {id : SfwSensorId} (x : SfwSensorPrivate) :
    SnsBook id (sns_noact x) ↔ SnsBook id x :=
  Iff.rfl

/-- Events of other tiers keep the Sensor's session bookkeeping. -/
theorem snsbook_touch {id : SfwSensorId} {s s' : System} (t : SnsTouch s s')
    (h : SnsBook id s.sns) : SnsBook id s'.sns :=
  t (SnsBook id) (fun a ha => snsbook_reset a ha) h

theorem snsbook_eval {id : SfwSensorId} (s : System) (h : SnsBook id s.sns) :
    SnsBook id (sfwsensor_stm_eval_state_cb s).sns := by
  have h0 : SnsBook id
      ({ s with sns := { s.sns with sns_eval_state_id := false } } : System).sns :=
    SnsBook.congrN rfl rfl rfl rfl rfl h
  have k : ∀ st, st ≠ .INITIAL → st ≠ .FINAL → SnsBook id (sfwsensor_stm_set_state
      { s with sns := { s.sns with sns_eval_state_id := false } } st).sns :=
    fun st a b => snsbook_set_state _ st a b h0
  unfold sfwsensor_stm_eval_state_cb
  simp only []
  split <;> (repeat' split) <;> first | exact h0 | exact k _ (by decide) (by decide)

theorem update_properties_fields (l : List (String × GVariant)) : ∀ s : System,
    (l.foldl (fun s kv => sfwsensor_stm_update_property s kv.1 kv.2) s).sns
      = { s.sns with sns_properties :=
          (l.foldl (fun s kv => sfwsensor_stm_update_property s kv.1 kv.2) s).sns.sns_properties }
    ∧ (l.foldl (fun s kv => sfwsensor_stm_update_property s kv.1 kv.2) s).trace = s.trace := by
  induction l with
  | nil => intro s; exact ⟨rfl, rfl⟩
  | cons a t ih =>
    intro s
    rw [List.foldl_cons]
    obtain ⟨i1, i2⟩ := ih (sfwsensor_stm_update_property s a.1 a.2)
    rw [i1, i2]
    unfold sfwsensor_stm_update_property
    split <;> exact ⟨rfl, rfl⟩

theorem snsbook_callbacks {id : SfwSensorId} (s : System) (h : SnsBook id s.sns) :
    SnsBook id (sfwsensor_stm_retry_delay_cb s).sns ∧
    (∀ rsp, SnsBook id (sfwsensor_stm_request_session_cb s rsp).sns) ∧
    (∀ rsp, SnsBook id (sfwsensor_stm_release_session_cb s rsp).sns) ∧
    (∀ rsp, SnsBook id (sfwsensor_stm_get_properties_cb s rsp).sns) := by
  obtain ⟨b0, b1, b2, b3, b4⟩ := h
  refine ⟨?_, ?_, ?_, ?_⟩
  · exact snsbook_later _ ⟨b0, b1, b2, (fun c => by cases c), b4⟩
  · intro rsp
    unfold sfwsensor_stm_request_session_cb cancellable_finish
    simp only []
    have hn : SnsBook id ({ s with sns := { s.sns with
        sns_request_session_cancellable := none } } : System).sns :=
      ⟨b0, b1, fun c => absurd rfl c, b3, b4⟩
    split
    · rename_i hh
      have hs := (b2 (by intro c; rw [c] at hh; cases hh)).1
      refine snsbook_later _ ?_
      split
      · exact hn
      · refine ⟨b0, ?_, fun c => absurd rfl c, b3, b4⟩
        intro c
        show _ = _
        simp only [hs] at c
        rcases c with c | c <;> cases c
    · exact hn
  · intro rsp
    unfold sfwsensor_stm_release_session_cb
    simp only []
    have hn : SnsBook id ({ s with sns := { s.sns with
        sns_release_session_cancellable := (cancellable_finish
          s.sns.sns_release_session_cancellable).2 } } : System).sns :=
      ⟨b0, b1, b2, b3, b4⟩
    split
    · exact snsbook_later _ hn
    · exact hn
  · intro rsp
    unfold sfwsensor_stm_get_properties_cb
    simp only []
    have hn : SnsBook id ({ s with sns := { s.sns with
        sns_get_properties_cancellable := (cancellable_finish
          s.sns.sns_get_properties_cancellable).2 } } : System).sns :=
      ⟨b0, b1, b2, b3, b4⟩
    split
    · refine snsbook_later _ ?_
      cases rsp with
      | none => exact hn
      | some array =>
        simp only []
        rw [(update_properties_fields array _).1]
        exact SnsBook.congrN rfl rfl rfl rfl rfl hn
    · exact hn

/-- The sample loop changes only the content of the reading slot in the
Sensor's private data, not its kind tag. -/
theorem rx_loop_fields (blk : Nat) : ∀ (n : Nat) (s : System),
    (sfwsensor_stm_socket_rx_reading_loop blk n s).1.sns
      = { s.sns with
          sns_reading := (sfwsensor_stm_socket_rx_reading_loop blk n s).1.sns.sns_reading } ∧
    (sfwsensor_stm_socket_rx_reading_loop blk n s).1.sns.sns_reading.sensor_id
      = s.sns.sns_reading.sensor_id := by
  intro n
  induction n with
  | zero => intro s; exact ⟨rfl, rfl⟩
  | succ n ih =>
    intro s
    unfold sfwsensor_stm_socket_rx_reading_loop
    simp only []
    split
    · exact ⟨rfl, rfl⟩
    · split
      · exact ⟨rfl, rfl⟩
      · split
        · exact ⟨rfl, rfl⟩
        · split
          · refine ⟨?_, ?_⟩
            · rw [(ih _).1]
              rfl
            · rw [(ih _).2]
              exact normalize_sensor_id _ _
          · refine ⟨?_, ?_⟩
            · rw [(ih _).1]
            · rw [(ih _).2]
              exact normalize_sensor_id _ _

theorem rx_body_fields (s : System) :
    (sfwsensor_stm_socket_rx_reading_body s).1.sns
      = { s.sns with
          sns_reading := (sfwsensor_stm_socket_rx_reading_body s).1.sns.sns_reading } ∧
    (sfwsensor_stm_socket_rx_reading_body s).1.sns.sns_reading.sensor_id
      = s.sns.sns_reading.sensor_id := by
  unfold sfwsensor_stm_socket_rx_reading_body
  simp only []
  split
  · exact ⟨rfl, rfl⟩
  · split
    · exact ⟨rfl, rfl⟩
    · split
      · exact ⟨rfl, rfl⟩
      · exact rx_loop_fields _ _ _

theorem snsbook_fail {id : SfwSensorId} (s : System) (x : SfwSensorPrivate)
    (k : Option Socket) (h : SnsBook id x) :
    SnsBook id (sfwsensor_stm_set_state { s with sns := x, sock := k } .FAILED).sns :=
  snsbook_set_state _ _ (by decide) (by decide) h

theorem snsbook_tx {id : SfwSensorId} (s : System) (h : SnsBook id s.sns) :
    SnsBook id (sfwsensor_stm_socket_tx_cb s).1.sns := by
  have h1 : SnsBook id { s.sns with sns_socket_tx_id := false } :=
    SnsBook.congrN rfl rfl rfl rfl rfl h
  unfold sfwsensor_stm_socket_tx_cb
  split
  · exact snsbook_fail s _ _ h1
  · unfold sfwsensor_stm_socket_tx_handshake
    simp only []
    split
    · exact snsbook_fail s _ _ h1
    · exact snsbook_later _ (SnsBook.congrN rfl rfl rfl rfl rfl h)

theorem snsbook_rx {id : SfwSensorId} (s : System) (h : SnsBook id s.sns) :
    SnsBook id (sfwsensor_stm_socket_rx_cb s).1.sns := by
  have h1 : SnsBook id { s.sns with sns_socket_rx_id := false } :=
    SnsBook.congrN rfl rfl rfl rfl rfl h
  unfold sfwsensor_stm_socket_rx_cb
  split
  · exact snsbook_fail s _ _ h1
  · unfold sfwsensor_stm_socket_rx_handshake
    simp only []
    split
    · exact snsbook_fail s _ _ h1
    · split
      · exact snsbook_fail s _ _ h1
      · exact snsbook_later _ (SnsBook.congrN rfl rfl rfl rfl rfl h)
  · unfold sfwsensor_stm_socket_rx_reading
    simp only []
    obtain ⟨e1, e2⟩ := rx_body_fields s
    have hb : SnsBook id (sfwsensor_stm_socket_rx_reading_body s).1.sns :=
      SnsBook.congrN (by rw [e1]) (by rw [e1]) (by rw [e1]) (by rw [e1]) e2 h
    split
    · exact snsbook_set_state _ _ (by decide) (by decide)
        (SnsBook.congrN rfl rfl rfl rfl rfl hb)
    · exact hb

/-- Every event keeps the Sensor's session bookkeeping. -/
theorem snsbook_step {id : SfwSensorId} (s : System) (ev : Event) (h : SnsBook id s.sns) :
    SnsBook id (step s ev).sns := by
  by_cases ht : ev.tier = 1
  · have hi : ∀ l, SnsBook id ({ s with inflight := l } : System).sns := fun _ => h
    cases ev <;> simp only [Event.tier] at ht <;> simp only [step] <;>
      try (exact absurd ht (by decide))
    · split
      · exact snsbook_eval s h
      · exact h
    · split
      · exact (snsbook_callbacks s h).1
      · exact h
    · exact complete_cases s _ _ (fun x => SnsBook id x.sns) h
        ((snsbook_callbacks _ (hi _)).2.1 _)
    · exact complete_cases s _ _ (fun x => SnsBook id x.sns) h
        ((snsbook_callbacks _ (hi _)).2.2.1 _)
    · exact complete_cases s _ _ (fun x => SnsBook id x.sns) h
        ((snsbook_callbacks _ (hi _)).2.2.2 _)
    · split
      · exact snsbook_tx s h
      · exact h
    · split
      · exact snsbook_rx s h
      · exact h
  · exact snsbook_touch (step_sns_touch s ev ht) h

theorem plg_new_below (s : System) (id : SfwSensorId) :
    RptTouch s (sfwplugin_new s id) ∧ SnsTouch s (sfwplugin_new s id) ∧
    PlgTouch { s with plg := { s.plg with plg_id := id } } (sfwplugin_new s id) := by
  unfold sfwplugin_new sfwservice_new
  have b := (srv_set_state_below { s with plg := { s.plg with plg_id := id } } .DISABLED).transX
    (BelowService.plg_reset _)
  exact ⟨(RptTouch.of_eqT rfl).transT b.1, (SnsTouch.of_eqN rfl).transN b.2.1, b.2.2⟩

theorem sensor_init_sns (os : Os) :
    sns_noact (sfwsensor_init (System.blank os)).sns = sns_noact (System.blank os).sns :=
  (rpt_set_state_frame (System.blank os) .DISABLED).2.2.2.2.1

theorem snsbook_init (os : Os) (id : SfwSensorId) : SnsBook id (sfwsensor_new os id).sns := by
  unfold sfwsensor_new sfwsensor_attach_to_plugin
  simp only []
  have e := sensor_init_sns os
  generalize sfwsensor_init (System.blank os) = s0 at *
  have a1 : s0.sns.sns_state = .INITIAL := congrArg SfwSensorPrivate.sns_state e
  have a2 : s0.sns.sns_session_id = SESSION_ID_INVALID :=
    congrArg SfwSensorPrivate.sns_session_id e
  have a3 : s0.sns.sns_request_session_cancellable = none :=
    congrArg SfwSensorPrivate.sns_request_session_cancellable e
  have a4 : s0.sns.sns_retry_delay_id = false := congrArg SfwSensorPrivate.sns_retry_delay_id e
  have b1 : SnsBook id ({ s0 with sns := { s0.sns with
      sns_reading := { s0.sns.sns_reading with sensor_id := id } } } : System).sns := by
    refine ⟨?_, fun _ => a2, ?_, ?_, rfl⟩
    · show s0.sns.sns_state ≠ _
      rw [a1]; decide
    · intro c
      exact absurd a3 c
    · intro c
      rw [a4] at c
      cases c
  refine snsbook_reset _ ?_
  generalize ({ s0 with sns := { s0.sns with
      sns_reading := { s0.sns.sns_reading with sensor_id := id } } } : System) = s1 at b1 ⊢
  split
  · have b2 := snsbook_touch (plg_new_below s1 id).2.1 b1
    exact SnsBook.congrN rfl rfl rfl rfl rfl b2
  · exact SnsBook.congrN rfl rfl rfl rfl rfl b1

/-- In every reachable state the Sensor's session bookkeeping holds. -/
theorem snsbook_reachable (os : Os) (id : SfwSensorId) (s : System) (h : Reachable os id s) :
    SnsBook id s.sns := by
  induction h with
  | init => exact snsbook_init os id
  | step s ev _ ih => exact snsbook_step s ev ih

/-! ## Sessions (C15, C17, C29) and the sample size check (C27) -/

/-- The evaluation of a Sensor in `SESSION`. -/
theorem sns_eval_session (c : System) (hst : c.sns.sns_state = .SESSION) :
    (c.sns.sns_request_session_cancellable ≠ none →
      (sfwsensor_stm_eval_state_cb c).sns.sns_state = .SESSION ∧
      (sfwsensor_stm_eval_state_cb c).sns.sns_session_id = c.sns.sns_session_id) ∧
    (c.sns.sns_request_session_cancellable = none →
      (sfwsensor_stm_eval_state_cb c).sns.sns_state
        = (if c.sns.sns_session_id = SESSION_ID_INVALID then .FAILED else .PROPERTIES) ∧
      (sfwsensor_stm_eval_state_cb c).sns.sns_session_id = c.sns.sns_session_id ∧
      (sfwsensor_stm_eval_state_cb c).sns.sns_properties = c.sns.sns_properties) := by
  have e1 : ({ c with sns := { c.sns with sns_eval_state_id := false } } : System).sns.sns_state
      = .SESSION := hst
  have e2 : ({ c with sns := { c.sns with sns_eval_state_id := false } }
      : System).sns.sns_request_session_cancellable = c.sns.sns_request_session_cancellable := rfl
  have e3 : ({ c with sns := { c.sns with sns_eval_state_id := false } }
      : System).sns.sns_session_id = c.sns.sns_session_id := rfl
  have e4 : ({ c with sns := { c.sns with sns_eval_state_id := false } }
      : System).sns.sns_properties = c.sns.sns_properties := rfl
  unfold sfwsensor_stm_eval_state_cb
  simp only []
  generalize ({ c with sns := { c.sns with sns_eval_state_id := false } } : System) = c0 at *
  simp only [hst, sfwsensor_stm_pending_request_session, sfwsensor_session_id]
  refine ⟨?_, ?_⟩
  · intro hh
    have : c0.sns.sns_request_session_cancellable.isSome = true := by
      rw [e2]
      cases hc : c.sns.sns_request_session_cancellable with
      | none => exact absurd hc hh
      | some v => rfl
    rw [if_pos this]
    exact ⟨e1, e3⟩
  · intro hh
    have : ¬ (c0.sns.sns_request_session_cancellable.isSome = true) := by
      rw [e2, hh]
      simp
    rw [if_neg this]
    have hnf : c0.sns.sns_state ≠ .FINAL := by rw [e1]; decide
    by_cases hid : c.sns.sns_session_id = SESSION_ID_INVALID
    · rw [if_pos (e3.trans hid), if_pos hid]
      obtain ⟨f1, _, _, f4, f5, _⟩ := sns_set_state_fields c0 .FAILED hnf (by rw [e1]; decide)
      rw [f5, if_neg (by decide)]
      exact ⟨f1, e3, f4.trans e4⟩
    · rw [if_neg (by rw [e3]; exact hid), if_neg hid]
      obtain ⟨f1, _, _, f4, f5, _⟩ := sns_set_state_fields c0 .PROPERTIES hnf (by rw [e1]; decide)
      rw [f5, if_neg (by decide)]
      exact ⟨f1, e3, f4.trans e4⟩

/-- What the completion of `requestSensor` does to a Sensor that holds the
handle. -/
theorem sns_request_done_fields (s : System) (rsp : Option Int)
    (hh : s.sns.sns_request_session_cancellable ≠ none) :
    (sfwsensor_stm_request_session_cb s rsp).sns.sns_state = s.sns.sns_state ∧
    (sfwsensor_stm_request_session_cb s rsp).sns.sns_request_session_cancellable = none ∧
    (sfwsensor_stm_request_session_cb s rsp).sns.sns_session_id
      = (match rsp with
         | some v => if v = SESSION_ID_INVALID then s.sns.sns_session_id else v
         | none => s.sns.sns_session_id) := by
  have h1 : (cancellable_finish s.sns.sns_request_session_cancellable).1 = true := by
    cases hc : s.sns.sns_request_session_cancellable with
    | none => exact absurd hc hh
    | some v => rfl
  unfold sfwsensor_stm_request_session_cb
  simp only []
  rw [if_pos h1, (sns_later_fields _).1]
  cases rsp with
  | none => simp [cancellable_finish]
  | some v =>
    by_cases hv : v = SESSION_ID_INVALID
    · simp [cancellable_finish, hv]
    · simp [cancellable_finish, hv]

/-- C15. While the Sensor holds the handle of the `requestSensor` call it is in
`SESSION` without a session id, and an evaluation leaves it there.  When the
call completes, the next evaluation moves the Sensor to `FAILED`, the id still
-1, if the reply is absent or carries -1, and to `PROPERTIES` with the replied
id otherwise. -/
theorem request_session_outcome (os : Os) (id : SfwSensorId) (s : System)
    (h : Reachable os id s) (hh : s.sns.sns_request_session_cancellable ≠ none)
    (rsp : Option Int) :
    (s.sns.sns_state = .SESSION ∧ s.sns.sns_session_id = SESSION_ID_INVALID) ∧
    (sfwsensor_stm_eval_state_cb s).sns.sns_state = .SESSION ∧
    (rsp = none ∨ rsp = some SESSION_ID_INVALID →
      (sfwsensor_stm_eval_state_cb (sfwsensor_stm_request_session_cb s rsp)).sns.sns_state
        = .FAILED ∧
      (sfwsensor_stm_eval_state_cb (sfwsensor_stm_request_session_cb s rsp)).sns.sns_session_id
        = SESSION_ID_INVALID) ∧
    (∀ v : Int, rsp = some v → v ≠ SESSION_ID_INVALID →
      (sfwsensor_stm_eval_state_cb (sfwsensor_stm_request_session_cb s rsp)).sns.sns_state
        = .PROPERTIES ∧
      (sfwsensor_stm_eval_state_cb (sfwsensor_stm_request_session_cb s rsp)).sns.sns_session_id
        = v) := by
  obtain ⟨hst, hid⟩ := (snsbook_reachable os id s h).2.2.1 hh
  obtain ⟨c1, c2, c3⟩ := sns_request_done_fields s rsp hh
  obtain ⟨d1, d2, _⟩ := (sns_eval_session _ (c1.trans hst)).2 c2
  refine ⟨⟨hst, hid⟩, ((sns_eval_session s hst).1 hh).1, ?_, ?_⟩
  · intro hr
    have e : (sfwsensor_stm_request_session_cb s rsp).sns.sns_session_id
        = SESSION_ID_INVALID := by
      rw [c3]
      rcases hr with hr | hr
      · rw [hr]
        exact hid
      · rw [hr]
        simp only [if_true]
        exact hid
    rw [d1, d2, e]
    exact ⟨rfl, rfl⟩
  · intro v hr hv
    have e : (sfwsensor_stm_request_session_cb s rsp).sns.sns_session_id = v := by
      rw [c3, hr]
      simp only [hv, if_false]
    rw [d1, d2, e, if_neg hv]
    exact ⟨rfl, rfl⟩

set_option maxRecDepth 100000 in
/-- C15 on the proximity example: the Sensor waits in `SESSION`; the reply 42
takes it to `PROPERTIES` with session id 42, the reply 7 with session id 7. -/
theorem request_session_outcome_witness :
    (proximity_run (ready_events.take 8)).sns.sns_request_session_cancellable ≠ none ∧
    (sfwsensor_stm_eval_state_cb (sfwsensor_stm_request_session_cb
      (proximity_run (ready_events.take 8)) (some 42))).sns.sns_state = .PROPERTIES ∧
    (sfwsensor_stm_eval_state_cb (sfwsensor_stm_request_session_cb
      (proximity_run (ready_events.take 8)) (some 42))).sns.sns_session_id = 42 ∧
    (sfwsensor_stm_eval_state_cb (sfwsensor_stm_request_session_cb
      (proximity_run (ready_events.take 8)) (some 7))).sns.sns_session_id = 7 :=
  have hh : (proximity_run (ready_events.take 8)).sns.sns_request_session_cancellable ≠ none := by
    decide
  have c := request_session_outcome example_os SFW_SENSOR_ID_PROXIMITY
    (proximity_run (ready_events.take 8))
    (reachable_run example_os SFW_SENSOR_ID_PROXIMITY (ready_events.take 8)) hh (some 42)
  have d := request_session_outcome example_os SFW_SENSOR_ID_PROXIMITY
    (proximity_run (ready_events.take 8))
    (reachable_run example_os SFW_SENSOR_ID_PROXIMITY (ready_events.take 8)) hh (some 7)
  ⟨hh, (c.2.2.2 42 rfl (by decide)).1, (c.2.2.2 42 rfl (by decide)).2,
    (d.2.2.2 7 rfl (by decide)).2⟩

/-- C17. In every reachable state with the Sensor in `INITIAL` or `DISABLED`
the session id is -1.  Entering `DISABLED` clears it whether the Service is
valid or not, the reply to `releaseSensor` does not touch it, and a
`requestSensor` reply that arrives when the Sensor is not in `SESSION` does
not set it. -/
theorem session_id_cleared (os : Os) (id : SfwSensorId) (s : System)
    (h : Reachable os id s) :
    (s.sns.sns_state = .INITIAL ∨ s.sns.sns_state = .DISABLED →
      s.sns.sns_session_id = SESSION_ID_INVALID) ∧
    (s.sns.sns_state ≠ .DISABLED → ∀ v : Bool,
      (sfwsensor_stm_set_state { s with srv := { s.srv with srv_valid := v } }
        .DISABLED).sns.sns_state = .DISABLED ∧
      (sfwsensor_stm_set_state { s with srv := { s.srv with srv_valid := v } }
        .DISABLED).sns.sns_session_id = SESSION_ID_INVALID) ∧
    (∀ rsp, (sfwsensor_stm_release_session_cb s rsp).sns.sns_session_id
      = s.sns.sns_session_id) ∧
    (s.sns.sns_state ≠ .SESSION → ∀ rsp,
      (sfwsensor_stm_request_session_cb s rsp).sns.sns_session_id = s.sns.sns_session_id) := by
  obtain ⟨b0, b1, b2, _, _⟩ := snsbook_reachable os id s h
  refine ⟨b1, ?_, ?_, ?_⟩
  · intro hd v
    obtain ⟨f1, _, _, _, f5, _⟩ :=
      sns_set_state_fields { s with srv := { s.srv with srv_valid := v } } .DISABLED b0 hd
    rw [f1, f5]
    exact ⟨rfl, rfl⟩
  · intro rsp
    unfold sfwsensor_stm_release_session_cb
    simp only []
    split
    · rw [(sns_later_fields _).1]
    · rfl
  · intro hs rsp
    have hn : s.sns.sns_request_session_cancellable = none := by
      by_contra c
      exact hs (b2 c).1
    unfold sfwsensor_stm_request_session_cb cancellable_finish
    simp only [hn, Option.isSome_none, Bool.false_eq_true, if_false]

set_option maxRecDepth 100000 in
/-- C17 on the proximity example after the daemon has left the bus: the
Sensor is `DISABLED`, its session id 42 is gone, and no `releaseSensor` call
was issued, the Service being invalid by then. -/
theorem session_id_cleared_witness :
    ready_system.sns.sns_session_id = 42 ∧
    (proximity_run vanished_events).sns.sns_state = .DISABLED ∧
    (proximity_run vanished_events).srv.srv_valid = false ∧
    (proximity_run vanished_events).inflight = [] ∧
    (proximity_run vanished_events).sns.sns_session_id = SESSION_ID_INVALID :=
  have hs : (proximity_run vanished_events).sns.sns_state = .DISABLED := by decide
  ⟨by decide, hs, by decide, by decide,
    (session_id_cleared example_os SFW_SENSOR_ID_PROXIMITY (proximity_run vanished_events)
      (reachable_run example_os SFW_SENSOR_ID_PROXIMITY vanished_events)).1 (Or.inr hs)⟩

/-- The evaluation of a Sensor in `FAILED` whose retry timer has fired and
which still has a session id. -/
theorem sns_retry_with_session (s : System) (hst : s.sns.sns_state = .FAILED)
    (hr : s.sns.sns_retry_delay_id = false) (hid : s.sns.sns_session_id ≠ SESSION_ID_INVALID) :
    sfwsensor_stm_eval_state_cb s
      = { s with sns := { s.sns with sns_eval_state_id := true, sns_state := .SESSION } } := by
  unfold sfwsensor_stm_eval_state_cb
  simp only [hst, sfwsensor_stm_pending_retry_delay, hr, Bool.false_eq_true, if_false]
  unfold sfwsensor_stm_set_state
  simp only [hst, ne_eq, reduceCtorEq, not_false_eq_true, if_true, if_false,
    sfwsensor_stm_leave_state, sfwsensor_stm_cancel_retry_delay, hr, Bool.false_eq_true,
    sfwsensor_stm_enter_state, sfwsensor_stm_start_request_session, sfwsensor_session_id, hid,
    sfwsensor_stm_eval_state_later, Bool.not_false]

/-- C29. Entering `FAILED` keeps the session id.  When the retry timer has
fired on a Sensor that has a session id, the evaluation enters `SESSION`
without issuing any call, and the evaluation after that moves to `PROPERTIES`
with the same id.  Entering `SESSION` takes a `requestSensor` handle exactly
when the session id is -1. -/
theorem session_kept_over_failure (os : Os) (id : SfwSensorId) (s : System)
    (h : Reachable os id s) :
    (s.sns.sns_state ≠ .FAILED →
      (sfwsensor_stm_set_state s .FAILED).sns.sns_state = .FAILED ∧
      (sfwsensor_stm_set_state s .FAILED).sns.sns_session_id = s.sns.sns_session_id) ∧
    (s.sns.sns_state = .FAILED → s.sns.sns_retry_delay_id = false →
      s.sns.sns_session_id ≠ SESSION_ID_INVALID →
      (sfwsensor_stm_eval_state_cb s).sns.sns_state = .SESSION ∧
      (sfwsensor_stm_eval_state_cb s).trace = s.trace ∧
      (sfwsensor_stm_eval_state_cb s).inflight = s.inflight ∧
      (sfwsensor_stm_eval_state_cb s).sns.sns_request_session_cancellable = none ∧
      (sfwsensor_stm_eval_state_cb (sfwsensor_stm_eval_state_cb s)).sns.sns_state
        = .PROPERTIES ∧
      (sfwsensor_stm_eval_state_cb (sfwsensor_stm_eval_state_cb s)).sns.sns_session_id
        = s.sns.sns_session_id) ∧
    (s.sns.sns_state ≠ .SESSION →
      ((sfwsensor_stm_set_state s .SESSION).sns.sns_request_session_cancellable ≠ none ↔
        s.sns.sns_session_id = SESSION_ID_INVALID)) := by
  obtain ⟨b0, _, b2, _, _⟩ := snsbook_reachable os id s h
  refine ⟨?_, ?_, ?_⟩
  · intro hd
    obtain ⟨f1, _, _, _, f5, _⟩ := sns_set_state_fields s .FAILED b0 hd
    rw [f1, f5, if_neg (by decide)]
    exact ⟨rfl, rfl⟩
  · intro hst hr hid
    have hn : s.sns.sns_request_session_cancellable = none := by
      by_contra c
      have := (b2 c).1
      rw [hst] at this
      cases this
    have e := sns_retry_with_session s hst hr hid
    obtain ⟨d1, d2, _⟩ := (sns_eval_session (sfwsensor_stm_eval_state_cb s)
      (by rw [e])).2 (by rw [e]; exact hn)
    rw [d1, d2, e]
    refine ⟨rfl, rfl, rfl, hn, ?_, rfl⟩
    show (if s.sns.sns_session_id = SESSION_ID_INVALID then _ else _) = _
    rw [if_neg hid]
  · intro hs
    obtain ⟨_, _, _, _, _, f6, f7, _⟩ := sns_set_state_fields s .SESSION b0 hs
    constructor
    · intro c
      rcases f6 c with ⟨_, c2⟩ | ⟨_, c2⟩
      · exact c2
      · exact absurd (b2 c2).1 hs
    · exact f7 rfl

set_option maxRecDepth 100000 in
/-- C29 on the proximity example after the data socket was lost: the Sensor is
`FAILED` with session id 42, and the two evaluations after the retry timer
take it to `PROPERTIES` with session id 42 without a `requestSensor` call. -/
theorem session_kept_over_failure_witness :
    (proximity_run socket_lost_events).sns.sns_state = .FAILED ∧
    (proximity_run socket_lost_events).sns.sns_session_id = 42 ∧
    (sfwsensor_stm_eval_state_cb (proximity_run socket_lost_events)).inflight = [] ∧
    (sfwsensor_stm_eval_state_cb (sfwsensor_stm_eval_state_cb
      (proximity_run socket_lost_events))).sns.sns_state = .PROPERTIES ∧
    (sfwsensor_stm_eval_state_cb (sfwsensor_stm_eval_state_cb
      (proximity_run socket_lost_events))).sns.sns_session_id = 42 :=
  have hs : (proximity_run socket_lost_events).sns.sns_state = .FAILED := by decide
  have hi : (proximity_run socket_lost_events).sns.sns_session_id = 42 := by decide
  have hf : (proximity_run socket_lost_events).inflight = [] := by decide
  have c := (session_kept_over_failure example_os SFW_SENSOR_ID_PROXIMITY
    (proximity_run socket_lost_events)
    (reachable_run example_os SFW_SENSOR_ID_PROXIMITY socket_lost_events)).2.1 hs (by decide)
    (by rw [hi]; decide)
  ⟨hs, hi, c.2.2.1.trans hf, c.2.2.2.2.1, c.2.2.2.2.2.trans hi⟩

/-- C27. For every valid kind the sample size lies between `sizeof(uint32_t)`
and `sizeof(SfwSample)`; the reading slot of a reachable Sensor is tagged with
the kind it was created for, so for a valid kind the size check of the read
pass is passed.  With an invalid kind in the reading slot the size is 0 and a
read pass takes at most the 4 count bytes from the socket, leaves the slot
alone, removes the watch and ends in `FAILED`. -/
theorem sample_size_check (os : Os) (id : SfwSensorId) (s : System) (x : System)
    (h : Reachable os id s) :
    (∀ (abi : Abi) (k : SfwSensorId), sfwsensorid_is_valid k = true →
      4 ≤ sfwsensorid_sample_size abi k ∧
      sfwsensorid_sample_size abi k ≤ sizeof_SfwSample abi) ∧
    s.sns.sns_reading.sensor_id = id ∧
    (sfwsensorid_is_valid id = true →
      ¬ (sfwsensorid_sample_size s.os.abi s.sns.sns_reading.sensor_id < 4 ∨
         sfwsensorid_sample_size s.os.abi s.sns.sns_reading.sensor_id
           > sizeof_SfwSample s.os.abi)) ∧
    (sfwsensorid_is_valid x.sns.sns_reading.sensor_id = false →
      sfwsensorid_sample_size x.os.abi x.sns.sns_reading.sensor_id = 0 ∧
      sfwsensor_stm_socket_rx_reading_body x
        = ({ x with sock := (socket_read x.sns.sns_socket_fd x.sock 4).2.2 }, G_SOURCE_REMOVE) ∧
      (sfwsensor_stm_socket_rx_reading x).2 = G_SOURCE_REMOVE ∧
      (x.sns.sns_state ≠ .FINAL → (sfwsensor_stm_socket_rx_reading x).1.sns.sns_state
        = .FAILED)) := by
  have hid := (snsbook_reachable os id s h).2.2.2.2
  refine ⟨fun abi k hk => sample_size_bounds abi k hk, hid, ?_, ?_⟩
  · intro hv
    rw [hid]
    have b := sample_size_bounds s.os.abi id hv
    omega
  · intro hv
    have h0 : sfwsensorid_sample_size x.os.abi x.sns.sns_reading.sensor_id = 0 := by
      unfold sfwsensorid_sample_size sfwsensorid_info
      rw [hv]
      rfl
    have hb : sfwsensor_stm_socket_rx_reading_body x
        = ({ x with sock := (socket_read x.sns.sns_socket_fd x.sock 4).2.2 },
            G_SOURCE_REMOVE) := by
      unfold sfwsensor_stm_socket_rx_reading_body
      simp only [h0]
      split
      · rfl
      · split
        · rfl
        · rw [if_pos (Or.inl (by decide))]
    refine ⟨h0, hb, ?_, ?_⟩
    · unfold sfwsensor_stm_socket_rx_reading
      simp only [hb, if_true]
    · intro hf
      unfold sfwsensor_stm_socket_rx_reading
      simp only [hb, if_true]
      by_cases hs : x.sns.sns_state = .FAILED
      · unfold sfwsensor_stm_set_state
        simp only [hs, reduceCtorEq, if_false, ne_eq, not_true_eq_false]
      · exact (sns_set_state_fields
          { x with
            sock := (socket_read x.sns.sns_socket_fd x.sock 4).2.2
            sns := { x.sns with sns_socket_rx_id := false } } .FAILED hf hs).1

set_option maxRecDepth 100000 in
/-- C27 on the started proximity example, and on the same state with the
reading slot tagged with the invalid kind 0. -/
theorem sample_size_check_witness :
    sfwsensorid_sample_size started_system.os.abi started_system.sns.sns_reading.sensor_id
      = 16 ∧
    ¬ (sfwsensorid_sample_size started_system.os.abi started_system.sns.sns_reading.sensor_id
        < 4 ∨
       sfwsensorid_sample_size started_system.os.abi started_system.sns.sns_reading.sensor_id
        > sizeof_SfwSample started_system.os.abi) ∧
    (sfwsensor_stm_socket_rx_reading untagged_system).2 = G_SOURCE_REMOVE ∧
    (sfwsensor_stm_socket_rx_reading untagged_system).1.sns.sns_state = .FAILED :=
  have c := sample_size_check example_os SFW_SENSOR_ID_PROXIMITY started_system untagged_system
    (reachable_run example_os SFW_SENSOR_ID_PROXIMITY start_events)
  have d := c.2.2.2 (by decide)
  ⟨by decide, c.2.2.1 (by decide), d.2.2.1, d.2.2.2 (by decide)⟩

/-! ## The Plugin's own bookkeeping (C18) -/

/-- What `sfwplugin_set_valid` does to the Plugin's private data. -/
theorem plg_set_valid_fields (s : System) (v : Bool) :
    (sfwplugin_set_valid s v).plg = { s.plg with plg_valid := v } := by
  unfold sfwplugin_set_valid
  split
  · exact (sns_reset_below { s with plg := { s.plg with plg_valid := v } }).2.1
  · rename_i h
    have e : s.plg.plg_valid = v := by
      cases hv : s.plg.plg_valid <;> cases v <;> simp [hv] at h <;> rfl
    rw [← e]

/-- What `sfwplugin_stm_eval_state_later` does to the Plugin's private data. -/
theorem plg_later_fields (s : System) :
    (sfwplugin_stm_eval_state_later s).plg
      = { s.plg with
          plg_eval_state_id := (if s.plg.plg_state = .FINAL then false else true) } := by
  rcases s with ⟨srv, ⟨f1, f2, f3, f4, f5, f6, f7⟩, sns, rpt, gobj, os, sock, infl, tr⟩
  unfold sfwplugin_stm_eval_state_later sfwplugin_stm_cancel_eval_state
  by_cases hf : f3 = .FINAL <;> cases f4 <;> simp [hf]

/-- What leaving a state does to the Plugin's private data. -/
theorem plg_leave_fields (s : System) :
    (sfwplugin_stm_leave_state s).plg
      = { s.plg with
          plg_valid := (if s.plg.plg_state = .READY then false else s.plg.plg_valid)
          plg_load_cancellable :=
            (if s.plg.plg_state = .LOADING then none else s.plg.plg_load_cancellable)
          plg_retry_delay_id :=
            (if s.plg.plg_state = .FAILED then false else s.plg.plg_retry_delay_id) } := by
  unfold sfwplugin_stm_leave_state
  cases hs : s.plg.plg_state <;> simp only []
  · simp
  · simp
  · simp [sfwplugin_stm_cancel_load, cancellable_cancel_slot]
  · rw [plg_set_valid_fields]
    simp
  · unfold sfwplugin_stm_cancel_retry_delay
    split
    · simp
    · rename_i h
      rcases s with ⟨srv, ⟨f1, f2, f3, f4, f5, f6, f7⟩, sns, rpt, gobj, os, sock, infl, tr⟩
      simp_all
  · simp

/-- What entering a state does to the Plugin's private data. -/
theorem plg_enter_fields (s : System) :
    (sfwplugin_stm_enter_state s).plg
      = { s.plg with
          plg_valid := (if s.plg.plg_state = .READY then true else s.plg.plg_valid)
          plg_load_cancellable :=
            (if s.plg.plg_state = .LOADING then some s.gobj.next_cancellable
             else s.plg.plg_load_cancellable)
          plg_load_succeeded :=
            (if s.plg.plg_state = .LOADING then false else s.plg.plg_load_succeeded)
          plg_retry_delay_id :=
            (if s.plg.plg_state = .FAILED then true else s.plg.plg_retry_delay_id) } := by
  unfold sfwplugin_stm_enter_state
  cases hs : s.plg.plg_state <;> simp only []
  · simp
  · simp
  · simp [sfwplugin_stm_start_load, issue_call, cancellable_start_slot]
  · rw [plg_set_valid_fields]
    simp
  · unfold sfwplugin_stm_start_retry_delay
    split
    · simp [observe]
    · rename_i h
      rcases s with ⟨srv, ⟨f1, f2, f3, f4, f5, f6, f7⟩, sns, rpt, gobj, os, sock, infl, tr⟩
      simp_all
  · simp

/-- What a state change does to the Plugin's private data. -/
theorem plg_set_state_fields (s : System) (st : SfwPluginState) (h : s.plg.plg_state ≠ .FINAL)
    (hne : s.plg.plg_state ≠ st) :
    (sfwplugin_stm_set_state s st).plg.plg_state = st ∧
    (sfwplugin_stm_set_state s st).plg.plg_valid
      = (if st = .READY then true else if s.plg.plg_state = .READY then false
         else s.plg.plg_valid) ∧
    (st = .LOADING → (sfwplugin_stm_set_state s st).plg.plg_load_cancellable ≠ none) ∧
    (st ≠ .LOADING → (sfwplugin_stm_set_state s st).plg.plg_load_cancellable
      = (if s.plg.plg_state = .LOADING then none else s.plg.plg_load_cancellable)) ∧
    (sfwplugin_stm_set_state s st).plg.plg_load_succeeded
      = (if st = .LOADING then false else s.plg.plg_load_succeeded) ∧
    (sfwplugin_stm_set_state s st).plg.plg_retry_delay_id
      = (if st = .FAILED then true else if s.plg.plg_state = .FAILED then false
         else s.plg.plg_retry_delay_id) ∧
    (sfwplugin_stm_set_state s st).plg.plg_eval_state_id
      = (if st = .FINAL then false else true) := by
  unfold sfwplugin_stm_set_state
  rw [if_neg h, if_pos hne]
  simp only []
  have l := plg_leave_fields s
  generalize sfwplugin_stm_leave_state s = l0 at *
  have e := plg_enter_fields { l0 with plg := { l0.plg with plg_state := st } }
  generalize sfwplugin_stm_enter_state { l0 with plg := { l0.plg with plg_state := st } } = e0
    at *
  rw [plg_later_fields, e, l]
  simp only []
  refine ⟨trivial, trivial, ?_, ?_, trivial, trivial, trivial⟩
  · intro c
    rw [if_pos c]
    simp
  · intro c
    rw [if_neg c]

theorem PlgBook.congrG {a b : SfwPluginPrivate} (h1 : b.plg_state = a.plg_state)
    (h2 : b.plg_load_cancellable = a.plg_load_cancellable)
    (h3 : b.plg_load_succeeded = a.plg_load_succeeded)
    (h4 : b.plg_retry_delay_id = a.plg_retry_delay_id) (h : PlgBook a) : PlgBook b := by
  unfold PlgBook at *
  rw [h1, h2, h3, h4]
  exact h

theorem plgbook_later (s : System) (h : PlgBook s.plg) :
    PlgBook (sfwplugin_stm_eval_state_later s).plg := by
  rw [plg_later_fields]
  exact PlgBook.congrG rfl rfl rfl rfl h

/-- A state change keeps the Plugin's load bookkeeping. -/
theorem plgbook_set_state (s : System) (st : SfwPluginState) (h2 : st ≠ .FINAL)
    (h : PlgBook s.plg) : PlgBook (sfwplugin_stm_set_state s st).plg := by
  obtain ⟨b0, b1, b2⟩ := h
  by_cases hne : s.plg.plg_state = st
  · have e : sfwplugin_stm_set_state s st = s := by
      unfold sfwplugin_stm_set_state
      rw [if_neg b0, if_neg (by simpa using hne)]
    rw [e]
    exact ⟨b0, b1, b2⟩
  · obtain ⟨f1, _, f3, f4, f5, f6, _⟩ := plg_set_state_fields s st b0 hne
    refine ⟨by rw [f1]; exact h2, ?_, ?_⟩
    · intro c
      rw [f1, f5]
      by_cases c1 : st = .LOADING
      · rw [if_pos c1]
        exact ⟨c1, rfl⟩
      · rw [f4 c1] at c
        by_cases c2 : s.plg.plg_state = .LOADING
        · rw [if_pos c2] at c
          exact absurd rfl c
        · rw [if_neg c2] at c
          exact absurd (b1 c).1 c2
    · rw [f6, f1]
      intro c
      by_cases c1 : st = .FAILED
      · exact c1
      · rw [if_neg c1] at c
        by_cases c2 : s.plg.plg_state = .FAILED
        · rw [if_pos c2] at c
          cases c
        · rw [if_neg c2] at c
          exact absurd (b2 c) c2

theorem plgbook_reset (s : System) (h : PlgBook s.plg) :
    PlgBook (sfwplugin_stm_reset_state s).plg :=
  plgbook_later _ (plgbook_set_state s _ (by decide) h)

theorem plgbook_touch {s s' : System} (t : PlgTouch s s') (h : PlgBook s.plg) :
    PlgBook s'.plg :=
  t PlgBook (fun a ha => plgbook_reset a ha) h

theorem plgbook_eval (s : System) (h : PlgBook s.plg) :
    PlgBook (sfwplugin_stm_eval_state_cb s).plg := by
  have h0 : PlgBook
      ({ s with plg := { s.plg with plg_eval_state_id := false } } : System).plg :=
    PlgBook.congrG rfl rfl rfl rfl h
  have k : ∀ st, st ≠ .FINAL → PlgBook (sfwplugin_stm_set_state
      { s with plg := { s.plg with plg_eval_state_id := false } } st).plg :=
    fun st a => plgbook_set_state _ st a h0
  unfold sfwplugin_stm_eval_state_cb
  simp only []
  split <;> (repeat' split) <;> first | exact h0 | exact k _ (by decide)

theorem plgbook_callbacks (s : System) (h : PlgBook s.plg) :
    PlgBook (sfwplugin_stm_retry_delay_cb s).plg ∧
    (∀ rsp, PlgBook (sfwplugin_stm_load_cb s rsp).plg) := by
  obtain ⟨b0, b1, b2⟩ := h
  refine ⟨plgbook_later _ ⟨b0, b1, (fun c => by cases c)⟩, ?_⟩
  intro rsp
  unfold sfwplugin_stm_load_cb cancellable_finish
  simp only []
  have hn : PlgBook ({ s with plg := { s.plg with plg_load_cancellable := none } }
      : System).plg :=
    ⟨b0, fun c => absurd rfl c, b2⟩
  split
  · refine plgbook_later _ ?_
    split
    · exact ⟨b0, fun c => absurd rfl c, b2⟩
    · exact hn
  · exact hn

/-- Every event keeps the Plugin's load bookkeeping. -/
theorem plgbook_step (s : System) (ev : Event) (h : PlgBook s.plg) :
    PlgBook (step s ev).plg := by
  by_cases ht : ev.tier = 2
  · have hi : ∀ l, PlgBook ({ s with inflight := l } : System).plg := fun _ => h
    cases ev <;> simp only [Event.tier] at ht <;> simp only [step] <;>
      try (exact absurd ht (by decide))
    · split
      · exact plgbook_eval s h
      · exact h
    · split
      · exact (plgbook_callbacks s h).1
      · exact h
    · exact complete_cases s _ _ (fun x => PlgBook x.plg) h
        ((plgbook_callbacks _ (hi _)).2 _)
  · exact plgbook_touch (step_plg_touch s ev ht) h

theorem plgbook_init (os : Os) (id : SfwSensorId) : PlgBook (sfwsensor_new os id).plg := by
  unfold sfwsensor_new sfwsensor_attach_to_plugin
  simp only []
  have e : (sfwsensor_init (System.blank os)).plg = (System.blank os).plg :=
    (rpt_set_state_frame (System.blank os) .DISABLED).2.1
  generalize sfwsensor_init (System.blank os) = s0 at *
  have b0 : PlgBook s0.plg := by
    rw [e]
    exact ⟨(by intro c; cases c), fun c => absurd rfl c, (by intro c; cases c)⟩
  generalize hs1 : ({ s0 with sns := { s0.sns with
      sns_reading := { s0.sns.sns_reading with sensor_id := id } } } : System) = s1
  have b1 : PlgBook s1.plg := by rw [← hs1]; exact b0
  rw [(sns_reset_below _).2.1]
  split
  · exact plgbook_touch (plg_new_below s1 id).2.2 (PlgBook.congrG rfl rfl rfl rfl b1)
  · exact b1

/-- In every reachable state the Plugin's load bookkeeping holds. -/
theorem plgbook_reachable (os : Os) (id : SfwSensorId) (s : System) (h : Reachable os id s) :
    PlgBook s.plg := by
  induction h with
  | init => exact plgbook_init os id
  | step s ev _ ih => exact plgbook_step s ev ih

/-- What the completion of `loadPlugin` does to a Plugin that holds the handle. -/
theorem plg_load_done_fields (s : System) (rsp : Option Bool)
    (hh : s.plg.plg_load_cancellable ≠ none) :
    (sfwplugin_stm_load_cb s rsp).plg
      = { s.plg with
          plg_load_cancellable := none
          plg_load_succeeded := (if rsp = some true then true else s.plg.plg_load_succeeded)
          plg_eval_state_id := (if s.plg.plg_state = .FINAL then false else true) } := by
  have h1 : (cancellable_finish s.plg.plg_load_cancellable).1 = true := by
    cases hc : s.plg.plg_load_cancellable with
    | none => exact absurd hc hh
    | some v => rfl
  unfold sfwplugin_stm_load_cb
  simp only []
  rw [if_pos h1, plg_later_fields]
  cases rsp with
  | none => simp [cancellable_finish]
  | some b => cases b <;> simp [cancellable_finish]

/-- The evaluation of a Plugin in `LOADING` with no call pending. -/
theorem plg_eval_loading (c : System) (hst : c.plg.plg_state = .LOADING)
    (hn : c.plg.plg_load_cancellable = none) :
    (sfwplugin_stm_eval_state_cb c).plg.plg_state
      = (if c.plg.plg_load_succeeded = true then .READY else .FAILED) ∧
    (sfwplugin_stm_eval_state_cb c).plg.plg_valid
      = (if c.plg.plg_load_succeeded = true then true else c.plg.plg_valid) := by
  have e1 : ({ c with plg := { c.plg with plg_eval_state_id := false } } : System).plg.plg_state
      = .LOADING := hst
  have e2 : ({ c with plg := { c.plg with plg_eval_state_id := false } }
      : System).plg.plg_valid = c.plg.plg_valid := rfl
  have e3 : ({ c with plg := { c.plg with plg_eval_state_id := false } }
      : System).plg.plg_load_succeeded = c.plg.plg_load_succeeded := rfl
  have e4 : ({ c with plg := { c.plg with plg_eval_state_id := false } }
      : System).plg.plg_load_cancellable = none := hn
  unfold sfwplugin_stm_eval_state_cb
  simp only []
  generalize ({ c with plg := { c.plg with plg_eval_state_id := false } } : System) = c0 at *
  simp only [hst, sfwplugin_stm_pending_load, e4, Option.isSome_none, Bool.false_eq_true,
    if_false, e3]
  have hnf : c0.plg.plg_state ≠ .FINAL := by rw [e1]; decide
  by_cases hs : c.plg.plg_load_succeeded = true
  · rw [if_pos hs, if_pos hs, if_pos hs]
    obtain ⟨f1, f2, _⟩ := plg_set_state_fields c0 .READY hnf (by rw [e1]; decide)
    rw [f1, f2]
    exact ⟨rfl, rfl⟩
  · rw [if_neg hs, if_neg hs, if_neg hs]
    obtain ⟨f1, f2, _⟩ := plg_set_state_fields c0 .FAILED hnf (by rw [e1]; decide)
    rw [f1, f2, e1, e2]
    exact ⟨rfl, rfl⟩

/-- C18. While the Plugin holds the handle of the `loadPlugin` call it is in
`LOADING` with the success flag clear.  When the call completes, the next
evaluation makes the Plugin `READY` exactly if the reply is `true`, and then
valid; otherwise it makes it `FAILED`, still not valid.  Entering `LOADING`
clears the success flag and takes a handle. -/
theorem load_outcome (os : Os) (id : SfwSensorId) (s : System) (x : System)
    (h : Reachable os id s) (hh : s.plg.plg_load_cancellable ≠ none) (rsp : Option Bool) :
    (s.plg.plg_state = .LOADING ∧ s.plg.plg_load_succeeded = false) ∧
    ((sfwplugin_stm_eval_state_cb (sfwplugin_stm_load_cb s rsp)).plg.plg_state = .READY ↔
      rsp = some true) ∧
    (rsp = some true →
      (sfwplugin_stm_eval_state_cb (sfwplugin_stm_load_cb s rsp)).plg.plg_valid = true) ∧
    (rsp ≠ some true →
      (sfwplugin_stm_eval_state_cb (sfwplugin_stm_load_cb s rsp)).plg.plg_state = .FAILED ∧
      (sfwplugin_stm_eval_state_cb (sfwplugin_stm_load_cb s rsp)).plg.plg_valid = false) ∧
    (x.plg.plg_state ≠ .FINAL → x.plg.plg_state ≠ .LOADING →
      (sfwplugin_stm_set_state x .LOADING).plg.plg_load_succeeded = false ∧
      (sfwplugin_stm_set_state x .LOADING).plg.plg_load_cancellable ≠ none) := by
  obtain ⟨hst, hsu⟩ := (plgbook_reachable os id s h).2.1 hh
  have hv : s.plg.plg_valid = false := by
    have := (inv_reachable os id s h).2.1.1
    cases hval : s.plg.plg_valid with
    | false => rfl
    | true =>
      have c := this hval
      rw [hst] at c
      cases c
  have c := plg_load_done_fields s rsp hh
  obtain ⟨d1, d2⟩ := plg_eval_loading (sfwplugin_stm_load_cb s rsp) (by rw [c]; exact hst)
    (by rw [c])
  rw [d1, d2, c]
  simp only [hsu, hv]
  refine ⟨⟨hst, trivial⟩, ?_, ?_, ?_, ?_⟩
  · by_cases hr : rsp = some true
    · simp [hr]
    · simp [hr]
  · intro hr
    simp [hr]
  · intro hr
    simp [hr]
  · intro a b
    obtain ⟨_, _, f3, _, f5, _⟩ := plg_set_state_fields x .LOADING a b
    rw [f5]
    exact ⟨rfl, f3 rfl⟩

set_option maxRecDepth 100000 in
/-- C18 on the proximity example with `loadPlugin` in flight: the reply `true`
makes the Plugin `READY` and valid, a missing reply makes it `FAILED`. -/
theorem load_outcome_witness :
    (proximity_run (ready_events.take 5)).plg.plg_load_cancellable ≠ none ∧
    (sfwplugin_stm_eval_state_cb (sfwplugin_stm_load_cb
      (proximity_run (ready_events.take 5)) (some true))).plg.plg_state = .READY ∧
    (sfwplugin_stm_eval_state_cb (sfwplugin_stm_load_cb
      (proximity_run (ready_events.take 5)) (some true))).plg.plg_valid = true ∧
    (sfwplugin_stm_eval_state_cb (sfwplugin_stm_load_cb
      (proximity_run (ready_events.take 5)) none)).plg.plg_state = .FAILED ∧
    (sfwplugin_stm_set_state ready_system .LOADING).plg.plg_load_succeeded = false :=
  have hh : (proximity_run (ready_events.take 5)).plg.plg_load_cancellable ≠ none := by decide
  have c := load_outcome example_os SFW_SENSOR_ID_PROXIMITY
    (proximity_run (ready_events.take 5)) ready_system
    (reachable_run example_os SFW_SENSOR_ID_PROXIMITY (ready_events.take 5)) hh (some true)
  have d := load_outcome example_os SFW_SENSOR_ID_PROXIMITY
    (proximity_run (ready_events.take 5)) ready_system
    (reachable_run example_os SFW_SENSOR_ID_PROXIMITY (ready_events.take 5)) hh none
  ⟨hh, c.2.1.mpr rfl, c.2.2.1 rfl, (d.2.2.2.1 (by decide)).1,
    (c.2.2.2.2 (by decide) (by decide)).1⟩

/-! ## The Reporting's own bookkeeping -/

theorem rpt_set_valid_fields (s : System) (v : Bool) :
    (sfwreporting_set_valid s v).rpt = { s.rpt with rpt_valid := v } := by
  unfold sfwreporting_set_valid
  split
  · rfl
  · rename_i h
    have e : s.rpt.rpt_valid = v := by
      cases hv : s.rpt.rpt_valid <;> cases v <;> simp [hv] at h <;> rfl
    rw [← e]

theorem rpt_set_active_fields (s : System) (a : Bool) :
    (sfwreporting_set_active s a).rpt = { s.rpt with rpt_active := a } := by
  unfold sfwreporting_set_active
  split
  · unfold sfwsensor_reporting_active_changed_cb sfwsensor_eval_active observe
    simp only []
    split <;> rfl
  · rename_i h
    have e : s.rpt.rpt_active = a := by
      cases hv : s.rpt.rpt_active <;> cases a <;> simp [hv] at h <;> rfl
    rw [← e]

/-- What `sfwreporting_stm_eval_state_later` does to the Reporting's private
data. -/
theorem rpt_later_fields (s : System) :
    (sfwreporting_stm_eval_state_later s).rpt
      = { s.rpt with
          rpt_eval_state_id := (if s.rpt.rpt_state = .FINAL then false else true) } := by
  rcases s with ⟨srv, plg, sns, ⟨f1, f2, f3, f4, f5, f6, f7, f8, f9, f10, f11, f12, f13, f14,
    f15, f16, f17⟩, gobj, os, sock, infl, tr⟩
  unfold sfwreporting_stm_eval_state_later sfwreporting_stm_cancel_eval_state
  by_cases hf : f1 = .FINAL <;> cases f4 <;> simp [hf]

/-- What leaving a state does to the Reporting's private data. -/
theorem rpt_leave_fields (s : System) :
    (sfwreporting_stm_leave_state s).rpt
      = { s.rpt with
          rpt_valid := (if s.rpt.rpt_state = .STARTED ∨ s.rpt.rpt_state = .STOPPED then false
            else s.rpt.rpt_valid)
          rpt_active := (if s.rpt.rpt_state = .STARTED then false else s.rpt.rpt_active)
          rpt_retry_delay_id :=
            (if s.rpt.rpt_state = .FAILED then false else s.rpt.rpt_retry_delay_id)
          rpt_enable_cancellable :=
            (if s.rpt.rpt_state = .STARTING ∨ s.rpt.rpt_state = .STOPPING then none
             else s.rpt.rpt_enable_cancellable)
          rpt_datarate_cancellable :=
            (if s.rpt.rpt_state = .CONFIGURE then none else s.rpt.rpt_datarate_cancellable)
          rpt_override_cancellable :=
            (if s.rpt.rpt_state = .CONFIGURE then none else s.rpt.rpt_override_cancellable) } := by
  unfold sfwreporting_stm_leave_state
  cases hs : s.rpt.rpt_state <;> simp only []
  · simp
  · simp
  · simp
  · simp [sfwreporting_stm_cancel_enable, cancellable_cancel_slot]
  · simp [sfwreporting_stm_cancel_override, sfwreporting_stm_cancel_datarate,
      cancellable_cancel_slot]
  · rw [rpt_set_valid_fields, rpt_set_active_fields]
    simp
  · simp [sfwreporting_stm_cancel_enable, cancellable_cancel_slot]
  · rw [rpt_set_valid_fields]
    simp
  · unfold sfwreporting_stm_cancel_retry_delay
    split
    · simp
    · rename_i h
      rcases s with ⟨srv, plg, sns, ⟨f1, f2, f3, f4, f5, f6, f7, f8, f9, f10, f11, f12, f13,
        f14, f15, f16, f17⟩, gobj, os, sock, infl, tr⟩
      simp_all
  · simp

/-- What entering a state does to the Reporting's private data. -/
theorem rpt_enter_fields (s : System) :
    (sfwreporting_stm_enter_state s).rpt.rpt_state = s.rpt.rpt_state ∧
    ((sfwreporting_stm_enter_state s).rpt.rpt_enable_wanted = s.rpt.rpt_enable_wanted ∧
     (sfwreporting_stm_enter_state s).rpt.rpt_datarate_wanted = s.rpt.rpt_datarate_wanted ∧
     (sfwreporting_stm_enter_state s).rpt.rpt_override_wanted = s.rpt.rpt_override_wanted) ∧
    (sfwreporting_stm_enter_state s).rpt.rpt_retry_delay_id
      = (if s.rpt.rpt_state = .FAILED then true else s.rpt.rpt_retry_delay_id) ∧
    (sfwreporting_stm_enter_state s).rpt.rpt_datarate_effective
      = (if s.rpt.rpt_state = .DISABLED ∨ s.rpt.rpt_state = .STOPPING then DEFAULT_DATARATE
         else if s.rpt.rpt_state = .CONFIGURE ∧
            dbl_ne s.rpt.rpt_datarate_requested s.rpt.rpt_datarate_effective = true then
           INVALID_DATARATE
         else s.rpt.rpt_datarate_effective) ∧
    (sfwreporting_stm_enter_state s).rpt.rpt_override_effective
      = (if s.rpt.rpt_state = .DISABLED ∨ s.rpt.rpt_state = .STOPPING then b2i DEFAULT_OVERRIDE
         else if s.rpt.rpt_state = .CONFIGURE ∧
            s.rpt.rpt_override_requested ≠ s.rpt.rpt_override_effective then
           INVALID_OVERRIDE
         else s.rpt.rpt_override_effective) ∧
    (s.rpt.rpt_state = .DISABLED →
      (sfwreporting_stm_enter_state s).rpt.rpt_enable_effective = b2i ENABLE_DEFAULT) ∧
    (sfwreporting_stm_enter_state s).rpt.rpt_datarate_cancellable
      = (if s.rpt.rpt_state = .CONFIGURE ∧
            dbl_ne s.rpt.rpt_datarate_requested s.rpt.rpt_datarate_effective = true then
           some s.gobj.next_cancellable
         else s.rpt.rpt_datarate_cancellable) ∧
    ((sfwreporting_stm_enter_state s).rpt.rpt_override_cancellable ≠ none ↔
      (s.rpt.rpt_state = .CONFIGURE ∧
          s.rpt.rpt_override_requested ≠ s.rpt.rpt_override_effective) ∨
      s.rpt.rpt_override_cancellable ≠ none) ∧
    (s.rpt.rpt_state ≠ .CONFIGURE →
      (sfwreporting_stm_enter_state s).rpt.rpt_override_cancellable
        = s.rpt.rpt_override_cancellable) ∧
    (s.rpt.rpt_state ≠ .RETHINK →
      (sfwreporting_stm_enter_state s).rpt.rpt_datarate_requested
        = s.rpt.rpt_datarate_requested ∧
      (sfwreporting_stm_enter_state s).rpt.rpt_override_requested
        = s.rpt.rpt_override_requested) := by
  unfold sfwreporting_stm_enter_state
  cases hs : s.rpt.rpt_state <;> simp only []
  · simp [hs]
  · simp [hs]
  · simp [hs]
  · split
    · simp [hs, sfwreporting_stm_start_enable, issue_call]
    · simp [hs]
  · have r1 : ¬ (SfwReportingState.CONFIGURE = .DISABLED ∨
        SfwReportingState.CONFIGURE = .STOPPING) := by decide
    by_cases hd : dbl_ne s.rpt.rpt_datarate_requested s.rpt.rpt_datarate_effective = true
    · by_cases ho : s.rpt.rpt_override_requested = s.rpt.rpt_override_effective
      · simp [hs, hd, ho, sfwreporting_stm_start_datarate, issue_call, cancellable_start_slot]
      · simp [hs, hd, ho, sfwreporting_stm_start_datarate, sfwreporting_stm_start_override,
          issue_call, cancellable_start_slot]
    · by_cases ho : s.rpt.rpt_override_requested = s.rpt.rpt_override_effective
      · simp [hs, hd, ho]
      · simp [hs, hd, ho, sfwreporting_stm_start_override, issue_call, cancellable_start_slot]
  · rw [rpt_set_active_fields, rpt_set_valid_fields]
    simp [hs]
  · split
    · simp [hs, sfwreporting_stm_start_enable, issue_call]
    · simp [hs]
  · rw [rpt_set_valid_fields]
    simp [hs]
  · unfold sfwreporting_stm_start_retry_delay
    split
    · simp [observe, hs]
    · rename_i h
      simp at h
      simp [hs, h]
  · simp [hs]

/-- What a state change does to the Reporting's private data. -/
theorem rpt_set_state_fields (s : System) (st : SfwReportingState)
    (h : s.rpt.rpt_state ≠ .FINAL) (hne : s.rpt.rpt_state ≠ st) :
    (sfwreporting_stm_set_state s st).rpt.rpt_state = st ∧
    ((sfwreporting_stm_set_state s st).rpt.rpt_enable_wanted = s.rpt.rpt_enable_wanted ∧
     (sfwreporting_stm_set_state s st).rpt.rpt_datarate_wanted = s.rpt.rpt_datarate_wanted ∧
     (sfwreporting_stm_set_state s st).rpt.rpt_override_wanted = s.rpt.rpt_override_wanted) ∧
    (sfwreporting_stm_set_state s st).rpt.rpt_retry_delay_id
      = (if st = .FAILED then true else if s.rpt.rpt_state = .FAILED then false
         else s.rpt.rpt_retry_delay_id) ∧
    (sfwreporting_stm_set_state s st).rpt.rpt_datarate_effective
      = (if st = .DISABLED ∨ st = .STOPPING then DEFAULT_DATARATE
         else if st = .CONFIGURE ∧
            dbl_ne s.rpt.rpt_datarate_requested s.rpt.rpt_datarate_effective = true then
           INVALID_DATARATE
         else s.rpt.rpt_datarate_effective) ∧
    (sfwreporting_stm_set_state s st).rpt.rpt_override_effective
      = (if st = .DISABLED ∨ st = .STOPPING then b2i DEFAULT_OVERRIDE
         else if st = .CONFIGURE ∧
            s.rpt.rpt_override_requested ≠ s.rpt.rpt_override_effective then
           INVALID_OVERRIDE
         else s.rpt.rpt_override_effective) ∧
    (st = .DISABLED →
      (sfwreporting_stm_set_state s st).rpt.rpt_enable_effective = b2i ENABLE_DEFAULT) ∧
    ((sfwreporting_stm_set_state s st).rpt.rpt_datarate_cancellable ≠ none ↔
      (st = .CONFIGURE ∧
          dbl_ne s.rpt.rpt_datarate_requested s.rpt.rpt_datarate_effective = true) ∨
      (s.rpt.rpt_state ≠ .CONFIGURE ∧ s.rpt.rpt_datarate_cancellable ≠ none)) ∧
    ((sfwreporting_stm_set_state s st).rpt.rpt_override_cancellable ≠ none ↔
      (st = .CONFIGURE ∧ s.rpt.rpt_override_requested ≠ s.rpt.rpt_override_effective) ∨
      (s.rpt.rpt_state ≠ .CONFIGURE ∧ s.rpt.rpt_override_cancellable ≠ none)) ∧
    (st ≠ .RETHINK →
      (sfwreporting_stm_set_state s st).rpt.rpt_datarate_requested
        = s.rpt.rpt_datarate_requested ∧
      (sfwreporting_stm_set_state s st).rpt.rpt_override_requested
        = s.rpt.rpt_override_requested) ∧
    (sfwreporting_stm_set_state s st).rpt.rpt_eval_state_id
      = (if st = .FINAL then false else true) := by
  unfold sfwreporting_stm_set_state
  rw [if_neg h, if_pos hne]
  simp only []
  have l := rpt_leave_fields s
  generalize sfwreporting_stm_leave_state s = l0 at *
  obtain ⟨e1, e2, e3, e4, e5, e6, e7, e8, e9, e10⟩ :=
    rpt_enter_fields { l0 with rpt := { l0.rpt with rpt_state := st } }
  generalize sfwreporting_stm_enter_state { l0 with rpt := { l0.rpt with rpt_state := st } } = e0
    at *
  rw [rpt_later_fields]
  simp only [l] at e1 e2 e3 e4 e5 e6 e7 e8 e9 e10
  simp only [e1, e2, e3, e4, e5]
  refine ⟨trivial, ⟨trivial, trivial, trivial⟩, trivial, trivial, trivial, e6, ?_, ?_, e10,
    trivial⟩
  · rw [e7]
    by_cases c : st = .CONFIGURE ∧
        dbl_ne s.rpt.rpt_datarate_requested s.rpt.rpt_datarate_effective = true
    · simp [c]
    · rw [if_neg c]
      by_cases c2 : s.rpt.rpt_state = .CONFIGURE
      · simp [c, c2]
      · simp [c, c2]
  · rw [e8]
    by_cases c2 : s.rpt.rpt_state = .CONFIGURE
    · simp [c2]
    · simp [c2]

theorem RptBook.congrT {a b : SfwReportingPrivate} (h1 : b.rpt_state = a.rpt_state)
    (h2 : b.rpt_retry_delay_id = a.rpt_retry_delay_id) (h : RptBook a) : RptBook b := by
  unfold RptBook at *
  rw [h1, h2]
  exact h

theorem RptFresh.congrF {a b : SfwReportingPrivate} (h1 : b.rpt_state = a.rpt_state)
    (h2 : b.rpt_datarate_effective = a.rpt_datarate_effective)
    (h3 : b.rpt_override_effective = a.rpt_override_effective)
    (h4 : b.rpt_datarate_cancellable = a.rpt_datarate_cancellable)
    (h5 : b.rpt_override_cancellable = a.rpt_override_cancellable) (h : RptFresh a) :
    RptFresh b := by
  unfold RptFresh at *
  rw [h1, h2, h3, h4, h5]
  exact h

theorem rptbook_later (s : System) (h : RptBook s.rpt) :
    RptBook (sfwreporting_stm_eval_state_later s).rpt := by
  rw [rpt_later_fields]
  exact RptBook.congrT rfl rfl h

theorem rptfresh_later (s : System) (h : RptFresh s.rpt) :
    RptFresh (sfwreporting_stm_eval_state_later s).rpt := by
  rw [rpt_later_fields]
  exact RptFresh.congrF rfl rfl rfl rfl rfl h

/-- A state change keeps the Reporting's retry bookkeeping. -/
theorem rptbook_set_state (s : System) (st : SfwReportingState) (h2 : st ≠ .FINAL)
    (h : RptBook s.rpt) : RptBook (sfwreporting_stm_set_state s st).rpt := by
  obtain ⟨b0, b2⟩ := h
  by_cases hne : s.rpt.rpt_state = st
  · have e : sfwreporting_stm_set_state s st = s := by
      unfold sfwreporting_stm_set_state
      rw [if_neg b0, if_neg (by simpa using hne)]
    rw [e]
    exact ⟨b0, b2⟩
  · obtain ⟨f1, _, f3, _⟩ := rpt_set_state_fields s st b0 hne
    refine ⟨by rw [f1]; exact h2, ?_⟩
    rw [f3, f1]
    intro c
    by_cases c1 : st = .FAILED
    · exact c1
    · rw [if_neg c1] at c
      by_cases c2 : s.rpt.rpt_state = .FAILED
      · rw [if_pos c2] at c
        cases c
      · rw [if_neg c2] at c
        exact absurd (b2 c) c2

/-- A state change to any state but `CONFIGURE`, `STARTED`, `INITIAL` and
`FINAL` keeps the effective datarate and override at their defaults. -/
theorem rptfresh_set_state (s : System) (st : SfwReportingState)
    (hst : st = .DISABLED ∨ st = .RETHINK ∨ st = .STARTING ∨ st = .STOPPING ∨ st = .STOPPED ∨
      st = .FAILED)
    (h : RptFresh s.rpt) : RptFresh (sfwreporting_stm_set_state s st).rpt := by
  obtain ⟨b0, b1, b2, b3, b4⟩ := h
  have hnf : s.rpt.rpt_state ≠ .FINAL := by
    rcases b0 with c | c | c | c | c | c <;> rw [c] <;> decide
  have hnc : st ≠ .CONFIGURE := by
    rcases hst with c | c | c | c | c | c <;> rw [c] <;> decide
  by_cases hne : s.rpt.rpt_state = st
  · have e : sfwreporting_stm_set_state s st = s := by
      unfold sfwreporting_stm_set_state
      rw [if_neg hnf, if_neg (by simpa using hne)]
    rw [e]
    exact ⟨b0, b1, b2, b3, b4⟩
  · obtain ⟨f1, _, _, f4, f5, _, f7, f8, _⟩ := rpt_set_state_fields s st hnf hne
    have n1 : ¬ (st = .CONFIGURE ∧
        dbl_ne s.rpt.rpt_datarate_requested s.rpt.rpt_datarate_effective = true) :=
      fun c => hnc c.1
    have n2 : ¬ (st = .CONFIGURE ∧
        s.rpt.rpt_override_requested ≠ s.rpt.rpt_override_effective) :=
      fun c => hnc c.1
    refine ⟨by rw [f1]; exact hst, ?_, ?_, ?_, ?_⟩
    · rw [f4, if_neg n1, b1]
      split <;> rfl
    · rw [f5, if_neg n2, b2]
      split <;> rfl
    · by_contra c
      rcases f7.mp c with c1 | c1
      · exact n1 c1
      · exact c1.2 b3
    · by_contra c
      rcases f8.mp c with c1 | c1
      · exact n2 c1
      · exact c1.2 b4

theorem rptbook_reset (s : System) (h : RptBook s.rpt) :
    RptBook (sfwreporting_stm_reset_state s).rpt :=
  rptbook_later _ (rptbook_set_state s _ (by decide) h)

theorem rptfresh_reset (s : System) (h : RptFresh s.rpt) :
    RptFresh (sfwreporting_stm_reset_state s).rpt :=
  rptfresh_later _ (rptfresh_set_state s _ (Or.inl rfl) h)

theorem rptbook_eval (s : System) (h : RptBook s.rpt) :
    RptBook (sfwreporting_stm_eval_state_cb s).rpt := by
  have h0 : RptBook
      ({ s with rpt := { s.rpt with rpt_eval_state_id := false } } : System).rpt :=
    RptBook.congrT rfl rfl h
  have k : ∀ st, st ≠ .FINAL → RptBook (sfwreporting_stm_set_state
      { s with rpt := { s.rpt with rpt_eval_state_id := false } } st).rpt :=
    fun st a => rptbook_set_state _ st a h0
  unfold sfwreporting_stm_eval_state_cb
  simp only []
  split <;> (repeat' split) <;> first | exact h0 | exact k _ (by decide)

theorem rptbook_handlers (s : System) (h : RptBook s.rpt) :
    RptBook (sfwreporting_stm_retry_delay_cb s).rpt ∧
    RptBook (sfwreporting_start s).rpt ∧ RptBook (sfwreporting_stop s).rpt ∧
    (∀ hz, RptBook (sfwreporting_set_datarate s hz).rpt) ∧
    (∀ b, RptBook (sfwreporting_set_override s b).rpt) ∧
    (∀ ack, RptBook (sfwreporting_stm_enable_cb s ack).rpt) ∧
    (∀ ack, RptBook (sfwreporting_stm_datarate_cb s ack).rpt) ∧
    (∀ ack, RptBook (sfwreporting_stm_override_cb s ack).rpt) := by
  have k : ∀ r : SfwReportingPrivate, r.rpt_state = s.rpt.rpt_state →
      r.rpt_retry_delay_id = s.rpt.rpt_retry_delay_id →
      RptBook (sfwreporting_stm_eval_state_later { s with rpt := r }).rpt :=
    fun r a b => rptbook_later _ (RptBook.congrT a b h)
  have k0 : ∀ r : SfwReportingPrivate, r.rpt_state = s.rpt.rpt_state →
      r.rpt_retry_delay_id = s.rpt.rpt_retry_delay_id →
      RptBook ({ s with rpt := r } : System).rpt :=
    fun r a b => RptBook.congrT a b h
  refine ⟨rptbook_later _ ⟨h.1, (fun c => by cases c)⟩, ?_, ?_, fun hz => k _ rfl rfl,
    fun b => k _ rfl rfl, ?_, ?_, ?_⟩
  · unfold sfwreporting_start
    split
    · exact k _ rfl rfl
    · exact h
  · unfold sfwreporting_stop
    split
    · exact k _ rfl rfl
    · exact h
  · intro ack
    unfold sfwreporting_stm_enable_cb
    simp only []
    split
    · split
      · exact k _ rfl rfl
      · exact k _ rfl rfl
    · exact k0 _ rfl rfl
  · intro ack
    unfold sfwreporting_stm_datarate_cb
    simp only []
    split
    · split
      · exact k _ rfl rfl
      · exact k _ rfl rfl
    · exact k0 _ rfl rfl
  · intro ack
    unfold sfwreporting_stm_override_cb
    simp only []
    split
    · exact k _ rfl rfl
    · exact k0 _ rfl rfl

/-- Every event keeps the Reporting's retry bookkeeping. -/
theorem rptbook_step (s : System) (ev : Event) (h : RptBook s.rpt) :
    RptBook (step s ev).rpt := by
  by_cases ht : ev.tier = 0
  · obtain ⟨h1, h2, h3, h4, h5, _, _, _⟩ := rptbook_handlers s h
    have hi : ∀ l, RptBook ({ s with inflight := l } : System).rpt := fun _ => h
    cases ev <;> simp only [Event.tier] at ht <;> simp only [step] <;>
      try (exact absurd ht (by decide))
    · exact h2
    · exact h3
    · exact h4 _
    · exact h5 _
    · split
      · exact rptbook_eval s h
      · exact h
    · split
      · exact h1
      · exact h
    · exact complete_cases s _ _ (fun x => RptBook x.rpt) h
        ((rptbook_handlers _ (hi _)).2.2.2.2.2.1 _)
    · exact complete_cases s _ _ (fun x => RptBook x.rpt) h
        ((rptbook_handlers _ (hi _)).2.2.2.2.2.2.1 _)
    · exact complete_cases s _ _ (fun x => RptBook x.rpt) h
        ((rptbook_handlers _ (hi _)).2.2.2.2.2.2.2 _)
  · exact step_rpt_touch s ev ht RptBook (fun a ha => rptbook_reset a ha) h

theorem new_rpt_touch (os : Os) (id : SfwSensorId) :
    RptTouch (sfwsensor_init (System.blank os)) (sfwsensor_new os id) := by
  unfold sfwsensor_new sfwsensor_attach_to_plugin
  simp only []
  generalize sfwsensor_init (System.blank os) = s0
  generalize hs1 : ({ s0 with sns := { s0.sns with
      sns_reading := { s0.sns.sns_reading with sensor_id := id } } } : System) = s1
  have a : RptTouch s0 s1 := RptTouch.of_eqT (by rw [← hs1])
  refine RptTouch.transT ?_ (sns_reset_below _).1
  split
  · exact a.transT ((plg_new_below s1 id).1.transT (RptTouch.of_eqT rfl))
  · exact a.transT (RptTouch.of_eqT rfl)

theorem rptbook_init (os : Os) (id : SfwSensorId) : RptBook (sfwsensor_new os id).rpt := by
  refine new_rpt_touch os id RptBook (fun a ha => rptbook_reset a ha) ?_
  exact rptbook_set_state _ _ (by decide) ⟨(by intro c; cases c), (by intro c; cases c)⟩

/-- In every reachable state the Reporting's retry bookkeeping holds. -/
theorem rptbook_reachable (os : Os) (id : SfwSensorId) (s : System) (h : Reachable os id s) :
    RptBook s.rpt := by
  induction h with
  | init => exact rptbook_init os id
  | step s ev _ ih => exact rptbook_step s ev ih

/-- The retry cycle of the Plugin in `FAILED`. -/
theorem plg_retry_cycle (s : System) (hs : s.plg.plg_state = .FAILED) :
    (s.plg.plg_retry_delay_id = true →
      (sfwplugin_stm_eval_state_cb s).plg.plg_state = .FAILED ∧
      (sfwplugin_stm_eval_state_cb s).plg.plg_retry_delay_id = true) ∧
    ((sfwplugin_stm_retry_delay_cb s).plg.plg_state = .FAILED ∧
      (sfwplugin_stm_retry_delay_cb s).plg.plg_retry_delay_id = false ∧
      (sfwplugin_stm_retry_delay_cb s).plg.plg_eval_state_id = true) ∧
    (sfwplugin_stm_eval_state_cb (sfwplugin_stm_retry_delay_cb s)).plg.plg_state = .LOADING ∧
    (sfwplugin_stm_eval_state_cb (sfwplugin_stm_retry_delay_cb s)).plg.plg_retry_delay_id
      = false := by
  have r : (sfwplugin_stm_retry_delay_cb s).plg.plg_state = .FAILED ∧
      (sfwplugin_stm_retry_delay_cb s).plg.plg_retry_delay_id = false ∧
      (sfwplugin_stm_retry_delay_cb s).plg.plg_eval_state_id = true := by
    unfold sfwplugin_stm_retry_delay_cb
    rw [plg_later_fields]
    simp [hs]
  refine ⟨?_, r, ?_⟩
  · intro hp
    unfold sfwplugin_stm_eval_state_cb
    simp [hs, hp, sfwplugin_stm_pending_retry_delay]
  · obtain ⟨r1, r2, _⟩ := r
    generalize sfwplugin_stm_retry_delay_cb s = t at *
    have k := plg_set_state_fields
      { t with plg := { t.plg with plg_eval_state_id := false } } .LOADING
      (by simp [r1]) (by simp [r1])
    have e : sfwplugin_stm_eval_state_cb t = sfwplugin_stm_set_state
        { t with plg := { t.plg with plg_eval_state_id := false } } .LOADING := by
      unfold sfwplugin_stm_eval_state_cb
      simp [r1, r2, sfwplugin_stm_pending_retry_delay]
    rw [e]
    exact ⟨k.1, by rw [k.2.2.2.2.2.1]; simp [r1]⟩

/-- The retry cycle of the Sensor in `FAILED`. -/
theorem sns_retry_cycle (s : System) (hs : s.sns.sns_state = .FAILED) :
    (s.sns.sns_retry_delay_id = true →
      (sfwsensor_stm_eval_state_cb s).sns.sns_state = .FAILED ∧
      (sfwsensor_stm_eval_state_cb s).sns.sns_retry_delay_id = true) ∧
    ((sfwsensor_stm_retry_delay_cb s).sns.sns_state = .FAILED ∧
      (sfwsensor_stm_retry_delay_cb s).sns.sns_retry_delay_id = false ∧
      (sfwsensor_stm_retry_delay_cb s).sns.sns_eval_state_id = true) ∧
    (sfwsensor_stm_eval_state_cb (sfwsensor_stm_retry_delay_cb s)).sns.sns_state = .SESSION ∧
    (sfwsensor_stm_eval_state_cb (sfwsensor_stm_retry_delay_cb s)).sns.sns_retry_delay_id
      = false := by
  have r : (sfwsensor_stm_retry_delay_cb s).sns.sns_state = .FAILED ∧
      (sfwsensor_stm_retry_delay_cb s).sns.sns_retry_delay_id = false ∧
      (sfwsensor_stm_retry_delay_cb s).sns.sns_eval_state_id = true := by
    unfold sfwsensor_stm_retry_delay_cb
    rw [(sns_later_fields _).1]
    simp [hs]
  refine ⟨?_, r, ?_⟩
  · intro hp
    unfold sfwsensor_stm_eval_state_cb
    simp [hs, hp, sfwsensor_stm_pending_retry_delay]
  · obtain ⟨r1, r2, _⟩ := r
    generalize sfwsensor_stm_retry_delay_cb s = t at *
    have k := sns_set_state_fields
      { t with sns := { t.sns with sns_eval_state_id := false } } .SESSION
      (by simp [r1]) (by simp [r1])
    have e : sfwsensor_stm_eval_state_cb t = sfwsensor_stm_set_state
        { t with sns := { t.sns with sns_eval_state_id := false } } .SESSION := by
      unfold sfwsensor_stm_eval_state_cb
      simp [r1, r2, sfwsensor_stm_pending_retry_delay]
    rw [e]
    exact ⟨k.1, by rw [k.2.2.2.2.2.2.2]; simp [r1]⟩

/-- The retry cycle of the Reporting in `FAILED`. -/
theorem rpt_retry_cycle (s : System) (hs : s.rpt.rpt_state = .FAILED) :
    (s.rpt.rpt_retry_delay_id = true →
      (sfwreporting_stm_eval_state_cb s).rpt.rpt_state = .FAILED ∧
      (sfwreporting_stm_eval_state_cb s).rpt.rpt_retry_delay_id = true) ∧
    ((sfwreporting_stm_retry_delay_cb s).rpt.rpt_state = .FAILED ∧
      (sfwreporting_stm_retry_delay_cb s).rpt.rpt_retry_delay_id = false ∧
      (sfwreporting_stm_retry_delay_cb s).rpt.rpt_eval_state_id = true) ∧
    (sfwreporting_stm_eval_state_cb (sfwreporting_stm_retry_delay_cb s)).rpt.rpt_state
      = .RETHINK ∧
    (sfwreporting_stm_eval_state_cb (sfwreporting_stm_retry_delay_cb s)).rpt.rpt_retry_delay_id
      = false := by
  have r : (sfwreporting_stm_retry_delay_cb s).rpt.rpt_state = .FAILED ∧
      (sfwreporting_stm_retry_delay_cb s).rpt.rpt_retry_delay_id = false ∧
      (sfwreporting_stm_retry_delay_cb s).rpt.rpt_eval_state_id = true := by
    unfold sfwreporting_stm_retry_delay_cb
    rw [rpt_later_fields]
    simp [hs]
  refine ⟨?_, r, ?_⟩
  · intro hp
    unfold sfwreporting_stm_eval_state_cb
    simp [hs, hp, sfwreporting_stm_pending_retry_delay]
  · obtain ⟨r1, r2, _⟩ := r
    generalize sfwreporting_stm_retry_delay_cb s = t at *
    have k := rpt_set_state_fields
      { t with rpt := { t.rpt with rpt_eval_state_id := false } } .RETHINK
      (by simp [r1]) (by simp [r1])
    have e : sfwreporting_stm_eval_state_cb t = sfwreporting_stm_set_state
        { t with rpt := { t.rpt with rpt_eval_state_id := false } } .RETHINK := by
      unfold sfwreporting_stm_eval_state_cb
      simp [r1, r2, sfwreporting_stm_pending_retry_delay]
    rw [e]
    exact ⟨k.1, by rw [k.2.2.1]; simp [r1]⟩

/-! ### Timers added to the main loop -/

theorem timeouts_armed_append (a b : List Obs) :
    timeouts_armed (a ++ b) = timeouts_armed a ++ timeouts_armed b := by
  induction a with
  | nil => rfl
  | cons o t ih => cases o <;> simp [timeouts_armed, ih]

theorem rpt_later_trace (x : System) :
    (sfwreporting_stm_eval_state_later x).trace = x.trace := by
  unfold sfwreporting_stm_eval_state_later sfwreporting_stm_cancel_eval_state
  (repeat' split) <;> rfl

theorem rpt_timers_leave (s : System) :
    timeouts_armed (sfwreporting_stm_leave_state s).trace = timeouts_armed s.trace := by
  unfold sfwreporting_stm_leave_state
  cases hs : s.rpt.rpt_state <;>
    simp only [sfwreporting_set_valid, sfwreporting_set_active,
      sfwsensor_reporting_active_changed_cb, sfwsensor_eval_active, observe,
      sfwreporting_stm_cancel_enable, sfwreporting_stm_cancel_datarate,
      sfwreporting_stm_cancel_override, sfwreporting_stm_cancel_retry_delay] <;>
    (repeat' split) <;> simp [timeouts_armed_append, timeouts_armed]

/-- Entering a state adds a timer only in `FAILED` with the id slot empty:
the Reporting's retry timer of 5000 ms. -/
theorem rpt_timers_enter (s : System) :
    timeouts_armed (sfwreporting_stm_enter_state s).trace
      = timeouts_armed s.trace ++
          (if s.rpt.rpt_state = .FAILED ∧ s.rpt.rpt_retry_delay_id = false then
            [(5000, RetryTimer.reporting)]
           else []) := by
  unfold sfwreporting_stm_enter_state
  cases hs : s.rpt.rpt_state <;>
    simp only [sfwreporting_set_valid, sfwreporting_set_active,
      sfwsensor_reporting_active_changed_cb, sfwsensor_eval_active, observe, issue_call,
      sfwreporting_stm_start_enable, sfwreporting_stm_start_datarate,
      sfwreporting_stm_start_override, sfwreporting_stm_start_retry_delay] <;>
    (repeat' split) <;> simp_all [timeouts_armed_append, timeouts_armed]

theorem rpt_timers_set_state (s : System) (st : SfwReportingState) :
    timeouts_armed (sfwreporting_stm_set_state s st).trace
      = timeouts_armed s.trace ++
          (if s.rpt.rpt_state ≠ .FINAL ∧ s.rpt.rpt_state ≠ .FAILED ∧ st = .FAILED ∧
              s.rpt.rpt_retry_delay_id = false then
            [(5000, RetryTimer.reporting)]
           else []) := by
  unfold sfwreporting_stm_set_state
  by_cases hf : s.rpt.rpt_state = .FINAL
  · rw [if_pos hf, if_neg (fun c => c.1 hf)]
    simp
  · rw [if_neg hf]
    by_cases hne : s.rpt.rpt_state ≠ st
    · rw [if_pos hne]
      simp only []
      rw [rpt_later_trace, rpt_timers_enter]
      simp only []
      rw [rpt_timers_leave, rpt_leave_fields]
      simp only []
      by_cases h1 : st = .FAILED
      · have h2 : s.rpt.rpt_state ≠ .FAILED := by rw [← h1]; exact hne
        simp [h1, h2, hf]
      · simp [h1]
    · rw [if_neg hne]
      have e : s.rpt.rpt_state = st := Classical.not_not.mp hne
      have k : ¬ (s.rpt.rpt_state ≠ .FINAL ∧ s.rpt.rpt_state ≠ .FAILED ∧ st = .FAILED ∧
          s.rpt.rpt_retry_delay_id = false) := fun c => c.2.1 (e.trans c.2.2.1)
      rw [if_neg k]
      simp

theorem rpt_timers_reset (s : System) :
    timeouts_armed (sfwreporting_stm_reset_state s).trace = timeouts_armed s.trace := by
  unfold sfwreporting_stm_reset_state
  rw [rpt_later_trace, rpt_timers_set_state]
  simp

theorem sns_later_trace (x : System) :
    (sfwsensor_stm_eval_state_later x).trace = x.trace := by
  unfold sfwsensor_stm_eval_state_later sfwsensor_stm_cancel_eval_state
  (repeat' split) <;> rfl

theorem sns_timers_set_valid (s : System) (v : Bool) :
    timeouts_armed (sfwsensor_set_valid s v).trace = timeouts_armed s.trace := by
  unfold sfwsensor_set_valid
  split
  · simp only [observe, sfwreporting_sensor_changed_cb]
    rw [timeouts_armed_append, rpt_timers_reset]
    simp [timeouts_armed]
  · rfl

theorem sns_timers_leave (s : System) :
    timeouts_armed (sfwsensor_stm_leave_state s).trace = timeouts_armed s.trace := by
  unfold sfwsensor_stm_leave_state
  cases hs : s.sns.sns_state <;> simp only []
  · rfl
  · rfl
  · rfl
  · exact sns_timers_set_valid s false
  · unfold sfwsensor_stm_cancel_retry_delay
    split <;> rfl

/-- Entering a state adds a timer only in `FAILED` with the id slot empty:
the Sensor's retry timer of 5000 ms. -/
theorem sns_timers_enter (s : System) :
    timeouts_armed (sfwsensor_stm_enter_state s).trace
      = timeouts_armed s.trace ++
          (if s.sns.sns_state = .FAILED ∧ s.sns.sns_retry_delay_id = false then
            [(5000, RetryTimer.sensor)]
           else []) := by
  unfold sfwsensor_stm_enter_state
  cases hs : s.sns.sns_state <;> simp only []
  · simp
  · unfold sfwsensor_stm_start_release_session
    simp only [issue_call, sfwsensor_stm_socket_disconnect]
    (repeat' split) <;> simp_all [sns_later_trace, timeouts_armed_append, timeouts_armed]
  · unfold sfwsensor_stm_start_request_session
    simp only [issue_call]
    (repeat' split) <;> simp_all [timeouts_armed_append, timeouts_armed]
  · simp [sfwsensor_stm_start_get_properties, issue_call, timeouts_armed_append,
      timeouts_armed]
  · unfold sfwsensor_stm_socket_connect
    simp only [sfwsensor_stm_socket_disconnect]
    (repeat' split) <;> simp_all
  · rw [sns_timers_set_valid]
    simp
  · unfold sfwsensor_stm_start_retry_delay
    simp only [observe, sfwsensor_stm_socket_disconnect]
    (repeat' split) <;> simp_all [timeouts_armed_append, timeouts_armed]
  · simp [sfwsensor_stm_socket_disconnect]

theorem sns_timers_set_state (s : System) (st : SfwSensorState) :
    timeouts_armed (sfwsensor_stm_set_state s st).trace
      = timeouts_armed s.trace ++
          (if s.sns.sns_state ≠ .FINAL ∧ s.sns.sns_state ≠ .FAILED ∧ st = .FAILED ∧
              s.sns.sns_retry_delay_id = false then
            [(5000, RetryTimer.sensor)]
           else []) := by
  unfold sfwsensor_stm_set_state
  by_cases hf : s.sns.sns_state = .FINAL
  · rw [if_pos hf, if_neg (fun c => c.1 hf)]
    simp
  · rw [if_neg hf]
    by_cases hne : s.sns.sns_state ≠ st
    · rw [if_pos hne]
      simp only []
      rw [sns_later_trace, sns_timers_enter]
      simp only []
      rw [sns_timers_leave, (sns_leave_fields s).2.2.2.2.2]
      by_cases h1 : st = .FAILED
      · have h2 : s.sns.sns_state ≠ .FAILED := by rw [← h1]; exact hne
        simp [h1, h2, hf]
      · simp [h1]
    · rw [if_neg hne]
      have e : s.sns.sns_state = st := Classical.not_not.mp hne
      have k : ¬ (s.sns.sns_state ≠ .FINAL ∧ s.sns.sns_state ≠ .FAILED ∧ st = .FAILED ∧
          s.sns.sns_retry_delay_id = false) := fun c => c.2.1 (e.trans c.2.2.1)
      rw [if_neg k]
      simp

theorem sns_timers_reset (s : System) :
    timeouts_armed (sfwsensor_stm_reset_state s).trace = timeouts_armed s.trace := by
  unfold sfwsensor_stm_reset_state
  rw [sns_later_trace, sns_timers_set_state]
  simp

theorem plg_later_trace (x : System) :
    (sfwplugin_stm_eval_state_later x).trace = x.trace := by
  unfold sfwplugin_stm_eval_state_later sfwplugin_stm_cancel_eval_state
  (repeat' split) <;> rfl

theorem plg_timers_set_valid (s : System) (v : Bool) :
    timeouts_armed (sfwplugin_set_valid s v).trace = timeouts_armed s.trace := by
  unfold sfwplugin_set_valid
  split
  · simp only [observe, sfwsensor_plugin_changed_cb]
    rw [timeouts_armed_append, sns_timers_reset]
    simp [timeouts_armed]
  · rfl

theorem plg_timers_leave (s : System) :
    timeouts_armed (sfwplugin_stm_leave_state s).trace = timeouts_armed s.trace := by
  unfold sfwplugin_stm_leave_state
  cases hs : s.plg.plg_state <;> simp only []
  · rfl
  · exact plg_timers_set_valid s false
  · unfold sfwplugin_stm_cancel_retry_delay
    split <;> rfl

/-- Entering a state adds a timer only in `FAILED` with the id slot empty:
the Plugin's retry timer of 5000 ms. -/
theorem plg_timers_enter (s : System) :
    timeouts_armed (sfwplugin_stm_enter_state s).trace
      = timeouts_armed s.trace ++
          (if s.plg.plg_state = .FAILED ∧ s.plg.plg_retry_delay_id = false then
            [(5000, RetryTimer.plugin)]
           else []) := by
  unfold sfwplugin_stm_enter_state
  cases hs : s.plg.plg_state <;> simp only []
  · simp
  · simp
  · simp [sfwplugin_stm_start_load, issue_call, timeouts_armed_append, timeouts_armed]
  · rw [plg_timers_set_valid]
    simp
  · unfold sfwplugin_stm_start_retry_delay
    simp only [observe]
    (repeat' split) <;> simp_all [timeouts_armed_append, timeouts_armed]
  · simp

theorem plg_timers_set_state (s : System) (st : SfwPluginState) :
    timeouts_armed (sfwplugin_stm_set_state s st).trace
      = timeouts_armed s.trace ++
          (if s.plg.plg_state ≠ .FINAL ∧ s.plg.plg_state ≠ .FAILED ∧ st = .FAILED ∧
              s.plg.plg_retry_delay_id = false then
            [(5000, RetryTimer.plugin)]
           else []) := by
  unfold sfwplugin_stm_set_state
  by_cases hf : s.plg.plg_state = .FINAL
  · rw [if_pos hf, if_neg (fun c => c.1 hf)]
    simp
  · rw [if_neg hf]
    by_cases hne : s.plg.plg_state ≠ st
    · rw [if_pos hne]
      simp only []
      rw [plg_later_trace, plg_timers_enter]
      simp only []
      rw [plg_timers_leave, plg_leave_fields]
      simp only []
      by_cases h1 : st = .FAILED
      · have h2 : s.plg.plg_state ≠ .FAILED := by rw [← h1]; exact hne
        simp [h1, h2, hf]
      · simp [h1]
    · rw [if_neg hne]
      have e : s.plg.plg_state = st := Classical.not_not.mp hne
      have k : ¬ (s.plg.plg_state ≠ .FINAL ∧ s.plg.plg_state ≠ .FAILED ∧ st = .FAILED ∧
          s.plg.plg_retry_delay_id = false) := fun c => c.2.1 (e.trans c.2.2.1)
      rw [if_neg k]
      simp

/-- While the retry timer is pending in `FAILED`, an evaluation issues
nothing and `start_retry_delay` adds no second timer. -/
theorem retry_pending_idle (s : System) :
    (s.plg.plg_state = .FAILED → s.plg.plg_retry_delay_id = true →
      (sfwplugin_stm_eval_state_cb s).trace = s.trace ∧
      sfwplugin_stm_start_retry_delay s = s) ∧
    (s.sns.sns_state = .FAILED → s.sns.sns_retry_delay_id = true →
      (sfwsensor_stm_eval_state_cb s).trace = s.trace ∧
      sfwsensor_stm_start_retry_delay s = s) ∧
    (s.rpt.rpt_state = .FAILED → s.rpt.rpt_retry_delay_id = true →
      (sfwreporting_stm_eval_state_cb s).trace = s.trace ∧
      sfwreporting_stm_start_retry_delay s = s) := by
  refine ⟨?_, ?_, ?_⟩
  · intro hs hp
    constructor
    · unfold sfwplugin_stm_eval_state_cb
      simp [hs, hp, sfwplugin_stm_pending_retry_delay]
    · unfold sfwplugin_stm_start_retry_delay
      simp [hp]
  · intro hs hp
    constructor
    · unfold sfwsensor_stm_eval_state_cb
      simp [hs, hp, sfwsensor_stm_pending_retry_delay]
    · unfold sfwsensor_stm_start_retry_delay
      simp [hp]
  · intro hs hp
    constructor
    · unfold sfwreporting_stm_eval_state_cb
      simp [hs, hp, sfwreporting_stm_pending_retry_delay]
    · unfold sfwreporting_stm_start_retry_delay
      simp [hp]

/-- C25. In every reachable state a pending retry timer of the Plugin, the
Sensor or the Reporting implies that the tier is in `FAILED`.  Entering
`FAILED` sets the tier's retry timer id and adds exactly one timer to the
main loop, the tier's own with an interval of 5000 ms; leaving `FAILED`
clears the id.  While the timer is pending an evaluation keeps the tier in
`FAILED` with the timer pending and adds no timer, and `start_retry_delay`
does nothing.  When the timer fires, its id is cleared and an evaluation is
scheduled, the timer cannot fire again, and the evaluation moves the Plugin
to `LOADING`, the Sensor to `SESSION` and the Reporting to `RETHINK`. -/
theorem retry_timers (os : Os) (id : SfwSensorId) (s : System) (h : Reachable os id s) :
    ((s.plg.plg_retry_delay_id = true → s.plg.plg_state = .FAILED) ∧
     (s.sns.sns_retry_delay_id = true → s.sns.sns_state = .FAILED) ∧
     (s.rpt.rpt_retry_delay_id = true → s.rpt.rpt_state = .FAILED)) ∧
    ((s.plg.plg_state ≠ .FAILED →
        s.plg.plg_retry_delay_id = false ∧
        (sfwplugin_stm_set_state s .FAILED).plg.plg_state = .FAILED ∧
        (sfwplugin_stm_set_state s .FAILED).plg.plg_retry_delay_id = true ∧
        timeouts_armed (sfwplugin_stm_set_state s .FAILED).trace
          = timeouts_armed s.trace ++ [(5000, RetryTimer.plugin)]) ∧
     (s.sns.sns_state ≠ .FAILED →
        s.sns.sns_retry_delay_id = false ∧
        (sfwsensor_stm_set_state s .FAILED).sns.sns_state = .FAILED ∧
        (sfwsensor_stm_set_state s .FAILED).sns.sns_retry_delay_id = true ∧
        timeouts_armed (sfwsensor_stm_set_state s .FAILED).trace
          = timeouts_armed s.trace ++ [(5000, RetryTimer.sensor)]) ∧
     (s.rpt.rpt_state ≠ .FAILED →
        s.rpt.rpt_retry_delay_id = false ∧
        (sfwreporting_stm_set_state s .FAILED).rpt.rpt_state = .FAILED ∧
        (sfwreporting_stm_set_state s .FAILED).rpt.rpt_retry_delay_id = true ∧
        timeouts_armed (sfwreporting_stm_set_state s .FAILED).trace
          = timeouts_armed s.trace ++ [(5000, RetryTimer.reporting)])) ∧
    ((s.plg.plg_state = .FAILED → ∀ st, st ≠ .FAILED →
        (sfwplugin_stm_set_state s st).plg.plg_retry_delay_id = false) ∧
     (s.sns.sns_state = .FAILED → ∀ st, st ≠ .FAILED →
        (sfwsensor_stm_set_state s st).sns.sns_retry_delay_id = false) ∧
     (s.rpt.rpt_state = .FAILED → ∀ st, st ≠ .FAILED →
        (sfwreporting_stm_set_state s st).rpt.rpt_retry_delay_id = false)) ∧
    ((s.plg.plg_retry_delay_id = true →
        (step s .plg_eval).plg.plg_state = .FAILED ∧
        (step s .plg_eval).plg.plg_retry_delay_id = true ∧
        timeouts_armed (step s .plg_eval).trace = timeouts_armed s.trace ∧
        sfwplugin_stm_start_retry_delay s = s) ∧
     (s.sns.sns_retry_delay_id = true →
        (step s .sns_eval).sns.sns_state = .FAILED ∧
        (step s .sns_eval).sns.sns_retry_delay_id = true ∧
        timeouts_armed (step s .sns_eval).trace = timeouts_armed s.trace ∧
        sfwsensor_stm_start_retry_delay s = s) ∧
     (s.rpt.rpt_retry_delay_id = true →
        (step s .rpt_eval).rpt.rpt_state = .FAILED ∧
        (step s .rpt_eval).rpt.rpt_retry_delay_id = true ∧
        timeouts_armed (step s .rpt_eval).trace = timeouts_armed s.trace ∧
        sfwreporting_stm_start_retry_delay s = s)) ∧
    ((s.plg.plg_retry_delay_id = true →
        (step s .plg_retry).plg.plg_retry_delay_id = false ∧
        (step s .plg_retry).plg.plg_eval_state_id = true ∧
        step (step s .plg_retry) .plg_retry = step s .plg_retry ∧
        (step (step s .plg_retry) .plg_eval).plg.plg_state = .LOADING ∧
        (step (step s .plg_retry) .plg_eval).plg.plg_retry_delay_id = false) ∧
     (s.sns.sns_retry_delay_id = true →
        (step s .sns_retry).sns.sns_retry_delay_id = false ∧
        (step s .sns_retry).sns.sns_eval_state_id = true ∧
        step (step s .sns_retry) .sns_retry = step s .sns_retry ∧
        (step (step s .sns_retry) .sns_eval).sns.sns_state = .SESSION ∧
        (step (step s .sns_retry) .sns_eval).sns.sns_retry_delay_id = false) ∧
     (s.rpt.rpt_retry_delay_id = true →
        (step s .rpt_retry).rpt.rpt_retry_delay_id = false ∧
        (step s .rpt_retry).rpt.rpt_eval_state_id = true ∧
        step (step s .rpt_retry) .rpt_retry = step s .rpt_retry ∧
        (step (step s .rpt_retry) .rpt_eval).rpt.rpt_state = .RETHINK ∧
        (step (step s .rpt_retry) .rpt_eval).rpt.rpt_retry_delay_id = false)) := by
  obtain ⟨p0, _, p2⟩ := plgbook_reachable os id s h
  obtain ⟨n0, _, _, n3, _⟩ := snsbook_reachable os id s h
  obtain ⟨r0, r1⟩ := rptbook_reachable os id s h
  have bf : ∀ b : Bool, ¬ b = true → b = false := by
    intro b hb
    cases b
    · rfl
    · exact absurd rfl hb
  refine ⟨⟨p2, n3, r1⟩, ⟨?_, ?_, ?_⟩, ⟨?_, ?_, ?_⟩, ⟨?_, ?_, ?_⟩, ⟨?_, ?_, ?_⟩⟩
  · intro hs
    have k := plg_set_state_fields s .FAILED p0 hs
    have hb := bf _ (fun c => hs (p2 c))
    refine ⟨hb, k.1, by rw [k.2.2.2.2.2.1]; rfl, ?_⟩
    rw [plg_timers_set_state, if_pos ⟨p0, hs, rfl, hb⟩]
  · intro hs
    have k := sns_set_state_fields s .FAILED n0 hs
    have hb := bf _ (fun c => hs (n3 c))
    refine ⟨hb, k.1, by rw [k.2.2.2.2.2.2.2]; rfl, ?_⟩
    rw [sns_timers_set_state, if_pos ⟨n0, hs, rfl, hb⟩]
  · intro hs
    have k := rpt_set_state_fields s .FAILED r0 hs
    have hb := bf _ (fun c => hs (r1 c))
    refine ⟨hb, k.1, by rw [k.2.2.1]; rfl, ?_⟩
    rw [rpt_timers_set_state, if_pos ⟨r0, hs, rfl, hb⟩]
  · intro hs st hst
    have k := plg_set_state_fields s st p0 (by rw [hs]; exact fun c => hst c.symm)
    rw [k.2.2.2.2.2.1, if_neg hst, if_pos hs]
  · intro hs st hst
    have k := sns_set_state_fields s st n0 (by rw [hs]; exact fun c => hst c.symm)
    rw [k.2.2.2.2.2.2.2, if_neg hst, if_pos hs]
  · intro hs st hst
    have k := rpt_set_state_fields s st r0 (by rw [hs]; exact fun c => hst c.symm)
    rw [k.2.2.1, if_neg hst, if_pos hs]
  · intro hp
    have q := (retry_pending_idle s).1 (p2 hp) hp
    simp only [step]
    split
    · exact ⟨((plg_retry_cycle s (p2 hp)).1 hp).1, ((plg_retry_cycle s (p2 hp)).1 hp).2,
        by rw [q.1], q.2⟩
    · exact ⟨p2 hp, hp, rfl, q.2⟩
  · intro hp
    have q := (retry_pending_idle s).2.1 (n3 hp) hp
    simp only [step]
    split
    · exact ⟨((sns_retry_cycle s (n3 hp)).1 hp).1, ((sns_retry_cycle s (n3 hp)).1 hp).2,
        by rw [q.1], q.2⟩
    · exact ⟨n3 hp, hp, rfl, q.2⟩
  · intro hp
    have q := (retry_pending_idle s).2.2 (r1 hp) hp
    simp only [step]
    split
    · exact ⟨((rpt_retry_cycle s (r1 hp)).1 hp).1, ((rpt_retry_cycle s (r1 hp)).1 hp).2,
        by rw [q.1], q.2⟩
    · exact ⟨r1 hp, hp, rfl, q.2⟩
  · intro hp
    obtain ⟨_, ⟨c1, c2, c3⟩, c4, c5⟩ := plg_retry_cycle s (p2 hp)
    have e : step s .plg_retry = sfwplugin_stm_retry_delay_cb s := by
      simp only [step]
      rw [if_pos hp]
    rw [e]
    refine ⟨c2, c3, ?_, ?_, ?_⟩
    · simp only [step]
      rw [c2]
      rfl
    · simp only [step]
      rw [if_pos c3]
      exact c4
    · simp only [step]
      rw [if_pos c3]
      exact c5
  · intro hp
    obtain ⟨_, ⟨c1, c2, c3⟩, c4, c5⟩ := sns_retry_cycle s (n3 hp)
    have e : step s .sns_retry = sfwsensor_stm_retry_delay_cb s := by
      simp only [step]
      rw [if_pos hp]
    rw [e]
    refine ⟨c2, c3, ?_, ?_, ?_⟩
    · simp only [step]
      rw [c2]
      rfl
    · simp only [step]
      rw [if_pos c3]
      exact c4
    · simp only [step]
      rw [if_pos c3]
      exact c5
  · intro hp
    obtain ⟨_, ⟨c1, c2, c3⟩, c4, c5⟩ := rpt_retry_cycle s (r1 hp)
    have e : step s .rpt_retry = sfwreporting_stm_retry_delay_cb s := by
      simp only [step]
      rw [if_pos hp]
    rw [e]
    refine ⟨c2, c3, ?_, ?_, ?_⟩
    · simp only [step]
      rw [c2]
      rfl
    · simp only [step]
      rw [if_pos c3]
      exact c4
    · simp only [step]
      rw [if_pos c3]
      exact c5

set_option maxRecDepth 100000 in
/-- C25 on three proximity runs: the Plugin after a failed `loadPlugin`, the
Sensor after the daemon closed the data socket, and the Reporting after a NaN
datarate made `CONFIGURE` fail.  In each the timer is pending in `FAILED`, the
only timer added so far is the tier's own of 5000 ms, an evaluation changes
nothing, and after the timer fired the evaluation leaves `FAILED`.  On the
ready example, which has added no timer, putting the Reporting in `FAILED`
adds the one of 5000 ms. -/
theorem retry_timers_witness :
    ((proximity_run load_failed_events).plg.plg_retry_delay_id = true ∧
     timeouts_armed (proximity_run load_failed_events).trace = [(5000, RetryTimer.plugin)] ∧
     timeouts_armed (step (proximity_run load_failed_events) .plg_eval).trace
       = [(5000, RetryTimer.plugin)] ∧
     (proximity_run load_failed_events).plg.plg_state = .FAILED ∧
     (step (proximity_run load_failed_events) .plg_eval).plg.plg_state = .FAILED ∧
     (step (step (proximity_run load_failed_events) .plg_retry) .plg_eval).plg.plg_state
       = .LOADING) ∧
    ((proximity_run (socket_lost_events.take 18)).sns.sns_retry_delay_id = true ∧
     timeouts_armed (proximity_run (socket_lost_events.take 18)).trace
       = [(5000, RetryTimer.sensor)] ∧
     timeouts_armed (step (proximity_run (socket_lost_events.take 18)) .sns_eval).trace
       = [(5000, RetryTimer.sensor)] ∧
     (proximity_run (socket_lost_events.take 18)).sns.sns_state = .FAILED ∧
     (step (proximity_run (socket_lost_events.take 18)) .sns_eval).sns.sns_state = .FAILED ∧
     (step (step (proximity_run (socket_lost_events.take 18)) .sns_retry) .sns_eval).sns.sns_state
       = .SESSION) ∧
    ((proximity_run (nan_datarate_events.take 24)).rpt.rpt_retry_delay_id = true ∧
     timeouts_armed (proximity_run (nan_datarate_events.take 24)).trace
       = [(5000, RetryTimer.reporting)] ∧
     timeouts_armed (step (proximity_run (nan_datarate_events.take 24)) .rpt_eval).trace
       = [(5000, RetryTimer.reporting)] ∧
     (proximity_run (nan_datarate_events.take 24)).rpt.rpt_state = .FAILED ∧
     (step (proximity_run (nan_datarate_events.take 24)) .rpt_eval).rpt.rpt_state = .FAILED ∧
     (step (step (proximity_run (nan_datarate_events.take 24)) .rpt_retry) .rpt_eval).rpt.rpt_state
       = .RETHINK) ∧
    (ready_system.rpt.rpt_retry_delay_id = false ∧
     timeouts_armed ready_system.trace = [] ∧
     (sfwreporting_stm_set_state ready_system .FAILED).rpt.rpt_retry_delay_id = true ∧
     timeouts_armed (sfwreporting_stm_set_state ready_system .FAILED).trace
       = [(5000, RetryTimer.reporting)]) :=
  have hp : (proximity_run load_failed_events).plg.plg_retry_delay_id = true := by decide
  have hn : (proximity_run (socket_lost_events.take 18)).sns.sns_retry_delay_id = true := by
    decide
  have hr : (proximity_run (nan_datarate_events.take 24)).rpt.rpt_retry_delay_id = true := by
    decide
  have a := retry_timers example_os SFW_SENSOR_ID_PROXIMITY (proximity_run load_failed_events)
    (reachable_run example_os SFW_SENSOR_ID_PROXIMITY load_failed_events)
  have b := retry_timers example_os SFW_SENSOR_ID_PROXIMITY
    (proximity_run (socket_lost_events.take 18))
    (reachable_run example_os SFW_SENSOR_ID_PROXIMITY (socket_lost_events.take 18))
  have c := retry_timers example_os SFW_SENSOR_ID_PROXIMITY
    (proximity_run (nan_datarate_events.take 24))
    (reachable_run example_os SFW_SENSOR_ID_PROXIMITY (nan_datarate_events.take 24))
  have d := retry_timers example_os SFW_SENSOR_ID_PROXIMITY ready_system
    (reachable_run example_os SFW_SENSOR_ID_PROXIMITY ready_events)
  have d1 := d.2.1.2.2 (by decide)
  have tp : timeouts_armed (proximity_run load_failed_events).trace
      = [(5000, RetryTimer.plugin)] := by decide
  have tn : timeouts_armed (proximity_run (socket_lost_events.take 18)).trace
      = [(5000, RetryTimer.sensor)] := by decide
  have tr : timeouts_armed (proximity_run (nan_datarate_events.take 24)).trace
      = [(5000, RetryTimer.reporting)] := by decide
  have td : timeouts_armed ready_system.trace = [] := by decide
  ⟨⟨hp, tp, (a.2.2.2.1.1 hp).2.2.1.trans tp, a.1.1 hp, (a.2.2.2.1.1 hp).1,
     (a.2.2.2.2.1 hp).2.2.2.1⟩,
   ⟨hn, tn, (b.2.2.2.1.2.1 hn).2.2.1.trans tn, b.1.2.1 hn, (b.2.2.2.1.2.1 hn).1,
     (b.2.2.2.2.2.1 hn).2.2.2.1⟩,
   ⟨hr, tr, (c.2.2.2.1.2.2 hr).2.2.1.trans tr, c.1.2.2 hr, (c.2.2.2.1.2.2 hr).1,
     (c.2.2.2.2.2.2 hr).2.2.2.1⟩,
   ⟨d1.1, td, d1.2.2.1, d1.2.2.2.trans (by rw [td]; rfl)⟩⟩

/-- The entry to `CONFIGURE` from `STARTING` when the effective datarate and
override hold their defaults: the calls issued are `configure_calls`. -/
theorem rpt_configure_entry (s : System) (hs : s.rpt.rpt_state = .STARTING)
    (he : s.rpt.rpt_datarate_effective = DEFAULT_DATARATE)
    (ho : s.rpt.rpt_override_effective = b2i DEFAULT_OVERRIDE)
    (hd : s.rpt.rpt_datarate_cancellable = none) (hv : s.rpt.rpt_override_cancellable = none) :
    (sfwreporting_stm_set_state s .CONFIGURE).rpt.rpt_state = .CONFIGURE ∧
    (sfwreporting_stm_set_state s .CONFIGURE).trace = s.trace ++ configure_calls s ∧
    ((sfwreporting_stm_set_state s .CONFIGURE).rpt.rpt_datarate_cancellable ≠ none ↔
      dbl_ne s.rpt.rpt_datarate_requested DEFAULT_DATARATE = true) ∧
    ((sfwreporting_stm_set_state s .CONFIGURE).rpt.rpt_override_cancellable ≠ none ↔
      s.rpt.rpt_override_requested ≠ b2i DEFAULT_OVERRIDE) := by
  obtain ⟨k1, _, _, _, _, _, k7, k8, _⟩ :=
    rpt_set_state_fields s .CONFIGURE (by rw [hs]; decide) (by rw [hs]; decide)
  refine ⟨k1, ?_, ?_, ?_⟩
  · unfold sfwreporting_stm_set_state configure_calls
    rw [if_neg (by rw [hs]; decide), if_pos (by rw [hs]; decide)]
    simp only []
    rw [rpt_later_trace]
    by_cases c1 : dbl_ne s.rpt.rpt_datarate_requested DEFAULT_DATARATE = true <;>
    by_cases c2 : s.rpt.rpt_override_requested = b2i DEFAULT_OVERRIDE <;>
    simp [sfwreporting_stm_leave_state, sfwreporting_stm_enter_state,
      sfwreporting_stm_cancel_enable, sfwreporting_stm_start_datarate,
      sfwreporting_stm_start_override, sfwreporting_session_id, issue_call,
      hs, he, ho, c1, c2]
  · rw [k7, he]
    simp [hs, hd]
  · rw [k8, ho]
    simp [hs, hv]

/-- An evaluation in a fresh state keeps it fresh or enters `CONFIGURE`,
issuing `configure_calls`. -/
theorem rptfresh_eval (s : System) (hf : RptFresh s.rpt) :
    RptFresh (sfwreporting_stm_eval_state_cb s).rpt ∨
    EntersConfigure s (sfwreporting_stm_eval_state_cb s) := by
  unfold sfwreporting_stm_eval_state_cb
  simp only []
  have hc : ∀ t, EntersConfigure
      { s with rpt := { s.rpt with rpt_eval_state_id := false } } t → EntersConfigure s t :=
    fun t a => a
  have h0 : RptFresh
      ({ s with rpt := { s.rpt with rpt_eval_state_id := false } } : System).rpt :=
    RptFresh.congrF rfl rfl rfl rfl rfl hf
  have hst : ({ s with rpt := { s.rpt with rpt_eval_state_id := false } } : System).rpt.rpt_state
      = s.rpt.rpt_state := rfl
  generalize ({ s with rpt := { s.rpt with rpt_eval_state_id := false } } : System) = s0 at *
  obtain ⟨b0, b1, b2, b3, b4⟩ := h0
  have h0 : RptFresh s0.rpt := ⟨b0, b1, b2, b3, b4⟩
  rcases hf.1 with c | c | c | c | c | c <;>
    (simp only [c]
     (repeat' split) <;>
       first
       | exact Or.inl h0
       | exact Or.inl (rptfresh_set_state _ _ (by decide) h0)
       | exact Or.inr (hc _ (rpt_configure_entry s0 (hst.trans c) b1 b2 b3 b4)))

theorem rptfresh_handlers (s : System) (h : RptFresh s.rpt) :
    RptFresh (sfwreporting_stm_retry_delay_cb s).rpt ∧
    RptFresh (sfwreporting_start s).rpt ∧ RptFresh (sfwreporting_stop s).rpt ∧
    (∀ hz, RptFresh (sfwreporting_set_datarate s hz).rpt) ∧
    (∀ b, RptFresh (sfwreporting_set_override s b).rpt) ∧
    (∀ ack, RptFresh (sfwreporting_stm_enable_cb s ack).rpt) ∧
    (∀ ack, RptFresh (sfwreporting_stm_datarate_cb s ack).rpt) ∧
    (∀ ack, RptFresh (sfwreporting_stm_override_cb s ack).rpt) := by
  have k : ∀ r : SfwReportingPrivate, r.rpt_state = s.rpt.rpt_state →
      r.rpt_datarate_effective = s.rpt.rpt_datarate_effective →
      r.rpt_override_effective = s.rpt.rpt_override_effective →
      r.rpt_datarate_cancellable = s.rpt.rpt_datarate_cancellable →
      r.rpt_override_cancellable = s.rpt.rpt_override_cancellable →
      RptFresh (sfwreporting_stm_eval_state_later { s with rpt := r }).rpt :=
    fun r a b c d e => rptfresh_later _ (RptFresh.congrF a b c d e h)
  have k0 : ∀ r : SfwReportingPrivate, r.rpt_state = s.rpt.rpt_state →
      r.rpt_datarate_effective = s.rpt.rpt_datarate_effective →
      r.rpt_override_effective = s.rpt.rpt_override_effective →
      r.rpt_datarate_cancellable = s.rpt.rpt_datarate_cancellable →
      r.rpt_override_cancellable = s.rpt.rpt_override_cancellable →
      RptFresh ({ s with rpt := r } : System).rpt :=
    fun r a b c d e => RptFresh.congrF a b c d e h
  refine ⟨k _ rfl rfl rfl rfl rfl, ?_, ?_, fun hz => k _ rfl rfl rfl rfl rfl,
    fun b => k _ rfl rfl rfl rfl rfl, ?_, ?_, ?_⟩
  · unfold sfwreporting_start
    split
    · exact k _ rfl rfl rfl rfl rfl
    · exact h
  · unfold sfwreporting_stop
    split
    · exact k _ rfl rfl rfl rfl rfl
    · exact h
  · intro ack
    unfold sfwreporting_stm_enable_cb
    simp only []
    split
    · split
      · exact k _ rfl rfl rfl rfl rfl
      · exact k _ rfl rfl rfl rfl rfl
    · exact k0 _ rfl rfl rfl rfl rfl
  · intro ack
    unfold sfwreporting_stm_datarate_cb
    simp only [h.2.2.2.1, cancellable_finish]
    exact k0 _ rfl rfl rfl h.2.2.2.1.symm rfl
  · intro ack
    unfold sfwreporting_stm_override_cb
    simp only [h.2.2.2.2, cancellable_finish]
    exact k0 _ rfl rfl rfl rfl h.2.2.2.2.symm

/-- Every event keeps a fresh Reporting fresh, or enters `CONFIGURE` issuing
`configure_calls`. -/
theorem rptfresh_step (s : System) (ev : Event) (h : RptFresh s.rpt) :
    RptFresh (step s ev).rpt ∨ EntersConfigure s (step s ev) := by
  by_cases ht : ev.tier = 0
  · obtain ⟨h1, h2, h3, h4, h5, _, _, _⟩ := rptfresh_handlers s h
    have hi : ∀ l, RptFresh ({ s with inflight := l } : System).rpt := fun _ => h
    cases ev <;> simp only [Event.tier] at ht <;> simp only [step] <;>
      try (exact absurd ht (by decide))
    · exact Or.inl h2
    · exact Or.inl h3
    · exact Or.inl (h4 _)
    · exact Or.inl (h5 _)
    · split
      · exact rptfresh_eval s h
      · exact Or.inl h
    · split
      · exact Or.inl h1
      · exact Or.inl h
    · exact Or.inl (complete_cases s _ _ (fun x => RptFresh x.rpt) h
        ((rptfresh_handlers _ (hi _)).2.2.2.2.2.1 _))
    · exact Or.inl (complete_cases s _ _ (fun x => RptFresh x.rpt) h
        ((rptfresh_handlers _ (hi _)).2.2.2.2.2.2.1 _))
    · exact Or.inl (complete_cases s _ _ (fun x => RptFresh x.rpt) h
        ((rptfresh_handlers _ (hi _)).2.2.2.2.2.2.2 _))
  · exact Or.inl (step_rpt_touch s ev ht RptFresh (fun a ha => rptfresh_reset a ha) h)

/-- In a reachable state, a state change to `DISABLED` or `STOPPING` leaves
the Reporting fresh. -/
theorem rptfresh_entry (os : Os) (id : SfwSensorId) (s : System) (h : Reachable os id s)
    (st : SfwReportingState) (hst : st = .DISABLED ∨ st = .STOPPING)
    (hne : s.rpt.rpt_state ≠ st) :
    RptFresh (sfwreporting_stm_set_state s st).rpt := by
  have hnf := (rptbook_reachable os id s h).1
  have hc := (inv_reachable os id s h).2.1.2.2.2.2.2.1.1.2.1
  obtain ⟨f1, _, _, f4, f5, _, f7, f8, _⟩ := rpt_set_state_fields s st hnf hne
  have hnc : st ≠ .CONFIGURE := by
    rcases hst with c | c <;> rw [c] <;> decide
  refine ⟨?_, ?_, ?_, ?_, ?_⟩
  · rw [f1]
    rcases hst with c | c
    · exact Or.inl c
    · exact Or.inr (Or.inr (Or.inr (Or.inl c)))
  · rw [f4, if_pos hst]
  · rw [f5, if_pos hst]
  · by_contra c
    rcases f7.mp c with c1 | c1
    · exact hnc c1.1
    · exact c1.2 (hc c1.1).1
  · by_contra c
    rcases f8.mp c with c1 | c1
    · exact hnc c1.1
    · exact c1.2 (hc c1.1).2

/-- C26. In a reachable state, entering `STOPPING` sets the effective
datarate to 0 and the effective override to `false`, and entering `DISABLED`
also sets the effective enable value to `false`; the wanted values are kept,
and the Reporting is then fresh: effective datarate and override at their
defaults, no `setDataRate` or `setStandbyOverride` call pending.  Every event
in a fresh state either keeps the Reporting fresh or enters `CONFIGURE`, and
that entry issues `setDataRate` exactly if the requested datarate differs
from 0 and `setStandbyOverride` exactly if the requested override is not
`false`. -/
theorem effective_reset (os : Os) (id : SfwSensorId) (s : System) (h : Reachable os id s)
    (ev : Event) :
    (s.rpt.rpt_state ≠ .STOPPING →
      (sfwreporting_stm_set_state s .STOPPING).rpt.rpt_datarate_effective = DEFAULT_DATARATE ∧
      (sfwreporting_stm_set_state s .STOPPING).rpt.rpt_override_effective
        = b2i DEFAULT_OVERRIDE ∧
      ((sfwreporting_stm_set_state s .STOPPING).rpt.rpt_enable_wanted = s.rpt.rpt_enable_wanted ∧
       (sfwreporting_stm_set_state s .STOPPING).rpt.rpt_datarate_wanted
         = s.rpt.rpt_datarate_wanted ∧
       (sfwreporting_stm_set_state s .STOPPING).rpt.rpt_override_wanted
         = s.rpt.rpt_override_wanted) ∧
      RptFresh (sfwreporting_stm_set_state s .STOPPING).rpt) ∧
    (s.rpt.rpt_state ≠ .DISABLED →
      (sfwreporting_stm_set_state s .DISABLED).rpt.rpt_enable_effective = b2i ENABLE_DEFAULT ∧
      (sfwreporting_stm_set_state s .DISABLED).rpt.rpt_datarate_effective = DEFAULT_DATARATE ∧
      (sfwreporting_stm_set_state s .DISABLED).rpt.rpt_override_effective
        = b2i DEFAULT_OVERRIDE ∧
      ((sfwreporting_stm_set_state s .DISABLED).rpt.rpt_enable_wanted = s.rpt.rpt_enable_wanted ∧
       (sfwreporting_stm_set_state s .DISABLED).rpt.rpt_datarate_wanted
         = s.rpt.rpt_datarate_wanted ∧
       (sfwreporting_stm_set_state s .DISABLED).rpt.rpt_override_wanted
         = s.rpt.rpt_override_wanted) ∧
      RptFresh (sfwreporting_stm_set_state s .DISABLED).rpt) ∧
    (RptFresh s.rpt → RptFresh (step s ev).rpt ∨ EntersConfigure s (step s ev)) := by
  have hnf := (rptbook_reachable os id s h).1
  refine ⟨?_, ?_, rptfresh_step s ev⟩
  · intro hne
    have k := rptfresh_entry os id s h .STOPPING (Or.inr rfl) hne
    exact ⟨k.2.1, k.2.2.1, (rpt_set_state_fields s .STOPPING hnf hne).2.1, k⟩
  · intro hne
    have k := rptfresh_entry os id s h .DISABLED (Or.inl rfl) hne
    have f := rpt_set_state_fields s .DISABLED hnf hne
    exact ⟨f.2.2.2.2.2.1 rfl, k.2.1, k.2.2.1, f.2.1, k⟩

set_option maxRecDepth 100000 in
/-- C26 on the stop and start cycle `restart_events`: before the stop the
effective datarate is 10.0 and the override is on; entering `STOPPING` resets
both, and the evaluation that enters `CONFIGURE` after the restart issues
`setDataRate(10.0)` and `setStandbyOverride(true)` again. -/
theorem effective_reset_witness :
    (proximity_run (restart_events.take 34)).rpt.rpt_datarate_effective = DBL_10 ∧
    (sfwreporting_stm_set_state (proximity_run (restart_events.take 34)) .STOPPING).rpt.rpt_datarate_effective
      = DEFAULT_DATARATE ∧
    (sfwreporting_stm_set_state (proximity_run (restart_events.take 34)) .DISABLED).rpt.rpt_enable_effective
      = 0 ∧
    RptFresh (proximity_run (restart_events.take 41)).rpt ∧
    (step (proximity_run (restart_events.take 41)) .rpt_eval).rpt.rpt_state = .CONFIGURE ∧
    (step (proximity_run (restart_events.take 41)) .rpt_eval).trace
      = (proximity_run (restart_events.take 41)).trace ++
          [.call_set_datarate 42 DBL_10, .call_set_override 42 true] :=
  have a := effective_reset example_os SFW_SENSOR_ID_PROXIMITY
    (proximity_run (restart_events.take 34))
    (reachable_run example_os SFW_SENSOR_ID_PROXIMITY (restart_events.take 34)) .rpt_eval
  have hf : RptFresh (proximity_run (restart_events.take 41)).rpt :=
    ⟨by decide, by decide, by decide, by decide, by decide⟩
  have b := (effective_reset example_os SFW_SENSOR_ID_PROXIMITY
    (proximity_run (restart_events.take 41))
    (reachable_run example_os SFW_SENSOR_ID_PROXIMITY (restart_events.take 41)) .rpt_eval).2.2 hf
  have hn : ¬ RptFresh (step (proximity_run (restart_events.take 41)) .rpt_eval).rpt :=
    fun c => absurd c.1 (by decide)
  have e := b.resolve_left hn
  ⟨by decide, (a.1 (by decide)).1, (a.2.1 (by decide)).1, hf, e.1, e.2.1.trans rfl⟩

theorem lookup_filter_ne {β : Type} (k key : String) (l : List (String × β)) (h : k ≠ key) :
    (l.filter (fun kv => kv.1 != key)).lookup k = l.lookup k := by
  induction l with
  | nil => rfl
  | cons a t ih =>
    obtain ⟨a1, a2⟩ := a
    by_cases c : a1 = key
    · have hk : (k == key) = false := beq_false_of_ne h
      simp only [List.filter, c, bne_self_eq_false, List.lookup, hk]
      exact ih
    · have hc : (a1 != key) = true := bne_iff_ne.mpr c
      simp only [List.filter, hc, List.lookup]
      rw [ih]

/-- One property update stores the value under its key and keeps every other
key. -/
theorem update_property_lookup (s : System) (key : String) (val : GVariant) (k : String) :
    (sfwsensor_stm_update_property s key val).sns.sns_properties.lookup k
      = (if k = key then some val else s.sns.sns_properties.lookup k) := by
  unfold sfwsensor_stm_update_property
  by_cases hk : k = key
  · rw [if_pos hk]
    split
    · simp [List.lookup, hk]
    · rename_i c
      rw [hk]
      exact not_not.mp c
  · rw [if_neg hk]
    split
    · simp only [List.lookup, beq_false_of_ne hk]
      exact lookup_filter_ne k key _ hk
    · rfl

/-- Updates for other keys keep the value stored under a key. -/
theorem update_properties_keep (l : List (String × GVariant)) (k : String) :
    ∀ s : System, k ∉ l.map Prod.fst →
    (l.foldl (fun s kv => sfwsensor_stm_update_property s kv.1 kv.2) s).sns.sns_properties.lookup k
      = s.sns.sns_properties.lookup k := by
  induction l with
  | nil => intro s _; rfl
  | cons a t ih =>
    intro s hk
    rw [List.foldl_cons, ih _ (fun c => hk (List.mem_cons_of_mem _ c)), update_property_lookup,
      if_neg (fun c => hk (by rw [c]; exact List.mem_cons_self _ _))]

/-- After a list of updates, the last value given for a key is stored. -/
theorem update_properties_store (l1 l2 : List (String × GVariant)) (k : String) (v : GVariant)
    (s : System) (hk : k ∉ l2.map Prod.fst) :
    ((l1 ++ (k, v) :: l2).foldl
      (fun s kv => sfwsensor_stm_update_property s kv.1 kv.2) s).sns.sns_properties.lookup k
      = some v := by
  rw [List.foldl_append, List.foldl_cons, update_properties_keep l2 k _ hk,
    update_property_lookup, if_pos rfl]

/-- What the completion of `GetAll` does while the handle is held. -/
theorem sns_get_properties_done_fields (s : System) (rsp : Option (List (String × GVariant)))
    (hh : s.sns.sns_get_properties_cancellable ≠ none) :
    (sfwsensor_stm_get_properties_cb s rsp).sns
      = { s.sns with
          sns_get_properties_cancellable := none
          sns_properties :=
            (match rsp with
             | some array =>
               (array.foldl (fun s kv => sfwsensor_stm_update_property s kv.1 kv.2)
                 s).sns.sns_properties
             | none => s.sns.sns_properties)
          sns_eval_state_id := (if s.sns.sns_state = .FINAL then false else true) } := by
  have e : s.sns.sns_get_properties_cancellable.isSome = true := by
    cases hc : s.sns.sns_get_properties_cancellable with
    | none => exact absurd hc hh
    | some _ => rfl
  have p : ∀ (l : List (String × GVariant)) (a b : System),
      a.sns.sns_properties = b.sns.sns_properties →
      (l.foldl (fun s kv => sfwsensor_stm_update_property s kv.1 kv.2) a).sns.sns_properties
        = (l.foldl (fun s kv => sfwsensor_stm_update_property s kv.1 kv.2) b).sns.sns_properties := by
    intro l
    induction l with
    | nil => intro a b hab; exact hab
    | cons x t ih =>
      intro a b hab
      rw [List.foldl_cons, List.foldl_cons]
      apply ih
      unfold sfwsensor_stm_update_property
      rw [hab]
      split <;> simp [hab]
  unfold sfwsensor_stm_get_properties_cb
  simp only [cancellable_finish, e, if_true]
  rw [(sns_later_fields _).1]
  cases rsp with
  | none => rfl
  | some array =>
    simp only []
    rw [(update_properties_fields array _).1]
    simp only []
    congr 1
    exact p array _ s rfl

/-- An evaluation in `PROPERTIES` with no `GetAll` call pending enters
`CONNECT` and keeps the property map. -/
theorem sns_eval_properties (t : System) (hs : t.sns.sns_state = .PROPERTIES)
    (hd : t.sns.sns_get_properties_cancellable = none) :
    (sfwsensor_stm_eval_state_cb t).sns.sns_state = .CONNECT ∧
    (sfwsensor_stm_eval_state_cb t).sns.sns_properties = t.sns.sns_properties := by
  have k := sns_set_state_fields
    { t with sns := { t.sns with sns_eval_state_id := false } } .CONNECT
    (by simp [hs]) (by simp [hs])
  have e : sfwsensor_stm_eval_state_cb t = sfwsensor_stm_set_state
      { t with sns := { t.sns with sns_eval_state_id := false } } .CONNECT := by
    unfold sfwsensor_stm_eval_state_cb
    simp [hs, hd, sfwsensor_stm_pending_get_properties]
  rw [e]
  exact ⟨k.1, k.2.2.2.1⟩

set_option maxRecDepth 100000 in
/-- C16, the deviation: on the proximity example the Sensor is in `PROPERTIES`
holding the handle of its `GetAll` call; the call fails, and the evaluation
that follows moves the Sensor to `CONNECT`, not to `FAILED`. -/
theorem properties_failure_proceeds :
    (proximity_run (properties_failed_events.take 10)).sns.sns_state = .PROPERTIES ∧
    (proximity_run (properties_failed_events.take 10)).sns.sns_get_properties_cancellable
      ≠ none ∧
    properties_failed_events.drop 10 = [.get_properties_done none, .sns_eval] ∧
    (proximity_run properties_failed_events).sns.sns_state = .CONNECT ∧
    (proximity_run properties_failed_events).sns.sns_state ≠ .FAILED :=
  ⟨by decide, by decide, rfl, by decide, by decide⟩

/-- C16, as the code behaves.  When the `GetAll` call completes while the
Sensor is in `PROPERTIES` and holds its handle, the handle is released and an
evaluation is scheduled, and that evaluation moves the Sensor to `CONNECT`
with the property map as the completion left it, whether the call returned a
map or failed.  A failed call leaves the property map unchanged.  A returned
map is stored: for every key the last value returned for it is in the
property map, and keys that were not returned keep their value. -/
theorem properties_outcome (s : System) (rsp : Option (List (String × GVariant)))
    (hs : s.sns.sns_state = .PROPERTIES) (hh : s.sns.sns_get_properties_cancellable ≠ none) :
    ((sfwsensor_stm_get_properties_cb s rsp).sns.sns_state = .PROPERTIES ∧
     (sfwsensor_stm_get_properties_cb s rsp).sns.sns_get_properties_cancellable = none ∧
     (sfwsensor_stm_get_properties_cb s rsp).sns.sns_eval_state_id = true) ∧
    ((sfwsensor_stm_eval_state_cb (sfwsensor_stm_get_properties_cb s rsp)).sns.sns_state
       = .CONNECT ∧
     (sfwsensor_stm_eval_state_cb (sfwsensor_stm_get_properties_cb s rsp)).sns.sns_properties
       = (sfwsensor_stm_get_properties_cb s rsp).sns.sns_properties) ∧
    (rsp = none →
      (sfwsensor_stm_get_properties_cb s rsp).sns.sns_properties = s.sns.sns_properties) ∧
    (∀ l1 k v l2, rsp = some (l1 ++ (k, v) :: l2) → k ∉ l2.map Prod.fst →
      (sfwsensor_stm_get_properties_cb s rsp).sns.sns_properties.lookup k = some v) ∧
    (∀ array k, rsp = some array → k ∉ array.map Prod.fst →
      (sfwsensor_stm_get_properties_cb s rsp).sns.sns_properties.lookup k
        = s.sns.sns_properties.lookup k) := by
  have f := sns_get_properties_done_fields s rsp hh
  have e := sns_eval_properties (sfwsensor_stm_get_properties_cb s rsp)
    (by rw [f]; exact hs) (by rw [f])
  refine ⟨⟨by rw [f]; exact hs, by rw [f], by rw [f]; simp [hs]⟩, e, ?_, ?_, ?_⟩
  · intro hr
    rw [f, hr]
  · intro l1 k v l2 hr hk
    rw [f, hr]
    exact update_properties_store l1 l2 k v s hk
  · intro array k hr hk
    rw [f, hr]
    exact update_properties_keep array k s hk

set_option maxRecDepth 100000 in
/-- C16 on the proximity example in `PROPERTIES`: a failed `GetAll` and one
that returns a map both lead to `CONNECT`, and the returned entry is
stored. -/
theorem properties_outcome_witness :
    (proximity_run (properties_failed_events.take 10)).sns.sns_state = .PROPERTIES ∧
    (sfwsensor_stm_eval_state_cb (sfwsensor_stm_get_properties_cb
      (proximity_run (properties_failed_events.take 10)) none)).sns.sns_state = .CONNECT ∧
    (sfwsensor_stm_get_properties_cb
      (proximity_run (properties_failed_events.take 10)) none).sns.sns_properties
      = (proximity_run (properties_failed_events.take 10)).sns.sns_properties ∧
    (sfwsensor_stm_eval_state_cb (sfwsensor_stm_get_properties_cb
      (proximity_run (properties_failed_events.take 10))
      (some [("interval", "100")]))).sns.sns_state = .CONNECT ∧
    (sfwsensor_stm_get_properties_cb
      (proximity_run (properties_failed_events.take 10))
      (some [("interval", "100")])).sns.sns_properties.lookup "interval" = some "100" :=
  have hs : (proximity_run (properties_failed_events.take 10)).sns.sns_state = .PROPERTIES := by
    decide
  have hh : (proximity_run (properties_failed_events.take 10)).sns.sns_get_properties_cancellable
      ≠ none := by decide
  have a := properties_outcome (proximity_run (properties_failed_events.take 10)) none hs hh
  have b := properties_outcome (proximity_run (properties_failed_events.take 10))
    (some [("interval", "100")]) hs hh
  ⟨hs, a.2.1.1, a.2.2.1 rfl, b.2.1.1,
    b.2.2.2.1 [] "interval" "100" [] rfl (by simp)⟩

/-- The level remap as a function of the stored value, applied once and
twice. -/
theorem normalize_level_twice_value (m : Mem) (p : Nat) :
    to_i32 (mem_rd (sfwreading_normalize_level (sfwreading_normalize_level m p) p) p 4)
      = (if to_i32 (mem_rd m p 4) ≤ 0 then 0 else 100) := by
  rw [normalize_level_value, normalize_level_value]
  generalize to_i32 (mem_rd m p 4) = level
  by_cases h0 : level ≤ 0
  · simp [h0]
  · by_cases h3 : level ≥ 3
    · simp [h0, h3]
    · have h12 : level = 1 ∨ level = 2 := by omega
      rcases h12 with h | h <;> subst h <;> decide

theorem normalize_level_mono (a b : Int) (h : a ≤ b) :
    (if a ≤ 0 then (0 : Int) else if a ≥ 3 then 100 else a * 100 / 3)
      ≤ (if b ≤ 0 then (0 : Int) else if b ≥ 3 then 100 else b * 100 / 3) := by
  by_cases a0 : a ≤ 0
  · rw [if_pos a0]
    exact (normalize_level_range b).1
  · by_cases a3 : a ≥ 3
    · rw [if_neg a0, if_pos a3, if_neg (by omega), if_pos (by omega)]
    · rw [if_neg a0, if_neg a3, if_neg (by omega)]
      by_cases b3 : b ≥ 3
      · rw [if_pos b3]
        have h12 : a = 1 ∨ a = 2 := by omega
        rcases h12 with h | h <;> subst h <;> decide
      · rw [if_neg b3]
        have ha : a = 1 ∨ a = 2 := by omega
        have hb : b = 1 ∨ b = 2 := by omega
        rcases ha with h1 | h1 <;> rcases hb with h2 | h2 <;> subst h1 <;> subst h2 <;>
          first | decide | omega

/-- C30. For the `int32_t` level stored in a sample, applying the compass and
magnetometer level remap twice gives the same value as applying it once
exactly if the level is neither 1 nor 2: these become 33 and 66, and a second
pass turns both into 100.  The remap is monotone in the level.  So
`sfwreading_normalize` is not idempotent: there are a magnetometer and a
compass reading on which a second call changes the result of the first. -/
theorem level_remap_twice (abi : Abi) (m m2 : Mem) (p : Nat) :
    (to_i32 (mem_rd (sfwreading_normalize_level (sfwreading_normalize_level m p) p) p 4)
        = to_i32 (mem_rd (sfwreading_normalize_level m p) p 4) ↔
      to_i32 (mem_rd m p 4) ≠ 1 ∧ to_i32 (mem_rd m p 4) ≠ 2) ∧
    (to_i32 (mem_rd m p 4) = 1 →
      to_i32 (mem_rd (sfwreading_normalize_level m p) p 4) = 33 ∧
      to_i32 (mem_rd (sfwreading_normalize_level (sfwreading_normalize_level m p) p) p 4)
        = 100) ∧
    (to_i32 (mem_rd m p 4) = 2 →
      to_i32 (mem_rd (sfwreading_normalize_level m p) p 4) = 66 ∧
      to_i32 (mem_rd (sfwreading_normalize_level (sfwreading_normalize_level m p) p) p 4)
        = 100) ∧
    (to_i32 (mem_rd m p 4) ≤ to_i32 (mem_rd m2 p 4) →
      to_i32 (mem_rd (sfwreading_normalize_level m p) p 4)
        ≤ to_i32 (mem_rd (sfwreading_normalize_level m2 p) p 4)) ∧
    (∃ r : SfwReading, r.sensor_id = SFW_SENSOR_ID_MAGNETOMETER ∧
      sfwreading_normalize abi (sfwreading_normalize abi r) ≠ sfwreading_normalize abi r) ∧
    (∃ r : SfwReading, r.sensor_id = SFW_SENSOR_ID_COMPASS ∧
      sfwreading_normalize abi (sfwreading_normalize abi r) ≠ sfwreading_normalize abi r) := by
  refine ⟨?_, ?_, ?_, ?_, ?_, ?_⟩
  · rw [normalize_level_twice_value, normalize_level_value]
    generalize to_i32 (mem_rd m p 4) = level
    by_cases h0 : level ≤ 0
    · simp only [h0, if_true, true_iff]
      omega
    · by_cases h3 : level ≥ 3
      · simp only [h0, h3, if_true, if_false, true_iff]
        omega
      · have h12 : level = 1 ∨ level = 2 := by omega
        rcases h12 with h | h <;> subst h <;> decide
  · intro h
    rw [normalize_level_twice_value, normalize_level_value, h]
    decide
  · intro h
    rw [normalize_level_twice_value, normalize_level_value, h]
    decide
  · intro h
    rw [normalize_level_value, normalize_level_value]
    exact normalize_level_mono _ _ h
  · refine ⟨⟨SFW_SENSOR_ID_MAGNETOMETER, mem_wr (fun _ => 0) 32 4 1⟩, rfl, ?_⟩
    rw [normalize_magnetometer, normalize_magnetometer]
    intro c
    have c1 := congrArg (fun r : SfwReading => to_i32 (mem_rd r.sample 32 4)) c
    simp only [] at c1
    rw [normalize_level_twice_value, normalize_level_value, mem_rd_wr_same] at c1
    revert c1
    decide
  · refine ⟨⟨SFW_SENSOR_ID_COMPASS, mem_wr (fun _ => 0) 20 4 1⟩, rfl, ?_⟩
    rw [normalize_compass, normalize_compass]
    intro c
    have c1 := congrArg (fun r : SfwReading => to_i32 (mem_rd r.sample 20 4)) c
    simp only [] at c1
    rw [normalize_level_twice_value, normalize_level_value, mem_rd_wr_same] at c1
    revert c1
    decide

/-- C30 at concrete samples: the level 1 becomes 33 and then 100, the level 2
becomes 66, and the order of the levels 1 and 2 is kept. -/
theorem level_remap_twice_witness :
    to_i32 (mem_rd (sfwreading_normalize_level (mem_wr (fun _ => 0) 32 4 1) 32) 32 4) = 33 ∧
    to_i32 (mem_rd (sfwreading_normalize_level
      (sfwreading_normalize_level (mem_wr (fun _ => 0) 32 4 1) 32) 32) 32 4) = 100 ∧
    to_i32 (mem_rd (sfwreading_normalize_level (mem_wr (fun _ => 0) 32 4 2) 32) 32 4) = 66 ∧
    to_i32 (mem_rd (sfwreading_normalize_level (mem_wr (fun _ => 0) 32 4 1) 32) 32 4)
      ≤ to_i32 (mem_rd (sfwreading_normalize_level (mem_wr (fun _ => 0) 32 4 2) 32) 32 4) :=
  have h1 : to_i32 (mem_rd (mem_wr (fun _ => 0) 32 4 1) 32 4) = 1 := by
    rw [mem_rd_wr_same]
    decide
  have h2 : to_i32 (mem_rd (mem_wr (fun _ => 0) 32 4 2) 32 4) = 2 := by
    rw [mem_rd_wr_same]
    decide
  have a := level_remap_twice Abi.natural (mem_wr (fun _ => 0) 32 4 1)
    (mem_wr (fun _ => 0) 32 4 2) 32
  have b := level_remap_twice Abi.natural (mem_wr (fun _ => 0) 32 4 2)
    (mem_wr (fun _ => 0) 32 4 2) 32
  ⟨(a.2.1 h1).1, (a.2.1 h1).2, (b.2.2.1 h2).1, a.2.2.2.1 (by rw [h1, h2]; decide)⟩

theorem sensorid_valid_iff (id : Int) :
    sfwsensorid_is_valid id = true ↔ 1 ≤ id ∧ id ≤ 14 := by
  constructor
  · intro h
    simp [sfwsensorid_is_valid] at h
    have h' : (0 : Int) < id ∧ id < 15 := h
    omega
  · intro h
    have h' : (0 : Int) < id ∧ id < 15 := by omega
    simp only [sfwsensorid_is_valid, Bool.and_eq_true, decide_eq_true_eq]
    exact h'

theorem sensorid_invalid_none (abi : Abi) (id : SfwSensorId)
    (h : sfwsensorid_is_valid id = false) :
    sfwsensorid_name abi id = none ∧ sfwsensorid_object abi id = none ∧
    sfwsensorid_interface abi id = none ∧ sfwsensorid_sample_size abi id = 0 := by
  simp [sfwsensorid_name, sfwsensorid_object, sfwsensorid_interface, sfwsensorid_sample_size,
    sfwsensorid_info, h]

/-- C21. `sfwsensorid_is_valid` holds exactly for the ids 1 to 14.  The names
of these ids, in order, are the fourteen names from `proximitysensor` to
`temperaturesensor`, which are pairwise distinct; for every id the object path
is `/SensorManager/` followed by the name, and for a valid id the name is not
`NULL`.  For every other id the name, the object path and the interface are
`NULL` and the sample size is 0. -/
theorem sensorid_names (abi : Abi) (id : SfwSensorId) :
    (sfwsensorid_is_valid id = true ↔ 1 ≤ id ∧ id ≤ 14) ∧
    (List.range 14).map (fun i => sfwsensorid_name abi ((i : Int) + 1))
      = [some "proximitysensor", some "alssensor", some "orientationsensor",
         some "accelerometersensor", some "compasssensor", some "gyroscopesensor",
         some "lidsensor", some "humiditysensor", some "magnetometersensor",
         some "pressuresensor", some "rotationsensor", some "stepcountersensor",
         some "tapsensor", some "temperaturesensor"] ∧
    ((List.range 14).map (fun i => sfwsensorid_name abi ((i : Int) + 1))).Nodup ∧
    sfwsensorid_object abi id
      = (sfwsensorid_name abi id).map (fun n => "/SensorManager/" ++ n) ∧
    (sfwsensorid_is_valid id = true → (sfwsensorid_name abi id).isSome = true) ∧
    (sfwsensorid_is_valid id = false →
      sfwsensorid_name abi id = none ∧ sfwsensorid_object abi id = none ∧
      sfwsensorid_interface abi id = none ∧ sfwsensorid_sample_size abi id = 0) := by
  have hl : (List.range 14).map (fun i => sfwsensorid_name abi ((i : Int) + 1))
      = [some "proximitysensor", some "alssensor", some "orientationsensor",
         some "accelerometersensor", some "compasssensor", some "gyroscopesensor",
         some "lidsensor", some "humiditysensor", some "magnetometersensor",
         some "pressuresensor", some "rotationsensor", some "stepcountersensor",
         some "tapsensor", some "temperaturesensor"] := by
    cases abi <;> rfl
  refine ⟨?_, hl, ?_, ?_, ?_, sensorid_invalid_none abi id⟩
  · exact sensorid_valid_iff id
  · rw [hl]
    decide
  · cases hv : sfwsensorid_is_valid id with
    | false =>
      obtain ⟨a, b, _⟩ := sensorid_invalid_none abi id hv
      rw [a, b]
      rfl
    | true =>
      rcases sensorid_valid_cases id hv with h | h | h | h | h | h | h | h | h | h | h | h | h | h <;>
        subst h <;> cases abi <;> decide
  · intro hv
    rcases sensorid_valid_cases id hv with h | h | h | h | h | h | h | h | h | h | h | h | h | h <;>
      subst h <;> rfl

/-- C21 at the ids 5, 0 and 15: the compass has its name and object path, the
invalid id and the count value have none. -/
theorem sensorid_names_witness :
    sfwsensorid_is_valid 5 = true ∧
    (sfwsensorid_name Abi.natural 5).isSome = true ∧
    sfwsensorid_object Abi.natural 5 = some "/SensorManager/compasssensor" ∧
    sfwsensorid_name Abi.natural SFW_SENSOR_ID_INVALID = none ∧
    sfwsensorid_object Abi.natural SFW_SENSOR_ID_COUNT = none ∧
    sfwsensorid_sample_size Abi.natural SFW_SENSOR_ID_COUNT = 0 :=
  have a := sensorid_names Abi.natural 5
  have b := sensorid_names Abi.natural SFW_SENSOR_ID_INVALID
  have c := sensorid_names Abi.natural SFW_SENSOR_ID_COUNT
  ⟨a.1.mpr (by decide), a.2.2.2.2.1 (a.1.mpr (by decide)), a.2.2.2.1.trans (by decide),
    (b.2.2.2.2.2 (by decide)).1, (c.2.2.2.2.2 (by decide)).2.1,
    (c.2.2.2.2.2 (by decide)).2.2.2⟩

theorem RptFinal.congrRF {a b : SfwReportingPrivate} (h1 : b.rpt_state = a.rpt_state)
    (h2 : b.rpt_eval_state_id = a.rpt_eval_state_id) (h3 : b.rpt_valid = a.rpt_valid)
    (h4 : b.rpt_active = a.rpt_active) (h : RptFinal a) : RptFinal b := by
  unfold RptFinal at *
  rw [h1, h2, h3, h4]
  exact h

/-- In `FINAL` a scheduling request leaves no evaluation scheduled. -/
theorem rptfinal_later (s : System) (h1 : s.rpt.rpt_state = .FINAL)
    (h3 : s.rpt.rpt_valid = false) (h4 : s.rpt.rpt_active = false) :
    RptFinal (sfwreporting_stm_eval_state_later s).rpt := by
  rw [rpt_later_fields]
  exact ⟨h1, by simp [h1], h3, h4⟩

/-- In `FINAL` a state request is ignored. -/
theorem rpt_set_state_final (s : System) (st : SfwReportingState)
    (h : s.rpt.rpt_state = .FINAL) : sfwreporting_stm_set_state s st = s := by
  unfold sfwreporting_stm_set_state
  rw [if_pos h]

theorem rptfinal_reset (s : System) (h : RptFinal s.rpt) :
    RptFinal (sfwreporting_stm_reset_state s).rpt := by
  unfold sfwreporting_stm_reset_state
  rw [rpt_set_state_final s _ h.1]
  exact rptfinal_later s h.1 h.2.2.1 h.2.2.2

theorem rptfinal_eval (s : System) (h : RptFinal s.rpt) :
    RptFinal (sfwreporting_stm_eval_state_cb s).rpt := by
  unfold sfwreporting_stm_eval_state_cb
  simp only [h.1]
  exact ⟨rfl, rfl, h.2.2.1, h.2.2.2⟩

theorem rptfinal_handlers (s : System) (h : RptFinal s.rpt) :
    RptFinal (sfwreporting_stm_retry_delay_cb s).rpt ∧
    RptFinal (sfwreporting_start s).rpt ∧ RptFinal (sfwreporting_stop s).rpt ∧
    (∀ hz, RptFinal (sfwreporting_set_datarate s hz).rpt) ∧
    (∀ b, RptFinal (sfwreporting_set_override s b).rpt) ∧
    (∀ ack, RptFinal (sfwreporting_stm_enable_cb s ack).rpt) ∧
    (∀ ack, RptFinal (sfwreporting_stm_datarate_cb s ack).rpt) ∧
    (∀ ack, RptFinal (sfwreporting_stm_override_cb s ack).rpt) := by
  have k : ∀ r : SfwReportingPrivate, r.rpt_state = s.rpt.rpt_state →
      r.rpt_valid = s.rpt.rpt_valid → r.rpt_active = s.rpt.rpt_active →
      RptFinal (sfwreporting_stm_eval_state_later { s with rpt := r }).rpt :=
    fun r a b c => rptfinal_later _ (a.trans h.1) (b.trans h.2.2.1) (c.trans h.2.2.2)
  have k0 : ∀ r : SfwReportingPrivate, r.rpt_state = s.rpt.rpt_state →
      r.rpt_eval_state_id = s.rpt.rpt_eval_state_id →
      r.rpt_valid = s.rpt.rpt_valid → r.rpt_active = s.rpt.rpt_active →
      RptFinal ({ s with rpt := r } : System).rpt :=
    fun r a b c d => RptFinal.congrRF a b c d h
  refine ⟨k _ rfl rfl rfl, ?_, ?_, fun hz => k _ rfl rfl rfl, fun b => k _ rfl rfl rfl,
    ?_, ?_, ?_⟩
  · unfold sfwreporting_start
    split
    · exact k _ rfl rfl rfl
    · exact h
  · unfold sfwreporting_stop
    split
    · exact k _ rfl rfl rfl
    · exact h
  · intro ack
    unfold sfwreporting_stm_enable_cb
    simp only []
    split
    · split
      · exact k _ rfl rfl rfl
      · exact k _ rfl rfl rfl
    · exact k0 _ rfl rfl rfl rfl
  · intro ack
    unfold sfwreporting_stm_datarate_cb
    simp only []
    split
    · split
      · exact k _ rfl rfl rfl
      · exact k _ rfl rfl rfl
    · exact k0 _ rfl rfl rfl rfl
  · intro ack
    unfold sfwreporting_stm_override_cb
    simp only []
    split
    · exact k _ rfl rfl rfl
    · exact k0 _ rfl rfl rfl rfl

/-- Every event keeps a finalized Reporting finalized. -/
theorem rptfinal_step (s : System) (ev : Event) (h : RptFinal s.rpt) :
    RptFinal (step s ev).rpt := by
  by_cases ht : ev.tier = 0
  · obtain ⟨h1, h2, h3, h4, h5, _, _, _⟩ := rptfinal_handlers s h
    have hi : ∀ l, RptFinal ({ s with inflight := l } : System).rpt := fun _ => h
    cases ev <;> simp only [Event.tier] at ht <;> simp only [step] <;>
      try (exact absurd ht (by decide))
    · exact h2
    · exact h3
    · exact h4 _
    · exact h5 _
    · split
      · exact rptfinal_eval s h
      · exact h
    · split
      · exact h1
      · exact h
    · exact complete_cases s _ _ (fun x => RptFinal x.rpt) h
        ((rptfinal_handlers _ (hi _)).2.2.2.2.2.1 _)
    · exact complete_cases s _ _ (fun x => RptFinal x.rpt) h
        ((rptfinal_handlers _ (hi _)).2.2.2.2.2.2.1 _)
    · exact complete_cases s _ _ (fun x => RptFinal x.rpt) h
        ((rptfinal_handlers _ (hi _)).2.2.2.2.2.2.2 _)
  · exact step_rpt_touch s ev ht RptFinal (fun a ha => rptfinal_reset a ha) h

theorem SnsFinal.congrSF {a b : SfwSensorPrivate} (h1 : b.sns_state = a.sns_state)
    (h2 : b.sns_eval_state_id = a.sns_eval_state_id) (h3 : b.sns_valid = a.sns_valid)
    (h : SnsFinal a) : SnsFinal b := by
  unfold SnsFinal at *
  rw [h1, h2, h3]
  exact h

theorem snsfinal_later (s : System) (h1 : s.sns.sns_state = .FINAL)
    (h3 : s.sns.sns_valid = false) : SnsFinal (sfwsensor_stm_eval_state_later s).sns := by
  rw [(sns_later_fields s).1]
  exact ⟨h1, by simp [h1], h3⟩

/-- In `FINAL` a state request is ignored. -/
theorem sns_set_state_final (s : System) (st : SfwSensorState)
    (h : s.sns.sns_state = .FINAL) : sfwsensor_stm_set_state s st = s := by
  unfold sfwsensor_stm_set_state
  rw [if_pos h]

theorem snsfinal_reset (s : System) (h : SnsFinal s.sns) :
    SnsFinal (sfwsensor_stm_reset_state s).sns := by
  unfold sfwsensor_stm_reset_state
  rw [sns_set_state_final s _ h.1]
  exact snsfinal_later s h.1 h.2.2

theorem snsfinal_touch {s s' : System} (t : SnsTouch s s') (h : SnsFinal s.sns) :
    SnsFinal s'.sns :=
  t SnsFinal (fun a ha => snsfinal_reset a ha) h

theorem snsfinal_eval (s : System) (h : SnsFinal s.sns) :
    SnsFinal (sfwsensor_stm_eval_state_cb s).sns := by
  unfold sfwsensor_stm_eval_state_cb
  simp only [h.1]
  exact ⟨rfl, rfl, h.2.2⟩

theorem snsfinal_callbacks (s : System) (h : SnsFinal s.sns) :
    SnsFinal (sfwsensor_stm_retry_delay_cb s).sns ∧
    (∀ rsp, SnsFinal (sfwsensor_stm_request_session_cb s rsp).sns) ∧
    (∀ rsp, SnsFinal (sfwsensor_stm_release_session_cb s rsp).sns) ∧
    (∀ rsp, SnsFinal (sfwsensor_stm_get_properties_cb s rsp).sns) := by
  have k : ∀ x : System, x.sns.sns_state = s.sns.sns_state →
      x.sns.sns_valid = s.sns.sns_valid → SnsFinal (sfwsensor_stm_eval_state_later x).sns :=
    fun x a b => snsfinal_later _ (a.trans h.1) (b.trans h.2.2)
  refine ⟨k _ rfl rfl, ?_, ?_, ?_⟩
  · intro rsp
    unfold sfwsensor_stm_request_session_cb
    simp only []
    split
    · split
      · exact k _ rfl rfl
      · exact k _ rfl rfl
    · exact SnsFinal.congrSF rfl rfl rfl h
  · intro rsp
    unfold sfwsensor_stm_release_session_cb
    simp only []
    split
    · exact k _ rfl rfl
    · exact SnsFinal.congrSF rfl rfl rfl h
  · intro rsp
    unfold sfwsensor_stm_get_properties_cb
    simp only []
    split
    · cases rsp with
      | none => exact k _ rfl rfl
      | some array =>
        simp only []
        refine k _ ?_ ?_
        · rw [(update_properties_fields array _).1]
        · rw [(update_properties_fields array _).1]
    · exact SnsFinal.congrSF rfl rfl rfl h

theorem snsfinal_set_state (s : System) (st : SfwSensorState) (h : SnsFinal s.sns) :
    SnsFinal (sfwsensor_stm_set_state s st).sns := by
  rw [sns_set_state_final _ _ h.1]
  exact h

theorem snsfinal_fail (s : System) (x : SfwSensorPrivate) (k : Option Socket)
    (h : SnsFinal x) :
    SnsFinal (sfwsensor_stm_set_state { s with sns := x, sock := k } .FAILED).sns := by
  rw [sns_set_state_final _ _ h.1]
  exact h

theorem snsfinal_tx (s : System) (h : SnsFinal s.sns) :
    SnsFinal (sfwsensor_stm_socket_tx_cb s).1.sns := by
  have h1 : SnsFinal { s.sns with sns_socket_tx_id := false } := SnsFinal.congrSF rfl rfl rfl h
  unfold sfwsensor_stm_socket_tx_cb
  split
  · exact snsfinal_fail s _ _ h1
  · unfold sfwsensor_stm_socket_tx_handshake
    simp only []
    split
    · exact snsfinal_fail s _ _ h1
    · exact snsfinal_later _ h.1 h.2.2

theorem snsfinal_rx (s : System) (h : SnsFinal s.sns) :
    SnsFinal (sfwsensor_stm_socket_rx_cb s).1.sns := by
  have h1 : SnsFinal { s.sns with sns_socket_rx_id := false } := SnsFinal.congrSF rfl rfl rfl h
  unfold sfwsensor_stm_socket_rx_cb
  split
  · exact snsfinal_fail s _ _ h1
  · unfold sfwsensor_stm_socket_rx_handshake
    simp only []
    split
    · exact snsfinal_fail s _ _ h1
    · split
      · exact snsfinal_fail s _ _ h1
      · exact snsfinal_later _ h.1 h.2.2
  · unfold sfwsensor_stm_socket_rx_reading
    simp only []
    obtain ⟨e1, _⟩ := rx_body_fields s
    have hb : SnsFinal (sfwsensor_stm_socket_rx_reading_body s).1.sns :=
      SnsFinal.congrSF (by rw [e1]) (by rw [e1]) (by rw [e1]) h
    split
    · exact snsfinal_set_state _ _ (SnsFinal.congrSF rfl rfl rfl hb)
    · exact hb

/-- Every event keeps a finalized Sensor finalized. -/
theorem snsfinal_step (s : System) (ev : Event) (h : SnsFinal s.sns) :
    SnsFinal (step s ev).sns := by
  by_cases ht : ev.tier = 1
  · have hi : ∀ l, SnsFinal ({ s with inflight := l } : System).sns := fun _ => h
    cases ev <;> simp only [Event.tier] at ht <;> simp only [step] <;>
      try (exact absurd ht (by decide))
    · split
      · exact snsfinal_eval s h
      · exact h
    · split
      · exact (snsfinal_callbacks s h).1
      · exact h
    · exact complete_cases s _ _ (fun x => SnsFinal x.sns) h
        ((snsfinal_callbacks _ (hi _)).2.1 _)
    · exact complete_cases s _ _ (fun x => SnsFinal x.sns) h
        ((snsfinal_callbacks _ (hi _)).2.2.1 _)
    · exact complete_cases s _ _ (fun x => SnsFinal x.sns) h
        ((snsfinal_callbacks _ (hi _)).2.2.2 _)
    · split
      · exact snsfinal_tx s h
      · exact h
    · split
      · exact snsfinal_rx s h
      · exact h
  · exact snsfinal_touch (step_sns_touch s ev ht) h

/-- In `FINAL` a state request to the Service is ignored, at every nesting
depth. -/
theorem srv_set_state_n_final (n : Nat) (s : System) (st : SfwServiceState)
    (h : s.srv.srv_state = .FINAL) : sfwservice_stm_set_state_n n s st = s := by
  cases n with
  | zero => rfl
  | succ n =>
    unfold sfwservice_stm_set_state_n
    rw [if_pos h]

theorem srv_set_state_final (s : System) (st : SfwServiceState)
    (h : s.srv.srv_state = .FINAL) : sfwservice_stm_set_state s st = s :=
  srv_set_state_n_final 4 s st h

theorem SrvStill.transQ {a b c : System} (h1 : SrvStill a b) (h2 : SrvStill b c) :
    SrvStill a c :=
  ⟨h2.1.trans h1.1, h2.2.1.trans h1.2.1, h2.2.2.trans h1.2.2⟩

theorem srvstill_set_name_owner (f : System → SfwServiceState → System)
    (hf : ∀ s st, s.srv.srv_state = .FINAL → f s st = s) (s : System) (o : Option String)
    (h : s.srv.srv_state = .FINAL) : SrvStill s (sfwservice_set_name_owner f s o) := by
  unfold sfwservice_set_name_owner
  simp only []
  generalize (if o = some "" then none else o) = o1
  have k : ∀ st, SrvStill s (f { s with srv := { s.srv with srv_name_owner := o1 } } st) := by
    intro st
    have e := hf { s with srv := { s.srv with srv_name_owner := o1 } } st h
    rw [e]
    exact ⟨rfl, rfl, rfl⟩
  split
  · split
    · exact k _
    · exact k _
  · exact ⟨rfl, rfl, rfl⟩

theorem srvstill_unwatch (f : System → SfwServiceState → System)
    (hf : ∀ s st, s.srv.srv_state = .FINAL → f s st = s) (s : System)
    (h : s.srv.srv_state = .FINAL) : SrvStill s (sfwservice_unwatch_name_owner f s) := by
  unfold sfwservice_unwatch_name_owner
  split
  · exact SrvStill.transQ ⟨rfl, rfl, rfl⟩ (srvstill_set_name_owner f hf _ none h)
  · exact srvstill_set_name_owner f hf _ none h

theorem srvstill_watch (f : System → SfwServiceState → System)
    (hf : ∀ s st, s.srv.srv_state = .FINAL → f s st = s) (s : System)
    (h : s.srv.srv_state = .FINAL) : SrvStill s (sfwservice_watch_name_owner f s) := by
  unfold sfwservice_watch_name_owner
  exact SrvStill.transQ (srvstill_unwatch f hf s h) ⟨rfl, rfl, rfl⟩

theorem srvstill_set_connection (f : System → SfwServiceState → System)
    (hf : ∀ s st, s.srv.srv_state = .FINAL → f s st = s) (s : System) (con : Bool)
    (h : s.srv.srv_state = .FINAL) : SrvStill s (sfwservice_set_connection f s con) := by
  unfold sfwservice_set_connection
  split
  · simp only []
    have h1 : SrvStill s (if s.srv.srv_connection = true then
        { sfwservice_unwatch_name_owner f s with
          srv := { (sfwservice_unwatch_name_owner f s).srv with srv_connection := false } }
        else s) := by
      split
      · exact SrvStill.transQ (srvstill_unwatch f hf s h) ⟨rfl, rfl, rfl⟩
      · exact ⟨rfl, rfl, rfl⟩
    generalize (if s.srv.srv_connection = true then
        { sfwservice_unwatch_name_owner f s with
          srv := { (sfwservice_unwatch_name_owner f s).srv with srv_connection := false } }
        else s) = m at h1 ⊢
    split
    · refine SrvStill.transQ h1 (SrvStill.transQ ⟨rfl, rfl, rfl⟩ (srvstill_watch f hf _ ?_))
      exact h1.1.trans h
    · exact h1
  · exact ⟨rfl, rfl, rfl⟩

theorem srvstill_disconnect (f : System → SfwServiceState → System)
    (hf : ∀ s st, s.srv.srv_state = .FINAL → f s st = s) (s : System)
    (h : s.srv.srv_state = .FINAL) : SrvStill s (sfwservice_stm_disconnect f s) := by
  unfold sfwservice_stm_disconnect
  exact SrvStill.transQ ⟨rfl, rfl, rfl⟩ (srvstill_set_connection f hf _ false h)

theorem srv_later_fields (s : System) :
    (sfwservice_stm_eval_state_later s).srv
      = { s.srv with
          srv_eval_state_id := (if s.srv.srv_state = .FINAL then false else true) } := by
  rcases s with ⟨⟨f1, f2, f3, f4, f5, f6, f7, f8, f9, f10⟩, plg, sns, rpt, gobj, os, sock, infl,
    tr⟩
  unfold sfwservice_stm_eval_state_later sfwservice_stm_cancel_eval_state
  by_cases hf : f2 = .FINAL <;> cases f3 <;> simp [hf]

theorem srvfinal_later (s : System) (h1 : s.srv.srv_state = .FINAL)
    (h3 : s.srv.srv_valid = false) : SrvFinal (sfwservice_stm_eval_state_later s).srv := by
  rw [srv_later_fields]
  exact ⟨h1, by simp [h1], h3⟩

theorem srvfinal_still {s s' : System} (t : SrvStill s s') (h : SrvFinal s.srv) :
    SrvFinal s'.srv :=
  ⟨t.1.trans h.1, t.2.1.trans h.2.1, t.2.2.trans h.2.2⟩

/-- The Service's handlers keep a finalized Service finalized. -/
theorem srvfinal_handlers (s : System) (h : SrvFinal s.srv) :
    SrvFinal (sfwservice_stm_eval_state_cb s).srv ∧
    SrvFinal (sfwservice_stm_retry_delay_cb s).srv ∧
    (∀ con, SrvFinal (sfwservice_stm_connect_cb s con).srv) ∧
    (∀ rsp, SrvFinal (sfwservice_stm_enumerate_cb s rsp).srv) ∧
    (∀ o, SrvFinal (sfwservice_name_owner_appeared_cb s o).srv) ∧
    SrvFinal (sfwservice_name_owner_vanished_cb s).srv := by
  have hg := srv_set_state_final
  refine ⟨?_, ?_, ?_, ?_, ?_, ?_⟩
  · unfold sfwservice_stm_eval_state_cb
    simp only [h.1]
    exact ⟨rfl, rfl, h.2.2⟩
  · exact srvfinal_later _ h.1 h.2.2
  · intro con
    unfold sfwservice_stm_connect_cb
    simp only []
    split
    · exact srvfinal_still (srvstill_set_connection _ hg _ con h.1) h
    · exact h
  · intro rsp
    unfold sfwservice_stm_enumerate_cb
    simp only []
    split
    · exact srvfinal_later _ h.1 h.2.2
    · exact h
  · intro o
    unfold sfwservice_name_owner_appeared_cb
    have a := srvstill_set_name_owner _ hg s none h.1
    exact srvfinal_still
      (SrvStill.transQ a (srvstill_set_name_owner _ hg _ (some o) (a.1.trans h.1))) h
  · exact srvfinal_still (srvstill_set_name_owner _ hg s none h.1) h

/-- Every event keeps a finalized Service finalized. -/
theorem srvfinal_step (s : System) (ev : Event) (h : SrvFinal s.srv) :
    SrvFinal (step s ev).srv := by
  by_cases ht : ev.tier = 3
  · obtain ⟨h1, h2, _, _, h5, h6⟩ := srvfinal_handlers s h
    have hi : ∀ l, SrvFinal ({ s with inflight := l } : System).srv := fun _ => h
    cases ev <;> simp only [Event.tier] at ht <;> simp only [step] <;>
      try (exact absurd ht (by decide))
    · split
      · exact h1
      · exact h
    · split
      · exact h2
      · exact h
    · exact complete_cases s _ _ (fun x => SrvFinal x.srv) h
        ((srvfinal_handlers _ (hi _)).2.2.1 _)
    · exact complete_cases s _ _ (fun x => SrvFinal x.srv) h
        ((srvfinal_handlers _ (hi _)).2.2.2.1 _)
    · split
      · exact h5 _
      · exact h
    · split
      · exact h6
      · exact h
  · rw [step_srv_same s ev ht]
    exact h

/-- Finalizing the Service from a consistent state leaves it finalized. -/
theorem srv_final_entry (s : System) (hI : Inv s) (hne : s.srv.srv_state ≠ .FINAL) :
    SrvFinal (sfwservice_stm_set_state s .FINAL).srv := by
  have hv : (sfwservice_stm_set_state s .FINAL).srv.srv_valid = true →
      (sfwservice_stm_set_state s .FINAL).srv.srv_state = .READY :=
    (srv_set_state_ok s .FINAL hI).1.1
  have hs : (sfwservice_stm_set_state s .FINAL).srv.srv_state = .FINAL ∧
      (sfwservice_stm_set_state s .FINAL).srv.srv_eval_state_id = false := by
    unfold sfwservice_stm_set_state sfwservice_stm_set_state_n
    rw [if_neg hne, if_pos hne]
    simp only []
    generalize sfwservice_stm_leave_state (sfwservice_stm_set_state_n 3) s = l0
    rw [srv_later_fields]
    have e : sfwservice_stm_enter_state (sfwservice_stm_set_state_n 3)
        { l0 with srv := { l0.srv with srv_state := .FINAL } }
        = sfwservice_stm_disconnect (sfwservice_stm_set_state_n 3)
            (sfwservice_stm_cancel_enumerate
              { l0 with srv := { l0.srv with srv_state := .FINAL } }) := rfl
    rw [e]
    have d := srvstill_disconnect (sfwservice_stm_set_state_n 3) (srv_set_state_n_final 3)
      (sfwservice_stm_cancel_enumerate { l0 with srv := { l0.srv with srv_state := .FINAL } })
      rfl
    have d1 : (sfwservice_stm_disconnect (sfwservice_stm_set_state_n 3)
        (sfwservice_stm_cancel_enumerate
          { l0 with srv := { l0.srv with srv_state := .FINAL } })).srv.srv_state = .FINAL :=
      d.1
    simp only [d1, if_true]
    trivial
  refine ⟨hs.1, hs.2, ?_⟩
  cases hval : (sfwservice_stm_set_state s .FINAL).srv.srv_valid with
  | false => rfl
  | true =>
    have c := hv hval
    rw [hs.1] at c
    cases c

theorem SrvCore.transC {a b c : System} (h1 : SrvCore a b) (h2 : SrvCore b c) : SrvCore a c :=
  ⟨h2.1.trans h1.1, h2.2.1.trans h1.2.1, h2.2.2.1.trans h1.2.2.1,
    h2.2.2.2.1.trans h1.2.2.2.1, h2.2.2.2.2.trans h1.2.2.2.2⟩

theorem SrvBook.core {s s' : System} (c : SrvCore s s') (h : SrvBook s.srv) :
    SrvBook s'.srv := by
  obtain ⟨c1, c2, c3, c4, c5⟩ := c
  unfold SrvBook at *
  rw [c1, c2, c3, c4, c5]
  exact h

theorem srv_set_valid_core (s : System) (v : Bool) : SrvCore s (sfwservice_set_valid s v) := by
  unfold sfwservice_set_valid
  split
  · unfold sfwplugin_service_changed_cb observe
    split
    · have e := (plg_reset_below { s with srv := { s.srv with srv_valid := v } }).2.2
      exact ⟨by simp only [e], by simp only [e], by simp only [e], by simp only [e],
        by simp only [e]⟩
    · exact ⟨rfl, rfl, rfl, rfl, rfl⟩
  · exact ⟨rfl, rfl, rfl, rfl, rfl⟩

theorem srv_later_core (s : System) : SrvCore s (sfwservice_stm_eval_state_later s) := by
  have e := srv_later_fields s
  exact ⟨by rw [e], by rw [e], by rw [e], by rw [e], by rw [e]⟩

theorem srv_leave_core (f : System → SfwServiceState → System) (s : System)
    (h : s.srv.srv_state ≠ .INITIAL) : SrvCore s (sfwservice_stm_leave_state f s) := by
  unfold sfwservice_stm_leave_state
  split
  · rename_i c
    exact absurd c h
  · exact ⟨rfl, rfl, rfl, rfl, rfl⟩
  · exact ⟨rfl, rfl, rfl, rfl, rfl⟩
  · exact srv_set_valid_core s false
  · unfold sfwservice_stm_cancel_enumerate sfwservice_stm_cancel_retry_delay
    split <;> exact ⟨rfl, rfl, rfl, rfl, rfl⟩
  · exact ⟨rfl, rfl, rfl, rfl, rfl⟩

theorem srv_enter_core (f : System → SfwServiceState → System) (s : System)
    (h : s.srv.srv_state ≠ .FINAL) : SrvCore s (sfwservice_stm_enter_state f s) := by
  unfold sfwservice_stm_enter_state
  split
  · exact ⟨rfl, rfl, rfl, rfl, rfl⟩
  · exact ⟨rfl, rfl, rfl, rfl, rfl⟩
  · exact ⟨rfl, rfl, rfl, rfl, rfl⟩
  · exact srv_set_valid_core s true
  · unfold sfwservice_stm_start_retry_delay
    split <;> exact ⟨rfl, rfl, rfl, rfl, rfl⟩
  · rename_i c
    exact absurd c h

/-- A state change of the Service that neither leaves `INITIAL` nor enters
`FINAL` sets the state and keeps the name owner, the name watch, the
connection and the pending `g_bus_get`. -/
theorem srv_set_state_core (n : Nat) (s : System) (st : SfwServiceState)
    (h1 : s.srv.srv_state ≠ .INITIAL) (h2 : s.srv.srv_state ≠ .FINAL) (h3 : st ≠ .FINAL) :
    SrvCore { s with srv := { s.srv with srv_state := st } }
      (sfwservice_stm_set_state_n (n + 1) s st) := by
  unfold sfwservice_stm_set_state_n
  rw [if_neg h2]
  split
  · simp only []
    have l := srv_leave_core (sfwservice_stm_set_state_n n) s h1
    generalize sfwservice_stm_leave_state (sfwservice_stm_set_state_n n) s = l0 at *
    have e := srv_enter_core (sfwservice_stm_set_state_n n)
      { l0 with srv := { l0.srv with srv_state := st } } h3
    generalize sfwservice_stm_enter_state (sfwservice_stm_set_state_n n)
      { l0 with srv := { l0.srv with srv_state := st } } = e0 at *
    have k := srv_later_core e0
    exact ⟨k.1.trans e.1, k.2.1.trans (e.2.1.trans l.2.1), k.2.2.1.trans (e.2.2.1.trans l.2.2.1),
      k.2.2.2.1.trans (e.2.2.2.1.trans l.2.2.2.1), k.2.2.2.2.trans (e.2.2.2.2.trans l.2.2.2.2)⟩
  · rename_i c
    have c1 : s.srv.srv_state = st := not_not.mp c
    exact ⟨c1, rfl, rfl, rfl, rfl⟩

/-- Clearing the name owner: the Service goes to `DISABLED` if an owner was
known, and nothing changes otherwise. -/
theorem srv_clear_owner_core (s : System)
    (b3 : s.srv.srv_name_owner ≠ none →
      (s.srv.srv_state = .ENUMERATING ∨ s.srv.srv_state = .READY)) :
    SrvCore
      { s with srv := { s.srv with
          srv_name_owner := none
          srv_state := (if s.srv.srv_name_owner = none then s.srv.srv_state else .DISABLED) } }
      (sfwservice_set_name_owner sfwservice_stm_set_state s none) := by
  unfold sfwservice_set_name_owner
  simp only [reduceCtorEq, if_false]
  by_cases ho : s.srv.srv_name_owner = none
  · rw [if_neg (not_not.mpr ho)]
    simp only [ho, if_true]
    exact ⟨rfl, ho, rfl, rfl, rfl⟩
  · rw [if_pos ho]
    simp only [Option.isSome_none, Bool.false_eq_true, if_false, ho]
    have hs := b3 ho
    refine SrvCore.transC ?_ (srv_set_state_core 3
      { s with srv := { s.srv with srv_name_owner := none } } .DISABLED ?_ ?_ (by decide))
    · exact ⟨rfl, rfl, rfl, rfl, rfl⟩
    · show s.srv.srv_state ≠ _
      rcases hs with c | c <;> rw [c] <;> decide
    · show s.srv.srv_state ≠ _
      rcases hs with c | c <;> rw [c] <;> decide

/-- Setting a non-empty name owner: the Service goes to `ENUMERATING` unless
that owner is already known. -/
theorem srv_set_owner_core (s : System) (o : String) (ho : o ≠ "")
    (h1 : s.srv.srv_state ≠ .INITIAL) (h2 : s.srv.srv_state ≠ .FINAL) :
    SrvCore
      { s with srv := { s.srv with
          srv_name_owner := some o
          srv_state := (if s.srv.srv_name_owner = some o then s.srv.srv_state
                        else .ENUMERATING) } }
      (sfwservice_set_name_owner sfwservice_stm_set_state s (some o)) := by
  unfold sfwservice_set_name_owner
  have e : (if some o = some "" then none else some o) = some o := by
    rw [if_neg]
    intro c
    exact ho (Option.some.inj c)
  simp only [e]
  by_cases hc : s.srv.srv_name_owner = some o
  · rw [if_neg (not_not.mpr hc)]
    simp only [hc, if_true]
    exact ⟨rfl, hc, rfl, rfl, rfl⟩
  · rw [if_pos hc]
    simp only [Option.isSome_some, if_true, hc, if_false]
    refine SrvCore.transC ?_ (srv_set_state_core 3
      { s with srv := { s.srv with srv_name_owner := some o } } .ENUMERATING h1 h2 (by decide))
    exact ⟨rfl, rfl, rfl, rfl, rfl⟩

theorem srv_set_owner_empty (f : System → SfwServiceState → System) (s : System) :
    sfwservice_set_name_owner f s (some "") = sfwservice_set_name_owner f s none := by
  simp [sfwservice_set_name_owner]

/-- The name-owner-vanished callback keeps the Service's bookkeeping; the name
owner is then unknown, and the Service is in `DISABLED` unless it was in
`INITIAL`. -/
theorem srvbook_vanished (s : System) (h : SrvBook s.srv) :
    SrvBook (sfwservice_name_owner_vanished_cb s).srv ∧
    (sfwservice_name_owner_vanished_cb s).srv.srv_name_owner = none ∧
    (sfwservice_name_owner_vanished_cb s).srv.srv_name_watcher_id
      = s.srv.srv_name_watcher_id ∧
    (s.srv.srv_state ≠ .INITIAL → (sfwservice_name_owner_vanished_cb s).srv.srv_state
      = .DISABLED) ∧
    (s.srv.srv_state = .INITIAL → (sfwservice_name_owner_vanished_cb s).srv.srv_state
      = .INITIAL) := by
  obtain ⟨b1, b2, b3, b4, b5, b6⟩ := h
  have c := srv_clear_owner_core s b3.mp
  unfold sfwservice_name_owner_vanished_cb
  generalize sfwservice_set_name_owner sfwservice_stm_set_state s none = t at c
  obtain ⟨c1, c2, c3, c4, c5⟩ := c
  simp only [] at c1 c2 c3 c4 c5
  have hst : s.srv.srv_state ≠ .INITIAL → t.srv.srv_state = .DISABLED := by
    intro hi
    rw [c1]
    by_cases ho : s.srv.srv_name_owner = none
    · rw [if_pos ho]
      have hn : ¬ (s.srv.srv_state = .ENUMERATING ∨ s.srv.srv_state = .READY) :=
        fun x => (b3.mpr x) ho
      rcases b1 with x | x | x | x
      · exact absurd x hi
      · exact x
      · exact absurd (Or.inl x) hn
      · exact absurd (Or.inr x) hn
    · rw [if_neg ho]
  have hin : s.srv.srv_state = .INITIAL → t.srv.srv_state = .INITIAL := by
    intro hi
    have ho : s.srv.srv_name_owner = none := by
      by_contra x
      rcases b3.mp x with y | y <;> rw [hi] at y <;> cases y
    rw [c1, if_pos ho]
    exact hi
  refine ⟨⟨?_, ?_, ?_, ?_, ?_, ?_⟩, c2, c3, hst, hin⟩
  · by_cases hi : s.srv.srv_state = .INITIAL
    · exact Or.inl (hin hi)
    · exact Or.inr (Or.inl (hst hi))
  · rw [c2]
    decide
  · rw [c2]
    constructor
    · intro x
      exact absurd rfl x
    · intro x
      by_cases hi : s.srv.srv_state = .INITIAL
      · rw [hin hi] at x
        rcases x with y | y <;> cases y
      · rw [hst hi] at x
        rcases x with y | y <;> cases y
  · intro x
    exact absurd c2 x
  · rw [c3, c4]
    exact b5
  · intro x
    rw [c4, c5]
    by_cases hi : s.srv.srv_state = .INITIAL
    · exact b6 hi
    · rw [hst hi] at x
      cases x

/-- The name-owner-appeared callback, which runs only while the name watch is
installed, keeps the Service's bookkeeping. -/
theorem srvbook_appeared (s : System) (o : String) (h : SrvBook s.srv)
    (hw : s.srv.srv_name_watcher_id = true) :
    SrvBook (sfwservice_name_owner_appeared_cb s o).srv := by
  obtain ⟨v1, v2, v3, v4, _⟩ := srvbook_vanished s h
  have hcon := h.2.2.2.2.1 hw
  have hni : s.srv.srv_state ≠ .INITIAL := by
    intro x
    rw [(h.2.2.2.2.2 x).1] at hcon
    cases hcon
  have vs := v4 hni
  unfold sfwservice_name_owner_appeared_cb
  unfold sfwservice_name_owner_vanished_cb at v1 v2 v3 vs
  generalize sfwservice_set_name_owner sfwservice_stm_set_state s none = m at *
  by_cases ho : o = ""
  · rw [ho, srv_set_owner_empty]
    exact (srvbook_vanished m v1).1
  · have c := srv_set_owner_core m o ho (by rw [vs]; decide) (by rw [vs]; decide)
    generalize sfwservice_set_name_owner sfwservice_stm_set_state m (some o) = t at c
    obtain ⟨c1, c2, c3, c4, c5⟩ := c
    simp only [v2, reduceCtorEq, if_false] at c1 c2 c3 c4 c5
    obtain ⟨b1, b2, b3, b4, b5, b6⟩ := v1
    refine ⟨Or.inr (Or.inr (Or.inl c1)), ?_, ?_, ?_, ?_, ?_⟩
    · rw [c2]
      intro x
      exact ho (Option.some.inj x)
    · rw [c2, c1]
      simp
    · intro _
      rw [c3, v3]
      exact hw
    · rw [c3, c4]
      exact b5
    · intro x
      rw [c1] at x
      cases x

/-- Removing the name watch clears the watch and the name owner. -/
theorem srv_unwatch_core (s : System)
    (b3 : s.srv.srv_name_owner ≠ none →
      (s.srv.srv_state = .ENUMERATING ∨ s.srv.srv_state = .READY)) :
    SrvCore
      { s with srv := { s.srv with
          srv_name_watcher_id := false
          srv_name_owner := none
          srv_state := (if s.srv.srv_name_owner = none then s.srv.srv_state else .DISABLED) } }
      (sfwservice_unwatch_name_owner sfwservice_stm_set_state s) := by
  unfold sfwservice_unwatch_name_owner
  by_cases hw : s.srv.srv_name_watcher_id = true
  · rw [if_pos hw]
    have c :=
      srv_clear_owner_core { s with srv := { s.srv with srv_name_watcher_id := false } } b3
    exact ⟨c.1, c.2.1, c.2.2.1, c.2.2.2.1, c.2.2.2.2⟩
  · rw [if_neg hw]
    have c0 : s.srv.srv_name_watcher_id = false := by
      cases hx : s.srv.srv_name_watcher_id with
      | false => rfl
      | true => exact absurd hx hw
    have c := srv_clear_owner_core s b3
    exact ⟨c.1, c.2.1, c.2.2.1.trans c0, c.2.2.2.1, c.2.2.2.2⟩

/-- Dropping or taking a connection keeps the Service's bookkeeping; a
connection is not taken in `INITIAL`.  After a connection was dropped the
Service is in `DISABLED` without name owner. -/
theorem srvbook_set_connection (s : System) (con : Bool) (h : SrvBook s.srv)
    (hi : con = true → s.srv.srv_state ≠ .INITIAL) :
    SrvBook (sfwservice_set_connection sfwservice_stm_set_state s con).srv ∧
    (con = false → s.srv.srv_connection = true →
      (sfwservice_set_connection sfwservice_stm_set_state s con).srv.srv_state = .DISABLED ∧
      (sfwservice_set_connection sfwservice_stm_set_state s con).srv.srv_name_owner = none ∧
      (sfwservice_set_connection sfwservice_stm_set_state s con).srv.srv_connection = false) := by
  obtain ⟨b1, b2, b3, b4, b5, b6⟩ := h
  unfold sfwservice_set_connection
  cases hc : s.srv.srv_connection <;> cases con
  · simp only [bne_self_eq_false, Bool.false_eq_true, if_false]
    exact ⟨⟨b1, b2, b3, b4, b5, b6⟩, fun _ x => x.elim⟩
  · simp only [Bool.false_eq_true, if_false, if_true, bne_iff_ne, ne_eq, not_false_eq_true,
      reduceCtorEq]
    have hw : s.srv.srv_name_watcher_id = false := by
      cases hw : s.srv.srv_name_watcher_id with
      | false => rfl
      | true =>
        have := b5 hw
        rw [hc] at this
        cases this
    have ho : s.srv.srv_name_owner = none := by
      by_contra x
      have := b4 x
      rw [hw] at this
      cases this
    refine ⟨?_, fun x => by cases x⟩
    unfold sfwservice_watch_name_owner
    simp only []
    have c := srv_unwatch_core { s with srv := { s.srv with srv_connection := true } } b3.mp
    generalize sfwservice_unwatch_name_owner sfwservice_stm_set_state
      { s with srv := { s.srv with srv_connection := true } } = t at c
    obtain ⟨c1, c2, c3, c4, c5⟩ := c
    simp only [ho, if_true] at c1 c2 c3 c4 c5
    refine ⟨?_, ?_, ?_, ?_, ?_, ?_⟩
    · show t.srv.srv_state = _ ∨ _
      rw [c1]
      exact b1
    · show t.srv.srv_name_owner ≠ _
      rw [c2]
      decide
    · show t.srv.srv_name_owner ≠ none ↔ (t.srv.srv_state = _ ∨ t.srv.srv_state = _)
      rw [c2, c1]
      rw [ho] at b3
      exact b3
    · intro _
      rfl
    · intro _
      show t.srv.srv_connection = true
      rw [c4]
    · intro x
      have x1 : t.srv.srv_state = .INITIAL := x
      rw [c1] at x1
      exact absurd x1 (hi rfl)
  · simp only [if_true, bne_iff_ne, ne_eq, not_false_eq_true, reduceCtorEq, Bool.false_eq_true,
      if_false]
    have c := srv_unwatch_core s b3.mp
    generalize sfwservice_unwatch_name_owner sfwservice_stm_set_state s = t at c
    obtain ⟨c1, c2, c3, c4, c5⟩ := c
    simp only [] at c1 c2 c3 c4 c5
    have hni : s.srv.srv_state ≠ .INITIAL := by
      intro x
      rw [(b6 x).1] at hc
      cases hc
    have hst : t.srv.srv_state = .DISABLED := by
      rw [c1]
      by_cases ho : s.srv.srv_name_owner = none
      · rw [if_pos ho]
        have hn : ¬ (s.srv.srv_state = .ENUMERATING ∨ s.srv.srv_state = .READY) :=
          fun x => (b3.mpr x) ho
        rcases b1 with x | x | x | x
        · exact absurd x hni
        · exact x
        · exact absurd (Or.inl x) hn
        · exact absurd (Or.inr x) hn
      · rw [if_neg ho]
    refine ⟨⟨?_, ?_, ?_, ?_, ?_, ?_⟩, fun _ _ => ⟨hst, c2, trivial⟩⟩
    · exact Or.inr (Or.inl hst)
    · show t.srv.srv_name_owner ≠ _
      rw [c2]
      decide
    · show t.srv.srv_name_owner ≠ none ↔ (t.srv.srv_state = _ ∨ t.srv.srv_state = _)
      rw [c2, hst]
      simp
    · intro x
      exact absurd c2 x
    · intro x
      have x1 : t.srv.srv_name_watcher_id = true := x
      rw [c3] at x1
      cases x1
    · intro x
      have x1 : t.srv.srv_state = .INITIAL := x
      rw [hst] at x1
      cases x1
  · simp only [bne_self_eq_false, Bool.false_eq_true, if_false]
    exact ⟨⟨b1, b2, b3, b4, b5, b6⟩, fun x => by cases x⟩

/-- The Service's handlers keep its bookkeeping. -/
theorem srvbook_handlers (s : System) (h : SrvBook s.srv) :
    SrvBook (sfwservice_stm_eval_state_cb s).srv ∧
    SrvBook (sfwservice_stm_retry_delay_cb s).srv ∧
    (∀ con, SrvBook (sfwservice_stm_connect_cb s con).srv) ∧
    (∀ rsp, SrvBook (sfwservice_stm_enumerate_cb s rsp).srv) := by
  have k0 : ∀ x : System, SrvCore s x → SrvBook x.srv := fun x c => SrvBook.core c h
  have k1 : ∀ x : System, SrvCore s x → SrvBook (sfwservice_stm_eval_state_later x).srv :=
    fun x c => SrvBook.core (SrvCore.transC c (srv_later_core x)) h
  have k2 : ∀ y : SfwServicePrivate, y.srv_state = s.srv.srv_state →
      y.srv_name_owner = s.srv.srv_name_owner →
      y.srv_name_watcher_id = s.srv.srv_name_watcher_id →
      y.srv_connection = s.srv.srv_connection →
      y.srv_bus_get_cancellable = s.srv.srv_bus_get_cancellable → SrvBook y := by
    intro y e1 e2 e3 e4 e5
    unfold SrvBook at *
    rw [e1, e2, e3, e4, e5]
    exact h
  obtain ⟨b1, b2, b3, b4, b5, b6⟩ := h
  refine ⟨?_, k1 _ ⟨rfl, rfl, rfl, rfl, rfl⟩, ?_, ?_⟩
  · unfold sfwservice_stm_eval_state_cb
    simp only []
    rcases b1 with c | c | c | c
    · simp only [c]
      exact k2 _ c.symm rfl rfl rfl rfl
    · simp only [c]
      exact k2 _ c.symm rfl rfl rfl rfl
    · simp only [c]
      split
      · have d := srv_set_state_core 3
          { s with srv := { s.srv with srv_state := .ENUMERATING, srv_eval_state_id := false } }
          .READY (by intro x; cases x) (by intro x; cases x) (by decide)
        refine SrvBook.core d ⟨Or.inr (Or.inr (Or.inr rfl)), b2, ?_, b4, b5, ?_⟩
        · exact ⟨fun _ => Or.inr rfl, fun _ => b3.mpr (Or.inl c)⟩
        · intro x
          cases x
      · exact k2 _ c.symm rfl rfl rfl rfl
    · simp only [c]
      exact k2 _ c.symm rfl rfl rfl rfl
  · intro con
    unfold sfwservice_stm_connect_cb
    simp only [cancellable_finish]
    have hb : SrvBook ({ s with srv := { s.srv with
        srv_bus_get_cancellable := none } } : System).srv :=
      ⟨b1, b2, b3, b4, b5, fun x => ⟨(b6 x).1, rfl⟩⟩
    split
    · rename_i hh
      refine (srvbook_set_connection _ con hb ?_).1
      intro _ x
      rw [(b6 x).2] at hh
      cases hh
    · exact hb
  · intro rsp
    unfold sfwservice_stm_enumerate_cb
    simp only []
    split
    · exact k1 _ ⟨rfl, rfl, rfl, rfl, rfl⟩
    · exact k0 _ ⟨rfl, rfl, rfl, rfl, rfl⟩

/-- Every event keeps the Service's bookkeeping. -/
theorem srvbook_step (s : System) (ev : Event) (h : SrvBook s.srv) :
    SrvBook (step s ev).srv := by
  by_cases ht : ev.tier = 3
  · obtain ⟨h1, h2, _, _⟩ := srvbook_handlers s h
    have hi : ∀ l, SrvBook ({ s with inflight := l } : System).srv := fun _ => h
    cases ev <;> simp only [Event.tier] at ht <;> simp only [step] <;>
      try (exact absurd ht (by decide))
    · split
      · exact h1
      · exact h
    · split
      · exact h2
      · exact h
    · exact complete_cases s _ _ (fun x => SrvBook x.srv) h
        ((srvbook_handlers _ (hi _)).2.2.1 _)
    · exact complete_cases s _ _ (fun x => SrvBook x.srv) h
        ((srvbook_handlers _ (hi _)).2.2.2 _)
    · split
      · rename_i hw
        exact srvbook_appeared s _ h hw
      · exact h
    · split
      · exact (srvbook_vanished s h).1
      · exact h
  · rw [step_srv_same s ev ht]
    exact h

theorem srv_new_book (s : System) (h : s.srv = sfwservice_init) :
    SrvBook (sfwservice_new s).srv := by
  rcases s with ⟨srv, plg, sns, rpt, gobj, os, sock, inflight, trace⟩
  simp only at h
  subst h
  have e1 : (sfwservice_new ⟨sfwservice_init, plg, sns, rpt, gobj, os, sock, inflight,
      trace⟩).srv.srv_state = .DISABLED := rfl
  have e2 : (sfwservice_new ⟨sfwservice_init, plg, sns, rpt, gobj, os, sock, inflight,
      trace⟩).srv.srv_name_owner = none := rfl
  have e3 : (sfwservice_new ⟨sfwservice_init, plg, sns, rpt, gobj, os, sock, inflight,
      trace⟩).srv.srv_name_watcher_id = false := rfl
  refine ⟨Or.inr (Or.inl e1), ?_, ?_, ?_, ?_, ?_⟩
  · rw [e2]
    decide
  · rw [e2, e1]
    decide
  · intro x
    exact absurd e2 x
  · intro x
    rw [e3] at x
    cases x
  · intro x
    rw [e1] at x
    cases x

theorem srvbook_init (os : Os) (id : SfwSensorId) : SrvBook (sfwsensor_new os id).srv := by
  unfold sfwsensor_new sfwsensor_attach_to_plugin
  simp only []
  rw [(sns_reset_below _).2.2]
  have e0 : (sfwsensor_init (System.blank os)).srv = sfwservice_init :=
    (rpt_set_state_frame (System.blank os) .DISABLED).1
  generalize sfwsensor_init (System.blank os) = s0 at *
  simp only []
  split
  · unfold sfwplugin_new
    rw [(plg_reset_below _).2.2]
    exact srv_new_book _ e0
  · rw [e0]
    refine ⟨Or.inl rfl, by decide, by decide, ?_, ?_, fun _ => ⟨rfl, rfl⟩⟩
    · intro x
      exact absurd rfl x
    · intro x
      cases x

/-- In every reachable state the Service's bookkeeping holds. -/
theorem srvbook_reachable (os : Os) (id : SfwSensorId) (s : System) (h : Reachable os id s) :
    SrvBook s.srv := by
  induction h with
  | init => exact srvbook_init os id
  | step s ev _ ih => exact srvbook_step s ev ih

/-- C19. In every reachable state a valid Service is in `READY`, holds a
connection and knows a name owner that is not the empty string.  When the
name-owner-vanished callback has run, which takes an installed name watch, and
when the connection has been dropped, the Service is in `DISABLED`, not valid,
and knows no name owner. -/
theorem service_valid_chain (os : Os) (id : SfwSensorId) (s : System)
    (h : Reachable os id s) :
    (s.srv.srv_valid = true →
      s.srv.srv_state = .READY ∧ s.srv.srv_connection = true ∧
      ∃ o, s.srv.srv_name_owner = some o ∧ o ≠ "") ∧
    (s.srv.srv_name_watcher_id = true →
      (step s .name_owner_vanished).srv.srv_state = .DISABLED ∧
      (step s .name_owner_vanished).srv.srv_valid = false ∧
      (step s .name_owner_vanished).srv.srv_name_owner = none) ∧
    (s.srv.srv_connection = true →
      (sfwservice_set_connection sfwservice_stm_set_state s false).srv.srv_state = .DISABLED ∧
      (sfwservice_set_connection sfwservice_stm_set_state s false).srv.srv_valid = false ∧
      (sfwservice_set_connection sfwservice_stm_set_state s false).srv.srv_name_owner = none ∧
      (sfwservice_set_connection sfwservice_stm_set_state s false).srv.srv_connection
        = false) := by
  have hI := inv_reachable os id s h
  have hB := srvbook_reachable os id s h
  have nv : ∀ t : System, Inv t → t.srv.srv_state = .DISABLED → t.srv.srv_valid = false := by
    intro t ht hs
    cases hv : t.srv.srv_valid with
    | false => rfl
    | true =>
      have c := ht.1 hv
      rw [hs] at c
      cases c
  refine ⟨?_, ?_, ?_⟩
  · intro hv
    obtain ⟨b1, b2, b3, b4, b5, b6⟩ := hB
    have hs := hI.1 hv
    have ho : s.srv.srv_name_owner ≠ none := b3.mpr (Or.inr hs)
    refine ⟨hs, b5 (b4 ho), ?_⟩
    cases hn : s.srv.srv_name_owner with
    | none => exact absurd hn ho
    | some o =>
      refine ⟨o, rfl, ?_⟩
      intro x
      rw [hn, x] at b2
      exact b2 rfl
  · intro hw
    have hni : s.srv.srv_state ≠ .INITIAL := by
      intro x
      have c := hB.2.2.2.2.1 hw
      rw [(hB.2.2.2.2.2 x).1] at c
      cases c
    obtain ⟨_, v2, _, v4, _⟩ := srvbook_vanished s hB
    have e : step s .name_owner_vanished = sfwservice_name_owner_vanished_cb s := by
      simp only [step]
      rw [if_pos hw]
    have hI2 := inv_reachable os id _ (Reachable.step s .name_owner_vanished h)
    rw [e] at hI2 ⊢
    exact ⟨v4 hni, nv _ hI2 (v4 hni), v2⟩
  · intro hc
    obtain ⟨d1, d2, d3⟩ := (srvbook_set_connection s false hB (fun x => by cases x)).2 rfl hc
    have hI2 := (srv_set_connection_spec sfwservice_stm_set_state srv_set_state_ok s false hI).1
    exact ⟨d1, nv _ hI2 d1, d2, d3⟩

set_option maxRecDepth 100000 in
/-- C19 on the ready proximity example: the Service is valid, in `READY`, with
a connection and the name owner `:1.5`; after the name owner vanished it is in
`DISABLED` and not valid. -/
theorem service_valid_chain_witness :
    ready_system.srv.srv_valid = true ∧
    ready_system.srv.srv_state = .READY ∧ ready_system.srv.srv_connection = true ∧
    (step ready_system .name_owner_vanished).srv.srv_state = .DISABLED ∧
    (step ready_system .name_owner_vanished).srv.srv_valid = false ∧
    (sfwservice_set_connection sfwservice_stm_set_state ready_system false).srv.srv_state
      = .DISABLED :=
  have hv : ready_system.srv.srv_valid = true := by decide
  have c := service_valid_chain example_os SFW_SENSOR_ID_PROXIMITY ready_system
    (reachable_run example_os SFW_SENSOR_ID_PROXIMITY ready_events)
  have c1 := c.1 hv
  have c2 := c.2.1 (by decide)
  ⟨hv, c1.1, c1.2.1, c2.1, c2.2.1, (c.2.2 c1.2.1).1⟩

/-- In `FINAL` a state request to the Plugin is ignored. -/
theorem plg_set_state_final (s : System) (st : SfwPluginState)
    (h : s.plg.plg_state = .FINAL) : sfwplugin_stm_set_state s st = s := by
  unfold sfwplugin_stm_set_state
  rw [if_pos h]

/-- Finalizing the Reporting from a consistent state leaves it finalized. -/
theorem rpt_final_entry (s : System) (hK : KR s) (hne : s.rpt.rpt_state ≠ .FINAL) :
    RptFinal (sfwreporting_stm_set_state s .FINAL).rpt := by
  obtain ⟨f1, _, _, _, _, _, _, _, _, f10⟩ := rpt_set_state_fields s .FINAL hne hne
  obtain ⟨⟨a1, a2, _⟩, _, _⟩ := rpt_set_state_spec s .FINAL hK.1 hK.2.1.1
    (fun x => absurd x hne) (fun x => by cases x) (fun x => by cases x)
  refine ⟨f1, by rw [f10]; rfl, ?_, ?_⟩
  · cases hv : (sfwreporting_stm_set_state s .FINAL).rpt.rpt_valid with
    | false => rfl
    | true =>
      rcases a2.mp hv with c | c <;> rw [f1] at c <;> cases c
  · cases hv : (sfwreporting_stm_set_state s .FINAL).rpt.rpt_active with
    | false => rfl
    | true =>
      have c := a1.mp hv
      rw [f1] at c
      cases c

/-- Finalizing the Sensor from a consistent state leaves it finalized. -/
theorem sns_final_entry (s : System) (hj : JS s) (hk : KR s)
    (hne : s.sns.sns_state ≠ .FINAL) :
    SnsFinal (sfwsensor_stm_set_state s .FINAL).sns := by
  obtain ⟨f1, f2, _⟩ := sns_set_state_fields s .FINAL hne hne
  obtain ⟨_, a, _, _⟩ := sns_set_state_spec s .FINAL hj hk
    (fun x => by rcases x with c | c | c <;> cases c)
  refine ⟨f1, by rw [f2]; rfl, ?_⟩
  cases hv : (sfwsensor_stm_set_state s .FINAL).sns.sns_valid with
  | false => rfl
  | true =>
    have c := a.1 hv
    rw [f1] at c
    cases c

/-- C22. `FINAL` is terminal.  Finalizing the Service, the Sensor or the
Reporting from a reachable state leaves the tier in `FINAL` with no
evaluation scheduled and its `valid` flag (and the Reporting's `active` flag)
clear.  In `FINAL` every state request is ignored, also by the Plugin.  Every
event after that, and an evaluation run directly, leaves the tier in `FINAL`
with no evaluation scheduled and the flags clear. -/
theorem final_is_terminal (os : Os) (id : SfwSensorId) (s : System) (h : Reachable os id s)
    (x : System) (ev : Event) (st0 : SfwServiceState) (st1 : SfwPluginState)
    (st2 : SfwSensorState) (st3 : SfwReportingState) :
    (SrvFinal (sfwservice_stm_set_state s .FINAL).srv ∧
     SnsFinal (sfwsensor_stm_set_state s .FINAL).sns ∧
     RptFinal (sfwreporting_stm_set_state s .FINAL).rpt) ∧
    ((x.srv.srv_state = .FINAL → sfwservice_stm_set_state x st0 = x) ∧
     (x.plg.plg_state = .FINAL → sfwplugin_stm_set_state x st1 = x) ∧
     (x.sns.sns_state = .FINAL → sfwsensor_stm_set_state x st2 = x) ∧
     (x.rpt.rpt_state = .FINAL → sfwreporting_stm_set_state x st3 = x)) ∧
    ((SrvFinal x.srv →
        SrvFinal (step x ev).srv ∧ SrvFinal (sfwservice_stm_eval_state_cb x).srv) ∧
     (SnsFinal x.sns →
        SnsFinal (step x ev).sns ∧ SnsFinal (sfwsensor_stm_eval_state_cb x).sns) ∧
     (RptFinal x.rpt →
        RptFinal (step x ev).rpt ∧ RptFinal (sfwreporting_stm_eval_state_cb x).rpt)) := by
  have hI := inv_reachable os id s h
  have hB := srvbook_reachable os id s h
  have hS := snsbook_reachable os id s h
  have hR := rptbook_reachable os id s h
  have hsrv : s.srv.srv_state ≠ .FINAL := by
    rcases hB.1 with c | c | c | c <;> rw [c] <;> decide
  refine ⟨⟨srv_final_entry s hI hsrv, ?_, ?_⟩, ⟨?_, ?_, ?_, ?_⟩, ⟨?_, ?_, ?_⟩⟩
  · exact sns_final_entry s hI.2.1.2.2.1 hI.2.1.2.2.2.2 hS.1
  · exact rpt_final_entry s hI.2.1.2.2.2.2 hR.1
  · exact srv_set_state_final x st0
  · exact plg_set_state_final x st1
  · exact sns_set_state_final x st2
  · exact rpt_set_state_final x st3
  · intro c
    exact ⟨srvfinal_step x ev c, (srvfinal_handlers x c).1⟩
  · intro c
    exact ⟨snsfinal_step x ev c, snsfinal_eval x c⟩
  · intro c
    exact ⟨rptfinal_step x ev c, rptfinal_eval x c⟩

set_option maxRecDepth 100000 in
/-- C22 on the started proximity example: after the three tiers have been
finalized, a user call, a late completion and a state request leave each of
them in `FINAL`. -/
theorem final_is_terminal_witness :
    (sfwreporting_stm_set_state started_system .FINAL).rpt.rpt_state = .FINAL ∧
    (sfwreporting_stm_set_state started_system .FINAL).rpt.rpt_active = false ∧
    (step (sfwreporting_stm_set_state started_system .FINAL) .user_stop).rpt.rpt_state
      = .FINAL ∧
    (step (sfwsensor_stm_set_state started_system .FINAL)
      (.request_session_done (some 7))).sns.sns_state = .FINAL ∧
    (step (sfwservice_stm_set_state started_system .FINAL)
      (.name_owner_appeared ":1.9")).srv.srv_state = .FINAL ∧
    sfwreporting_stm_set_state (sfwreporting_stm_set_state started_system .FINAL) .RETHINK
      = sfwreporting_stm_set_state started_system .FINAL :=
  have a := final_is_terminal example_os SFW_SENSOR_ID_PROXIMITY started_system
    (reachable_run example_os SFW_SENSOR_ID_PROXIMITY start_events)
    (sfwreporting_stm_set_state started_system .FINAL) .user_stop .READY .READY .READY .RETHINK
  have b := final_is_terminal example_os SFW_SENSOR_ID_PROXIMITY started_system
    (reachable_run example_os SFW_SENSOR_ID_PROXIMITY start_events)
    (sfwsensor_stm_set_state started_system .FINAL) (.request_session_done (some 7))
    .READY .READY .READY .RETHINK
  have c := final_is_terminal example_os SFW_SENSOR_ID_PROXIMITY started_system
    (reachable_run example_os SFW_SENSOR_ID_PROXIMITY start_events)
    (sfwservice_stm_set_state started_system .FINAL) (.name_owner_appeared ":1.9")
    .READY .READY .READY .RETHINK
  ⟨a.1.2.2.1, a.1.2.2.2.2.2, (a.2.2.2.2 a.1.2.2).1.1, (b.2.2.2.1 b.1.2.1).1.1,
    (c.2.2.1 c.1.1).1.1, a.2.1.2.2.2 a.1.2.2.1⟩

theorem wrap_small (i : Int) (h0 : 0 ≤ i) (h1 : i < 2 ^ 31) : wrap_i32 i = i :=
  to_i32_of_i32 i (by omega) h1

theorem wrap_top : wrap_i32 (2 ^ 31) = -2 ^ 31 := by decide

/-- The generation after `n < 2 ^ 31` changes is not 0, and differs from the
generation after fewer changes. -/
theorem wrap_gen_ne (n : Nat) (hn : n < 2 ^ 31) :
    wrap_i32 (1 + (n : Int)) ≠ 0 ∧
    ∀ m : Nat, m < n → wrap_i32 (1 + (m : Int)) ≠ wrap_i32 (1 + (n : Int)) := by
  have hn' : (n : Int) < 2 ^ 31 := by exact_mod_cast hn
  by_cases ht : 1 + (n : Int) < 2 ^ 31
  · rw [wrap_small _ (by omega) ht]
    refine ⟨by omega, ?_⟩
    intro m hm
    have hm' : (m : Int) < n := by exact_mod_cast hm
    rw [wrap_small _ (by omega) (by omega)]
    omega
  · have e : 1 + (n : Int) = 2 ^ 31 := by omega
    rw [e, wrap_top]
    refine ⟨by norm_num, ?_⟩
    intro m hm
    have hm' : (m : Int) < n := by exact_mod_cast hm
    rw [wrap_small _ (by omega) (by omega)]
    omega

/-- The generation after one more change. -/
theorem wrap_gen_succ (n : Nat) (hn : n + 1 < 2 ^ 31) :
    wrap_i32 (wrap_i32 (1 + (n : Int)) + 1) = wrap_i32 (1 + ((n + 1 : Nat) : Int)) := by
  have hn' : ((n : Int) + 1) < 2 ^ 31 := by exact_mod_cast hn
  rw [wrap_small (1 + (n : Int)) (by omega) (by omega)]
  have e : 1 + (n : Int) + 1 = 1 + ((n + 1 : Nat) : Int) := by
    push_cast
    omega
  rw [e]

theorem emit_enabled_iff (fnmatch : String → String → Bool) (g : SfwLogData) (key : String) :
    (sfwlog_lookup_from_list fnmatch g key == EMIT_ENABLED)
      = g.sfwlog_pattern_list.any (fun item => fnmatch item key) := by
  unfold sfwlog_lookup_from_list
  split
  · rename_i h
    rw [h]
    rfl
  · rename_i h
    have h1 : g.sfwlog_pattern_list.any (fun item => fnmatch item key) = false := by
      cases hx : g.sfwlog_pattern_list.any (fun item => fnmatch item key) with
      | false => rfl
      | true => exact absurd hx h
    rw [h1]
    rfl

/-- The function `sfwlog_p_` returns the decision spelled out in
`log_decision`, changes only the pattern match cache, and keeps it
coherent. -/
theorem sfwlog_p_correct (fnmatch : String → String → Bool) (g : SfwLogData)
    (file func : String) (level : Int) (h : HashOk fnmatch g) :
    (sfwlog_p_ fnmatch g file func level).2 = log_decision fnmatch g file func level ∧
    HashOk fnmatch (sfwlog_p_ fnmatch g file func level).1 ∧
    (sfwlog_p_ fnmatch g file func level).1.sfwlog_level = g.sfwlog_level ∧
    (sfwlog_p_ fnmatch g file func level).1.sfwlog_pattern_list = g.sfwlog_pattern_list ∧
    (sfwlog_p_ fnmatch g file func level).1.sfwlog_generation = g.sfwlog_generation := by
  unfold sfwlog_p_ log_decision
  by_cases h1 : level ≤ g.sfwlog_level
  · rw [if_pos h1]
    simp [h1, h]
  · rw [if_neg h1]
    by_cases h2 : g.sfwlog_pattern_list.isEmpty = true
    · rw [if_pos h2]
      have e : g.sfwlog_pattern_list = [] := List.isEmpty_iff.mp h2
      simp [h1, h, e]
    · rw [if_neg h2]
      simp only []
      by_cases h3 : sfwlog_lookup_from_hash g (file ++ ":" ++ func) = EMIT_UNKNOWN
      · rw [if_pos h3]
        refine ⟨?_, ?_, rfl, rfl, rfl⟩
        · simp only [h1, decide_False, Bool.false_or]
          exact emit_enabled_iff fnmatch g _
        · intro t ht k v hv
          unfold sfwlog_store_to_hash at ht
          simp only [Option.some.injEq] at ht
          subst ht
          by_cases hk : k = file ++ ":" ++ func
          · rw [hk] at hv ⊢
            simp only [List.lookup, beq_self_eq_true, Option.some.injEq] at hv
            rw [← hv]
            rfl
          · simp only [List.lookup, beq_false_of_ne hk] at hv
            rw [lookup_filter_ne k _ _ hk] at hv
            cases hh : g.sfwlog_pattern_hash with
            | none =>
              rw [hh] at hv
              simp at hv
            | some h0 =>
              rw [hh] at hv
              exact h h0 hh k v hv
      · rw [if_neg h3]
        refine ⟨?_, h, rfl, rfl, rfl⟩
        simp only [h1, decide_False, Bool.false_or]
        unfold sfwlog_lookup_from_hash at h3 ⊢
        cases hh : g.sfwlog_pattern_hash with
        | none =>
          rw [hh] at h3
          exact absurd rfl h3
        | some h0 =>
          rw [hh] at h3
          simp only []  at h3 ⊢
          cases hl : h0.lookup (file ++ ":" ++ func) with
          | none =>
            rw [hl] at h3
            exact absurd rfl h3
          | some v =>
            simp only []
            rw [h h0 hh _ v hl]
            exact emit_enabled_iff fnmatch g _

theorem wrap_bump_ne (n : Nat) (hn : n < 2 ^ 31) :
    wrap_i32 (wrap_i32 (1 + (n : Int)) + 1) ≠ wrap_i32 (1 + (n : Int)) := by
  have hn' : (n : Int) < 2 ^ 31 := by exact_mod_cast hn
  by_cases ht : 1 + (n : Int) < 2 ^ 31
  · rw [wrap_small _ (by omega) ht]
    by_cases hu : 1 + (n : Int) + 1 < 2 ^ 31
    · rw [wrap_small _ (by omega) hu]
      omega
    · have e : 1 + (n : Int) + 1 = 2 ^ 31 := by omega
      rw [e, wrap_top]
      omega
  · have e : 1 + (n : Int) = 2 ^ 31 := by omega
    rw [e, wrap_top]
    decide

/-- A configuration function either changes nothing, or bumps the generation
and drops the pattern match cache. -/
theorem log_config_cases (g : SfwLogData) :
    (∀ level, sfwlog_set_verbosity g level = g ∨
      ((sfwlog_set_verbosity g level).sfwlog_generation = wrap_i32 (g.sfwlog_generation + 1) ∧
       (sfwlog_set_verbosity g level).sfwlog_pattern_hash = none)) ∧
    (∀ p, sfwlog_add_pattern g p = g ∨
      ((sfwlog_add_pattern g p).sfwlog_generation = wrap_i32 (g.sfwlog_generation + 1) ∧
       (sfwlog_add_pattern g p).sfwlog_pattern_hash = none)) ∧
    (∀ p, sfwlog_remove_pattern g p = g ∨
      ((sfwlog_remove_pattern g p).sfwlog_generation = wrap_i32 (g.sfwlog_generation + 1) ∧
       (sfwlog_remove_pattern g p).sfwlog_pattern_hash = none)) ∧
    (sfwlog_clear_patterns g = g ∨
      ((sfwlog_clear_patterns g).sfwlog_generation = wrap_i32 (g.sfwlog_generation + 1) ∧
       (sfwlog_clear_patterns g).sfwlog_pattern_hash = none)) := by
  refine ⟨?_, ?_, ?_, ?_⟩
  · intro level
    unfold sfwlog_set_verbosity
    simp only []
    split
    · exact Or.inr ⟨rfl, rfl⟩
    · exact Or.inl rfl
  · intro p
    unfold sfwlog_add_pattern
    split
    · split
      · exact Or.inr ⟨rfl, rfl⟩
      · exact Or.inl rfl
    · exact Or.inl rfl
  · intro p
    unfold sfwlog_remove_pattern
    split
    · exact Or.inr ⟨rfl, rfl⟩
    · exact Or.inl rfl
  · unfold sfwlog_clear_patterns
    split
    · exact Or.inr ⟨rfl, rfl⟩
    · exact Or.inl rfl

/-- A configuration call keeps the invariant, counting one change when the
generation was bumped. -/
theorem loginv_config (fnmatch : String → String → Bool) (n : Nat) (g g' : SfwLogData)
    (c : SfwLoggingState) (h : LogInv fnmatch n g c)
    (hc : g' = g ∨ (g'.sfwlog_generation = wrap_i32 (g.sfwlog_generation + 1) ∧
      g'.sfwlog_pattern_hash = none))
    (hb : n + (if g'.sfwlog_generation ≠ g.sfwlog_generation then 1 else 0) < 2 ^ 31) :
    LogInv fnmatch (n + (if g'.sfwlog_generation ≠ g.sfwlog_generation then 1 else 0)) g' c := by
  obtain ⟨a1, a2, a3, a4⟩ := h
  rcases hc with e | ⟨e1, e2⟩
  · subst e
    simp only [ne_eq, not_true_eq_false, if_false, Nat.add_zero]
    exact ⟨a1, a2, a3, a4⟩
  · have hne : g'.sfwlog_generation ≠ g.sfwlog_generation := by
      rw [e1, a2]
      exact wrap_bump_ne n a1
    rw [if_pos hne] at hb ⊢
    refine ⟨hb, ?_, ?_, ?_⟩
    · rw [e1, a2]
      exact wrap_gen_succ n hb
    · intro t ht
      rw [e2] at ht
      cases ht
    · rcases a4 with z | ⟨m, m1, m2, _⟩
      · exact Or.inl z
      · exact Or.inr ⟨m, by omega, m2, fun x => by omega⟩

theorem log_decision_congr (fnmatch : String → String → Bool) (g g' : SfwLogData)
    (file func : String) (level : Int) (e1 : g'.sfwlog_level = g.sfwlog_level)
    (e2 : g'.sfwlog_pattern_list = g.sfwlog_pattern_list) :
    log_decision fnmatch g' file func level = log_decision fnmatch g file func level := by
  unfold log_decision
  rw [e1, e2]

theorem log_evaluate_fields (fnmatch : String → String → Bool) (g : SfwLogData)
    (c : SfwLoggingState) :
    (c.generation ≠ g.sfwlog_generation →
      (sfwlogging_state_evaluate fnmatch g c).1 = (sfwlog_p_ fnmatch g c.file c.func c.level).1 ∧
      (sfwlogging_state_evaluate fnmatch g c).2.1
        = { c with generation := g.sfwlog_generation
                   enabled := (sfwlog_p_ fnmatch g c.file c.func c.level).2 }) ∧
    (c.generation = g.sfwlog_generation →
      (sfwlogging_state_evaluate fnmatch g c).1 = g ∧
      (sfwlogging_state_evaluate fnmatch g c).2.1 = c) := by
  unfold sfwlogging_state_evaluate
  refine ⟨?_, ?_⟩
  · intro h
    rw [if_pos h]
    exact ⟨rfl, rfl⟩
  · intro h
    rw [if_neg (not_not.mpr h)]
    exact ⟨rfl, rfl⟩

/-- Every call keeps the invariant, counting the configuration changes. -/
theorem loginv_step (fnmatch : String → String → Bool) (n : Nat)
    (st : SfwLogData × SfwLoggingState) (op : LogOp) (h : LogInv fnmatch n st.1 st.2)
    (hb : n + (if (log_step fnmatch st op).1.sfwlog_generation ≠ st.1.sfwlog_generation
      then 1 else 0) < 2 ^ 31) :
    LogInv fnmatch
      (n + (if (log_step fnmatch st op).1.sfwlog_generation ≠ st.1.sfwlog_generation
        then 1 else 0))
      (log_step fnmatch st op).1 (log_step fnmatch st op).2 := by
  obtain ⟨k1, k2, k3, k4⟩ := log_config_cases st.1
  cases op with
  | set_verbosity level => exact loginv_config fnmatch n _ _ _ h (k1 level) hb
  | add_pattern p => exact loginv_config fnmatch n _ _ _ h (k2 p) hb
  | remove_pattern p => exact loginv_config fnmatch n _ _ _ h (k3 p) hb
  | clear_patterns => exact loginv_config fnmatch n _ _ _ h k4 hb
  | query file func level =>
    obtain ⟨a1, a2, a3, a4⟩ := h
    obtain ⟨_, p2, p3, p4, p5⟩ := sfwlog_p_correct fnmatch st.1 file func level a3
    simp only [log_step] at hb ⊢
    have hz : (if (sfwlog_p_ fnmatch st.1 file func level).1.sfwlog_generation
        ≠ st.1.sfwlog_generation then 1 else 0) = 0 := if_neg (not_not.mpr p5)
    rw [hz]
    refine ⟨a1, p5.trans a2, p2, ?_⟩
    rcases a4 with z | ⟨m, m1, m2, m3⟩
    · exact Or.inl z
    · exact Or.inr ⟨m, m1, m2, fun x => (m3 x).trans
        (log_decision_congr fnmatch _ _ _ _ _ p3 p4).symm⟩
  | evaluate =>
    obtain ⟨a1, a2, a3, a4⟩ := h
    obtain ⟨p1, p2, p3, p4, p5⟩ :=
      sfwlog_p_correct fnmatch st.1 st.2.file st.2.func st.2.level a3
    obtain ⟨v1, v2⟩ := log_evaluate_fields fnmatch st.1 st.2
    simp only [log_step] at hb ⊢
    by_cases hs : st.2.generation ≠ st.1.sfwlog_generation
    · obtain ⟨w1, w2⟩ := v1 hs
      have hgen : (sfwlogging_state_evaluate fnmatch st.1 st.2).1.sfwlog_generation
          = st.1.sfwlog_generation := by rw [w1, p5]
      have hz : (if (sfwlogging_state_evaluate fnmatch st.1 st.2).1.sfwlog_generation
          ≠ st.1.sfwlog_generation then 1 else 0) = 0 := if_neg (not_not.mpr hgen)
      rw [hz, w1, w2]
      refine ⟨a1, p5.trans a2, p2, Or.inr ⟨n, Nat.le_refl n, a2, fun _ => ?_⟩⟩
      exact p1.trans (log_decision_congr fnmatch _ _ _ _ _ p3 p4).symm
    · obtain ⟨w1, w2⟩ := v2 (not_not.mp hs)
      have hgen : (sfwlogging_state_evaluate fnmatch st.1 st.2).1.sfwlog_generation
          = st.1.sfwlog_generation := by rw [w1]
      have hz : (if (sfwlogging_state_evaluate fnmatch st.1 st.2).1.sfwlog_generation
          ≠ st.1.sfwlog_generation then 1 else 0) = 0 := if_neg (not_not.mpr hgen)
      rw [hz, w1, w2]
      exact ⟨a1, a2, a3, a4⟩

/-- While the invariant holds, an evaluation of the cell returns the decision
of `sfwlog_p_`, which is the one spelled out in `log_decision`. -/
theorem loginv_evaluate (fnmatch : String → String → Bool) (n : Nat) (g : SfwLogData)
    (c : SfwLoggingState) (h : LogInv fnmatch n g c) :
    (sfwlogging_state_evaluate fnmatch g c).2.2 = (sfwlog_p_ fnmatch g c.file c.func c.level).2 ∧
    (sfwlog_p_ fnmatch g c.file c.func c.level).2
      = log_decision fnmatch g c.file c.func c.level := by
  obtain ⟨a1, a2, a3, a4⟩ := h
  obtain ⟨p1, _⟩ := sfwlog_p_correct fnmatch g c.file c.func c.level a3
  refine ⟨?_, p1⟩
  unfold sfwlogging_state_evaluate
  by_cases hs : c.generation ≠ g.sfwlog_generation
  · rw [if_pos hs]
  · rw [if_neg hs, p1]
    have hs' : c.generation = g.sfwlog_generation := not_not.mp hs
    obtain ⟨w1, w2⟩ := wrap_gen_ne n a1
    rcases a4 with z | ⟨m, m1, m2, m3⟩
    · rw [z, a2] at hs'
      exact absurd hs'.symm w1
    · have hm : m = n := by
        by_contra x
        have hlt : m < n := by omega
        rw [m2, a2] at hs'
        exact w2 m hlt hs'
      exact m3 hm

/-- A run of calls keeps the invariant. -/
theorem loginv_run (fnmatch : String → String → Bool) (ops : List LogOp) :
    ∀ (n : Nat) (st : SfwLogData × SfwLoggingState), LogInv fnmatch n st.1 st.2 →
    n + log_changes fnmatch st ops < 2 ^ 31 →
    LogInv fnmatch (n + log_changes fnmatch st ops)
      (log_run fnmatch st ops).1 (log_run fnmatch st ops).2 := by
  induction ops with
  | nil =>
    intro n st h _
    exact h
  | cons op t ih =>
    intro n st h hb
    unfold log_changes at hb ⊢
    have hb1 : n + (if (log_step fnmatch st op).1.sfwlog_generation ≠ st.1.sfwlog_generation
        then 1 else 0) < 2 ^ 31 := by omega
    have s1 := loginv_step fnmatch n st op h hb1
    have s2 := ih _ (log_step fnmatch st op) s1 (by omega)
    rw [Nat.add_assoc] at s2
    exact s2

theorem loginv_init (fnmatch : String → String → Bool) (cell : SfwLoggingState)
    (h : cell.generation = 0) : LogInv fnmatch 0 sfwlog_data_init cell := by
  refine ⟨by norm_num, by decide, ?_, Or.inl h⟩
  intro t ht
  cases ht

theorem log_step_cell (fnmatch : String → String → Bool) (st : SfwLogData × SfwLoggingState)
    (op : LogOp) :
    (log_step fnmatch st op).2.file = st.2.file ∧ (log_step fnmatch st op).2.func = st.2.func ∧
    (log_step fnmatch st op).2.level = st.2.level := by
  cases op <;> try (exact ⟨rfl, rfl, rfl⟩)
  simp only [log_step]
  unfold sfwlogging_state_evaluate
  split <;> exact ⟨rfl, rfl, rfl⟩

theorem log_run_cell (fnmatch : String → String → Bool) (ops : List LogOp) :
    ∀ st : SfwLogData × SfwLoggingState,
    (log_run fnmatch st ops).2.file = st.2.file ∧ (log_run fnmatch st ops).2.func = st.2.func ∧
    (log_run fnmatch st ops).2.level = st.2.level := by
  induction ops with
  | nil => intro st; exact ⟨rfl, rfl, rfl⟩
  | cons op t ih =>
    intro st
    obtain ⟨a1, a2, a3⟩ := ih (log_step fnmatch st op)
    obtain ⟨b1, b2, b3⟩ := log_step_cell fnmatch st op
    exact ⟨a1.trans b1, a2.trans b2, a3.trans b3⟩

/-- After a change of configuration the cell's stamp differs from the
generation. -/
theorem loginv_invalidates (fnmatch : String → String → Bool) (n : Nat)
    (st : SfwLogData × SfwLoggingState) (op : LogOp) (h : LogInv fnmatch n st.1 st.2)
    (hb : n + 1 < 2 ^ 31)
    (hc : (log_step fnmatch st op).1.sfwlog_generation ≠ st.1.sfwlog_generation) :
    (log_step fnmatch st op).2.generation ≠ (log_step fnmatch st op).1.sfwlog_generation := by
  have s1 := loginv_step fnmatch n st op h (by rw [if_pos hc]; exact hb)
  rw [if_pos hc] at s1
  obtain ⟨w1, w2⟩ := wrap_gen_ne (n + 1) hb
  have hcell : (log_step fnmatch st op).2 = st.2 := by
    cases op with
    | set_verbosity level => rfl
    | add_pattern p => rfl
    | remove_pattern p => rfl
    | clear_patterns => rfl
    | query file func level => rfl
    | evaluate =>
      exfalso
      apply hc
      obtain ⟨v1, v2⟩ := log_evaluate_fields fnmatch st.1 st.2
      simp only [log_step]
      by_cases hs : st.2.generation ≠ st.1.sfwlog_generation
      · rw [(v1 hs).1]
        exact (sfwlog_p_correct fnmatch st.1 _ _ _ h.2.2.1).2.2.2.2
      · rw [(v2 (not_not.mp hs)).1]
  rw [hcell, s1.2.1]
  rcases h.2.2.2 with z | ⟨m, m1, m2, _⟩
  · rw [z]
    exact fun x => w1 x.symm
  · rw [m2]
    exact w2 m (by omega)

/-- C28. Start from the initial variables and a cell that was never
evaluated, and run any sequence of `sfwlog_set_verbosity`,
`sfwlog_add_pattern`, `sfwlog_remove_pattern` and `sfwlog_clear_patterns`
calls, queries from other call sites and evaluations of the cell, with fewer
than `2 ^ 31` changes of configuration.  Then `sfwlogging_state_evaluate` on
the cell returns what `sfwlog_p_` returns for the cell's file, function and
level at that moment, which is the decision without any cache.  The generation
is not 0, so a cell with generation 0 is evaluated on first use; and a call
that changes the configuration leaves the cell's stamp different from the
generation, so the next evaluation computes the decision anew. -/
theorem logging_cache_refines (fnmatch : String → String → Bool) (ops : List LogOp)
    (cell : SfwLoggingState) (hfresh : cell.generation = 0)
    (hn : log_changes fnmatch (sfwlog_data_init, cell) ops < 2 ^ 31)
    (other : SfwLoggingState) (op : LogOp) :
    ((sfwlogging_state_evaluate fnmatch (log_run fnmatch (sfwlog_data_init, cell) ops).1
        (log_run fnmatch (sfwlog_data_init, cell) ops).2).2.2
      = (sfwlog_p_ fnmatch (log_run fnmatch (sfwlog_data_init, cell) ops).1
          cell.file cell.func cell.level).2 ∧
     (sfwlog_p_ fnmatch (log_run fnmatch (sfwlog_data_init, cell) ops).1
          cell.file cell.func cell.level).2
      = log_decision fnmatch (log_run fnmatch (sfwlog_data_init, cell) ops).1
          cell.file cell.func cell.level) ∧
    ((log_run fnmatch (sfwlog_data_init, cell) ops).1.sfwlog_generation ≠ 0 ∧
     (other.generation = 0 →
       (sfwlogging_state_evaluate fnmatch (log_run fnmatch (sfwlog_data_init, cell) ops).1
          other).2.1.generation
         = (log_run fnmatch (sfwlog_data_init, cell) ops).1.sfwlog_generation ∧
       (sfwlogging_state_evaluate fnmatch (log_run fnmatch (sfwlog_data_init, cell) ops).1
          other).2.2
         = (sfwlog_p_ fnmatch (log_run fnmatch (sfwlog_data_init, cell) ops).1
             other.file other.func other.level).2)) ∧
    ((log_step fnmatch (log_run fnmatch (sfwlog_data_init, cell) ops) op).1.sfwlog_generation
        ≠ (log_run fnmatch (sfwlog_data_init, cell) ops).1.sfwlog_generation →
      log_changes fnmatch (sfwlog_data_init, cell) ops + 1 < 2 ^ 31 →
      (log_step fnmatch (log_run fnmatch (sfwlog_data_init, cell) ops) op).2.generation
        ≠ (log_step fnmatch (log_run fnmatch (sfwlog_data_init, cell) ops)
            op).1.sfwlog_generation) := by
  have hI := loginv_run fnmatch ops 0 (sfwlog_data_init, cell) (loginv_init fnmatch cell hfresh)
    (by rw [Nat.zero_add]; exact hn)
  rw [Nat.zero_add] at hI
  obtain ⟨c1, c2, c3⟩ := log_run_cell fnmatch ops (sfwlog_data_init, cell)
  have e := loginv_evaluate fnmatch _ _ _ hI
  rw [c1, c2, c3] at e
  have hg : (log_run fnmatch (sfwlog_data_init, cell) ops).1.sfwlog_generation ≠ 0 := by
    rw [hI.2.1]
    exact (wrap_gen_ne _ hI.1).1
  refine ⟨e, ⟨hg, ?_⟩, ?_⟩
  · intro ho
    obtain ⟨v1, _⟩ := log_evaluate_fields fnmatch
      (log_run fnmatch (sfwlog_data_init, cell) ops).1 other
    have hne : other.generation
        ≠ (log_run fnmatch (sfwlog_data_init, cell) ops).1.sfwlog_generation := by
      rw [ho]
      exact fun x => hg x.symm
    refine ⟨by rw [(v1 hne).2], ?_⟩
    unfold sfwlogging_state_evaluate
    rw [if_pos hne]
  · intro hc hb
    exact loginv_invalidates fnmatch _ _ op hI hb hc

set_option maxRecDepth 100000 in
/-- C28 on the example run, with string equality for `fnmatch`: the trace
message of `f` is enabled by the pattern `a.c:f`, and the cell, stamped before
the pattern was added, gives that answer. -/
theorem logging_cache_refines_witness :
    log_changes (fun p k => p == k) (sfwlog_data_init, log_example_cell) log_example_ops = 2 ∧
    (sfwlogging_state_evaluate (fun p k => p == k)
      (log_run (fun p k => p == k) (sfwlog_data_init, log_example_cell) log_example_ops).1
      (log_run (fun p k => p == k) (sfwlog_data_init, log_example_cell)
        log_example_ops).2).2.2
      = log_decision (fun p k => p == k)
          (log_run (fun p k => p == k) (sfwlog_data_init, log_example_cell) log_example_ops).1
          "a.c" "f" SFWLOG_TRACE ∧
    log_decision (fun p k => p == k)
      (log_run (fun p k => p == k) (sfwlog_data_init, log_example_cell) log_example_ops).1
      "a.c" "f" SFWLOG_TRACE = true ∧
    (log_run (fun p k => p == k) (sfwlog_data_init, log_example_cell)
      (log_example_ops.take 2)).2.enabled = false ∧
    (log_step (fun p k => p == k)
      (log_run (fun p k => p == k) (sfwlog_data_init, log_example_cell) log_example_ops)
      .clear_patterns).2.generation
      ≠ (log_step (fun p k => p == k)
          (log_run (fun p k => p == k) (sfwlog_data_init, log_example_cell) log_example_ops)
          .clear_patterns).1.sfwlog_generation :=
  have hc : log_changes (fun p k => p == k) (sfwlog_data_init, log_example_cell)
      log_example_ops = 2 := by decide
  have a := logging_cache_refines (fun p k => p == k) log_example_ops log_example_cell rfl
    (by rw [hc]; decide) log_example_cell .clear_patterns
  ⟨hc, a.1.1.trans a.1.2, by decide, by decide, a.2.2 (by decide) (by rw [hc]; decide)⟩

end Sfw
